import Mathlib

/-! Versal DMA benchmark: a shallow embedding of the driver core.

The C sources are embedded as Lean functions over natural numbers.  A C
`uint32_t` is a `Nat` reduced modulo `2^32`, a `uint64_t` (and a pointer or
`size_t` of the 64-bit target) is a `Nat` reduced modulo `2^64`; every place
where the C arithmetic can wrap carries the reduction explicitly.

Hardware access (`Xil_In32`, `Xil_Out32`, `usleep`, the cache maintenance
calls and the cycle-counter clock) is external to the repository, so the driver
functions take a `Platform` record that supplies those primitives together
with the platform state they thread through.
-/

namespace VersalDma

/-! ## Machine integers -/

/-- Conversion to `uint32_t`. -/
def u32 (x : Nat) : Nat := x % 2 ^ 32

/-- Conversion to `uint64_t`. -/
def u64 (x : Nat) : Nat := x % 2 ^ 64

/-! ## Error codes (dma_benchmark.h) -/

def DMA_SUCCESS : Int := 0
def DMA_ERROR_INVALID_PARAM : Int := -1
def DMA_ERROR_NOT_INIT : Int := -2
def DMA_ERROR_BUSY : Int := -3
def DMA_ERROR_TIMEOUT : Int := -4
def DMA_ERROR_DMA_FAIL : Int := -5
def DMA_ERROR_VERIFY_FAIL : Int := -6
def DMA_ERROR_NO_MEMORY : Int := -7
def DMA_ERROR_NOT_SUPPORTED : Int := -8

/-! ## Throughput macro (dma_benchmark.h) -/

/-- The macro `CALC_THROUGHPUT_MBPS(bytes, us)`:
`((us) > 0) ? (uint32_t)(((uint64_t)(bytes) * 1000000ULL) / ((uint64_t)(us) * 1048576ULL)) : 0`.
Both products are `uint64_t` products and wrap modulo `2^64`; the quotient is
cast to `uint32_t`.  (A zero divisor, undefined in C, yields `0` here.) -/
def CALC_THROUGHPUT_MBPS (bytes us : Nat) : Nat :=
  if us > 0 then
    u32 (u64 (u64 bytes * 1000000) / u64 (u64 us * 1048576))
  else 0

/-! ## Memory region table and the test-window allocator (memory_utils.c) -/

/-- One entry of `g_MemoryRegions` (the `name` string is not modelled). -/
structure MemoryRegionInfo where
  base_addr : Nat
  size : Nat
  test_base : Nat
  test_size : Nat
  cacheable : Nat
deriving Repr, DecidableEq

/-- The constants of `platform_config.h` that `memory_utils.c` depends on.
That header is not part of the sources, so the enumerators and the table
built from its address constants are parameters of the model. -/
structure RegionTable where
  MEM_REGION_COUNT : Nat
  MEM_REGION_HOST : Nat
  g_MemoryRegions : Nat → MemoryRegionInfo

/-- The function `memory_get_test_addr(region, offset, size)`.  `offset` and
`size` are `uint32_t`, so `offset + size` is a 32-bit sum; the returned address
is a `uint64_t`. -/
def memory_get_test_addr (cfg : RegionTable) (region offset size : Nat) : Nat :=
  if region ≥ cfg.MEM_REGION_COUNT ∨ region = cfg.MEM_REGION_HOST then 0
  else
    let info := cfg.g_MemoryRegions region
    if u32 (u32 offset + u32 size) > info.test_size then 0
    else u64 (info.test_base + u32 offset)

/-! ## Platform primitives -/

/-- The primitives the drivers obtain from outside the repository (`xil_io.h`,
`xil_cache.h`, `sleep.h`, the PMU cycle counter read by inline assembly), over
a platform state `σ` that they may read and change.  `APU_CLK_FREQ_HZ` is the
constant of the absent `platform_config.h` that initialises `g_TimerFreqHz`. -/
structure Platform (σ : Type) where
  Xil_In32 : Nat → σ → Nat × σ
  Xil_Out32 : Nat → Nat → σ → σ
  usleep : Nat → σ → σ
  Xil_DCacheFlushRange : Nat → Nat → σ → σ
  Xil_DCacheInvalidateRange : Nat → Nat → σ → σ
  pmu_read_cycle_counter : σ → Nat × σ
  APU_CLK_FREQ_HZ : Nat

/-- The value of `sizeof(AxiDmaSgDesc_t)`, `sizeof(AxiCdmaSgDesc_t)` and
`sizeof(McdmaSgDesc_t)`: sixteen 32-bit words, `aligned(64)`. -/
def sizeof_SgDesc : Nat := 64

/-- The loop shape `for (i = 0; i < n; i++) a[i] = f(i, a[i]);` over an array
held as a function from index to element. -/
def forEachIndex {α : Type} (n : Nat) (f : Nat → α → α) (a : Nat → α) : Nat → α :=
  (List.range n).foldl (fun m i => Function.update m i (f i (m i))) a

/-- The call `memset(a, 0, nbytes)` on an array of 64-byte records: record `j`
is cleared when it lies inside the first `nbytes` bytes. -/
def memset_zero {α : Type} (zero : α) (a : Nat → α) (nbytes : Nat) : Nat → α :=
  fun j => if sizeof_SgDesc * (j + 1) ≤ nbytes then zero else a j

/-! ## AXI DMA (axi_dma_driver.h / axi_dma_driver.c) -/

def XAXIDMA_CR_OFFSET : Nat := 0x00
def XAXIDMA_SR_OFFSET : Nat := 0x04
def XAXIDMA_TX_OFFSET : Nat := 0x00
def XAXIDMA_RX_OFFSET : Nat := 0x30

def XAXIDMA_SR_HALTED_MASK : Nat := 0x00000001
def XAXIDMA_SR_IDLE_MASK : Nat := 0x00000002
def XAXIDMA_SR_DMADECERR_MASK : Nat := 0x00000040
def XAXIDMA_SR_IOC_IRQ_MASK : Nat := 0x00001000
def XAXIDMA_SR_ALL_ERR_MASK : Nat := 0x00000770
def XAXIDMA_SR_ALL_IRQ_MASK : Nat := 0x00007000

/-- The 64-byte descriptor `AxiDmaSgDesc_t`. -/
structure AxiDmaSgDesc where
  next_desc : Nat
  next_desc_msb : Nat
  buffer_addr : Nat
  buffer_addr_msb : Nat
  reserved1 : List Nat
  control : Nat
  status : Nat
  app : List Nat
  reserved2 : List Nat
deriving Repr, DecidableEq

/-- An `AxiDmaSgDesc_t` after `memset(..., 0, ...)`. -/
def AxiDmaSgDesc.zero : AxiDmaSgDesc :=
  { next_desc := 0, next_desc_msb := 0, buffer_addr := 0, buffer_addr_msb := 0,
    reserved1 := [0, 0], control := 0, status := 0, app := [0, 0, 0, 0, 0],
    reserved2 := [0, 0, 0] }

/-- The instance record `AxiDmaInst_t` (the static `g_AxiDma`).  `tx_ring` and
`rx_ring` are the stored pointers. -/
structure AxiDmaInst where
  base_addr : Nat
  initialized : Bool
  sg_mode : Bool
  has_mm2s : Bool
  has_s2mm : Bool
  data_width : Nat
  addr_width : Nat
  max_transfer_len : Nat
  tx_ring : Nat
  rx_ring : Nat
  ring_size : Nat
  tx_head : Nat
  tx_tail : Nat
  rx_head : Nat
  rx_tail : Nat
  tx_complete : Bool
  rx_complete : Bool
  tx_error : Nat
  rx_error : Nat
  tx_bytes : Nat
  rx_bytes : Nat
  tx_transfers : Nat
  rx_transfers : Nat
  errors : Nat
deriving Repr, DecidableEq

/-- Everything the AXI DMA driver reads or writes: the platform state, the
static instance `g_AxiDma`, and the two descriptor arrays (the objects that
the `tx_descs` / `tx_ring` and `rx_descs` / `rx_ring` pointers designate),
each held as a function from slot index to descriptor. -/
structure AxiDmaWorld (σ : Type) where
  hw : σ
  g_AxiDma : AxiDmaInst
  tx_mem : Nat → AxiDmaSgDesc
  rx_mem : Nat → AxiDmaSgDesc

/-- The 64-bit link of a descriptor: `next_desc_msb << 32 | next_desc`. -/
def AxiDmaSgDesc.link (d : AxiDmaSgDesc) : Nat := (d.next_desc_msb <<< 32) ||| d.next_desc

/-- Body of the ring-linking loop of `axi_dma_setup_sg_ring`:
`desc_addr = (uint64_t)&descs[(i + 1) % num_descs];` then the two link words. -/
def axi_dma_link_slot (descs num_descs i : Nat) (d : AxiDmaSgDesc) : AxiDmaSgDesc :=
  let desc_addr := u64 (descs + sizeof_SgDesc * (u32 (i + 1) % num_descs))
  { d with next_desc := u32 (desc_addr &&& 0xFFFFFFFF),
           next_desc_msb := u32 (desc_addr >>> 32) }

/-- The function `axi_dma_setup_sg_ring(tx_descs, rx_descs, num_descs)`. -/
def axi_dma_setup_sg_ring {σ : Type} (P : Platform σ) (tx_descs rx_descs num_descs : Nat)
    (w : AxiDmaWorld σ) : Int × AxiDmaWorld σ :=
  if tx_descs = 0 ∨ rx_descs = 0 ∨ num_descs = 0 then (DMA_ERROR_INVALID_PARAM, w)
  else
    let g := { w.g_AxiDma with tx_ring := tx_descs, rx_ring := rx_descs, ring_size := num_descs }
    let nbytes := u64 (num_descs * sizeof_SgDesc)
    let tx := forEachIndex num_descs (axi_dma_link_slot tx_descs num_descs)
      (memset_zero AxiDmaSgDesc.zero w.tx_mem nbytes)
    let rx := forEachIndex num_descs (axi_dma_link_slot rx_descs num_descs)
      (memset_zero AxiDmaSgDesc.zero w.rx_mem nbytes)
    let hw := P.Xil_DCacheFlushRange tx_descs nbytes w.hw
    let hw := P.Xil_DCacheFlushRange rx_descs nbytes hw
    let g := { g with tx_head := 0, tx_tail := 0, rx_head := 0, rx_tail := 0 }
    (DMA_SUCCESS, { hw := hw, g_AxiDma := g, tx_mem := tx, rx_mem := rx })

/-! ## AXI CDMA (axi_cdma_driver.h / axi_cdma_driver.c) -/

def XAXICDMA_CR_OFFSET : Nat := 0x00
def XAXICDMA_SR_OFFSET : Nat := 0x04

def XAXICDMA_SR_IDLE_MASK : Nat := 0x00000002
def XAXICDMA_SR_DMADECERR_MASK : Nat := 0x00000040
def XAXICDMA_SR_IOC_IRQ_MASK : Nat := 0x00001000
def XAXICDMA_SR_ALL_ERR_MASK : Nat := 0x00000770

/-- The 64-byte descriptor `AxiCdmaSgDesc_t`. -/
structure AxiCdmaSgDesc where
  next_desc : Nat
  next_desc_msb : Nat
  src_addr : Nat
  src_addr_msb : Nat
  dst_addr : Nat
  dst_addr_msb : Nat
  control : Nat
  status : Nat
  reserved : List Nat
deriving Repr, DecidableEq

/-- An `AxiCdmaSgDesc_t` after `memset(..., 0, ...)`. -/
def AxiCdmaSgDesc.zero : AxiCdmaSgDesc :=
  { next_desc := 0, next_desc_msb := 0, src_addr := 0, src_addr_msb := 0, dst_addr := 0,
    dst_addr_msb := 0, control := 0, status := 0, reserved := [0, 0, 0, 0, 0, 0, 0, 0] }

/-- The 64-bit link of a CDMA descriptor. -/
def AxiCdmaSgDesc.link (d : AxiCdmaSgDesc) : Nat := (d.next_desc_msb <<< 32) ||| d.next_desc

/-- The instance record `AxiCdmaInst_t` (the static `g_AxiCdma`). -/
structure AxiCdmaInst where
  base_addr : Nat
  initialized : Bool
  sg_mode : Bool
  data_width : Nat
  addr_width : Nat
  max_burst_len : Nat
  desc_ring : Nat
  ring_size : Nat
  desc_head : Nat
  desc_tail : Nat
  transfer_complete : Bool
  transfer_error : Nat
  bytes_transferred : Nat
  num_transfers : Nat
  errors : Nat
deriving Repr, DecidableEq

/-- Platform state, `g_AxiCdma`, and the descriptor array that `descs` /
`desc_ring` designates. -/
structure AxiCdmaWorld (σ : Type) where
  hw : σ
  g_AxiCdma : AxiCdmaInst
  desc_mem : Nat → AxiCdmaSgDesc

/-- Body of the ring-linking loop of `axi_cdma_setup_sg_ring`. -/
def axi_cdma_link_slot (descs num_descs i : Nat) (d : AxiCdmaSgDesc) : AxiCdmaSgDesc :=
  let desc_addr := u64 (descs + sizeof_SgDesc * (u32 (i + 1) % num_descs))
  { d with next_desc := u32 (desc_addr &&& 0xFFFFFFFF),
           next_desc_msb := u32 (desc_addr >>> 32) }

/-- The function `axi_cdma_setup_sg_ring(descs, num_descs)`. -/
def axi_cdma_setup_sg_ring {σ : Type} (P : Platform σ) (descs num_descs : Nat)
    (w : AxiCdmaWorld σ) : Int × AxiCdmaWorld σ :=
  if descs = 0 ∨ num_descs = 0 then (DMA_ERROR_INVALID_PARAM, w)
  else
    let g := { w.g_AxiCdma with desc_ring := descs, ring_size := num_descs }
    let nbytes := u64 (num_descs * sizeof_SgDesc)
    let mem := forEachIndex num_descs (axi_cdma_link_slot descs num_descs)
      (memset_zero AxiCdmaSgDesc.zero w.desc_mem nbytes)
    let hw := P.Xil_DCacheFlushRange descs nbytes w.hw
    let g := { g with desc_head := 0, desc_tail := 0 }
    (DMA_SUCCESS, { hw := hw, g_AxiCdma := g, desc_mem := mem })

/-! ## AXI MCDMA (axi_mcdma_driver.h / axi_mcdma_driver.c) -/

def MCDMA_MAX_CHANNELS : Nat := 16
def MCDMA_MM2S_BASE_OFFSET : Nat := 0x000
def MCDMA_S2MM_BASE_OFFSET : Nat := 0x500
def MCDMA_CHANNEL_OFFSET : Nat := 0x040
def XMCDMA_CH_CR_OFFSET : Nat := 0x00
def XMCDMA_CH_SR_OFFSET : Nat := 0x04

def XMCDMA_CH_SR_IDLE_MASK : Nat := 0x00000002
def XMCDMA_CH_SR_ERR_MASK : Nat := 0x00000070
def XMCDMA_CH_SR_IOC_IRQ_MASK : Nat := 0x00001000

/-- The 64-byte descriptor `McdmaSgDesc_t`. -/
structure McdmaSgDesc where
  next_desc : Nat
  next_desc_msb : Nat
  buffer_addr : Nat
  buffer_addr_msb : Nat
  reserved1 : List Nat
  control : Nat
  status : Nat
  sideband : List Nat
  app : List Nat
  reserved2 : List Nat
deriving Repr, DecidableEq

/-- A `McdmaSgDesc_t` after `memset(..., 0, ...)`. -/
def McdmaSgDesc.zero : McdmaSgDesc :=
  { next_desc := 0, next_desc_msb := 0, buffer_addr := 0, buffer_addr_msb := 0,
    reserved1 := [0, 0], control := 0, status := 0, sideband := [0, 0], app := [0, 0, 0],
    reserved2 := [0, 0, 0] }

/-- The 64-bit link of an MCDMA descriptor. -/
def McdmaSgDesc.link (d : McdmaSgDesc) : Nat := (d.next_desc_msb <<< 32) ||| d.next_desc

/-- The channel record `McdmaChannel_t`. -/
structure McdmaChannel where
  channel_id : Nat
  enabled : Bool
  busy : Bool
  desc_ring : Nat
  ring_size : Nat
  desc_head : Nat
  desc_tail : Nat
  transfer_complete : Bool
  transfer_error : Nat
  bytes_transferred : Nat
  num_transfers : Nat
  errors : Nat
deriving Repr, DecidableEq

/-- The instance record `AxiMcdmaInst_t` (the static `g_AxiMcdma`); the two
channel arrays are functions from channel index to channel record. -/
structure AxiMcdmaInst where
  base_addr : Nat
  initialized : Bool
  num_mm2s_channels : Nat
  num_s2mm_channels : Nat
  data_width : Nat
  sched_mode : Nat
  mm2s_channels : Nat → McdmaChannel
  s2mm_channels : Nat → McdmaChannel
  total_bytes : Nat
  total_transfers : Nat
  total_errors : Nat

/-- Platform state, `g_AxiMcdma`, and per channel the descriptor array that the
`descs` argument / `desc_ring` pointer of that channel designates. -/
structure AxiMcdmaWorld (σ : Type) where
  hw : σ
  g_AxiMcdma : AxiMcdmaInst
  mm2s_mem : Nat → Nat → McdmaSgDesc
  s2mm_mem : Nat → Nat → McdmaSgDesc

/-- Body of the ring-linking loop of the two MCDMA ring set-up functions. -/
def mcdma_link_slot (descs num_descs i : Nat) (d : McdmaSgDesc) : McdmaSgDesc :=
  let desc_addr := u64 (descs + sizeof_SgDesc * (u32 (i + 1) % num_descs))
  { d with next_desc := u32 (desc_addr &&& 0xFFFFFFFF),
           next_desc_msb := u32 (desc_addr >>> 32) }

/-- The function `axi_mcdma_setup_mm2s_ring(channel, descs, num_descs)`. -/
def axi_mcdma_setup_mm2s_ring {σ : Type} (P : Platform σ) (channel descs num_descs : Nat)
    (w : AxiMcdmaWorld σ) : Int × AxiMcdmaWorld σ :=
  if channel ≥ MCDMA_MAX_CHANNELS ∨ descs = 0 ∨ num_descs = 0 then (DMA_ERROR_INVALID_PARAM, w)
  else
    let nbytes := u64 (num_descs * sizeof_SgDesc)
    let mem := forEachIndex num_descs (mcdma_link_slot descs num_descs)
      (memset_zero McdmaSgDesc.zero (w.mm2s_mem channel) nbytes)
    let hw := P.Xil_DCacheFlushRange descs nbytes w.hw
    let ch := { w.g_AxiMcdma.mm2s_channels channel with
                  desc_ring := descs, ring_size := num_descs, desc_head := 0, desc_tail := 0 }
    let g := { w.g_AxiMcdma with
                 mm2s_channels := Function.update w.g_AxiMcdma.mm2s_channels channel ch }
    (DMA_SUCCESS, { w with hw := hw, g_AxiMcdma := g,
                           mm2s_mem := Function.update w.mm2s_mem channel mem })

/-- The function `axi_mcdma_setup_s2mm_ring(channel, descs, num_descs)`. -/
def axi_mcdma_setup_s2mm_ring {σ : Type} (P : Platform σ) (channel descs num_descs : Nat)
    (w : AxiMcdmaWorld σ) : Int × AxiMcdmaWorld σ :=
  if channel ≥ MCDMA_MAX_CHANNELS ∨ descs = 0 ∨ num_descs = 0 then (DMA_ERROR_INVALID_PARAM, w)
  else
    let nbytes := u64 (num_descs * sizeof_SgDesc)
    let mem := forEachIndex num_descs (mcdma_link_slot descs num_descs)
      (memset_zero McdmaSgDesc.zero (w.s2mm_mem channel) nbytes)
    let hw := P.Xil_DCacheFlushRange descs nbytes w.hw
    let ch := { w.g_AxiMcdma.s2mm_channels channel with
                  desc_ring := descs, ring_size := num_descs, desc_head := 0, desc_tail := 0 }
    let g := { w.g_AxiMcdma with
                 s2mm_channels := Function.update w.g_AxiMcdma.s2mm_channels channel ch }
    (DMA_SUCCESS, { w with hw := hw, g_AxiMcdma := g,
                           s2mm_mem := Function.update w.s2mm_mem channel mem })

/-! ## Data patterns (data_patterns.c) -/

def PATTERN_INCREMENTAL : Nat := 0
def PATTERN_ALL_ONES : Nat := 1
def PATTERN_ALL_ZEROS : Nat := 2
def PATTERN_RANDOM : Nat := 3
def PATTERN_CHECKERBOARD : Nat := 4
def PATTERN_COUNT : Nat := 5

/-- The objects of static storage duration in data_patterns.c: the generator
state `g_prng_state[2]` and the two block-scope statics of `pattern_verify`.
`rand_val_word` is the `static uint32_t rand_val` declared in the
`(i % 4) == 0` block; `rand_val_rest` is the separate `static uint32_t rand_val`
declared in the `else` block, a different object that no statement assigns. -/
structure PatternStatics where
  g_prng_state0 : Nat
  g_prng_state1 : Nat
  rand_val_word : Nat
  rand_val_rest : Nat
deriving Repr, DecidableEq

/-- The statics at program start: `g_prng_state` has its initialiser, the
block-scope statics are zero-initialised. -/
def PatternStatics.boot : PatternStatics :=
  { g_prng_state0 := 0x12345678DEADBEEF, g_prng_state1 := 0x87654321CAFEBABE,
    rand_val_word := 0, rand_val_rest := 0 }

/-- The function `pattern_get_random()` (xorshift128+ on two `uint64_t`). -/
def pattern_get_random (st : PatternStatics) : Nat × PatternStatics :=
  let s1 := st.g_prng_state0
  let s0 := st.g_prng_state1
  let s1 := s1 ^^^ u64 (s1 <<< 23)
  let n1 := s1 ^^^ s0 ^^^ (s1 >>> 18) ^^^ (s0 >>> 5)
  (u32 (u64 (n1 + s0) &&& 0xFFFFFFFF), { st with g_prng_state0 := s0, g_prng_state1 := n1 })

/-- The function `pattern_seed_prng(seed)`: two seeded words, then twenty
warm-up draws. -/
def pattern_seed_prng (seed : Nat) (st : PatternStatics) : PatternStatics :=
  let st := { st with
    g_prng_state0 := u64 (u32 seed <<< 32) ||| (u32 seed ^^^ 0xDEADBEEF),
    g_prng_state1 := u64 (u32 seed <<< 16) ||| (u32 seed ^^^ 0xCAFEBABE) }
  (List.range 20).foldl (fun st _ => (pattern_get_random st).2) st

/-- A byte buffer: the byte stored at each offset. -/
abbrev Buffer := Nat → Nat

/-- The store `p32[i] = v` through a `uint32_t*` alias of the buffer, with the
little-endian byte order of the target. -/
def store32 (buf : Buffer) (i v : Nat) : Buffer :=
  fun j =>
    if j = 4 * i then v % 256
    else if j = 4 * i + 1 then (v / 2 ^ 8) % 256
    else if j = 4 * i + 2 then (v / 2 ^ 16) % 256
    else if j = 4 * i + 3 then (v / 2 ^ 24) % 256
    else buf j

/-- The store `p[i] = v` through a `uint8_t*`. -/
def store8 (buf : Buffer) (i v : Nat) : Buffer :=
  fun j => if j = i then v % 256 else buf j

/-- The loop shape `for (i = lo; i < hi; i++) s = f(i, s);`. -/
def forRange {α : Type} (lo hi : Nat) (f : Nat → α → α) (s : α) : α :=
  (List.range (hi - lo)).foldl (fun s k => f (lo + k) s) s

/-- The call `memset(buffer, c, size)`. -/
def memset (buf : Buffer) (c size : Nat) : Buffer :=
  fun j => if j < size then c % 256 else buf j

/-- The function `pattern_fill_incremental(buffer, size)`. -/
def pattern_fill_incremental (buf : Buffer) (size : Nat) : Buffer :=
  let count32 := size / 4
  let buf := forRange 0 count32 (fun i b =>
    let base := u32 (i * 4)
    store32 b i (u32 (((u32 (base + 3) &&& 0xFF) <<< 24) |||
                      ((u32 (base + 2) &&& 0xFF) <<< 16) |||
                      ((u32 (base + 1) &&& 0xFF) <<< 8) |||
                      (base &&& 0xFF)))) buf
  forRange (u32 (count32 * 4)) size (fun i b => store8 b i (i &&& 0xFF)) buf

/-- The function `pattern_fill_all_ones(buffer, size)`. -/
def pattern_fill_all_ones (buf : Buffer) (size : Nat) : Buffer := memset buf 0xFF size

/-- The function `pattern_fill_all_zeros(buffer, size)`. -/
def pattern_fill_all_zeros (buf : Buffer) (size : Nat) : Buffer := memset buf 0x00 size

/-- The function `pattern_fill_random(buffer, size, seed)`. -/
def pattern_fill_random (buf : Buffer) (size seed : Nat) (st : PatternStatics) :
    Buffer × PatternStatics :=
  let count32 := size / 4
  let st := pattern_seed_prng seed st
  let (buf, st) := forRange 0 count32 (fun i (bs : Buffer × PatternStatics) =>
    let r := pattern_get_random bs.2
    (store32 bs.1 i r.1, r.2)) (buf, st)
  if size % 4 ≠ 0 then
    let r := pattern_get_random st
    let bl := forRange (u32 (count32 * 4)) size (fun i (bl : Buffer × Nat) =>
      (store8 bl.1 i (bl.2 &&& 0xFF), bl.2 >>> 8)) (buf, r.1)
    (bl.1, r.2)
  else (buf, st)

/-- The function `pattern_fill_checkerboard(buffer, size)`. -/
def pattern_fill_checkerboard (buf : Buffer) (size : Nat) : Buffer :=
  let count32 := size / 4
  let pattern := 0xAA55AA55
  let buf := forRange 0 count32 (fun i b => store32 b i pattern) buf
  forRange (u32 (count32 * 4)) size
    (fun i b => store8 b i (if i &&& 1 ≠ 0 then 0x55 else 0xAA)) buf

/-- The function `pattern_fill(buffer, size, pattern, seed)`. -/
def pattern_fill (buf : Buffer) (size pattern seed : Nat) (st : PatternStatics) :
    Buffer × PatternStatics :=
  if pattern = PATTERN_INCREMENTAL then (pattern_fill_incremental buf size, st)
  else if pattern = PATTERN_ALL_ONES then (pattern_fill_all_ones buf size, st)
  else if pattern = PATTERN_ALL_ZEROS then (pattern_fill_all_zeros buf size, st)
  else if pattern = PATTERN_RANDOM then pattern_fill_random buf size seed st
  else if pattern = PATTERN_CHECKERBOARD then (pattern_fill_checkerboard buf size, st)
  else (memset buf 0 size, st)

/-- The `switch (pattern)` of one iteration of `pattern_verify`: the expected
byte for offset `i`, and the statics after computing it. -/
def pattern_verify_expected (pattern i : Nat) (st : PatternStatics) : Nat × PatternStatics :=
  if pattern = PATTERN_INCREMENTAL then (i &&& 0xFF, st)
  else if pattern = PATTERN_ALL_ONES then (0xFF, st)
  else if pattern = PATTERN_ALL_ZEROS then (0x00, st)
  else if pattern = PATTERN_RANDOM then
    if i % 4 = 0 then
      let r := pattern_get_random st
      let st := { r.2 with rand_val_word := r.1 }
      (st.rand_val_word &&& 0xFF, st)
    else
      ((st.rand_val_rest >>> ((i % 4) * 8)) &&& 0xFF, st)
  else if pattern = PATTERN_CHECKERBOARD then (if i &&& 1 ≠ 0 then 0x55 else 0xAA, st)
  else (0x00, st)

/-- The expected byte that `pattern_verify` computes in iteration `i` of its
loop when no earlier iteration returned: the statics left by the (conditional)
re-seed are threaded through the `switch` of iterations `0 .. i-1`, then the
`switch` of iteration `i` runs. -/
def pattern_verify_expected_at (pattern seed i : Nat) (st : PatternStatics) : Nat :=
  let st := if pattern = PATTERN_RANDOM then pattern_seed_prng seed st else st
  (pattern_verify_expected pattern i
    ((List.range i).foldl (fun st k => (pattern_verify_expected pattern k st).2) st)).1

/-- The `k`-th 32-bit word (counting from 0) that `pattern_get_random` returns
after `pattern_seed_prng(seed)`. -/
def prng_word (seed k : Nat) (st : PatternStatics) : Nat :=
  (pattern_get_random
    ((List.range k).foldl (fun st _ => (pattern_get_random st).2) (pattern_seed_prng seed st))).1

/-- What `pattern_verify` hands back: the return value, the values stored
through `error_offset`, `error_expected`, `error_actual` (when a mismatch is
found), and the statics. -/
structure VerifyResult where
  ok : Bool
  error : Option (Nat × Nat × Nat)
  statics : PatternStatics
deriving Repr, DecidableEq

/-- The loop `for (i = 0; i < size; i++)` of `pattern_verify`, entered at offset
`i` with `n` iterations left. -/
def pattern_verify_loop (buf : Buffer) (pattern : Nat) :
    Nat → Nat → PatternStatics → VerifyResult
  | 0, _, st => { ok := true, error := none, statics := st }
  | n + 1, i, st =>
    let e := pattern_verify_expected pattern i st
    if buf i ≠ e.1 then { ok := false, error := some (i, e.1, buf i), statics := e.2 }
    else pattern_verify_loop buf pattern n (i + 1) e.2

/-- The function `pattern_verify(buffer, size, pattern, seed, ...)`. -/
def pattern_verify (buf : Buffer) (size pattern seed : Nat) (st : PatternStatics) :
    VerifyResult :=
  let st := if pattern = PATTERN_RANDOM then pattern_seed_prng seed st else st
  pattern_verify_loop buf pattern size 0 st

/-! ## Completion pollers -/

/-- Outcome of one pass through the body of a polling loop: a `return r;`, or
falling through to the sleep at the end of the body. -/
inductive Poll (R W : Type) where
  | ret : R → Poll R W
  | next : W → Poll R W

/-- The loop shared by the counter-based waits,
`while (elapsed_us < timeout_us) { body; usleep(poll_interval_us); elapsed_us += poll_interval_us; }`
followed by the code after the loop.  `elapsed_us` is a `uint32_t`.  The first
argument bounds the number of iterations the model runs; `none` means the
bound was reached with the loop still running. -/
def pollLoop {R W : Type} (timeout_us poll_interval_us : Nat) (body : Nat → W → Poll R W)
    (sleep : W → W) (after : Nat → W → R) : Nat → Nat → W → Option R
  | 0, _, _ => none
  | fuel + 1, elapsed_us, w =>
    if elapsed_us < timeout_us then
      match body elapsed_us w with
      | Poll.ret r => some r
      | Poll.next w => pollLoop timeout_us poll_interval_us body sleep after fuel
          (u32 (elapsed_us + poll_interval_us)) (sleep w)
    else some (after elapsed_us w)

/-- The helper `axi_dma_read_tx_reg(offset)`. -/
def axi_dma_read_tx_reg {σ : Type} (P : Platform σ) (g : AxiDmaInst) (offset : Nat) (hw : σ) :
    Nat × σ :=
  let r := P.Xil_In32 (u64 (g.base_addr + XAXIDMA_TX_OFFSET + offset)) hw
  (u32 r.1, r.2)

/-- The helper `axi_dma_write_tx_reg(offset, value)`. -/
def axi_dma_write_tx_reg {σ : Type} (P : Platform σ) (g : AxiDmaInst) (offset value : Nat)
    (hw : σ) : σ :=
  P.Xil_Out32 (u64 (g.base_addr + XAXIDMA_TX_OFFSET + offset)) value hw

/-- The helper `axi_dma_read_rx_reg(offset)`. -/
def axi_dma_read_rx_reg {σ : Type} (P : Platform σ) (g : AxiDmaInst) (offset : Nat) (hw : σ) :
    Nat × σ :=
  let r := P.Xil_In32 (u64 (g.base_addr + XAXIDMA_RX_OFFSET + offset)) hw
  (u32 r.1, r.2)

/-- The helper `axi_dma_write_rx_reg(offset, value)`. -/
def axi_dma_write_rx_reg {σ : Type} (P : Platform σ) (g : AxiDmaInst) (offset value : Nat)
    (hw : σ) : σ :=
  P.Xil_Out32 (u64 (g.base_addr + XAXIDMA_RX_OFFSET + offset)) value hw

/-- State carried round the loop of `axi_dma_wait_tx` / `axi_dma_wait_rx`: the
driver world and the local `loop_count`. -/
structure AxiDmaPoll (σ : Type) where
  world : AxiDmaWorld σ
  loop_count : Nat

/-- What a call of `axi_dma_wait_tx` / `axi_dma_wait_rx` leaves behind: the
return value, the world, and the locals `loop_count` and `elapsed_us` at the
`return` (the values its log messages print). -/
structure AxiDmaWait (σ : Type) where
  ret : Int
  world : AxiDmaWorld σ
  loop_count : Nat
  elapsed_us : Nat

/-- Body of the `while` loop of `axi_dma_wait_tx`, up to the sleep. -/
def axi_dma_wait_tx_body {σ : Type} (P : Platform σ) (elapsed_us : Nat) (s : AxiDmaPoll σ) :
    Poll (AxiDmaWait σ) (AxiDmaPoll σ) :=
  let w := s.world
  let g := w.g_AxiDma
  let rd := axi_dma_read_tx_reg P g XAXIDMA_SR_OFFSET w.hw
  let status := rd.1
  let loop_count := u32 (s.loop_count + 1)
  if status &&& XAXIDMA_SR_ALL_ERR_MASK ≠ 0 then
    let g := { g with tx_error := status &&& XAXIDMA_SR_ALL_ERR_MASK, errors := u32 (g.errors + 1) }
    let hw := axi_dma_write_tx_reg P g XAXIDMA_SR_OFFSET (status &&& XAXIDMA_SR_ALL_ERR_MASK) rd.2
    Poll.ret { ret := DMA_ERROR_DMA_FAIL, world := { w with hw := hw, g_AxiDma := g },
               loop_count := loop_count, elapsed_us := elapsed_us }
  else if status &&& XAXIDMA_SR_IDLE_MASK ≠ 0 then
    let g := { g with tx_complete := true, tx_transfers := u32 (g.tx_transfers + 1) }
    Poll.ret { ret := DMA_SUCCESS, world := { w with hw := rd.2, g_AxiDma := g },
               loop_count := loop_count, elapsed_us := elapsed_us }
  else if status &&& XAXIDMA_SR_IOC_IRQ_MASK ≠ 0 then
    let hw := axi_dma_write_tx_reg P g XAXIDMA_SR_OFFSET XAXIDMA_SR_IOC_IRQ_MASK rd.2
    let g := { g with tx_complete := true, tx_transfers := u32 (g.tx_transfers + 1) }
    Poll.ret { ret := DMA_SUCCESS, world := { w with hw := hw, g_AxiDma := g },
               loop_count := loop_count, elapsed_us := elapsed_us }
  else
    Poll.next { world := { w with hw := rd.2 }, loop_count := loop_count }

/-- The loop state of `axi_dma_wait_tx` after a pass through the body in which
none of the three checks fired: the status has been read and `loop_count`
incremented. -/
def axi_dma_wait_tx_fallthrough {σ : Type} (P : Platform σ) (s : AxiDmaPoll σ) : AxiDmaPoll σ :=
  { world := { s.world with
      hw := (axi_dma_read_tx_reg P s.world.g_AxiDma XAXIDMA_SR_OFFSET s.world.hw).2 },
    loop_count := u32 (s.loop_count + 1) }

/-- The `usleep(poll_interval_us)` at the end of the loop body. -/
def axi_dma_wait_sleep {σ : Type} (P : Platform σ) (s : AxiDmaPoll σ) : AxiDmaPoll σ :=
  { s with world := { s.world with hw := P.usleep 10 s.world.hw } }

/-- The code after the loop of `axi_dma_wait_tx`: one more status read for the
log message, then `return DMA_ERROR_TIMEOUT;`. -/
def axi_dma_wait_tx_after {σ : Type} (P : Platform σ) (elapsed_us : Nat) (s : AxiDmaPoll σ) :
    AxiDmaWait σ :=
  let rd := axi_dma_read_tx_reg P s.world.g_AxiDma XAXIDMA_SR_OFFSET s.world.hw
  { ret := DMA_ERROR_TIMEOUT, world := { s.world with hw := rd.2 },
    loop_count := s.loop_count, elapsed_us := elapsed_us }

/-- The loop of `axi_dma_wait_tx` entered with the given `elapsed_us` and loop
state. -/
def axi_dma_wait_tx_loop {σ : Type} (P : Platform σ) (timeout_us fuel elapsed_us : Nat)
    (s : AxiDmaPoll σ) : Option (AxiDmaWait σ) :=
  pollLoop timeout_us 10 (axi_dma_wait_tx_body P) (axi_dma_wait_sleep P)
    (axi_dma_wait_tx_after P) fuel elapsed_us s

/-- The function `axi_dma_wait_tx(timeout_us)`: `elapsed_us = 0`,
`loop_count = 0`, then the loop. -/
def axi_dma_wait_tx {σ : Type} (P : Platform σ) (fuel timeout_us : Nat) (w : AxiDmaWorld σ) :
    Option (AxiDmaWait σ) :=
  axi_dma_wait_tx_loop P timeout_us fuel 0 { world := w, loop_count := 0 }

/-- Body of the `while` loop of `axi_dma_wait_rx`, up to the sleep. -/
def axi_dma_wait_rx_body {σ : Type} (P : Platform σ) (elapsed_us : Nat) (s : AxiDmaPoll σ) :
    Poll (AxiDmaWait σ) (AxiDmaPoll σ) :=
  let w := s.world
  let g := w.g_AxiDma
  let rd := axi_dma_read_rx_reg P g XAXIDMA_SR_OFFSET w.hw
  let status := rd.1
  let loop_count := u32 (s.loop_count + 1)
  if status &&& XAXIDMA_SR_ALL_ERR_MASK ≠ 0 then
    let g := { g with rx_error := status &&& XAXIDMA_SR_ALL_ERR_MASK, errors := u32 (g.errors + 1) }
    let hw := axi_dma_write_rx_reg P g XAXIDMA_SR_OFFSET (status &&& XAXIDMA_SR_ALL_ERR_MASK) rd.2
    Poll.ret { ret := DMA_ERROR_DMA_FAIL, world := { w with hw := hw, g_AxiDma := g },
               loop_count := loop_count, elapsed_us := elapsed_us }
  else if status &&& XAXIDMA_SR_IDLE_MASK ≠ 0 then
    let g := { g with rx_complete := true, rx_transfers := u32 (g.rx_transfers + 1) }
    Poll.ret { ret := DMA_SUCCESS, world := { w with hw := rd.2, g_AxiDma := g },
               loop_count := loop_count, elapsed_us := elapsed_us }
  else if status &&& XAXIDMA_SR_IOC_IRQ_MASK ≠ 0 then
    let hw := axi_dma_write_rx_reg P g XAXIDMA_SR_OFFSET XAXIDMA_SR_IOC_IRQ_MASK rd.2
    let g := { g with rx_complete := true, rx_transfers := u32 (g.rx_transfers + 1) }
    Poll.ret { ret := DMA_SUCCESS, world := { w with hw := hw, g_AxiDma := g },
               loop_count := loop_count, elapsed_us := elapsed_us }
  else
    Poll.next { world := { w with hw := rd.2 }, loop_count := loop_count }

/-- The code after the loop of `axi_dma_wait_rx`. -/
def axi_dma_wait_rx_after {σ : Type} (P : Platform σ) (elapsed_us : Nat) (s : AxiDmaPoll σ) :
    AxiDmaWait σ :=
  let rd := axi_dma_read_rx_reg P s.world.g_AxiDma XAXIDMA_SR_OFFSET s.world.hw
  { ret := DMA_ERROR_TIMEOUT, world := { s.world with hw := rd.2 },
    loop_count := s.loop_count, elapsed_us := elapsed_us }

/-- The loop of `axi_dma_wait_rx` entered with the given `elapsed_us` and loop
state. -/
def axi_dma_wait_rx_loop {σ : Type} (P : Platform σ) (timeout_us fuel elapsed_us : Nat)
    (s : AxiDmaPoll σ) : Option (AxiDmaWait σ) :=
  pollLoop timeout_us 10 (axi_dma_wait_rx_body P) (axi_dma_wait_sleep P)
    (axi_dma_wait_rx_after P) fuel elapsed_us s

/-- The function `axi_dma_wait_rx(timeout_us)`. -/
def axi_dma_wait_rx {σ : Type} (P : Platform σ) (fuel timeout_us : Nat) (w : AxiDmaWorld σ) :
    Option (AxiDmaWait σ) :=
  axi_dma_wait_rx_loop P timeout_us fuel 0 { world := w, loop_count := 0 }

/-- The function `timer_cycles_to_us(cycles)`: `(cycles * 1000000ULL) / g_TimerFreqHz`
in `uint64_t`, with `g_TimerFreqHz = APU_CLK_FREQ_HZ`. -/
def timer_cycles_to_us {σ : Type} (P : Platform σ) (cycles : Nat) : Nat :=
  u64 (u64 cycles * 1000000) / u64 P.APU_CLK_FREQ_HZ

/-- The function `timer_get_us()`. -/
def timer_get_us {σ : Type} (P : Platform σ) (hw : σ) : Nat × σ :=
  let r := P.pmu_read_cycle_counter hw
  (timer_cycles_to_us P r.1, r.2)

/-- The helper `axi_cdma_read_reg(offset)`. -/
def axi_cdma_read_reg {σ : Type} (P : Platform σ) (g : AxiCdmaInst) (offset : Nat) (hw : σ) :
    Nat × σ :=
  let r := P.Xil_In32 (u64 (g.base_addr + offset)) hw
  (u32 r.1, r.2)

/-- The helper `axi_cdma_write_reg(offset, value)`. -/
def axi_cdma_write_reg {σ : Type} (P : Platform σ) (g : AxiCdmaInst) (offset value : Nat)
    (hw : σ) : σ :=
  P.Xil_Out32 (u64 (g.base_addr + offset)) value hw

/-- Body of the `while` loop of `axi_cdma_wait_complete` (it has no sleep). -/
def axi_cdma_wait_body {σ : Type} (P : Platform σ) (w : AxiCdmaWorld σ) :
    Poll (Int × AxiCdmaWorld σ) (AxiCdmaWorld σ) :=
  let g := w.g_AxiCdma
  let rd := axi_cdma_read_reg P g XAXICDMA_SR_OFFSET w.hw
  let status := rd.1
  if status &&& XAXICDMA_SR_ALL_ERR_MASK ≠ 0 then
    let g := { g with transfer_error := status &&& XAXICDMA_SR_ALL_ERR_MASK,
                      errors := u32 (g.errors + 1) }
    let hw := axi_cdma_write_reg P g XAXICDMA_SR_OFFSET (status &&& XAXICDMA_SR_ALL_ERR_MASK) rd.2
    Poll.ret (DMA_ERROR_DMA_FAIL, { w with hw := hw, g_AxiCdma := g })
  else if status &&& XAXICDMA_SR_IDLE_MASK ≠ 0 then
    let g := { g with transfer_complete := true, num_transfers := u32 (g.num_transfers + 1) }
    Poll.ret (DMA_SUCCESS, { w with hw := rd.2, g_AxiCdma := g })
  else if status &&& XAXICDMA_SR_IOC_IRQ_MASK ≠ 0 then
    let hw := axi_cdma_write_reg P g XAXICDMA_SR_OFFSET XAXICDMA_SR_IOC_IRQ_MASK rd.2
    let g := { g with transfer_complete := true, num_transfers := u32 (g.num_transfers + 1) }
    Poll.ret (DMA_SUCCESS, { w with hw := hw, g_AxiCdma := g })
  else
    Poll.next { w with hw := rd.2 }

/-- The loop `while ((timer_get_us() - start_time) < timeout_us) { ... }` of
`axi_cdma_wait_complete`, with its `return DMA_ERROR_TIMEOUT;`.  The
difference is a `uint64_t` subtraction.  The first argument bounds the number
of iterations the model runs. -/
def axi_cdma_wait_loop {σ : Type} (P : Platform σ) (timeout_us start_time : Nat) :
    Nat → AxiCdmaWorld σ → Option (Int × AxiCdmaWorld σ)
  | 0, _ => none
  | fuel + 1, w =>
    let t := timer_get_us P w.hw
    let w := { w with hw := t.2 }
    if u64 (t.1 + 2 ^ 64 - start_time) < timeout_us then
      match axi_cdma_wait_body P w with
      | Poll.ret r => some r
      | Poll.next w => axi_cdma_wait_loop P timeout_us start_time fuel w
    else some (DMA_ERROR_TIMEOUT, w)

/-- The function `axi_cdma_wait_complete(timeout_us)`. -/
def axi_cdma_wait_complete {σ : Type} (P : Platform σ) (fuel timeout_us : Nat)
    (w : AxiCdmaWorld σ) : Option (Int × AxiCdmaWorld σ) :=
  let t := timer_get_us P w.hw
  axi_cdma_wait_loop P timeout_us t.1 fuel { w with hw := t.2 }

/-- The helper `mcdma_read_mm2s_ch_reg(channel, offset)`; `ch_base` is a
`uint32_t`. -/
def mcdma_read_mm2s_ch_reg {σ : Type} (P : Platform σ) (g : AxiMcdmaInst)
    (channel offset : Nat) (hw : σ) : Nat × σ :=
  let ch_base := u32 (MCDMA_MM2S_BASE_OFFSET + u32 (channel * MCDMA_CHANNEL_OFFSET))
  let r := P.Xil_In32 (u64 (g.base_addr + ch_base + offset)) hw
  (u32 r.1, r.2)

/-- The helper `mcdma_write_mm2s_ch_reg(channel, offset, value)`. -/
def mcdma_write_mm2s_ch_reg {σ : Type} (P : Platform σ) (g : AxiMcdmaInst)
    (channel offset value : Nat) (hw : σ) : σ :=
  let ch_base := u32 (MCDMA_MM2S_BASE_OFFSET + u32 (channel * MCDMA_CHANNEL_OFFSET))
  P.Xil_Out32 (u64 (g.base_addr + ch_base + offset)) value hw

/-- The helper `mcdma_read_s2mm_ch_reg(channel, offset)`. -/
def mcdma_read_s2mm_ch_reg {σ : Type} (P : Platform σ) (g : AxiMcdmaInst)
    (channel offset : Nat) (hw : σ) : Nat × σ :=
  let ch_base := u32 (MCDMA_S2MM_BASE_OFFSET + u32 (channel * MCDMA_CHANNEL_OFFSET))
  let r := P.Xil_In32 (u64 (g.base_addr + ch_base + offset)) hw
  (u32 r.1, r.2)

/-- The helper `mcdma_write_s2mm_ch_reg(channel, offset, value)`. -/
def mcdma_write_s2mm_ch_reg {σ : Type} (P : Platform σ) (g : AxiMcdmaInst)
    (channel offset value : Nat) (hw : σ) : σ :=
  let ch_base := u32 (MCDMA_S2MM_BASE_OFFSET + u32 (channel * MCDMA_CHANNEL_OFFSET))
  P.Xil_Out32 (u64 (g.base_addr + ch_base + offset)) value hw

/-- What a call of an MCDMA or LPD wait leaves behind: the return value, the
world, and the local `elapsed_us` at the `return`. -/
structure ChannelWait (W : Type) where
  ret : Int
  world : W
  elapsed_us : Nat

/-- The assignment `g_AxiMcdma.mm2s_channels[channel] = ch`. -/
def AxiMcdmaWorld.setMm2s {σ : Type} (w : AxiMcdmaWorld σ) (channel : Nat) (ch : McdmaChannel) :
    AxiMcdmaWorld σ :=
  { w with g_AxiMcdma := { w.g_AxiMcdma with
      mm2s_channels := Function.update w.g_AxiMcdma.mm2s_channels channel ch } }

/-- The assignment `g_AxiMcdma.s2mm_channels[channel] = ch`. -/
def AxiMcdmaWorld.setS2mm {σ : Type} (w : AxiMcdmaWorld σ) (channel : Nat) (ch : McdmaChannel) :
    AxiMcdmaWorld σ :=
  { w with g_AxiMcdma := { w.g_AxiMcdma with
      s2mm_channels := Function.update w.g_AxiMcdma.s2mm_channels channel ch } }

/-- Body of the `while` loop of `axi_mcdma_wait_mm2s`, up to the sleep. -/
def axi_mcdma_wait_mm2s_body {σ : Type} (P : Platform σ) (channel elapsed_us : Nat)
    (w : AxiMcdmaWorld σ) : Poll (ChannelWait (AxiMcdmaWorld σ)) (AxiMcdmaWorld σ) :=
  let g := w.g_AxiMcdma
  let ch := g.mm2s_channels channel
  let rd := mcdma_read_mm2s_ch_reg P g channel XMCDMA_CH_SR_OFFSET w.hw
  let status := rd.1
  if status &&& XMCDMA_CH_SR_ERR_MASK ≠ 0 then
    let ch := { ch with transfer_error := status, errors := u32 (ch.errors + 1), busy := false }
    let hw := mcdma_write_mm2s_ch_reg P g channel XMCDMA_CH_SR_OFFSET status rd.2
    Poll.ret { ret := DMA_ERROR_DMA_FAIL, world := ({ w with hw := hw }).setMm2s channel ch,
               elapsed_us := elapsed_us }
  else if status &&& XMCDMA_CH_SR_IDLE_MASK ≠ 0 then
    let ch := { ch with transfer_complete := true, num_transfers := u32 (ch.num_transfers + 1),
                        busy := false }
    Poll.ret { ret := DMA_SUCCESS, world := ({ w with hw := rd.2 }).setMm2s channel ch,
               elapsed_us := elapsed_us }
  else if status &&& XMCDMA_CH_SR_IOC_IRQ_MASK ≠ 0 then
    let hw := mcdma_write_mm2s_ch_reg P g channel XMCDMA_CH_SR_OFFSET XMCDMA_CH_SR_IOC_IRQ_MASK rd.2
    let ch := { ch with transfer_complete := true, num_transfers := u32 (ch.num_transfers + 1),
                        busy := false }
    Poll.ret { ret := DMA_SUCCESS, world := ({ w with hw := hw }).setMm2s channel ch,
               elapsed_us := elapsed_us }
  else
    Poll.next { w with hw := rd.2 }

/-- The `usleep(poll_interval_us)` of the MCDMA waits. -/
def axi_mcdma_wait_sleep {σ : Type} (P : Platform σ) (w : AxiMcdmaWorld σ) : AxiMcdmaWorld σ :=
  { w with hw := P.usleep 10 w.hw }

/-- The code after the loop of `axi_mcdma_wait_mm2s`: the status read that is
an argument of the log call, then `return DMA_ERROR_TIMEOUT;`. -/
def axi_mcdma_wait_mm2s_after {σ : Type} (P : Platform σ) (channel elapsed_us : Nat)
    (w : AxiMcdmaWorld σ) : ChannelWait (AxiMcdmaWorld σ) :=
  let rd := mcdma_read_mm2s_ch_reg P w.g_AxiMcdma channel XMCDMA_CH_SR_OFFSET w.hw
  { ret := DMA_ERROR_TIMEOUT, world := { w with hw := rd.2 }, elapsed_us := elapsed_us }

/-- The loop of `axi_mcdma_wait_mm2s` entered with the given `elapsed_us`. -/
def axi_mcdma_wait_mm2s_loop {σ : Type} (P : Platform σ) (channel timeout_us fuel elapsed_us : Nat)
    (w : AxiMcdmaWorld σ) : Option (ChannelWait (AxiMcdmaWorld σ)) :=
  pollLoop timeout_us 10 (axi_mcdma_wait_mm2s_body P channel) (axi_mcdma_wait_sleep P)
    (axi_mcdma_wait_mm2s_after P channel) fuel elapsed_us w

/-- The function `axi_mcdma_wait_mm2s(channel, timeout_us)`. -/
def axi_mcdma_wait_mm2s {σ : Type} (P : Platform σ) (fuel channel timeout_us : Nat)
    (w : AxiMcdmaWorld σ) : Option (ChannelWait (AxiMcdmaWorld σ)) :=
  if channel ≥ w.g_AxiMcdma.num_mm2s_channels then
    some { ret := DMA_ERROR_INVALID_PARAM, world := w, elapsed_us := 0 }
  else axi_mcdma_wait_mm2s_loop P channel timeout_us fuel 0 w

/-- Body of the `while` loop of `axi_mcdma_wait_s2mm`, up to the sleep. -/
def axi_mcdma_wait_s2mm_body {σ : Type} (P : Platform σ) (channel elapsed_us : Nat)
    (w : AxiMcdmaWorld σ) : Poll (ChannelWait (AxiMcdmaWorld σ)) (AxiMcdmaWorld σ) :=
  let g := w.g_AxiMcdma
  let ch := g.s2mm_channels channel
  let rd := mcdma_read_s2mm_ch_reg P g channel XMCDMA_CH_SR_OFFSET w.hw
  let status := rd.1
  if status &&& XMCDMA_CH_SR_ERR_MASK ≠ 0 then
    let ch := { ch with transfer_error := status, errors := u32 (ch.errors + 1), busy := false }
    let hw := mcdma_write_s2mm_ch_reg P g channel XMCDMA_CH_SR_OFFSET status rd.2
    Poll.ret { ret := DMA_ERROR_DMA_FAIL, world := ({ w with hw := hw }).setS2mm channel ch,
               elapsed_us := elapsed_us }
  else if status &&& XMCDMA_CH_SR_IDLE_MASK ≠ 0 then
    let ch := { ch with transfer_complete := true, num_transfers := u32 (ch.num_transfers + 1),
                        busy := false }
    Poll.ret { ret := DMA_SUCCESS, world := ({ w with hw := rd.2 }).setS2mm channel ch,
               elapsed_us := elapsed_us }
  else if status &&& XMCDMA_CH_SR_IOC_IRQ_MASK ≠ 0 then
    let hw := mcdma_write_s2mm_ch_reg P g channel XMCDMA_CH_SR_OFFSET XMCDMA_CH_SR_IOC_IRQ_MASK rd.2
    let ch := { ch with transfer_complete := true, num_transfers := u32 (ch.num_transfers + 1),
                        busy := false }
    Poll.ret { ret := DMA_SUCCESS, world := ({ w with hw := hw }).setS2mm channel ch,
               elapsed_us := elapsed_us }
  else
    Poll.next { w with hw := rd.2 }

/-- The code after the loop of `axi_mcdma_wait_s2mm`. -/
def axi_mcdma_wait_s2mm_after {σ : Type} (P : Platform σ) (channel elapsed_us : Nat)
    (w : AxiMcdmaWorld σ) : ChannelWait (AxiMcdmaWorld σ) :=
  let rd := mcdma_read_s2mm_ch_reg P w.g_AxiMcdma channel XMCDMA_CH_SR_OFFSET w.hw
  { ret := DMA_ERROR_TIMEOUT, world := { w with hw := rd.2 }, elapsed_us := elapsed_us }

/-- The loop of `axi_mcdma_wait_s2mm` entered with the given `elapsed_us`. -/
def axi_mcdma_wait_s2mm_loop {σ : Type} (P : Platform σ) (channel timeout_us fuel elapsed_us : Nat)
    (w : AxiMcdmaWorld σ) : Option (ChannelWait (AxiMcdmaWorld σ)) :=
  pollLoop timeout_us 10 (axi_mcdma_wait_s2mm_body P channel) (axi_mcdma_wait_sleep P)
    (axi_mcdma_wait_s2mm_after P channel) fuel elapsed_us w

/-- The function `axi_mcdma_wait_s2mm(channel, timeout_us)`. -/
def axi_mcdma_wait_s2mm {σ : Type} (P : Platform σ) (fuel channel timeout_us : Nat)
    (w : AxiMcdmaWorld σ) : Option (ChannelWait (AxiMcdmaWorld σ)) :=
  if channel ≥ w.g_AxiMcdma.num_s2mm_channels then
    some { ret := DMA_ERROR_INVALID_PARAM, world := w, elapsed_us := 0 }
  else axi_mcdma_wait_s2mm_loop P channel timeout_us fuel 0 w

/-! ## LPD DMA (lpd_dma_driver.h / lpd_dma_driver.c) -/

def LPD_DMA_NUM_CHANNELS : Nat := 8
def XLPDDMA_ZDMA_CH_ISR : Nat := 0x100
def XLPDDMA_ZDMA_CH_STATUS : Nat := 0x11C
def XLPDDMA_ZDMA_CH_TOTAL_BYTE : Nat := 0x188
def XLPDDMA_STATUS_STATE_MASK : Nat := 0x00000003
def XLPDDMA_STATUS_STATE_DONE : Nat := 0x00000000
def XLPDDMA_STATUS_STATE_IDLE : Nat := XLPDDMA_STATUS_STATE_DONE
def XLPDDMA_IXR_DMA_DONE : Nat := 0x00000400
def XLPDDMA_IXR_ALL_MASK : Nat := 0x00000FFF
def XLPDDMA_IXR_ERR_MASK : Nat := 0x00000BF9

/-- The channel record `LpdDmaChannel_t`. -/
structure LpdDmaChannel where
  channel_id : Nat
  base_addr : Nat
  initialized : Bool
  busy : Bool
  transfer_complete : Bool
  transfer_error : Nat
  bytes_transferred : Nat
  num_transfers : Nat
  errors : Nat
deriving Repr, DecidableEq

/-- The instance record `LpdDmaInst_t` (the static `g_LpdDma`). -/
structure LpdDmaInst where
  initialized : Bool
  channels : Nat → LpdDmaChannel
  total_bytes : Nat
  total_transfers : Nat
  total_errors : Nat

/-- Platform state, `g_LpdDma`, and the constant table `g_ChannelBaseAddrs`
(its entries are constants of the absent `platform_config.h`). -/
structure LpdDmaWorld (σ : Type) where
  hw : σ
  g_LpdDma : LpdDmaInst
  g_ChannelBaseAddrs : Nat → Nat

/-- The helper `lpd_dma_read_reg(channel, offset)`. -/
def lpd_dma_read_reg {σ : Type} (P : Platform σ) (w : LpdDmaWorld σ) (channel offset : Nat) :
    Nat × σ :=
  if channel < LPD_DMA_NUM_CHANNELS then
    let r := P.Xil_In32 (u64 (w.g_ChannelBaseAddrs channel + offset)) w.hw
    (u32 r.1, r.2)
  else (0, w.hw)

/-- The helper `lpd_dma_write_reg(channel, offset, value)`. -/
def lpd_dma_write_reg {σ : Type} (P : Platform σ) (w : LpdDmaWorld σ)
    (channel offset value : Nat) : σ :=
  if channel < LPD_DMA_NUM_CHANNELS then
    P.Xil_Out32 (u64 (w.g_ChannelBaseAddrs channel + offset)) value w.hw
  else w.hw

/-- The assignment `g_LpdDma.channels[channel] = ch`. -/
def LpdDmaWorld.setChannel {σ : Type} (w : LpdDmaWorld σ) (channel : Nat) (ch : LpdDmaChannel) :
    LpdDmaWorld σ :=
  { w with g_LpdDma := { w.g_LpdDma with
      channels := Function.update w.g_LpdDma.channels channel ch } }

/-- Body of the `while` loop of `lpd_dma_wait_complete`, up to the sleep. -/
def lpd_dma_wait_body {σ : Type} (P : Platform σ) (channel elapsed_us : Nat)
    (w : LpdDmaWorld σ) : Poll (ChannelWait (LpdDmaWorld σ)) (LpdDmaWorld σ) :=
  let r1 := lpd_dma_read_reg P w channel XLPDDMA_ZDMA_CH_ISR
  let isr := r1.1
  let w := { w with hw := r1.2 }
  let r2 := lpd_dma_read_reg P w channel XLPDDMA_ZDMA_CH_STATUS
  let status := r2.1
  let w := { w with hw := r2.2 }
  let ch := w.g_LpdDma.channels channel
  if isr &&& XLPDDMA_IXR_ERR_MASK ≠ 0 then
    let ch := { ch with transfer_error := isr, errors := u32 (ch.errors + 1), busy := false }
    let w := w.setChannel channel ch
    let hw := lpd_dma_write_reg P w channel XLPDDMA_ZDMA_CH_ISR isr
    Poll.ret { ret := DMA_ERROR_DMA_FAIL, world := { w with hw := hw }, elapsed_us := elapsed_us }
  else if isr &&& XLPDDMA_IXR_DMA_DONE ≠ 0 then
    let r3 := lpd_dma_read_reg P w channel XLPDDMA_ZDMA_CH_TOTAL_BYTE
    let w := { w with hw := r3.2 }
    let ch := { ch with transfer_complete := true, num_transfers := u32 (ch.num_transfers + 1),
                        busy := false }
    let w := w.setChannel channel ch
    let hw := lpd_dma_write_reg P w channel XLPDDMA_ZDMA_CH_ISR isr
    Poll.ret { ret := DMA_SUCCESS, world := { w with hw := hw }, elapsed_us := elapsed_us }
  else if status &&& XLPDDMA_STATUS_STATE_MASK = XLPDDMA_STATUS_STATE_IDLE then
    let r3 := lpd_dma_read_reg P w channel XLPDDMA_ZDMA_CH_TOTAL_BYTE
    let w := { w with hw := r3.2 }
    if ¬ (isr &&& XLPDDMA_IXR_ERR_MASK ≠ 0) then
      let ch := { ch with transfer_complete := true, num_transfers := u32 (ch.num_transfers + 1),
                          busy := false }
      let w := w.setChannel channel ch
      let hw := lpd_dma_write_reg P w channel XLPDDMA_ZDMA_CH_ISR isr
      Poll.ret { ret := DMA_SUCCESS, world := { w with hw := hw }, elapsed_us := elapsed_us }
    else Poll.next w
  else Poll.next w

/-- The `usleep(poll_interval_us)` of `lpd_dma_wait_complete`. -/
def lpd_dma_wait_sleep {σ : Type} (P : Platform σ) (w : LpdDmaWorld σ) : LpdDmaWorld σ :=
  { w with hw := P.usleep 10 w.hw }

/-- The code after the loop of `lpd_dma_wait_complete`: `busy = false`, three
register reads for the log message, `return DMA_ERROR_TIMEOUT;`. -/
def lpd_dma_wait_after {σ : Type} (P : Platform σ) (channel elapsed_us : Nat)
    (w : LpdDmaWorld σ) : ChannelWait (LpdDmaWorld σ) :=
  let w := w.setChannel channel { w.g_LpdDma.channels channel with busy := false }
  let w := { w with hw := (lpd_dma_read_reg P w channel XLPDDMA_ZDMA_CH_STATUS).2 }
  let w := { w with hw := (lpd_dma_read_reg P w channel XLPDDMA_ZDMA_CH_ISR).2 }
  let w := { w with hw := (lpd_dma_read_reg P w channel XLPDDMA_ZDMA_CH_TOTAL_BYTE).2 }
  { ret := DMA_ERROR_TIMEOUT, world := w, elapsed_us := elapsed_us }

/-- The loop of `lpd_dma_wait_complete` entered with the given `elapsed_us`. -/
def lpd_dma_wait_loop {σ : Type} (P : Platform σ) (channel timeout_us fuel elapsed_us : Nat)
    (w : LpdDmaWorld σ) : Option (ChannelWait (LpdDmaWorld σ)) :=
  pollLoop timeout_us 10 (lpd_dma_wait_body P channel) (lpd_dma_wait_sleep P)
    (lpd_dma_wait_after P channel) fuel elapsed_us w

/-- The function `lpd_dma_wait_complete(channel, timeout_us)`. -/
def lpd_dma_wait_complete {σ : Type} (P : Platform σ) (fuel channel timeout_us : Nat)
    (w : LpdDmaWorld σ) : Option (ChannelWait (LpdDmaWorld σ)) :=
  if channel ≥ LPD_DMA_NUM_CHANNELS then
    some { ret := DMA_ERROR_INVALID_PARAM, world := w, elapsed_us := 0 }
  else lpd_dma_wait_loop P channel timeout_us fuel 0 w

/-! ## Concrete platforms and start-up states -/

/-- A platform with no device behind it: every register reads `0`, writes,
sleeps and cache operations change nothing, the cycle counter stays at `0`
(with a 1 MHz clock constant). -/
def Platform.quiet : Platform Unit :=
  { Xil_In32 := fun _ h => (0, h),
    Xil_Out32 := fun _ _ h => h,
    usleep := fun _ h => h,
    Xil_DCacheFlushRange := fun _ _ h => h,
    Xil_DCacheInvalidateRange := fun _ _ h => h,
    pmu_read_cycle_counter := fun h => (0, h),
    APU_CLK_FREQ_HZ := 1000000 }

/-- A platform on which no transfer ever completes: a register at offset
`0x11C` of a 64 KiB window (where the LPD DMA channels have their status
register) reads `2` (state busy), every other register reads `0`; writes,
sleeps and cache operations change nothing. -/
def Platform.stalled : Platform Unit :=
  { Xil_In32 := fun a h => if a % 0x10000 = 0x11C then (2, h) else (0, h),
    Xil_Out32 := fun _ _ h => h,
    usleep := fun _ h => h,
    Xil_DCacheFlushRange := fun _ _ h => h,
    Xil_DCacheInvalidateRange := fun _ _ h => h,
    pmu_read_cycle_counter := fun h => (0, h),
    APU_CLK_FREQ_HZ := 1000000 }

/-- State of a platform with one status register and a clock: the register
value and the cycle counter. -/
structure StatusReg where
  sr : Nat
  cycles : Nat
deriving Repr, DecidableEq

/-- A platform whose only device is one 32-bit status register at address
`addr`, write-one-to-clear and with no hardware activity: a read returns the
register, a write clears exactly the bits written as `1`.  Other addresses
read `0`.  The cycle counter runs at 1 MHz and advances by `tick` on every
read of it and by the requested time on `usleep`. -/
def Platform.w1c (addr tick : Nat) : Platform StatusReg :=
  { Xil_In32 := fun a h => if a = addr then (h.sr, h) else (0, h),
    Xil_Out32 := fun a v h => if a = addr then { h with sr := h.sr ^^^ (h.sr &&& v) } else h,
    usleep := fun us h => { h with cycles := h.cycles + us },
    Xil_DCacheFlushRange := fun _ _ h => h,
    Xil_DCacheInvalidateRange := fun _ _ h => h,
    pmu_read_cycle_counter := fun h => (h.cycles, { h with cycles := h.cycles + tick }),
    APU_CLK_FREQ_HZ := 1000000 }

/-- The static initial value `g_AxiDma = {0}`. -/
def AxiDmaInst.zero : AxiDmaInst :=
  { base_addr := 0, initialized := false, sg_mode := false, has_mm2s := false,
    has_s2mm := false, data_width := 0, addr_width := 0, max_transfer_len := 0, tx_ring := 0,
    rx_ring := 0, ring_size := 0, tx_head := 0, tx_tail := 0, rx_head := 0, rx_tail := 0,
    tx_complete := false, rx_complete := false, tx_error := 0, rx_error := 0, tx_bytes := 0,
    rx_bytes := 0, tx_transfers := 0, rx_transfers := 0, errors := 0 }

/-- The AXI DMA driver world at program start on platform state `hw`: zeroed
statics. -/
def AxiDmaWorld.boot {σ : Type} (hw : σ) : AxiDmaWorld σ :=
  { hw := hw, g_AxiDma := AxiDmaInst.zero, tx_mem := fun _ => AxiDmaSgDesc.zero,
    rx_mem := fun _ => AxiDmaSgDesc.zero }

/-- The static initial value `g_AxiCdma = {0}`. -/
def AxiCdmaInst.zero : AxiCdmaInst :=
  { base_addr := 0, initialized := false, sg_mode := false, data_width := 0, addr_width := 0,
    max_burst_len := 0, desc_ring := 0, ring_size := 0, desc_head := 0, desc_tail := 0,
    transfer_complete := false, transfer_error := 0, bytes_transferred := 0,
    num_transfers := 0, errors := 0 }

/-- The AXI CDMA driver world at program start. -/
def AxiCdmaWorld.boot {σ : Type} (hw : σ) : AxiCdmaWorld σ :=
  { hw := hw, g_AxiCdma := AxiCdmaInst.zero, desc_mem := fun _ => AxiCdmaSgDesc.zero }

/-- A zeroed `McdmaChannel_t`. -/
def McdmaChannel.zero : McdmaChannel :=
  { channel_id := 0, enabled := false, busy := false, desc_ring := 0, ring_size := 0,
    desc_head := 0, desc_tail := 0, transfer_complete := false, transfer_error := 0,
    bytes_transferred := 0, num_transfers := 0, errors := 0 }

/-- The static initial value `g_AxiMcdma = {0}`. -/
def AxiMcdmaInst.zero : AxiMcdmaInst :=
  { base_addr := 0, initialized := false, num_mm2s_channels := 0, num_s2mm_channels := 0,
    data_width := 0, sched_mode := 0, mm2s_channels := fun _ => McdmaChannel.zero,
    s2mm_channels := fun _ => McdmaChannel.zero, total_bytes := 0, total_transfers := 0,
    total_errors := 0 }

/-- The AXI MCDMA driver world at program start. -/
def AxiMcdmaWorld.boot {σ : Type} (hw : σ) : AxiMcdmaWorld σ :=
  { hw := hw, g_AxiMcdma := AxiMcdmaInst.zero, mm2s_mem := fun _ _ => McdmaSgDesc.zero,
    s2mm_mem := fun _ _ => McdmaSgDesc.zero }

/-- A zeroed `LpdDmaChannel_t`. -/
def LpdDmaChannel.zero : LpdDmaChannel :=
  { channel_id := 0, base_addr := 0, initialized := false, busy := false,
    transfer_complete := false, transfer_error := 0, bytes_transferred := 0,
    num_transfers := 0, errors := 0 }

/-- The LPD DMA driver world at program start, for a table of channel bases. -/
def LpdDmaWorld.boot {σ : Type} (hw : σ) (bases : Nat → Nat) : LpdDmaWorld σ :=
  { hw := hw,
    g_LpdDma := { initialized := false, channels := fun _ => LpdDmaChannel.zero,
                  total_bytes := 0, total_transfers := 0, total_errors := 0 },
    g_ChannelBaseAddrs := bases }


/-! ## AXI DMA transfers (axi_dma_driver.c) -/

def XAXIDMA_CDESC_OFFSET : Nat := 0x08
def XAXIDMA_CDESC_MSB_OFFSET : Nat := 0x0C
def XAXIDMA_TDESC_OFFSET : Nat := 0x10
def XAXIDMA_TDESC_MSB_OFFSET : Nat := 0x14
def XAXIDMA_SRCADDR_OFFSET : Nat := 0x18
def XAXIDMA_DSTADDR_OFFSET : Nat := 0x20
def XAXIDMA_BUFFLEN_OFFSET : Nat := 0x28

def XAXIDMA_CR_RUNSTOP_MASK : Nat := 0x00000001
def XAXIDMA_CR_RESET_MASK : Nat := 0x00000004

def XAXIDMA_BD_CTRL_TXSOF_MASK : Nat := 0x08000000
def XAXIDMA_BD_CTRL_TXEOF_MASK : Nat := 0x04000000

/-- The 64-bit buffer address held in a descriptor:
`buffer_addr_msb << 32 | buffer_addr`. -/
def AxiDmaSgDesc.buffer (d : AxiDmaSgDesc) : Nat := (d.buffer_addr_msb <<< 32) ||| d.buffer_addr

/-- The function `axi_dma_start_tx(buffer_addr, length)`. -/
def axi_dma_start_tx {σ : Type} (P : Platform σ) (buffer_addr length : Nat)
    (w : AxiDmaWorld σ) : Int × AxiDmaWorld σ :=
  if ¬ w.g_AxiDma.initialized then (DMA_ERROR_NOT_INIT, w)
  else
    let g := w.g_AxiDma
    let hw := P.Xil_DCacheFlushRange buffer_addr length w.hw
    let hw := axi_dma_write_tx_reg P g XAXIDMA_SRCADDR_OFFSET (u32 (buffer_addr &&& 0xFFFFFFFF)) hw
    let hw := axi_dma_write_tx_reg P g (XAXIDMA_SRCADDR_OFFSET + 4) (u32 (buffer_addr >>> 32)) hw
    let g := { g with tx_complete := false }
    let rd := axi_dma_read_tx_reg P g XAXIDMA_CR_OFFSET hw
    let hw := axi_dma_write_tx_reg P g XAXIDMA_CR_OFFSET (rd.1 ||| XAXIDMA_CR_RUNSTOP_MASK) rd.2
    let hw := axi_dma_write_tx_reg P g XAXIDMA_BUFFLEN_OFFSET length hw
    (DMA_SUCCESS, { w with hw := hw, g_AxiDma := g })

/-- The function `axi_dma_start_rx(buffer_addr, length)`. -/
def axi_dma_start_rx {σ : Type} (P : Platform σ) (buffer_addr length : Nat)
    (w : AxiDmaWorld σ) : Int × AxiDmaWorld σ :=
  if ¬ w.g_AxiDma.initialized then (DMA_ERROR_NOT_INIT, w)
  else
    let g := w.g_AxiDma
    let hw := P.Xil_DCacheInvalidateRange buffer_addr length w.hw
    let hw := axi_dma_write_rx_reg P g XAXIDMA_DSTADDR_OFFSET (u32 (buffer_addr &&& 0xFFFFFFFF)) hw
    let hw := axi_dma_write_rx_reg P g (XAXIDMA_DSTADDR_OFFSET + 4) (u32 (buffer_addr >>> 32)) hw
    let g := { g with rx_complete := false }
    let rd := axi_dma_read_rx_reg P g XAXIDMA_CR_OFFSET hw
    let hw := axi_dma_write_rx_reg P g XAXIDMA_CR_OFFSET (rd.1 ||| XAXIDMA_CR_RUNSTOP_MASK) rd.2
    let hw := axi_dma_write_rx_reg P g XAXIDMA_BUFFLEN_OFFSET length hw
    (DMA_SUCCESS, { w with hw := hw, g_AxiDma := g })

/-- The function `axi_dma_simple_transfer(src_addr, dst_addr, length)`. -/
def axi_dma_simple_transfer {σ : Type} (P : Platform σ) (src_addr dst_addr length : Nat)
    (w : AxiDmaWorld σ) : Int × AxiDmaWorld σ :=
  if ¬ w.g_AxiDma.initialized then (DMA_ERROR_NOT_INIT, w)
  else if length > w.g_AxiDma.max_transfer_len then (DMA_ERROR_INVALID_PARAM, w)
  else
    let r := axi_dma_start_rx P dst_addr length w
    if r.1 ≠ DMA_SUCCESS then r
    else
      let t := axi_dma_start_tx P src_addr length r.2
      if t.1 ≠ DMA_SUCCESS then t
      else (DMA_SUCCESS, t.2)

/-- The descriptor stores of `axi_dma_sg_transfer` into the TX slot. -/
def axi_dma_fill_tx_desc (src_addr length : Nat) (d : AxiDmaSgDesc) : AxiDmaSgDesc :=
  { d with buffer_addr := u32 (src_addr &&& 0xFFFFFFFF),
           buffer_addr_msb := u32 (src_addr >>> 32),
           control := u32 (XAXIDMA_BD_CTRL_TXSOF_MASK ||| XAXIDMA_BD_CTRL_TXEOF_MASK ||| length),
           status := 0 }

/-- The descriptor stores of `axi_dma_sg_transfer` into the RX slot. -/
def axi_dma_fill_rx_desc (dst_addr length : Nat) (d : AxiDmaSgDesc) : AxiDmaSgDesc :=
  { d with buffer_addr := u32 (dst_addr &&& 0xFFFFFFFF),
           buffer_addr_msb := u32 (dst_addr >>> 32),
           control := length,
           status := 0 }

/-- The register accesses of `axi_dma_sg_transfer`, from "Start RX channel" to
the two debug status reads: the RX channel is programmed first, then the TX
channel. -/
def axi_dma_sg_start {σ : Type} (P : Platform σ) (g : AxiDmaInst) (tx_desc rx_desc : Nat)
    (hw : σ) : σ :=
  let hw := axi_dma_write_rx_reg P g XAXIDMA_CDESC_OFFSET (u32 (rx_desc &&& 0xFFFFFFFF)) hw
  let hw := axi_dma_write_rx_reg P g XAXIDMA_CDESC_MSB_OFFSET (u32 (rx_desc >>> 32)) hw
  let rd := axi_dma_read_rx_reg P g XAXIDMA_CR_OFFSET hw
  let hw := axi_dma_write_rx_reg P g XAXIDMA_CR_OFFSET (rd.1 ||| XAXIDMA_CR_RUNSTOP_MASK) rd.2
  let hw := axi_dma_write_rx_reg P g XAXIDMA_TDESC_OFFSET (u32 (rx_desc &&& 0xFFFFFFFF)) hw
  let hw := axi_dma_write_rx_reg P g XAXIDMA_TDESC_MSB_OFFSET (u32 (rx_desc >>> 32)) hw
  let hw := axi_dma_write_tx_reg P g XAXIDMA_CDESC_OFFSET (u32 (tx_desc &&& 0xFFFFFFFF)) hw
  let hw := axi_dma_write_tx_reg P g XAXIDMA_CDESC_MSB_OFFSET (u32 (tx_desc >>> 32)) hw
  let rd := axi_dma_read_tx_reg P g XAXIDMA_CR_OFFSET hw
  let hw := axi_dma_write_tx_reg P g XAXIDMA_CR_OFFSET (rd.1 ||| XAXIDMA_CR_RUNSTOP_MASK) rd.2
  let hw := axi_dma_write_tx_reg P g XAXIDMA_TDESC_OFFSET (u32 (tx_desc &&& 0xFFFFFFFF)) hw
  let hw := axi_dma_write_tx_reg P g XAXIDMA_TDESC_MSB_OFFSET (u32 (tx_desc >>> 32)) hw
  let hw := (axi_dma_read_tx_reg P g XAXIDMA_SR_OFFSET hw).2
  (axi_dma_read_rx_reg P g XAXIDMA_SR_OFFSET hw).2

/-- The part of `axi_dma_sg_transfer` after its three checks, from "Setup TX
descriptor" to "Update ring indices".  The slot
`&g_AxiDma.tx_ring[g_AxiDma.tx_head]` is entry `tx_head` of the array that
`tx_ring` designates, at address `tx_ring + 64 * tx_head`.  (The remainder by a
zero `ring_size`, undefined in C, leaves the incremented index here.) -/
def axi_dma_sg_post {σ : Type} (P : Platform σ) (src_addr dst_addr length : Nat)
    (w : AxiDmaWorld σ) : AxiDmaWorld σ :=
  let g := w.g_AxiDma
  let tx_desc := u64 (g.tx_ring + sizeof_SgDesc * g.tx_head)
  let tx_mem := Function.update w.tx_mem g.tx_head
    (axi_dma_fill_tx_desc src_addr length (w.tx_mem g.tx_head))
  let rx_desc := u64 (g.rx_ring + sizeof_SgDesc * g.rx_head)
  let rx_mem := Function.update w.rx_mem g.rx_head
    (axi_dma_fill_rx_desc dst_addr length (w.rx_mem g.rx_head))
  let hw := P.Xil_DCacheFlushRange tx_desc sizeof_SgDesc w.hw
  let hw := P.Xil_DCacheFlushRange rx_desc sizeof_SgDesc hw
  let hw := P.Xil_DCacheFlushRange src_addr length hw
  let hw := P.Xil_DCacheInvalidateRange dst_addr length hw
  let g := { g with tx_complete := false, rx_complete := false }
  let hw := axi_dma_sg_start P g tx_desc rx_desc hw
  let g := { g with tx_head := u32 (g.tx_head + 1) % g.ring_size,
                    rx_head := u32 (g.rx_head + 1) % g.ring_size }
  { hw := hw, g_AxiDma := g, tx_mem := tx_mem, rx_mem := rx_mem }

/-- The function `axi_dma_sg_transfer(src_addr, dst_addr, length)`. -/
def axi_dma_sg_transfer {σ : Type} (P : Platform σ) (src_addr dst_addr length : Nat)
    (w : AxiDmaWorld σ) : Int × AxiDmaWorld σ :=
  if ¬ w.g_AxiDma.initialized then (DMA_ERROR_NOT_INIT, w)
  else if ¬ w.g_AxiDma.sg_mode then (DMA_ERROR_NOT_INIT, w)
  else if length > w.g_AxiDma.max_transfer_len then (DMA_ERROR_INVALID_PARAM, w)
  else (DMA_SUCCESS, axi_dma_sg_post P src_addr dst_addr length w)

/-- The function `axi_dma_wait_complete(timeout_us)`: the return value and the
world it leaves.  The first argument bounds the iterations of each of the two
polling loops. -/
def axi_dma_wait_complete {σ : Type} (P : Platform σ) (fuel timeout_us : Nat)
    (w : AxiDmaWorld σ) : Option (Int × AxiDmaWorld σ) :=
  match axi_dma_wait_tx P fuel timeout_us w with
  | none => none
  | some t =>
    if t.ret ≠ DMA_SUCCESS then some (t.ret, t.world)
    else
      match axi_dma_wait_rx P fuel timeout_us t.world with
      | none => none
      | some r => some (r.ret, r.world)

/-- The function `axi_dma_clear_stats()`. -/
def axi_dma_clear_stats {σ : Type} (w : AxiDmaWorld σ) : AxiDmaWorld σ :=
  { w with g_AxiDma := { w.g_AxiDma with
      tx_bytes := 0, rx_bytes := 0, tx_transfers := 0, rx_transfers := 0, errors := 0 } }

/-- A call of one of the driver functions that may follow ring set-up, with
its arguments (and, for the waits, the bound on loop iterations that the model
runs). -/
inductive AxiDmaCall where
  | sg_transfer (src_addr dst_addr length : Nat)
  | simple_transfer (src_addr dst_addr length : Nat)
  | wait_tx (fuel timeout_us : Nat)
  | wait_rx (fuel timeout_us : Nat)
  | wait_complete (fuel timeout_us : Nat)
  | clear_stats
deriving Repr, DecidableEq

/-- The world after a call returns; `none` when a wait is still polling at the
bound. -/
def AxiDmaCall.run {σ : Type} (P : Platform σ) (c : AxiDmaCall) (w : AxiDmaWorld σ) :
    Option (AxiDmaWorld σ) :=
  match c with
  | AxiDmaCall.sg_transfer s d l => some (axi_dma_sg_transfer P s d l w).2
  | AxiDmaCall.simple_transfer s d l => some (axi_dma_simple_transfer P s d l w).2
  | AxiDmaCall.wait_tx fuel t => (axi_dma_wait_tx P fuel t w).map (fun r => r.world)
  | AxiDmaCall.wait_rx fuel t => (axi_dma_wait_rx P fuel t w).map (fun r => r.world)
  | AxiDmaCall.wait_complete fuel t => (axi_dma_wait_complete P fuel t w).map (fun r => r.2)
  | AxiDmaCall.clear_stats => some (axi_dma_clear_stats w)

/-- The world after a sequence of calls, each of which has returned. -/
def axi_dma_run_calls {σ : Type} (P : Platform σ) : List AxiDmaCall → AxiDmaWorld σ →
    Option (AxiDmaWorld σ)
  | [], w => some w
  | c :: cs, w =>
    match c.run P w with
    | none => none
    | some w1 => axi_dma_run_calls P cs w1

/-! ## AXI CDMA transfers (axi_cdma_driver.c) -/

def XAXICDMA_CDESC_OFFSET : Nat := 0x08
def XAXICDMA_CDESC_MSB_OFFSET : Nat := 0x0C
def XAXICDMA_TDESC_OFFSET : Nat := 0x10
def XAXICDMA_TDESC_MSB_OFFSET : Nat := 0x14
def XAXICDMA_SA_OFFSET : Nat := 0x18
def XAXICDMA_SA_MSB_OFFSET : Nat := 0x1C
def XAXICDMA_DA_OFFSET : Nat := 0x20
def XAXICDMA_DA_MSB_OFFSET : Nat := 0x24
def XAXICDMA_BTT_OFFSET : Nat := 0x28

/-- The function `axi_cdma_is_busy()`: `!(status & XAXICDMA_SR_IDLE_MASK)`. -/
def axi_cdma_is_busy {σ : Type} (P : Platform σ) (g : AxiCdmaInst) (hw : σ) : Bool × σ :=
  let rd := axi_cdma_read_reg P g XAXICDMA_SR_OFFSET hw
  (decide (rd.1 &&& XAXICDMA_SR_IDLE_MASK = 0), rd.2)

/-- The function `axi_cdma_simple_transfer(src_addr, dst_addr, length)`. -/
def axi_cdma_simple_transfer {σ : Type} (P : Platform σ) (src_addr dst_addr length : Nat)
    (w : AxiCdmaWorld σ) : Int × AxiCdmaWorld σ :=
  if ¬ w.g_AxiCdma.initialized then (DMA_ERROR_NOT_INIT, w)
  else
    let g := w.g_AxiCdma
    let b := axi_cdma_is_busy P g w.hw
    if b.1 then (DMA_ERROR_BUSY, { w with hw := b.2 })
    else
      let hw := P.Xil_DCacheFlushRange src_addr length b.2
      let hw := P.Xil_DCacheInvalidateRange dst_addr length hw
      let g := { g with transfer_complete := false }
      let hw := axi_cdma_write_reg P g XAXICDMA_SA_OFFSET (u32 (src_addr &&& 0xFFFFFFFF)) hw
      let hw := axi_cdma_write_reg P g XAXICDMA_SA_MSB_OFFSET (u32 (src_addr >>> 32)) hw
      let hw := axi_cdma_write_reg P g XAXICDMA_DA_OFFSET (u32 (dst_addr &&& 0xFFFFFFFF)) hw
      let hw := axi_cdma_write_reg P g XAXICDMA_DA_MSB_OFFSET (u32 (dst_addr >>> 32)) hw
      let hw := axi_cdma_write_reg P g XAXICDMA_BTT_OFFSET length hw
      (DMA_SUCCESS, { w with hw := hw, g_AxiCdma := g })

/-- The descriptor stores of `axi_cdma_sg_transfer`. -/
def axi_cdma_fill_desc (src_addr dst_addr length : Nat) (d : AxiCdmaSgDesc) : AxiCdmaSgDesc :=
  { d with src_addr := u32 (src_addr &&& 0xFFFFFFFF),
           src_addr_msb := u32 (src_addr >>> 32),
           dst_addr := u32 (dst_addr &&& 0xFFFFFFFF),
           dst_addr_msb := u32 (dst_addr >>> 32),
           control := length,
           status := 0 }

/-- The function `axi_cdma_sg_transfer(src_addr, dst_addr, length)`.  (The
remainder by a zero `ring_size`, undefined in C, leaves the incremented index
here.) -/
def axi_cdma_sg_transfer {σ : Type} (P : Platform σ) (src_addr dst_addr length : Nat)
    (w : AxiCdmaWorld σ) : Int × AxiCdmaWorld σ :=
  if ¬ w.g_AxiCdma.initialized ∨ ¬ w.g_AxiCdma.sg_mode then (DMA_ERROR_NOT_INIT, w)
  else
    let g := w.g_AxiCdma
    let b := axi_cdma_is_busy P g w.hw
    if b.1 then (DMA_ERROR_BUSY, { w with hw := b.2 })
    else
      let desc := u64 (g.desc_ring + sizeof_SgDesc * g.desc_head)
      let mem := Function.update w.desc_mem g.desc_head
        (axi_cdma_fill_desc src_addr dst_addr length (w.desc_mem g.desc_head))
      let hw := P.Xil_DCacheFlushRange desc sizeof_SgDesc b.2
      let hw := P.Xil_DCacheFlushRange src_addr length hw
      let hw := P.Xil_DCacheInvalidateRange dst_addr length hw
      let g := { g with transfer_complete := false }
      let hw := axi_cdma_write_reg P g XAXICDMA_CDESC_OFFSET (u32 (desc &&& 0xFFFFFFFF)) hw
      let hw := axi_cdma_write_reg P g XAXICDMA_CDESC_MSB_OFFSET (u32 (desc >>> 32)) hw
      let hw := axi_cdma_write_reg P g XAXICDMA_TDESC_OFFSET (u32 (desc &&& 0xFFFFFFFF)) hw
      let hw := axi_cdma_write_reg P g XAXICDMA_TDESC_MSB_OFFSET (u32 (desc >>> 32)) hw
      let g := { g with desc_head := u32 (g.desc_head + 1) % g.ring_size }
      (DMA_SUCCESS, { hw := hw, g_AxiCdma := g, desc_mem := mem })

/-! ## AXI MCDMA transfers (axi_mcdma_driver.c) -/

def XMCDMA_CH_CDESC_OFFSET : Nat := 0x08
def XMCDMA_CH_CDESC_MSB_OFFSET : Nat := 0x0C
def XMCDMA_CH_TDESC_OFFSET : Nat := 0x10
def XMCDMA_CH_TDESC_MSB_OFFSET : Nat := 0x14
def XMCDMA_CH_CR_RS_MASK : Nat := 0x00000001
def XMCDMA_BD_CTRL_SOF_MASK : Nat := 0x80000000
def XMCDMA_BD_CTRL_EOF_MASK : Nat := 0x40000000

/-- The descriptor stores of `axi_mcdma_start_mm2s`. -/
def mcdma_fill_mm2s_desc (buffer_addr length : Nat) (d : McdmaSgDesc) : McdmaSgDesc :=
  { d with buffer_addr := u32 (buffer_addr &&& 0xFFFFFFFF),
           buffer_addr_msb := u32 (buffer_addr >>> 32),
           control := u32 (XMCDMA_BD_CTRL_SOF_MASK ||| XMCDMA_BD_CTRL_EOF_MASK ||| length),
           status := 0 }

/-- The descriptor stores of `axi_mcdma_start_s2mm`. -/
def mcdma_fill_s2mm_desc (buffer_addr length : Nat) (d : McdmaSgDesc) : McdmaSgDesc :=
  { d with buffer_addr := u32 (buffer_addr &&& 0xFFFFFFFF),
           buffer_addr_msb := u32 (buffer_addr >>> 32),
           control := length,
           status := 0 }

/-- The function `axi_mcdma_start_mm2s(channel, buffer_addr, length)`.  (The
remainder by a zero `ring_size`, undefined in C, leaves the incremented index
here.) -/
def axi_mcdma_start_mm2s {σ : Type} (P : Platform σ) (channel buffer_addr length : Nat)
    (w : AxiMcdmaWorld σ) : Int × AxiMcdmaWorld σ :=
  if ¬ w.g_AxiMcdma.initialized ∨ channel ≥ w.g_AxiMcdma.num_mm2s_channels then
    (DMA_ERROR_INVALID_PARAM, w)
  else if ¬ (w.g_AxiMcdma.mm2s_channels channel).enabled then (DMA_ERROR_NOT_INIT, w)
  else
    let g := w.g_AxiMcdma
    let ch := g.mm2s_channels channel
    let desc := u64 (ch.desc_ring + sizeof_SgDesc * ch.desc_head)
    let mem := Function.update (w.mm2s_mem channel) ch.desc_head
      (mcdma_fill_mm2s_desc buffer_addr length (w.mm2s_mem channel ch.desc_head))
    let hw := P.Xil_DCacheFlushRange desc sizeof_SgDesc w.hw
    let hw := P.Xil_DCacheFlushRange buffer_addr length hw
    let ch := { ch with transfer_complete := false, busy := true }
    let hw := mcdma_write_mm2s_ch_reg P g channel XMCDMA_CH_CDESC_OFFSET
      (u32 (desc &&& 0xFFFFFFFF)) hw
    let hw := mcdma_write_mm2s_ch_reg P g channel XMCDMA_CH_CDESC_MSB_OFFSET
      (u32 (desc >>> 32)) hw
    let rd := mcdma_read_mm2s_ch_reg P g channel XMCDMA_CH_CR_OFFSET hw
    let hw := mcdma_write_mm2s_ch_reg P g channel XMCDMA_CH_CR_OFFSET
      (rd.1 ||| XMCDMA_CH_CR_RS_MASK) rd.2
    let hw := mcdma_write_mm2s_ch_reg P g channel XMCDMA_CH_TDESC_OFFSET
      (u32 (desc &&& 0xFFFFFFFF)) hw
    let hw := mcdma_write_mm2s_ch_reg P g channel XMCDMA_CH_TDESC_MSB_OFFSET
      (u32 (desc >>> 32)) hw
    let ch := { ch with desc_head := u32 (ch.desc_head + 1) % ch.ring_size }
    (DMA_SUCCESS,
      ({ w with hw := hw, mm2s_mem := Function.update w.mm2s_mem channel mem }).setMm2s channel ch)

/-- The function `axi_mcdma_start_s2mm(channel, buffer_addr, length)`. -/
def axi_mcdma_start_s2mm {σ : Type} (P : Platform σ) (channel buffer_addr length : Nat)
    (w : AxiMcdmaWorld σ) : Int × AxiMcdmaWorld σ :=
  if ¬ w.g_AxiMcdma.initialized ∨ channel ≥ w.g_AxiMcdma.num_s2mm_channels then
    (DMA_ERROR_INVALID_PARAM, w)
  else if ¬ (w.g_AxiMcdma.s2mm_channels channel).enabled then (DMA_ERROR_NOT_INIT, w)
  else
    let g := w.g_AxiMcdma
    let ch := g.s2mm_channels channel
    let desc := u64 (ch.desc_ring + sizeof_SgDesc * ch.desc_head)
    let mem := Function.update (w.s2mm_mem channel) ch.desc_head
      (mcdma_fill_s2mm_desc buffer_addr length (w.s2mm_mem channel ch.desc_head))
    let hw := P.Xil_DCacheFlushRange desc sizeof_SgDesc w.hw
    let hw := P.Xil_DCacheInvalidateRange buffer_addr length hw
    let ch := { ch with transfer_complete := false, busy := true }
    let hw := mcdma_write_s2mm_ch_reg P g channel XMCDMA_CH_CDESC_OFFSET
      (u32 (desc &&& 0xFFFFFFFF)) hw
    let hw := mcdma_write_s2mm_ch_reg P g channel XMCDMA_CH_CDESC_MSB_OFFSET
      (u32 (desc >>> 32)) hw
    let rd := mcdma_read_s2mm_ch_reg P g channel XMCDMA_CH_CR_OFFSET hw
    let hw := mcdma_write_s2mm_ch_reg P g channel XMCDMA_CH_CR_OFFSET
      (rd.1 ||| XMCDMA_CH_CR_RS_MASK) rd.2
    let hw := mcdma_write_s2mm_ch_reg P g channel XMCDMA_CH_TDESC_OFFSET
      (u32 (desc &&& 0xFFFFFFFF)) hw
    let hw := mcdma_write_s2mm_ch_reg P g channel XMCDMA_CH_TDESC_MSB_OFFSET
      (u32 (desc >>> 32)) hw
    let ch := { ch with desc_head := u32 (ch.desc_head + 1) % ch.ring_size }
    (DMA_SUCCESS,
      ({ w with hw := hw, s2mm_mem := Function.update w.s2mm_mem channel mem }).setS2mm channel ch)

/-- The function `axi_mcdma_transfer(channel, src_addr, dst_addr, length)`. -/
def axi_mcdma_transfer {σ : Type} (P : Platform σ) (channel src_addr dst_addr length : Nat)
    (w : AxiMcdmaWorld σ) : Int × AxiMcdmaWorld σ :=
  let r := axi_mcdma_start_s2mm P channel dst_addr length w
  if r.1 ≠ DMA_SUCCESS then r
  else
    let t := axi_mcdma_start_mm2s P channel src_addr length r.2
    if t.1 ≠ DMA_SUCCESS then t
    else (DMA_SUCCESS, t.2)

/-- The function `axi_mcdma_wait_complete(channel, timeout_us)`. -/
def axi_mcdma_wait_complete {σ : Type} (P : Platform σ) (fuel channel timeout_us : Nat)
    (w : AxiMcdmaWorld σ) : Option (Int × AxiMcdmaWorld σ) :=
  match axi_mcdma_wait_mm2s P fuel channel timeout_us w with
  | none => none
  | some t =>
    if t.ret ≠ DMA_SUCCESS then some (t.ret, t.world)
    else
      match axi_mcdma_wait_s2mm P fuel channel timeout_us t.world with
      | none => none
      | some r => some (r.ret, r.world)

/-! ## LPD DMA initialisation and transfers (lpd_dma_driver.c) -/

def XLPDDMA_ZDMA_CH_IEN : Nat := 0x108
def XLPDDMA_ZDMA_CH_IDS : Nat := 0x10C
def XLPDDMA_ZDMA_CH_CTRL0 : Nat := 0x110
def XLPDDMA_ZDMA_CH_CTRL1 : Nat := 0x114
def XLPDDMA_ZDMA_CH_CTRL2 : Nat := 0x200
def XLPDDMA_ZDMA_CH_DATA_ATTR : Nat := 0x120
def XLPDDMA_ZDMA_CH_DSCR_ATTR : Nat := 0x124
def XLPDDMA_ZDMA_CH_SRC_DSCR_WRD0 : Nat := 0x128
def XLPDDMA_ZDMA_CH_SRC_DSCR_WRD1 : Nat := 0x12C
def XLPDDMA_ZDMA_CH_SRC_DSCR_WRD2 : Nat := 0x130
def XLPDDMA_ZDMA_CH_SRC_DSCR_WRD3 : Nat := 0x134
def XLPDDMA_ZDMA_CH_DST_DSCR_WRD0 : Nat := 0x138
def XLPDDMA_ZDMA_CH_DST_DSCR_WRD1 : Nat := 0x13C
def XLPDDMA_ZDMA_CH_DST_DSCR_WRD2 : Nat := 0x140
def XLPDDMA_ZDMA_CH_DST_DSCR_WRD3 : Nat := 0x144
def XLPDDMA_CTRL0_MODE_NORMAL : Nat := 0x00000000
def XLPDDMA_STATUS_STATE_BUSY : Nat := 0x00000002

/-- The loop `while (timeout > 0) { status = ...; if (idle) break; usleep(1); timeout--; }`
of `lpd_dma_reset_channel`, by recursion on `timeout`; the result is the value
of `timeout` when the loop is left. -/
def lpd_dma_reset_wait {σ : Type} (P : Platform σ) (channel : Nat) :
    Nat → LpdDmaWorld σ → Nat × LpdDmaWorld σ
  | 0, w => (0, w)
  | timeout + 1, w =>
    let rd := lpd_dma_read_reg P w channel XLPDDMA_ZDMA_CH_STATUS
    let w := { w with hw := rd.2 }
    if rd.1 &&& XLPDDMA_STATUS_STATE_MASK = XLPDDMA_STATUS_STATE_IDLE then (timeout + 1, w)
    else lpd_dma_reset_wait P channel timeout { w with hw := P.usleep 1 w.hw }

/-- The function `lpd_dma_reset_channel(channel)`. -/
def lpd_dma_reset_channel {σ : Type} (P : Platform σ) (channel : Nat) (w : LpdDmaWorld σ) :
    Int × LpdDmaWorld σ :=
  if channel ≥ LPD_DMA_NUM_CHANNELS then (DMA_ERROR_INVALID_PARAM, w)
  else
    let w := { w with hw := lpd_dma_write_reg P w channel XLPDDMA_ZDMA_CH_IDS XLPDDMA_IXR_ALL_MASK }
    let w := { w with hw := lpd_dma_write_reg P w channel XLPDDMA_ZDMA_CH_ISR XLPDDMA_IXR_ALL_MASK }
    let r := lpd_dma_reset_wait P channel 1000 w
    if r.1 = 0 then (DMA_ERROR_TIMEOUT, r.2)
    else
      let ch := { r.2.g_LpdDma.channels channel with
                    transfer_complete := false, transfer_error := 0, busy := false }
      (DMA_SUCCESS, r.2.setChannel channel ch)

/-- The function `lpd_dma_configure_channel(channel, use_irq)`. -/
def lpd_dma_configure_channel {σ : Type} (P : Platform σ) (channel : Nat) (use_irq : Bool)
    (w : LpdDmaWorld σ) : Int × LpdDmaWorld σ :=
  if channel ≥ LPD_DMA_NUM_CHANNELS then (DMA_ERROR_INVALID_PARAM, w)
  else
    let ctrl0 := XLPDDMA_CTRL0_MODE_NORMAL
    let w := { w with hw := lpd_dma_write_reg P w channel XLPDDMA_ZDMA_CH_CTRL0 ctrl0 }
    let w := { w with hw := lpd_dma_write_reg P w channel XLPDDMA_ZDMA_CH_DATA_ATTR 0x04830483 }
    let w := { w with hw := lpd_dma_write_reg P w channel XLPDDMA_ZDMA_CH_DSCR_ATTR 0x04830483 }
    let ien := XLPDDMA_IXR_DMA_DONE ||| XLPDDMA_IXR_ERR_MASK
    let w :=
      if use_irq then { w with hw := lpd_dma_write_reg P w channel XLPDDMA_ZDMA_CH_IEN ien }
      else w
    (DMA_SUCCESS, w)

/-- Body of the channel loop of `lpd_dma_init` for channel `i`. -/
def lpd_dma_init_channel {σ : Type} (P : Platform σ) (i : Nat) (w : LpdDmaWorld σ) :
    LpdDmaWorld σ :=
  let ch := { w.g_LpdDma.channels i with
                channel_id := i, base_addr := w.g_ChannelBaseAddrs i, initialized := false,
                busy := false }
  let w := w.setChannel i ch
  let r := lpd_dma_reset_channel P i w
  if r.1 ≠ 0 then r.2
  else
    let c := lpd_dma_configure_channel P i false r.2
    if c.1 ≠ 0 then c.2
    else c.2.setChannel i { c.2.g_LpdDma.channels i with initialized := true }

/-- The function `lpd_dma_init()`. -/
def lpd_dma_init {σ : Type} (P : Platform σ) (w : LpdDmaWorld σ) : Int × LpdDmaWorld σ :=
  let g : LpdDmaInst :=
    { initialized := false, channels := fun _ => LpdDmaChannel.zero, total_bytes := 0,
      total_transfers := 0, total_errors := 0 }
  let w := { w with g_LpdDma := g }
  let w := forRange 0 LPD_DMA_NUM_CHANNELS (lpd_dma_init_channel P) w
  (DMA_SUCCESS, { w with g_LpdDma := { w.g_LpdDma with initialized := true } })

/-- The function `lpd_dma_cleanup()`. -/
def lpd_dma_cleanup {σ : Type} (P : Platform σ) (w : LpdDmaWorld σ) : LpdDmaWorld σ :=
  if ¬ w.g_LpdDma.initialized then w
  else
    let w := forRange 0 LPD_DMA_NUM_CHANNELS (fun i w => (lpd_dma_reset_channel P i w).2) w
    { w with g_LpdDma := { w.g_LpdDma with initialized := false } }

/-- The function `lpd_dma_is_busy(channel)`. -/
def lpd_dma_is_busy {σ : Type} (P : Platform σ) (channel : Nat) (w : LpdDmaWorld σ) :
    Bool × σ :=
  if channel ≥ LPD_DMA_NUM_CHANNELS then (false, w.hw)
  else
    let rd := lpd_dma_read_reg P w channel XLPDDMA_ZDMA_CH_STATUS
    (decide (rd.1 &&& XLPDDMA_STATUS_STATE_MASK = XLPDDMA_STATUS_STATE_BUSY), rd.2)

/-- The register programming of `lpd_dma_transfer`, steps 1 to 7 with the
status reads around the start and the `usleep(10)` after it. -/
def lpd_dma_program {σ : Type} (P : Platform σ) (channel src_addr dst_addr length : Nat)
    (w : LpdDmaWorld σ) : LpdDmaWorld σ :=
  let wr := fun (offset value : Nat) (w : LpdDmaWorld σ) =>
    { w with hw := lpd_dma_write_reg P w channel offset value }
  let rd := fun (offset : Nat) (w : LpdDmaWorld σ) =>
    { w with hw := (lpd_dma_read_reg P w channel offset).2 }
  let w := wr XLPDDMA_ZDMA_CH_CTRL2 0 w
  let w := wr XLPDDMA_ZDMA_CH_ISR XLPDDMA_IXR_ALL_MASK w
  let w := wr XLPDDMA_ZDMA_CH_SRC_DSCR_WRD0 (u32 (src_addr &&& 0xFFFFFFFF)) w
  let w := wr XLPDDMA_ZDMA_CH_SRC_DSCR_WRD1 (u32 (src_addr >>> 32)) w
  let w := wr XLPDDMA_ZDMA_CH_SRC_DSCR_WRD2 length w
  let w := wr XLPDDMA_ZDMA_CH_SRC_DSCR_WRD3 0 w
  let w := wr XLPDDMA_ZDMA_CH_DST_DSCR_WRD0 (u32 (dst_addr &&& 0xFFFFFFFF)) w
  let w := wr XLPDDMA_ZDMA_CH_DST_DSCR_WRD1 (u32 (dst_addr >>> 32)) w
  let w := wr XLPDDMA_ZDMA_CH_DST_DSCR_WRD2 length w
  let w := wr XLPDDMA_ZDMA_CH_DST_DSCR_WRD3 0 w
  let w := wr XLPDDMA_ZDMA_CH_TOTAL_BYTE length w
  let w := wr XLPDDMA_ZDMA_CH_CTRL0 XLPDDMA_CTRL0_MODE_NORMAL w
  let w := rd XLPDDMA_ZDMA_CH_STATUS w
  let w := rd XLPDDMA_ZDMA_CH_ISR w
  let w := wr XLPDDMA_ZDMA_CH_CTRL2 1 w
  let w := { w with hw := P.usleep 10 w.hw }
  let w := rd XLPDDMA_ZDMA_CH_STATUS w
  rd XLPDDMA_ZDMA_CH_ISR w

/-- The function `lpd_dma_transfer(channel, src_addr, dst_addr, length)`. -/
def lpd_dma_transfer {σ : Type} (P : Platform σ) (channel src_addr dst_addr length : Nat)
    (w : LpdDmaWorld σ) : Int × LpdDmaWorld σ :=
  if channel ≥ LPD_DMA_NUM_CHANNELS then (DMA_ERROR_INVALID_PARAM, w)
  else if ¬ (w.g_LpdDma.channels channel).initialized then (DMA_ERROR_NOT_INIT, w)
  else
    let b := lpd_dma_is_busy P channel w
    if b.1 then (DMA_ERROR_BUSY, { w with hw := b.2 })
    else
      let hw := P.Xil_DCacheFlushRange src_addr length b.2
      let hw := P.Xil_DCacheInvalidateRange dst_addr length hw
      let ch := { w.g_LpdDma.channels channel with
                    transfer_complete := false, transfer_error := 0, busy := true }
      let w := ({ w with hw := hw }).setChannel channel ch
      (DMA_SUCCESS, lpd_dma_program P channel src_addr dst_addr length w)

/-! ## The platform that records what the drivers do -/

/-- One call of a platform primitive, with its arguments. -/
inductive Event where
  | In32 (addr : Nat)
  | Out32 (addr value : Nat)
  | usleep (us : Nat)
  | DCacheFlushRange (addr len : Nat)
  | DCacheInvalidateRange (addr len : Nat)
  | cycle_counter
deriving Repr, DecidableEq

/-- The platform whose state is the list of primitive calls made so far, in
order.  A register read returns `rd addr log`, the cycle counter `clk log`: any
value that may depend on the address and on everything that happened before.
The clock constant is 1 MHz. -/
def Platform.recording (rd : Nat → List Event → Nat) (clk : List Event → Nat) :
    Platform (List Event) :=
  { Xil_In32 := fun a log => (rd a log, log ++ [Event.In32 a]),
    Xil_Out32 := fun a v log => log ++ [Event.Out32 a v],
    usleep := fun us log => log ++ [Event.usleep us],
    Xil_DCacheFlushRange := fun a n log => log ++ [Event.DCacheFlushRange a n],
    Xil_DCacheInvalidateRange := fun a n log => log ++ [Event.DCacheInvalidateRange a n],
    pmu_read_cycle_counter := fun log => (clk log, log ++ [Event.cycle_counter]),
    APU_CLK_FREQ_HZ := 1000000 }

/-- The event is a register write. -/
def Event.isWrite : Event → Bool
  | Event.Out32 _ _ => true
  | _ => false

/-- The event is a write to the register at address `a`. -/
def Event.isWriteTo (a : Nat) : Event → Bool
  | Event.Out32 b _ => decide (b = a)
  | _ => false

/-- The event is a write to a register at one of the addresses `base + off`,
`off < span` (as 64-bit addresses). -/
def Event.isWriteIn (base span : Nat) : Event → Bool
  | Event.Out32 b _ => decide (∃ off, off < span ∧ b = u64 (base + off))
  | _ => false

/-- The event is a read of the register at address `a`. -/
def Event.isReadOf (a : Nat) : Event → Bool
  | Event.In32 b => decide (b = a)
  | _ => false

/-- Scanning the events in order: no event satisfying `q` occurs before the
first event satisfying `p`. -/
def guardedBy (p q : Event → Bool) : List Event → Bool
  | [] => true
  | e :: es => !q e && (p e || guardedBy p q es)

/-- Every event of `evs` that satisfies `q` has an event satisfying `p` somewhere
before it. -/
def Precedes (p q : Event → Bool) (evs : List Event) : Prop :=
  ∀ pre e post, evs = pre ++ e :: post → q e = true → ∃ e', e' ∈ pre ∧ p e' = true

/-- The log `log` continues `log0` with events that all satisfy `ok`. -/
def Continues (ok : Event → Bool) (log0 log : List Event) : Prop :=
  ∃ evs, log = log0 ++ evs ∧ ∀ e, e ∈ evs → ok e = true

/-- The event is the cache flush of exactly the `n` bytes at `a`. -/
def Event.isFlush (a n : Nat) : Event → Bool
  | Event.DCacheFlushRange b m => decide (b = a ∧ m = n)
  | _ => false

/-- The event is the cache invalidate of exactly the `n` bytes at `a`. -/
def Event.isInvalidate (a n : Nat) : Event → Bool
  | Event.DCacheInvalidateRange b m => decide (b = a ∧ m = n)
  | _ => false

/-! ## Sample states -/

/-- A descriptor with stale contents. -/
def AxiDmaSgDesc.stale : AxiDmaSgDesc :=
  { AxiDmaSgDesc.zero with buffer_addr := 0xDEAD, control := 0x55, status := 0x80000000 }

/-- An AXI DMA world with stale descriptors in both arrays and head indices 3
and 2. -/
def AxiDmaWorld.stale : AxiDmaWorld Unit :=
  { hw := (),
    g_AxiDma := { AxiDmaInst.zero with tx_head := 3, rx_head := 2 },
    tx_mem := fun _ => AxiDmaSgDesc.stale,
    rx_mem := fun _ => AxiDmaSgDesc.stale }

/-- An AXI DMA world as after a successful `axi_dma_init` on a scatter/gather
engine: initialised, SG mode, a maximum transfer length of `0x3FFFFFF` bytes,
register base `0xA4000000`, and rings of four slots at `0x1000` and `0x2000`
set up by `axi_dma_setup_sg_ring`. -/
def AxiDmaWorld.ready {σ : Type} (P : Platform σ) (hw : σ) : AxiDmaWorld σ :=
  let g := { AxiDmaInst.zero with base_addr := 0xA4000000, initialized := true, sg_mode := true,
                                  has_mm2s := true, has_s2mm := true,
                                  max_transfer_len := 0x3FFFFFF }
  (axi_dma_setup_sg_ring P 0x1000 0x2000 4 { AxiDmaWorld.boot hw with g_AxiDma := g }).2

/-! ## Frame conditions -/

/-- The record `g'` differs from `g` at most in the fields that
`axi_dma_wait_tx` assigns: `tx_complete`, `tx_transfers`, `tx_error` and
`errors`. -/
def AxiDmaInst.tx_wait_frame (g g' : AxiDmaInst) : Prop :=
  { g' with tx_complete := g.tx_complete, tx_transfers := g.tx_transfers,
            tx_error := g.tx_error, errors := g.errors } = g

/-- The record `g'` differs from `g` at most in the fields that
`axi_dma_wait_rx` assigns: `rx_complete`, `rx_transfers`, `rx_error` and
`errors`. -/
def AxiDmaInst.rx_wait_frame (g g' : AxiDmaInst) : Prop :=
  { g' with rx_complete := g.rx_complete, rx_transfers := g.rx_transfers,
            rx_error := g.rx_error, errors := g.errors } = g

/-- The ring invariant of the AXI DMA engine for rings of `n` slots at `tx` and
`rx`: the stored ring pointers and size, both head indices inside the ring, and
every slot linked to its successor in the same ring. -/
def AxiDmaWorld.ringOk {σ : Type} (tx rx n : Nat) (w : AxiDmaWorld σ) : Prop :=
  w.g_AxiDma.ring_size = n ∧ w.g_AxiDma.tx_ring = tx ∧ w.g_AxiDma.rx_ring = rx ∧
  w.g_AxiDma.tx_head < n ∧ w.g_AxiDma.rx_head < n ∧
  ∀ i, i < n → (w.tx_mem i).link = tx + 64 * ((i + 1) % n) ∧
               (w.rx_mem i).link = rx + 64 * ((i + 1) % n)

/-- An AXI DMA world as after `axi_dma_init` on an engine without
scatter/gather support: initialised, `sg_mode` false, a maximum transfer length
of 100 bytes. -/
def AxiDmaWorld.simpleOnly {σ : Type} (hw : σ) : AxiDmaWorld σ :=
  let g := { AxiDmaInst.zero with base_addr := 0xA4000000, initialized := true,
                                  has_mm2s := true, has_s2mm := true, max_transfer_len := 100 }
  { AxiDmaWorld.boot hw with g_AxiDma := g }

/-- An AXI CDMA world as after `axi_cdma_init` on an engine without
scatter/gather support: initialised, register base `0xA4010000`. -/
def AxiCdmaWorld.ready {σ : Type} (hw : σ) : AxiCdmaWorld σ :=
  let g := { AxiCdmaInst.zero with base_addr := 0xA4010000, initialized := true }
  { AxiCdmaWorld.boot hw with g_AxiCdma := g }

/-- An AXI MCDMA world as after `axi_mcdma_init` and ring set-up: initialised,
register base `0xA4020000`, sixteen channels per direction, every channel
enabled and idle with a ring of four slots (MM2S rings at `0x3000 + 0x100 * i`,
S2MM rings at `0x5000 + 0x100 * i`). -/
def AxiMcdmaWorld.ready {σ : Type} (hw : σ) : AxiMcdmaWorld σ :=
  let g := { AxiMcdmaInst.zero with
               base_addr := 0xA4020000, initialized := true, num_mm2s_channels := 16,
               num_s2mm_channels := 16,
               mm2s_channels := fun i =>
                 { McdmaChannel.zero with channel_id := i, enabled := true,
                                          desc_ring := 0x3000 + 0x100 * i, ring_size := 4 },
               s2mm_channels := fun i =>
                 { McdmaChannel.zero with channel_id := i, enabled := true,
                                          desc_ring := 0x5000 + 0x100 * i, ring_size := 4 } }
  { AxiMcdmaWorld.boot hw with g_AxiMcdma := g }

/-- The LPD DMA world after `lpd_dma_init()` followed by `lpd_dma_cleanup()`,
run from program start on the recording platform whose registers all read `0`,
with the channel register blocks at `0xFFA80000 + 0x10000 * c`. -/
def LpdDmaWorld.cleanedUp : LpdDmaWorld (List Event) :=
  lpd_dma_cleanup (Platform.recording (fun _ _ => 0) (fun _ => 0))
    (lpd_dma_init (Platform.recording (fun _ _ => 0) (fun _ => 0))
      (LpdDmaWorld.boot [] (fun c => 0xFFA80000 + 0x10000 * c))).2

/-! ## Interrupt bits of the LPD DMA (lpd_dma_driver.h) -/

def XLPDDMA_IXR_DMA_PAUSE : Nat := 0x00000800
def XLPDDMA_IXR_AXI_WR_DATA : Nat := 0x00000200
def XLPDDMA_IXR_AXI_RD_DATA : Nat := 0x00000100
def XLPDDMA_IXR_AXI_RD_DST_DSCR : Nat := 0x00000080
def XLPDDMA_IXR_AXI_RD_SRC_DSCR : Nat := 0x00000040
def XLPDDMA_IXR_DST_ACCT_ERR : Nat := 0x00000020
def XLPDDMA_IXR_SRC_ACCT_ERR : Nat := 0x00000010
def XLPDDMA_IXR_BYTE_CNT_OVRFL : Nat := 0x00000008
def XLPDDMA_IXR_DST_DSCR_DONE : Nat := 0x00000004
def XLPDDMA_IXR_SRC_DSCR_DONE : Nat := 0x00000002
def XLPDDMA_IXR_INV_APB : Nat := 0x00000001

/-! ## Length fields of the descriptor control words -/

/-- The mask `XAXIDMA_BD_CTRL_LENGTH_MASK` (axi_dma_driver.h). -/
def XAXIDMA_BD_CTRL_LENGTH_MASK : Nat := 0x03FFFFFF

/-- The mask `XMCDMA_BD_CTRL_LENGTH_MASK` (axi_mcdma_driver.h). -/
def XMCDMA_BD_CTRL_LENGTH_MASK : Nat := 0x03FFFFFF

/-- The platform on which every register reads `v` and nothing else happens:
writes, sleeps and cache operations change nothing, the cycle counter stays at
`0` (with a 1 MHz clock constant). -/
def Platform.reads (v : Nat) : Platform Unit :=
  { Xil_In32 := fun _ h => (v, h),
    Xil_Out32 := fun _ _ h => h,
    usleep := fun _ h => h,
    Xil_DCacheFlushRange := fun _ _ h => h,
    Xil_DCacheInvalidateRange := fun _ _ h => h,
    pmu_read_cycle_counter := fun h => (0, h),
    APU_CLK_FREQ_HZ := 1000000 }

/-! ## Buffer comparison (memory_utils.c) -/

/-- The load `p64[i]` through a `const uint64_t*` alias of the buffer, with the
little-endian byte order of the target. -/
def load64 (buf : Buffer) (i : Nat) : Nat :=
  buf (8 * i) + buf (8 * i + 1) * 2 ^ 8 + buf (8 * i + 2) * 2 ^ 16 + buf (8 * i + 3) * 2 ^ 24 +
  buf (8 * i + 4) * 2 ^ 32 + buf (8 * i + 5) * 2 ^ 40 + buf (8 * i + 6) * 2 ^ 48 +
  buf (8 * i + 7) * 2 ^ 56

/-- What `memory_compare` hands back: the return value and the value stored
through `first_diff` (when a difference is found). -/
structure CompareResult where
  ok : Bool
  first_diff : Option Nat
deriving Repr, DecidableEq

/-- The inner loop `for (uint32_t j = 0; j < 8; j++)` of `memory_compare`,
entered at `j` with `n` iterations left: the offset `byte_offset + j` (a
`uint32_t` sum) at which it returns false, if it does. -/
def memory_compare_find (p1 p2 : Buffer) (byte_offset : Nat) : Nat → Nat → Option Nat
  | 0, _ => none
  | n + 1, j =>
    if p1 (u32 (byte_offset + j)) ≠ p2 (u32 (byte_offset + j)) then some (u32 (byte_offset + j))
    else memory_compare_find p1 p2 byte_offset n (j + 1)

/-- The chunk loop `for (i = 0; i < count_64; i++)` of `memory_compare`, entered
at `i` with `n` iterations left: the offset at which it returns false, if it
does. -/
def memory_compare_chunks (p1 p2 : Buffer) : Nat → Nat → Option Nat
  | 0, _ => none
  | n + 1, i =>
    if load64 p1 i ≠ load64 p2 i then
      match memory_compare_find p1 p2 (u32 (i * 8)) 8 0 with
      | some d => some d
      | none => memory_compare_chunks p1 p2 n (i + 1)
    else memory_compare_chunks p1 p2 n (i + 1)

/-- The tail loop `for (i = count_64 * 8; i < size; i++)` of `memory_compare`,
entered at `i` with `n` iterations left. -/
def memory_compare_tail (p1 p2 : Buffer) : Nat → Nat → Option Nat
  | 0, _ => none
  | n + 1, i => if p1 i ≠ p2 i then some i else memory_compare_tail p1 p2 n (i + 1)

/-- The function `memory_compare(buf1, buf2, size, first_diff)`. -/
def memory_compare (p1 p2 : Buffer) (size : Nat) : CompareResult :=
  let count_64 := size / 8
  match memory_compare_chunks p1 p2 count_64 0 with
  | some d => { ok := false, first_diff := some d }
  | none =>
    match memory_compare_tail p1 p2 (size - u32 (count_64 * 8)) (u32 (count_64 * 8)) with
    | some d => { ok := false, first_diff := some d }
    | none => { ok := true, first_diff := none }

/-- The plain byte-by-byte scan from offset `i` with `n` bytes left: the first
offset at which the two buffers differ, if there is one. -/
def bytewise_first_diff (p1 p2 : Buffer) : Nat → Nat → Option Nat
  | 0, _ => none
  | n + 1, i => if p1 i ≠ p2 i then some i else bytewise_first_diff p1 p2 n (i + 1)

/-- The plain byte-by-byte comparison that `memory_compare` is compared with:
true when no offset below `size` differs, otherwise false with the first
differing offset. -/
def bytewise_compare (p1 p2 : Buffer) (size : Nat) : CompareResult :=
  match bytewise_first_diff p1 p2 size 0 with
  | some d => { ok := false, first_diff := some d }
  | none => { ok := true, first_diff := none }

/-- The outcome `r` of a scan of the offsets `lo .. hi - 1`: nothing found and
the buffers agree there, or the least offset in the range where they differ. -/
def FirstDiff (p1 p2 : Buffer) (lo hi : Nat) (r : Option Nat) : Prop :=
  (r = none ∧ ∀ j, lo ≤ j → j < hi → p1 j = p2 j) ∨
  (∃ d, r = some d ∧ lo ≤ d ∧ d < hi ∧ p1 d ≠ p2 d ∧ ∀ j, lo ≤ j → j < d → p1 j = p2 j)

/-! ## Cache helpers (cache_utils.c) and the timed loops of the throughput tests -/

/-- The constant `DMA_TIMEOUT_US` (dma_benchmark.h). -/
def DMA_TIMEOUT_US : Nat := 10000000

/-- The function `cache_prep_dma_src(addr, size)`. -/
def cache_prep_dma_src {σ : Type} (P : Platform σ) (addr size : Nat) (hw : σ) : σ :=
  P.Xil_DCacheFlushRange addr size hw

/-- The function `cache_prep_dma_dst(addr, size)`. -/
def cache_prep_dma_dst {σ : Type} (P : Platform σ) (addr size : Nat) (hw : σ) : σ :=
  P.Xil_DCacheInvalidateRange addr size hw

/-- The function `cache_complete_dma_dst(addr, size)`. -/
def cache_complete_dma_dst {σ : Type} (P : Platform σ) (addr size : Nat) (hw : σ) : σ :=
  P.Xil_DCacheInvalidateRange addr size hw

/-- The function `timer_start()` (timer_utils.c): the cycle counter. -/
def timer_start {σ : Type} (P : Platform σ) (hw : σ) : Nat × σ :=
  P.pmu_read_cycle_counter hw

/-- The constant `STRESS_BUFFER_SIZE`, `MB(1)`. -/
def STRESS_BUFFER_SIZE : Nat := 1 * 1024 * 1024

/-- The constant `STRESS_REPORT_INTERVAL` (seconds). -/
def STRESS_REPORT_INTERVAL : Nat := 60

/-- The locals of `stress_test_continuous` that the loop changes, with the
driver world. -/
structure StressState (σ : Type) where
  world : AxiCdmaWorld σ
  elapsed_sec : Nat
  errors : Nat
  total_transfers : Nat
  total_bytes : Nat
  last_report_time : Nat

/-- What lies outside the driver in `stress_test_continuous`: the volatile flag
`g_TestAbort`, which other code sets asynchronously, and the outcome of
`pattern_verify` on the destination buffer, whose contents the DMA hardware
determines; both are read off the platform state. -/
structure StressEnv (σ : Type) where
  g_TestAbort : σ → Bool
  pattern_verify_ok : σ → Bool

/-- The loop `while (elapsed_sec < duration_sec && !g_TestAbort) { ... }` of
`stress_test_continuous`.  The two `continue` statements go back to the loop
test; only the path through "Update time" assigns `elapsed_sec`.  The first
argument bounds the number of iterations the model runs; `wfuel` bounds each
wait. -/
def stress_test_continuous_loop {σ : Type} (P : Platform σ) (env : StressEnv σ)
    (wfuel duration_sec src_addr dst_addr start_time : Nat) :
    Nat → StressState σ → Option (StressState σ)
  | 0, _ => none
  | fuel + 1, s =>
    if s.elapsed_sec < duration_sec ∧ env.g_TestAbort s.world.hw = false then
      let size := STRESS_BUFFER_SIZE
      let w := { s.world with hw := cache_prep_dma_dst P dst_addr size s.world.hw }
      let r := axi_cdma_simple_transfer P src_addr dst_addr size w
      if r.1 ≠ DMA_SUCCESS then
        stress_test_continuous_loop P env wfuel duration_sec src_addr dst_addr start_time fuel
          { s with world := r.2, errors := u32 (s.errors + 1) }
      else
        match axi_cdma_wait_complete P wfuel DMA_TIMEOUT_US r.2 with
        | none => none
        | some q =>
          if q.1 ≠ DMA_SUCCESS then
            stress_test_continuous_loop P env wfuel duration_sec src_addr dst_addr start_time
              fuel { s with world := q.2, errors := u32 (s.errors + 1) }
          else
            let total_transfers := u64 (s.total_transfers + 1)
            let total_bytes := u64 (s.total_bytes + size)
            let w := q.2
            let check := decide (total_transfers % 100 = 0)
            let w := if check then { w with hw := cache_complete_dma_dst P dst_addr size w.hw }
                     else w
            let errors := if check ∧ env.pattern_verify_ok w.hw = false then u32 (s.errors + 1)
                          else s.errors
            let t := timer_get_us P w.hw
            let w := { w with hw := t.2 }
            let current_time := t.1
            let elapsed_sec := u32 (u64 (current_time + 2 ^ 64 - start_time) / 1000000)
            let last_report_time :=
              if u64 (current_time + 2 ^ 64 - s.last_report_time)
                  ≥ STRESS_REPORT_INTERVAL * 1000000 then current_time
              else s.last_report_time
            stress_test_continuous_loop P env wfuel duration_sec src_addr dst_addr start_time
              fuel { world := w, elapsed_sec := elapsed_sec, errors := errors,
                     total_transfers := total_transfers, total_bytes := total_bytes,
                     last_report_time := last_report_time }
    else some s

/-- The function `stress_test_continuous(duration_sec)`: the return value and
the state at the return, or `none` when the function does not return.
`MEM_REGION_DDR4` is an enumerator of the absent `platform_config.h`.  The fill
of the source buffer writes data memory, which the model does not hold, and the
final report and the update of `g_BenchmarkStats` are output only. -/
def stress_test_continuous {σ : Type} (P : Platform σ) (env : StressEnv σ) (cfg : RegionTable)
    (MEM_REGION_DDR4 fuel wfuel duration_sec : Nat) (w : AxiCdmaWorld σ) :
    Option (Int × StressState σ) :=
  let size := STRESS_BUFFER_SIZE
  let src_addr := memory_get_test_addr cfg MEM_REGION_DDR4 0 size
  let dst_addr := memory_get_test_addr cfg MEM_REGION_DDR4 (u32 (size * 2)) size
  let s0 : StressState σ :=
    { world := w, elapsed_sec := 0, errors := 0, total_transfers := 0, total_bytes := 0,
      last_report_time := 0 }
  if src_addr = 0 ∨ dst_addr = 0 then some (DMA_ERROR_NO_MEMORY, s0)
  else
    let w := { w with hw := cache_prep_dma_src P src_addr size w.hw }
    let t := timer_get_us P w.hw
    let start_time := t.1
    let s0 := { s0 with world := { w with hw := t.2 }, last_report_time := start_time }
    match stress_test_continuous_loop P env wfuel duration_sec src_addr dst_addr start_time
        fuel s0 with
    | none => none
    | some s =>
      let t := timer_get_us P s.world.hw
      let s := { s with world := { s.world with hw := t.2 } }
      some (if s.errors = 0 then DMA_SUCCESS else DMA_ERROR_VERIFY_FAIL, s)

/-- A sample region table: region 0 is `MEM_REGION_DDR4` with a 256 MiB test
window at `0x10000000`, region 1 is `MEM_REGION_HOST`. -/
def RegionTable.sample : RegionTable :=
  { MEM_REGION_COUNT := 2, MEM_REGION_HOST := 1,
    g_MemoryRegions := fun _ =>
      { base_addr := 0, size := 0x80000000, test_base := 0x10000000, test_size := 0x10000000,
        cacheable := 1 } }

/-! ## Multi-channel tests (tests/axi_mcdma_test.c, tests/lpd_dma_test.c) -/

def MCDMA_SRC_BASE_OFFSET : Nat := 0x04000000
def MCDMA_DST_BASE_OFFSET : Nat := 0x05000000
def MCDMA_CHANNEL_SPACING : Nat := 0x00100000
def LPD_SRC_OFFSET : Nat := 0x06000000
def LPD_DST_OFFSET : Nat := 0x07000000

/-- The fields of `TestResult_t` that the multi-channel tests assign with
numbers (the enumerator-valued identification fields are left out). -/
structure TestResult where
  transfer_size : Nat
  iterations : Nat
  num_channels : Nat
  total_bytes : Nat
  total_time_us : Nat
  throughput_mbps : Nat
  data_integrity : Bool
deriving Repr, DecidableEq

/-- A call of a driver function made by a multi-channel test: the transfer
start (`axi_mcdma_transfer`, `lpd_dma_transfer`) or the wait
(`axi_mcdma_wait_complete`, `lpd_dma_wait_complete`) on channel `ch`. -/
inductive TestCall where
  | transfer (ch : Nat)
  | wait_complete (ch : Nat)
deriving Repr, DecidableEq

/-- The callees of a multi-channel test and the two iteration counts of the
absent `platform_config.h`, over a state `W` that the callees may read and
change.  `memory_get_test_addr offset size` is the call with region
`MEM_REGION_DDR4`; `enable_mm2s_channel ch` and `enable_s2mm_channel ch` are the
calls `axi_mcdma_enable_mm2s_channel(ch, false)` and
`axi_mcdma_enable_s2mm_channel(ch, false)`, whose results the test ignores;
`pattern_fill addr size seed` is the call with `PATTERN_RANDOM`;
`transfer ch src dst size` and `wait_complete ch timeout_us` are the driver
calls, the latter `none` when the call does not return. -/
structure TestOps (W : Type) where
  DEFAULT_TEST_ITERATIONS : Nat
  WARMUP_ITERATIONS : Nat
  memory_get_test_addr : Nat → Nat → Nat
  enable_mm2s_channel : Nat → W → W
  enable_s2mm_channel : Nat → W → W
  pattern_fill : Nat → Nat → Nat → W → W
  cache_prep_dma_src : Nat → Nat → W → W
  cache_prep_dma_dst : Nat → Nat → W → W
  transfer : Nat → Nat → Nat → Nat → W → Int × W
  wait_complete : Nat → Nat → W → Option (Int × W)
  timer_start : W → Nat × W
  timer_stop_us : Nat → W → Nat × W

/-- How an execution of a test ends: the function returns `status`, or it
divides by zero (undefined behaviour in C), or a callee does not return. -/
inductive TestExit where
  | returned (status : Int)
  | division_by_zero
  | no_return
deriving Repr, DecidableEq

/-- State of a test under way: the callees' state, the driver calls made so
far in order, and the number of transfer starts made inside the timed loop. -/
structure TestState (W : Type) where
  world : W
  calls : List TestCall
  timed_started : Nat

/-- An execution of a test: how it ends, the driver calls made in order, the
number of transfer starts made inside the timed loop, the result record and
the callees' state at the end. -/
structure TestRun (W : Type) where
  exit : TestExit
  calls : List TestCall
  timed_started : Nat
  result : TestResult
  world : W

/-- The loop `for (ch = 0; ch < num_channels; ch++)` that starts the channels,
entered at `ch` with `n` iterations left.  In the warm-up (`check = false`) the
status is dropped; in the timed loop (`check = true`) a status other than
`DMA_SUCCESS` is returned from the function. -/
def start_channels {W : Type} (ops : TestOps W) (check : Bool) (src_addrs dst_addrs : Nat → Nat)
    (size : Nat) : Nat → Nat → TestState W → Option TestExit × TestState W
  | 0, _, s => (none, s)
  | n + 1, ch, s =>
    let r := ops.transfer ch (src_addrs ch) (dst_addrs ch) size s.world
    let s := { world := r.2, calls := s.calls ++ [TestCall.transfer ch],
               timed_started := if check then s.timed_started + 1 else s.timed_started }
    if check = true ∧ r.1 ≠ DMA_SUCCESS then (some (TestExit.returned r.1), s)
    else start_channels ops check src_addrs dst_addrs size n (ch + 1) s

/-- The loop `for (ch = 0; ch < num_channels; ch++)` that waits for the
channels, entered at `ch` with `n` iterations left. -/
def wait_channels {W : Type} (ops : TestOps W) (check : Bool) :
    Nat → Nat → TestState W → Option TestExit × TestState W
  | 0, _, s => (none, s)
  | n + 1, ch, s =>
    let calls := s.calls ++ [TestCall.wait_complete ch]
    match ops.wait_complete ch DMA_TIMEOUT_US s.world with
    | none => (some TestExit.no_return, { s with calls := calls })
    | some r =>
      let s := { s with world := r.2, calls := calls }
      if check = true ∧ r.1 ≠ DMA_SUCCESS then (some (TestExit.returned r.1), s)
      else wait_channels ops check n (ch + 1) s

/-- One iteration of the warm-up loop (`check = false`) or of the timed loop
(`check = true`, which first prepares the destinations): all channels are
started, then all are waited for. -/
def test_round {W : Type} (ops : TestOps W) (check : Bool) (src_addrs dst_addrs : Nat → Nat)
    (size num_channels : Nat) (s : TestState W) : Option TestExit × TestState W :=
  let s := if check then
      { s with world := (forRange 0 num_channels
          (fun ch w => ops.cache_prep_dma_dst (dst_addrs ch) size w) s.world) }
    else s
  match start_channels ops check src_addrs dst_addrs size num_channels 0 s with
  | (some e, s) => (some e, s)
  | (none, s) => wait_channels ops check num_channels 0 s

/-- The loop `for (i = 0; i < count; i++)` round the iterations, with `k`
iterations left. -/
def test_rounds {W : Type} (ops : TestOps W) (check : Bool) (src_addrs dst_addrs : Nat → Nat)
    (size num_channels : Nat) : Nat → TestState W → Option TestExit × TestState W
  | 0, s => (none, s)
  | k + 1, s =>
    match test_round ops check src_addrs dst_addrs size num_channels s with
    | (some e, s) => (some e, s)
    | (none, s) => test_rounds ops check src_addrs dst_addrs size num_channels k s

/-- The part that `axi_mcdma_test_multi_channel` and `lpd_dma_test_multi_channel`
have in common, from "Warmup" to the `return DMA_SUCCESS;`: the warm-up
iterations, `timer_start`, the timed iterations, `timer_stop_us`, and the
result record with `total_bytes = (uint64_t)size * iterations * num_channels`. -/
def multi_channel_loops {W : Type} (ops : TestOps W) (src_addrs dst_addrs : Nat → Nat)
    (size num_channels iterations : Nat) (result : TestResult) (w : W) : TestRun W :=
  match test_rounds ops false src_addrs dst_addrs size num_channels ops.WARMUP_ITERATIONS
      { world := w, calls := [], timed_started := 0 } with
  | (some e, s) =>
    { exit := e, calls := s.calls, timed_started := s.timed_started, result := result,
      world := s.world }
  | (none, s) =>
    let t := ops.timer_start s.world
    match test_rounds ops true src_addrs dst_addrs size num_channels iterations
        { s with world := t.2 } with
    | (some e, s) =>
      { exit := e, calls := s.calls, timed_started := s.timed_started, result := result,
        world := s.world }
    | (none, s) =>
      let e := ops.timer_stop_us t.1 s.world
      let total_bytes := u64 (u64 (size * iterations) * num_channels)
      { exit := TestExit.returned DMA_SUCCESS, calls := s.calls,
        timed_started := s.timed_started,
        result := { result with
          transfer_size := size, iterations := iterations, num_channels := num_channels,
          total_bytes := total_bytes, total_time_us := e.1,
          throughput_mbps := CALC_THROUGHPUT_MBPS total_bytes e.1, data_integrity := true },
        world := e.2 }

/-- The source address of channel `ch` in `axi_mcdma_test_multi_channel`. -/
def axi_mcdma_test_src_addr {W : Type} (ops : TestOps W) (size ch : Nat) : Nat :=
  ops.memory_get_test_addr (u32 (MCDMA_SRC_BASE_OFFSET + u32 (ch * MCDMA_CHANNEL_SPACING))) size

/-- The destination address of channel `ch` in `axi_mcdma_test_multi_channel`. -/
def axi_mcdma_test_dst_addr {W : Type} (ops : TestOps W) (size ch : Nat) : Nat :=
  ops.memory_get_test_addr (u32 (MCDMA_DST_BASE_OFFSET + u32 (ch * MCDMA_CHANNEL_SPACING))) size

/-- The loop "Setup addresses for each channel" of
`axi_mcdma_test_multi_channel`, entered at `ch` with `n` iterations left. -/
def axi_mcdma_test_setup {W : Type} (ops : TestOps W) (size : Nat) :
    Nat → Nat → W → Option TestExit × W
  | 0, _, w => (none, w)
  | n + 1, ch, w =>
    let src := axi_mcdma_test_src_addr ops size ch
    let dst := axi_mcdma_test_dst_addr ops size ch
    if src = 0 ∨ dst = 0 then (some (TestExit.returned DMA_ERROR_INVALID_PARAM), w)
    else
      let w := ops.enable_mm2s_channel ch w
      let w := ops.enable_s2mm_channel ch w
      let w := ops.pattern_fill src size ch w
      let w := ops.cache_prep_dma_src src size w
      let w := ops.cache_prep_dma_dst dst size w
      axi_mcdma_test_setup ops size n (ch + 1) w

/-- The function `axi_mcdma_test_multi_channel(num_channels, size, result)`.
The initialiser `DEFAULT_TEST_ITERATIONS / num_channels` is a `uint32_t`
division by the argument as passed, before it is clamped. -/
def axi_mcdma_test_multi_channel {W : Type} (ops : TestOps W) (num_channels size : Nat)
    (result : TestResult) (w : W) : TestRun W :=
  if num_channels = 0 then
    { exit := TestExit.division_by_zero, calls := [], timed_started := 0, result := result,
      world := w }
  else
    let iterations := u32 ops.DEFAULT_TEST_ITERATIONS / num_channels
    let num_channels := if num_channels > MCDMA_MAX_CHANNELS then MCDMA_MAX_CHANNELS
                        else num_channels
    match axi_mcdma_test_setup ops size num_channels 0 w with
    | (some e, w) =>
      { exit := e, calls := [], timed_started := 0, result := result, world := w }
    | (none, w) =>
      multi_channel_loops ops (axi_mcdma_test_src_addr ops size)
        (axi_mcdma_test_dst_addr ops size) size num_channels iterations result w

/-- The source address of channel `ch` in `lpd_dma_test_multi_channel`. -/
def lpd_dma_test_src_addr {W : Type} (ops : TestOps W) (size ch : Nat) : Nat :=
  ops.memory_get_test_addr (u32 (LPD_SRC_OFFSET + u32 (u32 (ch * size) * 4))) size

/-- The destination address of channel `ch` in `lpd_dma_test_multi_channel`. -/
def lpd_dma_test_dst_addr {W : Type} (ops : TestOps W) (size ch : Nat) : Nat :=
  ops.memory_get_test_addr
    (u32 (u32 (LPD_SRC_OFFSET + u32 (u32 (ch * size) * 4)) + u32 (size * 2))) size

/-- The loop "Setup addresses" of `lpd_dma_test_multi_channel`. -/
def lpd_dma_test_setup {W : Type} (ops : TestOps W) (size : Nat) : Nat → Nat → W → W
  | 0, _, w => w
  | n + 1, ch, w =>
    let src := lpd_dma_test_src_addr ops size ch
    let dst := lpd_dma_test_dst_addr ops size ch
    let w := ops.pattern_fill src size ch w
    let w := ops.cache_prep_dma_src src size w
    let w := ops.cache_prep_dma_dst dst size w
    lpd_dma_test_setup ops size n (ch + 1) w

/-- The function `lpd_dma_test_multi_channel(num_channels, size, result)`. -/
def lpd_dma_test_multi_channel {W : Type} (ops : TestOps W) (num_channels size : Nat)
    (result : TestResult) (w : W) : TestRun W :=
  if num_channels = 0 then
    { exit := TestExit.division_by_zero, calls := [], timed_started := 0, result := result,
      world := w }
  else
    let iterations := u32 ops.DEFAULT_TEST_ITERATIONS / num_channels
    let num_channels := if num_channels > LPD_DMA_NUM_CHANNELS then LPD_DMA_NUM_CHANNELS
                        else num_channels
    let w := lpd_dma_test_setup ops size num_channels 0 w
    multi_channel_loops ops (lpd_dma_test_src_addr ops size) (lpd_dma_test_dst_addr ops size)
      size num_channels iterations result w

/-- The number of transfers started on channel `ch` minus the number of waits
performed on it, over a sequence of driver calls. -/
def outstanding : List TestCall → Nat → Int
  | [], _ => 0
  | TestCall.transfer c :: l, ch => (if c = ch then 1 else 0) + outstanding l ch
  | TestCall.wait_complete c :: l, ch => (if c = ch then -1 else 0) + outstanding l ch

/-- At every point of the sequence of calls, every channel has no transfer or
one transfer started and not yet waited for. -/
def AtMostOneInFlight (calls : List TestCall) : Prop :=
  ∀ pre, pre <+: calls → ∀ ch, outstanding pre ch = 0 ∨ outstanding pre ch = 1

/-- The callees of `axi_mcdma_test_multi_channel` on the platform `P`, with the
driver functions of the model for the transfers and waits, a sample region
table, 12 timed and 2 warm-up iterations; the channel enables and the fill of
the data buffers are left out. -/
def sample_mcdma_ops {σ : Type} (P : Platform σ) (fuel : Nat) : TestOps (AxiMcdmaWorld σ) :=
  { DEFAULT_TEST_ITERATIONS := 12,
    WARMUP_ITERATIONS := 2,
    memory_get_test_addr := fun offset size => memory_get_test_addr RegionTable.sample 0 offset size,
    enable_mm2s_channel := fun _ w => w,
    enable_s2mm_channel := fun _ w => w,
    pattern_fill := fun _ _ _ w => w,
    cache_prep_dma_src := fun a n w => { w with hw := cache_prep_dma_src P a n w.hw },
    cache_prep_dma_dst := fun a n w => { w with hw := cache_prep_dma_dst P a n w.hw },
    transfer := axi_mcdma_transfer P,
    wait_complete := axi_mcdma_wait_complete P fuel,
    timer_start := fun w => ((P.pmu_read_cycle_counter w.hw).1,
      { w with hw := (P.pmu_read_cycle_counter w.hw).2 }),
    timer_stop_us := fun start w =>
      (timer_cycles_to_us P (u64 ((P.pmu_read_cycle_counter w.hw).1 + 2 ^ 64 - start)),
       { w with hw := (P.pmu_read_cycle_counter w.hw).2 }) }

/-- The driver calls of one iteration over `n` channels that runs through: the
transfer starts on channels `0 .. n-1` in order, then the waits on channels
`0 .. n-1` in order. -/
def round_calls (n : Nat) : List TestCall :=
  (List.range' 0 n).map TestCall.transfer ++ (List.range' 0 n).map TestCall.wait_complete

/-- The driver calls of `k` iterations over `n` channels that run through. -/
def rounds_calls : Nat → Nat → List TestCall
  | 0, _ => []
  | k + 1, n => round_calls n ++ rounds_calls k n

/-- A result record as zero-initialised by the caller. -/
def TestResult.zero : TestResult :=
  { transfer_size := 0, iterations := 0, num_channels := 0, total_bytes := 0,
    total_time_us := 0, throughput_mbps := 0, data_integrity := false }
/-! ## Theorems -/

/-! ### Helper lemmas -/

theorem forEachIndex_apply {α : Type} (n : Nat) (f : Nat → α → α) (a : Nat → α) (j : Nat) :
    forEachIndex n f a j = if j < n then f j (a j) else a j := by
  induction n with
  | zero => simp [forEachIndex]
  | succ k ih =>
    have hstep : forEachIndex (k + 1) f a
        = Function.update (forEachIndex k f a) k (f k (forEachIndex k f a k)) := by
      simp [forEachIndex, List.range_succ, List.foldl_append]
    rw [hstep]
    by_cases hjk : j = k
    · subst hjk
      rw [Function.update_same, ih]
      simp
    · rw [Function.update_noteq hjk, ih]
      by_cases hlt : j < k
      · rw [if_pos hlt, if_pos (by omega)]
      · rw [if_neg hlt, if_neg (by omega)]

/-- Splitting a 64-bit address into its two 32-bit halves and recombining them
gives the address back. -/
theorem link_recombine (a : Nat) (ha : a < 2 ^ 64) :
    (u32 (a >>> 32) <<< 32) ||| u32 (a &&& 0xFFFFFFFF) = a := by
  have h1 : a &&& 0xFFFFFFFF = a % 2 ^ 32 := Nat.and_pow_two_sub_one_eq_mod a 32
  have h2 : a >>> 32 = a / 2 ^ 32 := Nat.shiftRight_eq_div_pow a 32
  have h3 : a / 2 ^ 32 < 2 ^ 32 := by omega
  rw [h1, h2]
  unfold u32
  rw [Nat.mod_eq_of_lt h3, Nat.mod_mod, Nat.shiftLeft_eq, Nat.mul_comm,
    ← Nat.mul_add_lt_is_or (Nat.mod_lt _ (by norm_num))]
  exact Nat.div_add_mod a (2 ^ 32)

/-- The address computed for the successor slot, when the array of `n` slots at
`base` lies inside the 64-bit address space. -/
theorem next_slot_addr (base n i : Nat) (hi : i < n) (hn32 : n < 2 ^ 32)
    (hfit : base + 64 * n ≤ 2 ^ 64) :
    u64 (base + sizeof_SgDesc * (u32 (i + 1) % n)) = base + 64 * ((i + 1) % n) := by
  have h1 : u32 (i + 1) = i + 1 := Nat.mod_eq_of_lt (by omega)
  have h2 : (i + 1) % n < n := Nat.mod_lt _ (by omega)
  rw [h1]
  unfold u64 sizeof_SgDesc
  exact Nat.mod_eq_of_lt (by omega)

theorem axi_dma_link_slot_link (base n i : Nat) (d : AxiDmaSgDesc) (hi : i < n)
    (hn32 : n < 2 ^ 32) (hfit : base + 64 * n ≤ 2 ^ 64) :
    (axi_dma_link_slot base n i d).link = base + 64 * ((i + 1) % n) := by
  unfold axi_dma_link_slot AxiDmaSgDesc.link
  simp only []
  rw [next_slot_addr base n i hi hn32 hfit]
  exact link_recombine _ (by have := Nat.mod_lt (i + 1) (show 0 < n by omega); omega)

theorem axi_cdma_link_slot_link (base n i : Nat) (d : AxiCdmaSgDesc) (hi : i < n)
    (hn32 : n < 2 ^ 32) (hfit : base + 64 * n ≤ 2 ^ 64) :
    (axi_cdma_link_slot base n i d).link = base + 64 * ((i + 1) % n) := by
  unfold axi_cdma_link_slot AxiCdmaSgDesc.link
  simp only []
  rw [next_slot_addr base n i hi hn32 hfit]
  exact link_recombine _ (by have := Nat.mod_lt (i + 1) (show 0 < n by omega); omega)

theorem mcdma_link_slot_link (base n i : Nat) (d : McdmaSgDesc) (hi : i < n)
    (hn32 : n < 2 ^ 32) (hfit : base + 64 * n ≤ 2 ^ 64) :
    (mcdma_link_slot base n i d).link = base + 64 * ((i + 1) % n) := by
  unfold mcdma_link_slot McdmaSgDesc.link
  simp only []
  rw [next_slot_addr base n i hi hn32 hfit]
  exact link_recombine _ (by have := Nat.mod_lt (i + 1) (show 0 < n by omega); omega)

/-! ### The counter-based polling loop -/

theorem pollLoop_zero {R W : Type} (T iv : Nat) (body : Nat → W → Poll R W) (sleep : W → W)
    (after : Nat → W → R) (e : Nat) (w : W) :
    pollLoop T iv body sleep after 0 e w = none := rfl

theorem pollLoop_timeout {R W : Type} (T iv : Nat) (body : Nat → W → Poll R W) (sleep : W → W)
    (after : Nat → W → R) (fuel e : Nat) (w : W) (h : ¬ e < T) :
    pollLoop T iv body sleep after (fuel + 1) e w = some (after e w) := by
  simp only [pollLoop, if_neg h]

theorem pollLoop_ret {R W : Type} (T iv : Nat) (body : Nat → W → Poll R W) (sleep : W → W)
    (after : Nat → W → R) (fuel e : Nat) (w : W) (r : R) (h : e < T)
    (hb : body e w = Poll.ret r) :
    pollLoop T iv body sleep after (fuel + 1) e w = some r := by
  simp only [pollLoop, if_pos h, hb]

theorem pollLoop_next {R W : Type} (T iv : Nat) (body : Nat → W → Poll R W) (sleep : W → W)
    (after : Nat → W → R) (fuel e : Nat) (w w' : W) (h : e < T)
    (hb : body e w = Poll.next w') :
    pollLoop T iv body sleep after (fuel + 1) e w
      = pollLoop T iv body sleep after fuel (u32 (e + iv)) (sleep w') := by
  simp only [pollLoop, if_pos h, hb]

/-- Safety of the polling loop: if every `return` of the body and the code
after the loop satisfy `Good`, under an invariant of the loop state, then so
does whatever the loop returns. -/
theorem pollLoop_inv {R W : Type} (T iv : Nat) (body : Nat → W → Poll R W) (sleep : W → W)
    (after : Nat → W → R) (Inv : W → Prop) (Good : R → Prop)
    (hret : ∀ e w r, Inv w → body e w = Poll.ret r → Good r)
    (hnext : ∀ e w w', Inv w → body e w = Poll.next w' → Inv (sleep w'))
    (hafter : ∀ e w, Inv w → Good (after e w)) :
    ∀ fuel e w r, Inv w → pollLoop T iv body sleep after fuel e w = some r → Good r := by
  intro fuel
  induction fuel with
  | zero => intro e w r _ h; simp [pollLoop] at h
  | succ n ih =>
    intro e w r hw h
    by_cases he : e < T
    · rcases hb : body e w with r' | w'
      · rw [pollLoop_ret T iv body sleep after n e w r' he hb] at h
        have hr : r' = r := Option.some.inj h
        rw [← hr]
        exact hret e w r' hw hb
      · rw [pollLoop_next T iv body sleep after n e w w' he hb] at h
        exact ih _ _ r (hnext e w w' hw hb) h
    · rw [pollLoop_timeout T iv body sleep after n e w he] at h
      cases h
      exact hafter e w hw

/-- With a timeout of `0xFFFFFFFF` and a body that never returns, the loop
never ends: the 32-bit counter advances by 10 from an even value, so it stays
even and therefore below the odd timeout. -/
theorem pollLoop_never_ends {R W : Type} (body : Nat → W → Poll R W) (sleep : W → W)
    (after : Nat → W → R) (Inv : W → Prop)
    (hnext : ∀ e w, Inv w → ∃ w', body e w = Poll.next w' ∧ Inv (sleep w')) :
    ∀ fuel e w, Inv w → e % 2 = 0 → e < 2 ^ 32 →
      pollLoop 0xFFFFFFFF 10 body sleep after fuel e w = none := by
  intro fuel
  induction fuel with
  | zero => intro e w _ _ _; rfl
  | succ n ih =>
    intro e w hw hev hlt
    obtain ⟨w', hb, hw'⟩ := hnext e w hw
    have he : e < 0xFFFFFFFF := by omega
    rw [pollLoop_next _ _ body sleep after n e w w' he hb]
    apply ih _ _ hw'
    · unfold u32; omega
    · unfold u32; omega

/-- Running the loop while the body keeps falling through: if the loop
returns, it returns from the code after the loop, at the first iteration
count `K` whose counter value `(e + 10 K) mod 2^32` is not below the timeout,
in the loop state reached by `K` passes. -/
theorem pollLoop_timed_out {R W : Type} (T : Nat) (body : Nat → W → Poll R W) (sleep : W → W)
    (after : Nat → W → R) (nxt : W → W) (Inv : W → Prop)
    (hnext : ∀ e w, Inv w → body e w = Poll.next (nxt w) ∧ Inv (sleep (nxt w))) :
    ∀ fuel e w r, Inv w → e < 2 ^ 32 →
      pollLoop T 10 body sleep after fuel e w = some r →
      ∃ K, K < fuel ∧ (∀ j, j < K → (e + 10 * j) % 2 ^ 32 < T) ∧
        ¬ ((e + 10 * K) % 2 ^ 32 < T) ∧
        r = after ((e + 10 * K) % 2 ^ 32) ((fun v => sleep (nxt v))^[K] w) := by
  intro fuel
  induction fuel with
  | zero => intro e w r _ _ h; simp [pollLoop] at h
  | succ n ih =>
    intro e w r hw he32 h
    by_cases he : e < T
    · obtain ⟨hb, hw'⟩ := hnext e w hw
      rw [pollLoop_next T 10 body sleep after n e w _ he hb] at h
      obtain ⟨K, hK, hlt, hge, hr⟩ := ih (u32 (e + 10)) _ r hw' (Nat.mod_lt _ (by norm_num)) h
      have hshift : ∀ j, (u32 (e + 10) + 10 * j) % 2 ^ 32 = (e + 10 * (j + 1)) % 2 ^ 32 := by
        intro j; unfold u32; omega
      refine ⟨K + 1, by omega, ?_, ?_, ?_⟩
      · intro j hj
        cases j with
        | zero =>
          have h0 : (e + 10 * 0) % 2 ^ 32 = e := by omega
          rw [h0]; exact he
        | succ j => rw [← hshift]; exact hlt j (by omega)
      · rw [← hshift]; exact hge
      · rw [hr, hshift, Function.iterate_succ_apply]
    · rw [pollLoop_timeout T 10 body sleep after n e w he] at h
      cases h
      have h0 : (e + 10 * 0) % 2 ^ 32 = e := by omega
      refine ⟨0, by omega, ?_, ?_, ?_⟩
      · intro j hj; omega
      · rw [h0]; exact he
      · rw [h0]; rfl

/-- Running the loop while the body keeps falling through: when the counter
first reaches the timeout after `K` passes, the loop returns from the code
after it, given more than `K` iterations of fuel. -/
theorem pollLoop_runs_to_timeout {R W : Type} (T : Nat) (body : Nat → W → Poll R W)
    (sleep : W → W) (after : Nat → W → R) (nxt : W → W) (Inv : W → Prop)
    (hnext : ∀ e w, Inv w → body e w = Poll.next (nxt w) ∧ Inv (sleep (nxt w))) :
    ∀ K fuel e w, Inv w → e < 2 ^ 32 → K < fuel →
      (∀ j, j < K → (e + 10 * j) % 2 ^ 32 < T) → ¬ ((e + 10 * K) % 2 ^ 32 < T) →
      pollLoop T 10 body sleep after fuel e w
        = some (after ((e + 10 * K) % 2 ^ 32) ((fun v => sleep (nxt v))^[K] w)) := by
  intro K
  induction K with
  | zero =>
    intro fuel e w _ he32 hf _ hge
    obtain ⟨n, rfl⟩ : ∃ n, fuel = n + 1 := ⟨fuel - 1, by omega⟩
    have h0 : (e + 10 * 0) % 2 ^ 32 = e := by omega
    have he : ¬ e < T := by rw [h0] at hge; exact hge
    rw [pollLoop_timeout T 10 body sleep after n e w he, h0]
    rfl
  | succ K ih =>
    intro fuel e w hw he32 hf hlt hge
    obtain ⟨n, rfl⟩ : ∃ n, fuel = n + 1 := ⟨fuel - 1, by omega⟩
    have h0 : (e + 10 * 0) % 2 ^ 32 = e := by omega
    have he : e < T := by have := hlt 0 (by omega); rw [h0] at this; exact this
    obtain ⟨hb, hw'⟩ := hnext e w hw
    have hshift : ∀ j, (u32 (e + 10) + 10 * j) % 2 ^ 32 = (e + 10 * (j + 1)) % 2 ^ 32 := by
      intro j; unfold u32; omega
    rw [pollLoop_next T 10 body sleep after n e w _ he hb,
      ih n (u32 (e + 10)) _ hw' (Nat.mod_lt _ (by norm_num)) (by omega)
        (fun j hj => by rw [hshift]; exact hlt (j + 1) (by omega))
        (by rw [hshift]; exact hge),
      hshift, Function.iterate_succ_apply]

/-! ### One pass through the body of the AXI DMA waits -/

theorem axi_dma_wait_tx_body_err {σ : Type} (P : Platform σ) (e : Nat) (q : AxiDmaPoll σ)
    (h : (axi_dma_read_tx_reg P q.world.g_AxiDma XAXIDMA_SR_OFFSET q.world.hw).1
      &&& XAXIDMA_SR_ALL_ERR_MASK ≠ 0) :
    axi_dma_wait_tx_body P e q = Poll.ret
      { ret := DMA_ERROR_DMA_FAIL,
        world := { q.world with
          hw := P.Xil_Out32 (u64 (q.world.g_AxiDma.base_addr + XAXIDMA_TX_OFFSET + XAXIDMA_SR_OFFSET))
            ((axi_dma_read_tx_reg P q.world.g_AxiDma XAXIDMA_SR_OFFSET q.world.hw).1
              &&& XAXIDMA_SR_ALL_ERR_MASK)
            (P.Xil_In32 (u64 (q.world.g_AxiDma.base_addr + XAXIDMA_TX_OFFSET + XAXIDMA_SR_OFFSET))
              q.world.hw).2,
          g_AxiDma := { q.world.g_AxiDma with
            tx_error := (axi_dma_read_tx_reg P q.world.g_AxiDma XAXIDMA_SR_OFFSET
              q.world.hw).1 &&& XAXIDMA_SR_ALL_ERR_MASK,
            errors := u32 (q.world.g_AxiDma.errors + 1) } },
        loop_count := u32 (q.loop_count + 1), elapsed_us := e } := by
  simp only [axi_dma_wait_tx_body, if_pos h]
  rfl

theorem axi_dma_wait_tx_body_idle {σ : Type} (P : Platform σ) (e : Nat) (q : AxiDmaPoll σ)
    (h1 : (axi_dma_read_tx_reg P q.world.g_AxiDma XAXIDMA_SR_OFFSET q.world.hw).1
      &&& XAXIDMA_SR_ALL_ERR_MASK = 0)
    (h2 : (axi_dma_read_tx_reg P q.world.g_AxiDma XAXIDMA_SR_OFFSET q.world.hw).1
      &&& XAXIDMA_SR_IDLE_MASK ≠ 0) :
    axi_dma_wait_tx_body P e q = Poll.ret
      { ret := DMA_SUCCESS,
        world := { q.world with
          hw := (P.Xil_In32 (u64 (q.world.g_AxiDma.base_addr + XAXIDMA_TX_OFFSET + XAXIDMA_SR_OFFSET))
            q.world.hw).2,
          g_AxiDma := { q.world.g_AxiDma with
            tx_complete := true,
            tx_transfers := u32 (q.world.g_AxiDma.tx_transfers + 1) } },
        loop_count := u32 (q.loop_count + 1), elapsed_us := e } := by
  simp only [axi_dma_wait_tx_body, if_neg (not_not.mpr h1), if_pos h2]
  rfl

theorem axi_dma_wait_tx_body_ioc {σ : Type} (P : Platform σ) (e : Nat) (q : AxiDmaPoll σ)
    (h1 : (axi_dma_read_tx_reg P q.world.g_AxiDma XAXIDMA_SR_OFFSET q.world.hw).1
      &&& XAXIDMA_SR_ALL_ERR_MASK = 0)
    (h2 : (axi_dma_read_tx_reg P q.world.g_AxiDma XAXIDMA_SR_OFFSET q.world.hw).1
      &&& XAXIDMA_SR_IDLE_MASK = 0)
    (h3 : (axi_dma_read_tx_reg P q.world.g_AxiDma XAXIDMA_SR_OFFSET q.world.hw).1
      &&& XAXIDMA_SR_IOC_IRQ_MASK ≠ 0) :
    axi_dma_wait_tx_body P e q = Poll.ret
      { ret := DMA_SUCCESS,
        world := { q.world with
          hw := P.Xil_Out32 (u64 (q.world.g_AxiDma.base_addr + XAXIDMA_TX_OFFSET + XAXIDMA_SR_OFFSET))
            XAXIDMA_SR_IOC_IRQ_MASK
            (P.Xil_In32 (u64 (q.world.g_AxiDma.base_addr + XAXIDMA_TX_OFFSET + XAXIDMA_SR_OFFSET))
              q.world.hw).2,
          g_AxiDma := { q.world.g_AxiDma with
            tx_complete := true,
            tx_transfers := u32 (q.world.g_AxiDma.tx_transfers + 1) } },
        loop_count := u32 (q.loop_count + 1), elapsed_us := e } := by
  simp only [axi_dma_wait_tx_body, if_neg (not_not.mpr h1), if_neg (not_not.mpr h2), if_pos h3]
  rfl

theorem axi_dma_wait_tx_body_next {σ : Type} (P : Platform σ) (e : Nat) (q : AxiDmaPoll σ)
    (h1 : (axi_dma_read_tx_reg P q.world.g_AxiDma XAXIDMA_SR_OFFSET q.world.hw).1
      &&& XAXIDMA_SR_ALL_ERR_MASK = 0)
    (h2 : (axi_dma_read_tx_reg P q.world.g_AxiDma XAXIDMA_SR_OFFSET q.world.hw).1
      &&& XAXIDMA_SR_IDLE_MASK = 0)
    (h3 : (axi_dma_read_tx_reg P q.world.g_AxiDma XAXIDMA_SR_OFFSET q.world.hw).1
      &&& XAXIDMA_SR_IOC_IRQ_MASK = 0) :
    axi_dma_wait_tx_body P e q = Poll.next
      { world := { q.world with
          hw := (P.Xil_In32 (u64 (q.world.g_AxiDma.base_addr + XAXIDMA_TX_OFFSET + XAXIDMA_SR_OFFSET))
            q.world.hw).2 },
        loop_count := u32 (q.loop_count + 1) } := by
  simp only [axi_dma_wait_tx_body, if_neg (not_not.mpr h1), if_neg (not_not.mpr h2),
    if_neg (not_not.mpr h3)]
  rfl

theorem axi_dma_wait_rx_body_err {σ : Type} (P : Platform σ) (e : Nat) (q : AxiDmaPoll σ)
    (h : (axi_dma_read_rx_reg P q.world.g_AxiDma XAXIDMA_SR_OFFSET q.world.hw).1
      &&& XAXIDMA_SR_ALL_ERR_MASK ≠ 0) :
    axi_dma_wait_rx_body P e q = Poll.ret
      { ret := DMA_ERROR_DMA_FAIL,
        world := { q.world with
          hw := P.Xil_Out32 (u64 (q.world.g_AxiDma.base_addr + XAXIDMA_RX_OFFSET + XAXIDMA_SR_OFFSET))
            ((axi_dma_read_rx_reg P q.world.g_AxiDma XAXIDMA_SR_OFFSET q.world.hw).1
              &&& XAXIDMA_SR_ALL_ERR_MASK)
            (P.Xil_In32 (u64 (q.world.g_AxiDma.base_addr + XAXIDMA_RX_OFFSET + XAXIDMA_SR_OFFSET))
              q.world.hw).2,
          g_AxiDma := { q.world.g_AxiDma with
            rx_error := (axi_dma_read_rx_reg P q.world.g_AxiDma XAXIDMA_SR_OFFSET
              q.world.hw).1 &&& XAXIDMA_SR_ALL_ERR_MASK,
            errors := u32 (q.world.g_AxiDma.errors + 1) } },
        loop_count := u32 (q.loop_count + 1), elapsed_us := e } := by
  simp only [axi_dma_wait_rx_body, if_pos h]
  rfl

theorem axi_dma_wait_rx_body_idle {σ : Type} (P : Platform σ) (e : Nat) (q : AxiDmaPoll σ)
    (h1 : (axi_dma_read_rx_reg P q.world.g_AxiDma XAXIDMA_SR_OFFSET q.world.hw).1
      &&& XAXIDMA_SR_ALL_ERR_MASK = 0)
    (h2 : (axi_dma_read_rx_reg P q.world.g_AxiDma XAXIDMA_SR_OFFSET q.world.hw).1
      &&& XAXIDMA_SR_IDLE_MASK ≠ 0) :
    axi_dma_wait_rx_body P e q = Poll.ret
      { ret := DMA_SUCCESS,
        world := { q.world with
          hw := (P.Xil_In32 (u64 (q.world.g_AxiDma.base_addr + XAXIDMA_RX_OFFSET + XAXIDMA_SR_OFFSET))
            q.world.hw).2,
          g_AxiDma := { q.world.g_AxiDma with
            rx_complete := true,
            rx_transfers := u32 (q.world.g_AxiDma.rx_transfers + 1) } },
        loop_count := u32 (q.loop_count + 1), elapsed_us := e } := by
  simp only [axi_dma_wait_rx_body, if_neg (not_not.mpr h1), if_pos h2]
  rfl

theorem axi_dma_wait_rx_body_ioc {σ : Type} (P : Platform σ) (e : Nat) (q : AxiDmaPoll σ)
    (h1 : (axi_dma_read_rx_reg P q.world.g_AxiDma XAXIDMA_SR_OFFSET q.world.hw).1
      &&& XAXIDMA_SR_ALL_ERR_MASK = 0)
    (h2 : (axi_dma_read_rx_reg P q.world.g_AxiDma XAXIDMA_SR_OFFSET q.world.hw).1
      &&& XAXIDMA_SR_IDLE_MASK = 0)
    (h3 : (axi_dma_read_rx_reg P q.world.g_AxiDma XAXIDMA_SR_OFFSET q.world.hw).1
      &&& XAXIDMA_SR_IOC_IRQ_MASK ≠ 0) :
    axi_dma_wait_rx_body P e q = Poll.ret
      { ret := DMA_SUCCESS,
        world := { q.world with
          hw := P.Xil_Out32 (u64 (q.world.g_AxiDma.base_addr + XAXIDMA_RX_OFFSET + XAXIDMA_SR_OFFSET))
            XAXIDMA_SR_IOC_IRQ_MASK
            (P.Xil_In32 (u64 (q.world.g_AxiDma.base_addr + XAXIDMA_RX_OFFSET + XAXIDMA_SR_OFFSET))
              q.world.hw).2,
          g_AxiDma := { q.world.g_AxiDma with
            rx_complete := true,
            rx_transfers := u32 (q.world.g_AxiDma.rx_transfers + 1) } },
        loop_count := u32 (q.loop_count + 1), elapsed_us := e } := by
  simp only [axi_dma_wait_rx_body, if_neg (not_not.mpr h1), if_neg (not_not.mpr h2), if_pos h3]
  rfl

theorem axi_dma_wait_rx_body_next {σ : Type} (P : Platform σ) (e : Nat) (q : AxiDmaPoll σ)
    (h1 : (axi_dma_read_rx_reg P q.world.g_AxiDma XAXIDMA_SR_OFFSET q.world.hw).1
      &&& XAXIDMA_SR_ALL_ERR_MASK = 0)
    (h2 : (axi_dma_read_rx_reg P q.world.g_AxiDma XAXIDMA_SR_OFFSET q.world.hw).1
      &&& XAXIDMA_SR_IDLE_MASK = 0)
    (h3 : (axi_dma_read_rx_reg P q.world.g_AxiDma XAXIDMA_SR_OFFSET q.world.hw).1
      &&& XAXIDMA_SR_IOC_IRQ_MASK = 0) :
    axi_dma_wait_rx_body P e q = Poll.next
      { world := { q.world with
          hw := (P.Xil_In32 (u64 (q.world.g_AxiDma.base_addr + XAXIDMA_RX_OFFSET + XAXIDMA_SR_OFFSET))
            q.world.hw).2 },
        loop_count := u32 (q.loop_count + 1) } := by
  simp only [axi_dma_wait_rx_body, if_neg (not_not.mpr h1), if_neg (not_not.mpr h2),
    if_neg (not_not.mpr h3)]
  rfl

/-! ### One pass through the body of the CDMA and MCDMA waits -/

theorem axi_cdma_wait_body_err {σ : Type} (P : Platform σ) (w : AxiCdmaWorld σ)
    (h : (axi_cdma_read_reg P w.g_AxiCdma XAXICDMA_SR_OFFSET w.hw).1
      &&& XAXICDMA_SR_ALL_ERR_MASK ≠ 0) :
    axi_cdma_wait_body P w = Poll.ret
      (DMA_ERROR_DMA_FAIL,
        { w with
          hw := P.Xil_Out32 (u64 (w.g_AxiCdma.base_addr + XAXICDMA_SR_OFFSET))
            ((axi_cdma_read_reg P w.g_AxiCdma XAXICDMA_SR_OFFSET w.hw).1
              &&& XAXICDMA_SR_ALL_ERR_MASK)
            (P.Xil_In32 (u64 (w.g_AxiCdma.base_addr + XAXICDMA_SR_OFFSET)) w.hw).2,
          g_AxiCdma := { w.g_AxiCdma with
            transfer_error := (axi_cdma_read_reg P w.g_AxiCdma XAXICDMA_SR_OFFSET w.hw).1
              &&& XAXICDMA_SR_ALL_ERR_MASK,
            errors := u32 (w.g_AxiCdma.errors + 1) } }) := by
  simp only [axi_cdma_wait_body, if_pos h]
  rfl

theorem axi_cdma_wait_body_idle {σ : Type} (P : Platform σ) (w : AxiCdmaWorld σ)
    (h1 : (axi_cdma_read_reg P w.g_AxiCdma XAXICDMA_SR_OFFSET w.hw).1
      &&& XAXICDMA_SR_ALL_ERR_MASK = 0)
    (h2 : (axi_cdma_read_reg P w.g_AxiCdma XAXICDMA_SR_OFFSET w.hw).1
      &&& XAXICDMA_SR_IDLE_MASK ≠ 0) :
    axi_cdma_wait_body P w = Poll.ret
      (DMA_SUCCESS,
        { w with
          hw := (P.Xil_In32 (u64 (w.g_AxiCdma.base_addr + XAXICDMA_SR_OFFSET)) w.hw).2,
          g_AxiCdma := { w.g_AxiCdma with
            transfer_complete := true,
            num_transfers := u32 (w.g_AxiCdma.num_transfers + 1) } }) := by
  simp only [axi_cdma_wait_body, if_neg (not_not.mpr h1), if_pos h2]
  rfl

theorem axi_cdma_wait_body_ioc {σ : Type} (P : Platform σ) (w : AxiCdmaWorld σ)
    (h1 : (axi_cdma_read_reg P w.g_AxiCdma XAXICDMA_SR_OFFSET w.hw).1
      &&& XAXICDMA_SR_ALL_ERR_MASK = 0)
    (h2 : (axi_cdma_read_reg P w.g_AxiCdma XAXICDMA_SR_OFFSET w.hw).1
      &&& XAXICDMA_SR_IDLE_MASK = 0)
    (h3 : (axi_cdma_read_reg P w.g_AxiCdma XAXICDMA_SR_OFFSET w.hw).1
      &&& XAXICDMA_SR_IOC_IRQ_MASK ≠ 0) :
    axi_cdma_wait_body P w = Poll.ret
      (DMA_SUCCESS,
        { w with
          hw := P.Xil_Out32 (u64 (w.g_AxiCdma.base_addr + XAXICDMA_SR_OFFSET))
            XAXICDMA_SR_IOC_IRQ_MASK
            (P.Xil_In32 (u64 (w.g_AxiCdma.base_addr + XAXICDMA_SR_OFFSET)) w.hw).2,
          g_AxiCdma := { w.g_AxiCdma with
            transfer_complete := true,
            num_transfers := u32 (w.g_AxiCdma.num_transfers + 1) } }) := by
  simp only [axi_cdma_wait_body, if_neg (not_not.mpr h1), if_neg (not_not.mpr h2), if_pos h3]
  rfl

theorem axi_cdma_wait_body_next {σ : Type} (P : Platform σ) (w : AxiCdmaWorld σ)
    (h1 : (axi_cdma_read_reg P w.g_AxiCdma XAXICDMA_SR_OFFSET w.hw).1
      &&& XAXICDMA_SR_ALL_ERR_MASK = 0)
    (h2 : (axi_cdma_read_reg P w.g_AxiCdma XAXICDMA_SR_OFFSET w.hw).1
      &&& XAXICDMA_SR_IDLE_MASK = 0)
    (h3 : (axi_cdma_read_reg P w.g_AxiCdma XAXICDMA_SR_OFFSET w.hw).1
      &&& XAXICDMA_SR_IOC_IRQ_MASK = 0) :
    axi_cdma_wait_body P w = Poll.next
      { w with hw := (P.Xil_In32 (u64 (w.g_AxiCdma.base_addr + XAXICDMA_SR_OFFSET)) w.hw).2 } := by
  simp only [axi_cdma_wait_body, if_neg (not_not.mpr h1), if_neg (not_not.mpr h2),
    if_neg (not_not.mpr h3)]
  rfl

theorem axi_mcdma_wait_mm2s_body_err {σ : Type} (P : Platform σ) (channel e : Nat)
    (w : AxiMcdmaWorld σ)
    (h : (mcdma_read_mm2s_ch_reg P w.g_AxiMcdma channel XMCDMA_CH_SR_OFFSET w.hw).1
      &&& XMCDMA_CH_SR_ERR_MASK ≠ 0) :
    axi_mcdma_wait_mm2s_body P channel e w = Poll.ret
      { ret := DMA_ERROR_DMA_FAIL,
        world := AxiMcdmaWorld.setMm2s
          { w with
            hw := P.Xil_Out32
              (u64 (w.g_AxiMcdma.base_addr +
                u32 (MCDMA_MM2S_BASE_OFFSET + u32 (channel * MCDMA_CHANNEL_OFFSET)) + XMCDMA_CH_SR_OFFSET))
              (mcdma_read_mm2s_ch_reg P w.g_AxiMcdma channel XMCDMA_CH_SR_OFFSET w.hw).1
              (P.Xil_In32
                (u64 (w.g_AxiMcdma.base_addr +
                  u32 (MCDMA_MM2S_BASE_OFFSET + u32 (channel * MCDMA_CHANNEL_OFFSET)) + XMCDMA_CH_SR_OFFSET))
                w.hw).2 }
          channel
          { w.g_AxiMcdma.mm2s_channels channel with
            transfer_error := (mcdma_read_mm2s_ch_reg P w.g_AxiMcdma channel XMCDMA_CH_SR_OFFSET w.hw).1,
            errors := u32 ((w.g_AxiMcdma.mm2s_channels channel).errors + 1),
            busy := false },
        elapsed_us := e } := by
  simp only [axi_mcdma_wait_mm2s_body, if_pos h]
  rfl

theorem axi_mcdma_wait_mm2s_body_idle {σ : Type} (P : Platform σ) (channel e : Nat)
    (w : AxiMcdmaWorld σ)
    (h1 : (mcdma_read_mm2s_ch_reg P w.g_AxiMcdma channel XMCDMA_CH_SR_OFFSET w.hw).1
      &&& XMCDMA_CH_SR_ERR_MASK = 0)
    (h2 : (mcdma_read_mm2s_ch_reg P w.g_AxiMcdma channel XMCDMA_CH_SR_OFFSET w.hw).1
      &&& XMCDMA_CH_SR_IDLE_MASK ≠ 0) :
    axi_mcdma_wait_mm2s_body P channel e w = Poll.ret
      { ret := DMA_SUCCESS,
        world := AxiMcdmaWorld.setMm2s
          { w with
            hw := (P.Xil_In32
                (u64 (w.g_AxiMcdma.base_addr +
                  u32 (MCDMA_MM2S_BASE_OFFSET + u32 (channel * MCDMA_CHANNEL_OFFSET)) + XMCDMA_CH_SR_OFFSET))
                w.hw).2 }
          channel
          { w.g_AxiMcdma.mm2s_channels channel with
            transfer_complete := true,
            num_transfers := u32 ((w.g_AxiMcdma.mm2s_channels channel).num_transfers + 1),
            busy := false },
        elapsed_us := e } := by
  simp only [axi_mcdma_wait_mm2s_body, if_neg (not_not.mpr h1), if_pos h2]
  rfl

theorem axi_mcdma_wait_mm2s_body_ioc {σ : Type} (P : Platform σ) (channel e : Nat)
    (w : AxiMcdmaWorld σ)
    (h1 : (mcdma_read_mm2s_ch_reg P w.g_AxiMcdma channel XMCDMA_CH_SR_OFFSET w.hw).1
      &&& XMCDMA_CH_SR_ERR_MASK = 0)
    (h2 : (mcdma_read_mm2s_ch_reg P w.g_AxiMcdma channel XMCDMA_CH_SR_OFFSET w.hw).1
      &&& XMCDMA_CH_SR_IDLE_MASK = 0)
    (h3 : (mcdma_read_mm2s_ch_reg P w.g_AxiMcdma channel XMCDMA_CH_SR_OFFSET w.hw).1
      &&& XMCDMA_CH_SR_IOC_IRQ_MASK ≠ 0) :
    axi_mcdma_wait_mm2s_body P channel e w = Poll.ret
      { ret := DMA_SUCCESS,
        world := AxiMcdmaWorld.setMm2s
          { w with
            hw := P.Xil_Out32
              (u64 (w.g_AxiMcdma.base_addr +
                u32 (MCDMA_MM2S_BASE_OFFSET + u32 (channel * MCDMA_CHANNEL_OFFSET)) + XMCDMA_CH_SR_OFFSET))
              XMCDMA_CH_SR_IOC_IRQ_MASK
              (P.Xil_In32
                (u64 (w.g_AxiMcdma.base_addr +
                  u32 (MCDMA_MM2S_BASE_OFFSET + u32 (channel * MCDMA_CHANNEL_OFFSET)) + XMCDMA_CH_SR_OFFSET))
                w.hw).2 }
          channel
          { w.g_AxiMcdma.mm2s_channels channel with
            transfer_complete := true,
            num_transfers := u32 ((w.g_AxiMcdma.mm2s_channels channel).num_transfers + 1),
            busy := false },
        elapsed_us := e } := by
  simp only [axi_mcdma_wait_mm2s_body, if_neg (not_not.mpr h1), if_neg (not_not.mpr h2),
    if_pos h3]
  rfl

theorem axi_mcdma_wait_mm2s_body_next {σ : Type} (P : Platform σ) (channel e : Nat)
    (w : AxiMcdmaWorld σ)
    (h1 : (mcdma_read_mm2s_ch_reg P w.g_AxiMcdma channel XMCDMA_CH_SR_OFFSET w.hw).1
      &&& XMCDMA_CH_SR_ERR_MASK = 0)
    (h2 : (mcdma_read_mm2s_ch_reg P w.g_AxiMcdma channel XMCDMA_CH_SR_OFFSET w.hw).1
      &&& XMCDMA_CH_SR_IDLE_MASK = 0)
    (h3 : (mcdma_read_mm2s_ch_reg P w.g_AxiMcdma channel XMCDMA_CH_SR_OFFSET w.hw).1
      &&& XMCDMA_CH_SR_IOC_IRQ_MASK = 0) :
    axi_mcdma_wait_mm2s_body P channel e w = Poll.next
      { w with
        hw := (P.Xil_In32
                (u64 (w.g_AxiMcdma.base_addr +
                  u32 (MCDMA_MM2S_BASE_OFFSET + u32 (channel * MCDMA_CHANNEL_OFFSET)) + XMCDMA_CH_SR_OFFSET))
                w.hw).2 } := by
  simp only [axi_mcdma_wait_mm2s_body, if_neg (not_not.mpr h1), if_neg (not_not.mpr h2),
    if_neg (not_not.mpr h3)]
  rfl

theorem axi_mcdma_wait_s2mm_body_err {σ : Type} (P : Platform σ) (channel e : Nat)
    (w : AxiMcdmaWorld σ)
    (h : (mcdma_read_s2mm_ch_reg P w.g_AxiMcdma channel XMCDMA_CH_SR_OFFSET w.hw).1
      &&& XMCDMA_CH_SR_ERR_MASK ≠ 0) :
    axi_mcdma_wait_s2mm_body P channel e w = Poll.ret
      { ret := DMA_ERROR_DMA_FAIL,
        world := AxiMcdmaWorld.setS2mm
          { w with
            hw := P.Xil_Out32
              (u64 (w.g_AxiMcdma.base_addr +
                u32 (MCDMA_S2MM_BASE_OFFSET + u32 (channel * MCDMA_CHANNEL_OFFSET)) + XMCDMA_CH_SR_OFFSET))
              (mcdma_read_s2mm_ch_reg P w.g_AxiMcdma channel XMCDMA_CH_SR_OFFSET w.hw).1
              (P.Xil_In32
                (u64 (w.g_AxiMcdma.base_addr +
                  u32 (MCDMA_S2MM_BASE_OFFSET + u32 (channel * MCDMA_CHANNEL_OFFSET)) + XMCDMA_CH_SR_OFFSET))
                w.hw).2 }
          channel
          { w.g_AxiMcdma.s2mm_channels channel with
            transfer_error := (mcdma_read_s2mm_ch_reg P w.g_AxiMcdma channel XMCDMA_CH_SR_OFFSET w.hw).1,
            errors := u32 ((w.g_AxiMcdma.s2mm_channels channel).errors + 1),
            busy := false },
        elapsed_us := e } := by
  simp only [axi_mcdma_wait_s2mm_body, if_pos h]
  rfl

theorem axi_mcdma_wait_s2mm_body_idle {σ : Type} (P : Platform σ) (channel e : Nat)
    (w : AxiMcdmaWorld σ)
    (h1 : (mcdma_read_s2mm_ch_reg P w.g_AxiMcdma channel XMCDMA_CH_SR_OFFSET w.hw).1
      &&& XMCDMA_CH_SR_ERR_MASK = 0)
    (h2 : (mcdma_read_s2mm_ch_reg P w.g_AxiMcdma channel XMCDMA_CH_SR_OFFSET w.hw).1
      &&& XMCDMA_CH_SR_IDLE_MASK ≠ 0) :
    axi_mcdma_wait_s2mm_body P channel e w = Poll.ret
      { ret := DMA_SUCCESS,
        world := AxiMcdmaWorld.setS2mm
          { w with
            hw := (P.Xil_In32
                (u64 (w.g_AxiMcdma.base_addr +
                  u32 (MCDMA_S2MM_BASE_OFFSET + u32 (channel * MCDMA_CHANNEL_OFFSET)) + XMCDMA_CH_SR_OFFSET))
                w.hw).2 }
          channel
          { w.g_AxiMcdma.s2mm_channels channel with
            transfer_complete := true,
            num_transfers := u32 ((w.g_AxiMcdma.s2mm_channels channel).num_transfers + 1),
            busy := false },
        elapsed_us := e } := by
  simp only [axi_mcdma_wait_s2mm_body, if_neg (not_not.mpr h1), if_pos h2]
  rfl

theorem axi_mcdma_wait_s2mm_body_ioc {σ : Type} (P : Platform σ) (channel e : Nat)
    (w : AxiMcdmaWorld σ)
    (h1 : (mcdma_read_s2mm_ch_reg P w.g_AxiMcdma channel XMCDMA_CH_SR_OFFSET w.hw).1
      &&& XMCDMA_CH_SR_ERR_MASK = 0)
    (h2 : (mcdma_read_s2mm_ch_reg P w.g_AxiMcdma channel XMCDMA_CH_SR_OFFSET w.hw).1
      &&& XMCDMA_CH_SR_IDLE_MASK = 0)
    (h3 : (mcdma_read_s2mm_ch_reg P w.g_AxiMcdma channel XMCDMA_CH_SR_OFFSET w.hw).1
      &&& XMCDMA_CH_SR_IOC_IRQ_MASK ≠ 0) :
    axi_mcdma_wait_s2mm_body P channel e w = Poll.ret
      { ret := DMA_SUCCESS,
        world := AxiMcdmaWorld.setS2mm
          { w with
            hw := P.Xil_Out32
              (u64 (w.g_AxiMcdma.base_addr +
                u32 (MCDMA_S2MM_BASE_OFFSET + u32 (channel * MCDMA_CHANNEL_OFFSET)) + XMCDMA_CH_SR_OFFSET))
              XMCDMA_CH_SR_IOC_IRQ_MASK
              (P.Xil_In32
                (u64 (w.g_AxiMcdma.base_addr +
                  u32 (MCDMA_S2MM_BASE_OFFSET + u32 (channel * MCDMA_CHANNEL_OFFSET)) + XMCDMA_CH_SR_OFFSET))
                w.hw).2 }
          channel
          { w.g_AxiMcdma.s2mm_channels channel with
            transfer_complete := true,
            num_transfers := u32 ((w.g_AxiMcdma.s2mm_channels channel).num_transfers + 1),
            busy := false },
        elapsed_us := e } := by
  simp only [axi_mcdma_wait_s2mm_body, if_neg (not_not.mpr h1), if_neg (not_not.mpr h2),
    if_pos h3]
  rfl

theorem axi_mcdma_wait_s2mm_body_next {σ : Type} (P : Platform σ) (channel e : Nat)
    (w : AxiMcdmaWorld σ)
    (h1 : (mcdma_read_s2mm_ch_reg P w.g_AxiMcdma channel XMCDMA_CH_SR_OFFSET w.hw).1
      &&& XMCDMA_CH_SR_ERR_MASK = 0)
    (h2 : (mcdma_read_s2mm_ch_reg P w.g_AxiMcdma channel XMCDMA_CH_SR_OFFSET w.hw).1
      &&& XMCDMA_CH_SR_IDLE_MASK = 0)
    (h3 : (mcdma_read_s2mm_ch_reg P w.g_AxiMcdma channel XMCDMA_CH_SR_OFFSET w.hw).1
      &&& XMCDMA_CH_SR_IOC_IRQ_MASK = 0) :
    axi_mcdma_wait_s2mm_body P channel e w = Poll.next
      { w with
        hw := (P.Xil_In32
                (u64 (w.g_AxiMcdma.base_addr +
                  u32 (MCDMA_S2MM_BASE_OFFSET + u32 (channel * MCDMA_CHANNEL_OFFSET)) + XMCDMA_CH_SR_OFFSET))
                w.hw).2 } := by
  simp only [axi_mcdma_wait_s2mm_body, if_neg (not_not.mpr h1), if_neg (not_not.mpr h2),
    if_neg (not_not.mpr h3)]
  rfl

/-- One iteration of the CDMA loop whose clock check passes and whose body
returns. -/
theorem cdma_ret {σ : Type} (P : Platform σ) (T start fuel : Nat) (w : AxiCdmaWorld σ)
    {r : Int × AxiCdmaWorld σ}
    (hclk : u64 ((timer_get_us P w.hw).1 + 2 ^ 64 - start) < T)
    (hb : axi_cdma_wait_body P { w with hw := (timer_get_us P w.hw).2 } = Poll.ret r) :
    axi_cdma_wait_loop P T start (fuel + 1) w = some r := by
  simp only [axi_cdma_wait_loop, if_pos hclk, hb]

/-- One iteration of the CDMA loop whose clock check passes and whose body
falls through. -/
theorem cdma_next {σ : Type} (P : Platform σ) (T start fuel : Nat) (w : AxiCdmaWorld σ)
    {w' : AxiCdmaWorld σ}
    (hclk : u64 ((timer_get_us P w.hw).1 + 2 ^ 64 - start) < T)
    (hb : axi_cdma_wait_body P { w with hw := (timer_get_us P w.hw).2 } = Poll.next w') :
    axi_cdma_wait_loop P T start (fuel + 1) w = axi_cdma_wait_loop P T start fuel w' := by
  simp only [axi_cdma_wait_loop, if_pos hclk, hb]

/-- The CDMA loop when the clock check fails. -/
theorem cdma_timeout {σ : Type} (P : Platform σ) (T start fuel : Nat) (w : AxiCdmaWorld σ)
    (hclk : ¬ u64 ((timer_get_us P w.hw).1 + 2 ^ 64 - start) < T) :
    axi_cdma_wait_loop P T start (fuel + 1) w
      = some (DMA_ERROR_TIMEOUT, { w with hw := (timer_get_us P w.hw).2 }) := by
  simp only [axi_cdma_wait_loop, if_neg hclk]

/-! ### One pass through the body of the LPD wait -/

theorem lpd_dma_wait_body_next {σ : Type} (P : Platform σ) (channel e : Nat) (w : LpdDmaWorld σ)
    (h1 : (lpd_dma_read_reg P w channel XLPDDMA_ZDMA_CH_ISR).1 &&& XLPDDMA_IXR_ERR_MASK = 0)
    (h2 : (lpd_dma_read_reg P w channel XLPDDMA_ZDMA_CH_ISR).1 &&& XLPDDMA_IXR_DMA_DONE = 0)
    (h3 : (lpd_dma_read_reg P
        { w with hw := (lpd_dma_read_reg P w channel XLPDDMA_ZDMA_CH_ISR).2 }
        channel XLPDDMA_ZDMA_CH_STATUS).1 &&& XLPDDMA_STATUS_STATE_MASK
          ≠ XLPDDMA_STATUS_STATE_IDLE) :
    lpd_dma_wait_body P channel e w = Poll.next
      { w with
        hw := (lpd_dma_read_reg P
          { w with hw := (lpd_dma_read_reg P w channel XLPDDMA_ZDMA_CH_ISR).2 }
          channel XLPDDMA_ZDMA_CH_STATUS).2 } := by
  simp only [lpd_dma_wait_body, if_neg (not_not.mpr h1), if_neg (not_not.mpr h2), if_neg h3]

/-! ### `axi_dma_wait_tx` against a status register that never shows an event -/

/-- The loop state of `axi_dma_wait_tx` after a pass that fell through. -/
theorem axi_dma_wait_tx_iter {σ : Type} (P : Platform σ) (K : Nat) (q : AxiDmaPoll σ)
    (hq : q.loop_count < 2 ^ 32) :
    ((fun v : AxiDmaPoll σ => axi_dma_wait_sleep P (axi_dma_wait_tx_fallthrough P v))^[K] q).loop_count
        = (q.loop_count + K) % 2 ^ 32 ∧
    ((fun v : AxiDmaPoll σ => axi_dma_wait_sleep P (axi_dma_wait_tx_fallthrough P v))^[K] q).world.g_AxiDma
        = q.world.g_AxiDma := by
  induction K generalizing q with
  | zero =>
    simp only [Function.iterate_zero, id_eq, Nat.add_zero, and_true]
    exact (Nat.mod_eq_of_lt hq).symm
  | succ n ih =>
    rw [Function.iterate_succ_apply]
    obtain ⟨h1, h2⟩ := ih (axi_dma_wait_sleep P (axi_dma_wait_tx_fallthrough P q)) (Nat.mod_lt _ (by norm_num))
    refine ⟨?_, h2⟩
    rw [h1]
    simp only [axi_dma_wait_sleep, axi_dma_wait_tx_fallthrough, u32]
    omega

/-- If `axi_dma_wait_tx` returns while the TX status never shows an error,
idle or IOC bit, it returns `DMA_ERROR_TIMEOUT` after `K` polls, where `K` is
the first iteration count whose counter value `(10 K) mod 2^32` is not below
the timeout; `loop_count` is `K` and `elapsed_us` is that counter value. -/
theorem axi_dma_wait_tx_quiet_returned {σ : Type} (P : Platform σ) (w : AxiDmaWorld σ)
    (T fuel : Nat) (r : AxiDmaWait σ)
    (hquiet : ∀ h,
      (axi_dma_read_tx_reg P w.g_AxiDma XAXIDMA_SR_OFFSET h).1 &&& XAXIDMA_SR_ALL_ERR_MASK = 0 ∧
      (axi_dma_read_tx_reg P w.g_AxiDma XAXIDMA_SR_OFFSET h).1 &&& XAXIDMA_SR_IDLE_MASK = 0 ∧
      (axi_dma_read_tx_reg P w.g_AxiDma XAXIDMA_SR_OFFSET h).1 &&& XAXIDMA_SR_IOC_IRQ_MASK = 0)
    (h : axi_dma_wait_tx P fuel T w = some r) :
    ∃ K, K < fuel ∧ (∀ j, j < K → (10 * j) % 2 ^ 32 < T) ∧ ¬ ((10 * K) % 2 ^ 32 < T) ∧
      r.ret = DMA_ERROR_TIMEOUT ∧ r.loop_count = K % 2 ^ 32 ∧
      r.elapsed_us = (10 * K) % 2 ^ 32 ∧ r.world.g_AxiDma = w.g_AxiDma := by
  obtain ⟨K, hK, hlt, hge, hr⟩ := pollLoop_timed_out T (axi_dma_wait_tx_body P)
    (axi_dma_wait_sleep P) (axi_dma_wait_tx_after P)
    (axi_dma_wait_tx_fallthrough P)
    (fun q => q.world.g_AxiDma = w.g_AxiDma)
    (by
      intro e q hq
      have hh := hquiet q.world.hw
      rw [← hq] at hh
      exact ⟨axi_dma_wait_tx_body_next P e q hh.1 hh.2.1 hh.2.2, hq⟩)
    fuel 0 ⟨w, 0⟩ r rfl (by norm_num) h
  obtain ⟨hlc, hg⟩ := axi_dma_wait_tx_iter P K ⟨w, 0⟩ (by norm_num)
  simp only [Nat.zero_add] at hlt hge hr hlc
  refine ⟨K, hK, hlt, hge, ?_, ?_, ?_, ?_⟩
  · rw [hr]; rfl
  · rw [hr]; exact hlc
  · rw [hr]; rfl
  · rw [hr]; exact hg

/-- Against a TX status that never shows an error, idle or IOC bit,
`axi_dma_wait_tx` returns `DMA_ERROR_TIMEOUT` as soon as the counter value
`(10 K) mod 2^32` is not below the timeout, given more than `K` iterations. -/
theorem axi_dma_wait_tx_quiet_returns {σ : Type} (P : Platform σ) (w : AxiDmaWorld σ)
    (T fuel K : Nat)
    (hquiet : ∀ h,
      (axi_dma_read_tx_reg P w.g_AxiDma XAXIDMA_SR_OFFSET h).1 &&& XAXIDMA_SR_ALL_ERR_MASK = 0 ∧
      (axi_dma_read_tx_reg P w.g_AxiDma XAXIDMA_SR_OFFSET h).1 &&& XAXIDMA_SR_IDLE_MASK = 0 ∧
      (axi_dma_read_tx_reg P w.g_AxiDma XAXIDMA_SR_OFFSET h).1 &&& XAXIDMA_SR_IOC_IRQ_MASK = 0)
    (hK : K < fuel) (hlt : ∀ j, j < K → (10 * j) % 2 ^ 32 < T)
    (hge : ¬ ((10 * K) % 2 ^ 32 < T)) :
    ∃ r, axi_dma_wait_tx P fuel T w = some r ∧ r.ret = DMA_ERROR_TIMEOUT ∧
      r.loop_count = K % 2 ^ 32 ∧ r.elapsed_us = (10 * K) % 2 ^ 32 ∧
      r.world.g_AxiDma = w.g_AxiDma := by
  have hrun := pollLoop_runs_to_timeout T (axi_dma_wait_tx_body P)
    (axi_dma_wait_sleep P) (axi_dma_wait_tx_after P)
    (axi_dma_wait_tx_fallthrough P)
    (fun q => q.world.g_AxiDma = w.g_AxiDma)
    (by
      intro e q hq
      have hh := hquiet q.world.hw
      rw [← hq] at hh
      exact ⟨axi_dma_wait_tx_body_next P e q hh.1 hh.2.1 hh.2.2, hq⟩)
    K fuel 0 ⟨w, 0⟩ rfl (by norm_num) hK
    (by intro j hj; rw [Nat.zero_add]; exact hlt j hj)
    (by rw [Nat.zero_add]; exact hge)
  obtain ⟨hlc, hg⟩ := axi_dma_wait_tx_iter P K ⟨w, 0⟩ (by norm_num)
  simp only [Nat.zero_add] at hrun hlc
  exact ⟨_, hrun, rfl, hlc, rfl, hg⟩

/-! ### The write-one-to-clear status register -/

/-- Writing a value read from a write-one-to-clear register back under a mask
leaves no bit of the mask set. -/
theorem w1c_clears (s m : Nat) : (s ^^^ (s &&& (s &&& m))) &&& m = 0 := by
  apply Nat.eq_of_testBit_eq
  intro i
  simp only [Nat.testBit_and, Nat.testBit_xor, Nat.zero_testBit]
  cases s.testBit i <;> cases m.testBit i <;> rfl

/-- A write to a write-one-to-clear register only clears bits. -/
theorem w1c_keeps_clear (s v m : Nat) (h : s &&& m = 0) : (s ^^^ (s &&& v)) &&& m = 0 := by
  apply Nat.eq_of_testBit_eq
  intro i
  have hi : (s &&& m).testBit i = false := by rw [h]; exact Nat.zero_testBit i
  simp only [Nat.testBit_and, Nat.testBit_xor, Nat.zero_testBit] at hi ⊢
  revert hi
  cases s.testBit i <;> cases m.testBit i <;> cases v.testBit i <;> simp

theorem w1c_lt (s v : Nat) (h : s < 2 ^ 32) : s ^^^ (s &&& v) < 2 ^ 32 :=
  Nat.xor_lt_two_pow h (lt_of_le_of_lt Nat.and_le_left h)

/-- The decode-error bit is one of the error bits (the AXI DMA and AXI CDMA
masks have the same values). -/
theorem decerr_in_all_err (s : Nat) (h : s &&& XAXIDMA_SR_DMADECERR_MASK ≠ 0) :
    s &&& XAXIDMA_SR_ALL_ERR_MASK ≠ 0 := by
  intro h0
  apply h
  have h1 : (s &&& XAXIDMA_SR_ALL_ERR_MASK) &&& XAXIDMA_SR_DMADECERR_MASK
      = s &&& XAXIDMA_SR_DMADECERR_MASK := by
    rw [Nat.land_assoc]
    have : XAXIDMA_SR_ALL_ERR_MASK &&& XAXIDMA_SR_DMADECERR_MASK = XAXIDMA_SR_DMADECERR_MASK := by
      decide
    rw [this]
  rw [← h1, h0]
  rfl

theorem w1c_read_tx (addr tick : Nat) (g : AxiDmaInst) (h : StatusReg)
    (haddr : u64 (g.base_addr + XAXIDMA_TX_OFFSET + XAXIDMA_SR_OFFSET) = addr)
    (hlt : h.sr < 2 ^ 32) :
    axi_dma_read_tx_reg (Platform.w1c addr tick) g XAXIDMA_SR_OFFSET h = (h.sr, h) := by
  simp only [axi_dma_read_tx_reg, Platform.w1c, haddr, if_true, u32, Nat.mod_eq_of_lt hlt]

theorem w1c_read_cdma (addr tick : Nat) (g : AxiCdmaInst) (h : StatusReg)
    (haddr : u64 (g.base_addr + XAXICDMA_SR_OFFSET) = addr)
    (hlt : h.sr < 2 ^ 32) :
    axi_cdma_read_reg (Platform.w1c addr tick) g XAXICDMA_SR_OFFSET h = (h.sr, h) := by
  simp only [axi_cdma_read_reg, Platform.w1c, haddr, if_true, u32, Nat.mod_eq_of_lt hlt]

theorem DMA_SUCCESS_ne_FAIL : DMA_SUCCESS ≠ DMA_ERROR_DMA_FAIL := by decide

theorem DMA_TIMEOUT_ne_FAIL : DMA_ERROR_TIMEOUT ≠ DMA_ERROR_DMA_FAIL := by decide

/-- Safety of the CDMA polling loop, as `pollLoop_inv` for the counter loops. -/
theorem axi_cdma_wait_loop_inv {σ : Type} (P : Platform σ) (T start : Nat)
    (Inv : AxiCdmaWorld σ → Prop) (Good : Int × AxiCdmaWorld σ → Prop)
    (hclock : ∀ w, Inv w → Inv { w with hw := (timer_get_us P w.hw).2 })
    (hret : ∀ w r, Inv w → axi_cdma_wait_body P w = Poll.ret r → Good r)
    (hnext : ∀ w w', Inv w → axi_cdma_wait_body P w = Poll.next w' → Inv w')
    (hafter : ∀ w, Inv w → Good (DMA_ERROR_TIMEOUT, w)) :
    ∀ fuel w r, Inv w → axi_cdma_wait_loop P T start fuel w = some r → Good r := by
  intro fuel
  induction fuel with
  | zero => intro w r _ h; simp [axi_cdma_wait_loop] at h
  | succ n ih =>
    intro w r hw h
    have hw1 := hclock w hw
    by_cases hc : u64 ((timer_get_us P w.hw).1 + 2 ^ 64 - start) < T
    · rcases hb : axi_cdma_wait_body P { w with hw := (timer_get_us P w.hw).2 } with r' | w'
      · rw [cdma_ret P T start n w hc hb] at h
        have hr : r' = r := Option.some.inj h
        rw [← hr]
        exact hret _ r' hw1 hb
      · rw [cdma_next P T start n w hc hb] at h
        exact ih w' r (hnext _ w' hw1 hb) h
    · rw [cdma_timeout P T start n w hc] at h
      have hr := Option.some.inj h
      rw [← hr]
      exact hafter _ hw1


/-! ### Ring set-up: the cleared slots -/

/-- The `memset` of `num_descs * 64` bytes clears every one of the first
`num_descs` slots. -/
theorem memset_zero_inside {α : Type} (zero : α) (a : Nat → α) (n i : Nat) (hi : i < n)
    (hn32 : n < 2 ^ 32) : memset_zero zero a (u64 (n * sizeof_SgDesc)) i = zero := by
  unfold memset_zero u64 sizeof_SgDesc
  rw [if_pos]
  rw [Nat.mod_eq_of_lt (by omega)]
  omega

/-! ### Transfers -/

theorem DMA_NOT_INIT_ne_SUCCESS : DMA_ERROR_NOT_INIT ≠ DMA_SUCCESS := by decide

theorem DMA_INVALID_PARAM_ne_SUCCESS : DMA_ERROR_INVALID_PARAM ≠ DMA_SUCCESS := by decide

theorem DMA_NOT_INIT_ne_INVALID_PARAM : DMA_ERROR_NOT_INIT ≠ DMA_ERROR_INVALID_PARAM := by
  decide

theorem DMA_TIMEOUT_ne_SUCCESS : DMA_ERROR_TIMEOUT ≠ DMA_SUCCESS := by decide

theorem DMA_INVALID_PARAM_ne_TIMEOUT : DMA_ERROR_INVALID_PARAM ≠ DMA_ERROR_TIMEOUT := by
  decide

theorem DMA_BUSY_ne_SUCCESS : DMA_ERROR_BUSY ≠ DMA_SUCCESS := by decide

theorem axi_dma_sg_transfer_not_init {σ : Type} (P : Platform σ) (src dst length : Nat)
    (w : AxiDmaWorld σ) (h : w.g_AxiDma.initialized = false) :
    axi_dma_sg_transfer P src dst length w = (DMA_ERROR_NOT_INIT, w) := by
  simp [axi_dma_sg_transfer, h]

theorem axi_dma_sg_transfer_no_sg {σ : Type} (P : Platform σ) (src dst length : Nat)
    (w : AxiDmaWorld σ) (h : w.g_AxiDma.sg_mode = false) :
    axi_dma_sg_transfer P src dst length w = (DMA_ERROR_NOT_INIT, w) := by
  simp [axi_dma_sg_transfer, h]

theorem axi_dma_sg_transfer_too_long {σ : Type} (P : Platform σ) (src dst length : Nat)
    (w : AxiDmaWorld σ) (h1 : w.g_AxiDma.initialized = true) (h2 : w.g_AxiDma.sg_mode = true)
    (h3 : length > w.g_AxiDma.max_transfer_len) :
    axi_dma_sg_transfer P src dst length w = (DMA_ERROR_INVALID_PARAM, w) := by
  simp [axi_dma_sg_transfer, h1, h2, h3]

theorem axi_dma_sg_transfer_run {σ : Type} (P : Platform σ) (src dst length : Nat)
    (w : AxiDmaWorld σ) (h1 : w.g_AxiDma.initialized = true) (h2 : w.g_AxiDma.sg_mode = true)
    (h3 : length ≤ w.g_AxiDma.max_transfer_len) :
    axi_dma_sg_transfer P src dst length w
      = (DMA_SUCCESS, axi_dma_sg_post P src dst length w) := by
  simp [axi_dma_sg_transfer, h1, h2, Nat.not_lt.mpr h3]

/-- The three checks of `axi_dma_sg_transfer`: a successful call has passed
them and has run the rest of the function. -/
theorem axi_dma_sg_transfer_success {σ : Type} (P : Platform σ) (src dst length : Nat)
    (w r : AxiDmaWorld σ) (h : axi_dma_sg_transfer P src dst length w = (DMA_SUCCESS, r)) :
    w.g_AxiDma.initialized = true ∧ w.g_AxiDma.sg_mode = true ∧
    length ≤ w.g_AxiDma.max_transfer_len ∧ r = axi_dma_sg_post P src dst length w := by
  rcases Bool.eq_false_or_eq_true w.g_AxiDma.initialized with h1 | h1
  · rcases Bool.eq_false_or_eq_true w.g_AxiDma.sg_mode with h2 | h2
    · by_cases h3 : length ≤ w.g_AxiDma.max_transfer_len
      · rw [axi_dma_sg_transfer_run P src dst length w h1 h2 h3] at h
        exact ⟨h1, h2, h3, (Prod.mk.inj h).2.symm⟩
      · rw [axi_dma_sg_transfer_too_long P src dst length w h1 h2 (by omega)] at h
        exact absurd (Prod.mk.inj h).1 DMA_INVALID_PARAM_ne_SUCCESS
    · rw [axi_dma_sg_transfer_no_sg P src dst length w h2] at h
      exact absurd (Prod.mk.inj h).1 DMA_NOT_INIT_ne_SUCCESS
  · rw [axi_dma_sg_transfer_not_init P src dst length w h1] at h
    exact absurd (Prod.mk.inj h).1 DMA_NOT_INIT_ne_SUCCESS

/-- Whatever `axi_dma_sg_transfer` returns, its world is either the one it was
given or the one the rest of the function leaves. -/
theorem axi_dma_sg_transfer_world {σ : Type} (P : Platform σ) (src dst length : Nat)
    (w : AxiDmaWorld σ) :
    (axi_dma_sg_transfer P src dst length w).2 = w ∨
    (axi_dma_sg_transfer P src dst length w).2 = axi_dma_sg_post P src dst length w := by
  rcases Bool.eq_false_or_eq_true w.g_AxiDma.initialized with h1 | h1
  · rcases Bool.eq_false_or_eq_true w.g_AxiDma.sg_mode with h2 | h2
    · by_cases h3 : length ≤ w.g_AxiDma.max_transfer_len
      · rw [axi_dma_sg_transfer_run P src dst length w h1 h2 h3]
        exact Or.inr rfl
      · rw [axi_dma_sg_transfer_too_long P src dst length w h1 h2 (by omega)]
        exact Or.inl rfl
    · rw [axi_dma_sg_transfer_no_sg P src dst length w h2]
      exact Or.inl rfl
  · rw [axi_dma_sg_transfer_not_init P src dst length w h1]
    exact Or.inl rfl

theorem axi_dma_start_rx_run {σ : Type} (P : Platform σ) (buf len : Nat) (w : AxiDmaWorld σ)
    (h : w.g_AxiDma.initialized = true) : (axi_dma_start_rx P buf len w).1 = DMA_SUCCESS := by
  simp [axi_dma_start_rx, h]

theorem axi_dma_start_rx_initialized {σ : Type} (P : Platform σ) (buf len : Nat)
    (w : AxiDmaWorld σ) :
    (axi_dma_start_rx P buf len w).2.g_AxiDma.initialized = w.g_AxiDma.initialized := by
  unfold axi_dma_start_rx
  split_ifs
  · rfl
  · rfl

theorem axi_dma_start_tx_run {σ : Type} (P : Platform σ) (buf len : Nat) (w : AxiDmaWorld σ)
    (h : w.g_AxiDma.initialized = true) : (axi_dma_start_tx P buf len w).1 = DMA_SUCCESS := by
  simp [axi_dma_start_tx, h]

theorem axi_dma_simple_transfer_not_init {σ : Type} (P : Platform σ) (src dst len : Nat)
    (w : AxiDmaWorld σ) (h : w.g_AxiDma.initialized = false) :
    axi_dma_simple_transfer P src dst len w = (DMA_ERROR_NOT_INIT, w) := by
  simp [axi_dma_simple_transfer, h]

theorem axi_dma_simple_transfer_too_long {σ : Type} (P : Platform σ) (src dst len : Nat)
    (w : AxiDmaWorld σ) (h1 : w.g_AxiDma.initialized = true)
    (h2 : len > w.g_AxiDma.max_transfer_len) :
    axi_dma_simple_transfer P src dst len w = (DMA_ERROR_INVALID_PARAM, w) := by
  simp [axi_dma_simple_transfer, h1, h2]

/-- A call of `axi_dma_simple_transfer` that passes its two checks runs
`axi_dma_start_rx` and then `axi_dma_start_tx`, and succeeds. -/
theorem axi_dma_simple_transfer_run {σ : Type} (P : Platform σ) (src dst len : Nat)
    (w : AxiDmaWorld σ) (h1 : w.g_AxiDma.initialized = true)
    (h2 : len ≤ w.g_AxiDma.max_transfer_len) :
    axi_dma_simple_transfer P src dst len w
      = (DMA_SUCCESS, (axi_dma_start_tx P src len (axi_dma_start_rx P dst len w).2).2) := by
  have hrx := axi_dma_start_rx_run P dst len w h1
  have htx := axi_dma_start_tx_run P src len (axi_dma_start_rx P dst len w).2
    ((axi_dma_start_rx_initialized P dst len w).trans h1)
  unfold axi_dma_simple_transfer
  rw [if_neg (not_not.mpr h1), if_neg (Nat.not_lt.mpr h2)]
  simp only []
  rw [if_neg (not_not.mpr hrx), if_neg (not_not.mpr htx)]

/-! ### What the AXI DMA waits leave untouched -/

theorem axi_dma_wait_tx_body_frame {σ : Type} (P : Platform σ) (e : Nat) (q : AxiDmaPoll σ) :
    (∀ r, axi_dma_wait_tx_body P e q = Poll.ret r →
      q.world.g_AxiDma.tx_wait_frame r.world.g_AxiDma ∧
      r.world.tx_mem = q.world.tx_mem ∧ r.world.rx_mem = q.world.rx_mem) ∧
    (∀ q', axi_dma_wait_tx_body P e q = Poll.next q' →
      q'.world.g_AxiDma = q.world.g_AxiDma ∧
      q'.world.tx_mem = q.world.tx_mem ∧ q'.world.rx_mem = q.world.rx_mem) := by
  constructor
  · intro r h
    unfold axi_dma_wait_tx_body at h
    simp only [] at h
    split_ifs at h
    · cases h
      exact ⟨rfl, rfl, rfl⟩
    · cases h
      exact ⟨rfl, rfl, rfl⟩
    · cases h
      exact ⟨rfl, rfl, rfl⟩
  · intro q' h
    unfold axi_dma_wait_tx_body at h
    simp only [] at h
    split_ifs at h
    cases h
    exact ⟨rfl, rfl, rfl⟩

theorem axi_dma_wait_rx_body_frame {σ : Type} (P : Platform σ) (e : Nat) (q : AxiDmaPoll σ) :
    (∀ r, axi_dma_wait_rx_body P e q = Poll.ret r →
      q.world.g_AxiDma.rx_wait_frame r.world.g_AxiDma ∧
      r.world.tx_mem = q.world.tx_mem ∧ r.world.rx_mem = q.world.rx_mem) ∧
    (∀ q', axi_dma_wait_rx_body P e q = Poll.next q' →
      q'.world.g_AxiDma = q.world.g_AxiDma ∧
      q'.world.tx_mem = q.world.tx_mem ∧ q'.world.rx_mem = q.world.rx_mem) := by
  constructor
  · intro r h
    unfold axi_dma_wait_rx_body at h
    simp only [] at h
    split_ifs at h
    · cases h
      exact ⟨rfl, rfl, rfl⟩
    · cases h
      exact ⟨rfl, rfl, rfl⟩
    · cases h
      exact ⟨rfl, rfl, rfl⟩
  · intro q' h
    unfold axi_dma_wait_rx_body at h
    simp only [] at h
    split_ifs at h
    cases h
    exact ⟨rfl, rfl, rfl⟩

/-- A call of `axi_dma_wait_tx` that returns has changed, apart from the
platform state, at most `tx_complete`, `tx_transfers`, `tx_error` and `errors`. -/
theorem axi_dma_wait_tx_frame {σ : Type} (P : Platform σ) (fuel T : Nat) (w : AxiDmaWorld σ)
    (r : AxiDmaWait σ) (h : axi_dma_wait_tx P fuel T w = some r) :
    w.g_AxiDma.tx_wait_frame r.world.g_AxiDma ∧
    r.world.tx_mem = w.tx_mem ∧ r.world.rx_mem = w.rx_mem := by
  refine pollLoop_inv T 10 (axi_dma_wait_tx_body P) (axi_dma_wait_sleep P)
    (axi_dma_wait_tx_after P)
    (fun q => q.world.g_AxiDma = w.g_AxiDma ∧ q.world.tx_mem = w.tx_mem ∧
      q.world.rx_mem = w.rx_mem)
    (fun r => w.g_AxiDma.tx_wait_frame r.world.g_AxiDma ∧
      r.world.tx_mem = w.tx_mem ∧ r.world.rx_mem = w.rx_mem)
    ?_ ?_ ?_ fuel 0 ⟨w, 0⟩ r ⟨rfl, rfl, rfl⟩ h
  · intro e q r ⟨hg, ht, hx⟩ hb
    obtain ⟨h1, h2, h3⟩ := (axi_dma_wait_tx_body_frame P e q).1 r hb
    rw [hg] at h1
    exact ⟨h1, h2.trans ht, h3.trans hx⟩
  · intro e q q' ⟨hg, ht, hx⟩ hb
    obtain ⟨h1, h2, h3⟩ := (axi_dma_wait_tx_body_frame P e q).2 q' hb
    exact ⟨h1.trans hg, h2.trans ht, h3.trans hx⟩
  · intro e q ⟨hg, ht, hx⟩
    refine ⟨?_, ht, hx⟩
    show w.g_AxiDma.tx_wait_frame q.world.g_AxiDma
    rw [hg]
    rfl

/-- A call of `axi_dma_wait_rx` that returns has changed, apart from the
platform state, at most `rx_complete`, `rx_transfers`, `rx_error` and `errors`. -/
theorem axi_dma_wait_rx_frame {σ : Type} (P : Platform σ) (fuel T : Nat) (w : AxiDmaWorld σ)
    (r : AxiDmaWait σ) (h : axi_dma_wait_rx P fuel T w = some r) :
    w.g_AxiDma.rx_wait_frame r.world.g_AxiDma ∧
    r.world.tx_mem = w.tx_mem ∧ r.world.rx_mem = w.rx_mem := by
  refine pollLoop_inv T 10 (axi_dma_wait_rx_body P) (axi_dma_wait_sleep P)
    (axi_dma_wait_rx_after P)
    (fun q => q.world.g_AxiDma = w.g_AxiDma ∧ q.world.tx_mem = w.tx_mem ∧
      q.world.rx_mem = w.rx_mem)
    (fun r => w.g_AxiDma.rx_wait_frame r.world.g_AxiDma ∧
      r.world.tx_mem = w.tx_mem ∧ r.world.rx_mem = w.rx_mem)
    ?_ ?_ ?_ fuel 0 ⟨w, 0⟩ r ⟨rfl, rfl, rfl⟩ h
  · intro e q r ⟨hg, ht, hx⟩ hb
    obtain ⟨h1, h2, h3⟩ := (axi_dma_wait_rx_body_frame P e q).1 r hb
    rw [hg] at h1
    exact ⟨h1, h2.trans ht, h3.trans hx⟩
  · intro e q q' ⟨hg, ht, hx⟩ hb
    obtain ⟨h1, h2, h3⟩ := (axi_dma_wait_rx_body_frame P e q).2 q' hb
    exact ⟨h1.trans hg, h2.trans ht, h3.trans hx⟩
  · intro e q ⟨hg, ht, hx⟩
    refine ⟨?_, ht, hx⟩
    show w.g_AxiDma.rx_wait_frame q.world.g_AxiDma
    rw [hg]
    rfl

/-! ### The ring invariant under the driver calls -/

/-- The fields that `axi_dma_wait_tx` leaves alone. -/
theorem tx_wait_frame_fields (g g' : AxiDmaInst) (h : g.tx_wait_frame g') :
    g'.ring_size = g.ring_size ∧ g'.tx_ring = g.tx_ring ∧ g'.rx_ring = g.rx_ring ∧
    g'.tx_head = g.tx_head ∧ g'.rx_head = g.rx_head ∧ g'.rx_complete = g.rx_complete ∧
    g'.rx_transfers = g.rx_transfers ∧ g'.rx_error = g.rx_error ∧
    g'.base_addr = g.base_addr := by
  unfold AxiDmaInst.tx_wait_frame at h
  have h1 := congrArg AxiDmaInst.ring_size h
  have h2 := congrArg AxiDmaInst.tx_ring h
  have h3 := congrArg AxiDmaInst.rx_ring h
  have h4 := congrArg AxiDmaInst.tx_head h
  have h5 := congrArg AxiDmaInst.rx_head h
  have h6 := congrArg AxiDmaInst.rx_complete h
  have h7 := congrArg AxiDmaInst.rx_transfers h
  have h8 := congrArg AxiDmaInst.rx_error h
  have h9 := congrArg AxiDmaInst.base_addr h
  exact ⟨h1, h2, h3, h4, h5, h6, h7, h8, h9⟩

/-- The fields that `axi_dma_wait_rx` leaves alone. -/
theorem rx_wait_frame_fields (g g' : AxiDmaInst) (h : g.rx_wait_frame g') :
    g'.ring_size = g.ring_size ∧ g'.tx_ring = g.tx_ring ∧ g'.rx_ring = g.rx_ring ∧
    g'.tx_head = g.tx_head ∧ g'.rx_head = g.rx_head ∧ g'.tx_complete = g.tx_complete ∧
    g'.tx_transfers = g.tx_transfers ∧ g'.tx_error = g.tx_error ∧
    g'.base_addr = g.base_addr := by
  unfold AxiDmaInst.rx_wait_frame at h
  have h1 := congrArg AxiDmaInst.ring_size h
  have h2 := congrArg AxiDmaInst.tx_ring h
  have h3 := congrArg AxiDmaInst.rx_ring h
  have h4 := congrArg AxiDmaInst.tx_head h
  have h5 := congrArg AxiDmaInst.rx_head h
  have h6 := congrArg AxiDmaInst.tx_complete h
  have h7 := congrArg AxiDmaInst.tx_transfers h
  have h8 := congrArg AxiDmaInst.tx_error h
  have h9 := congrArg AxiDmaInst.base_addr h
  exact ⟨h1, h2, h3, h4, h5, h6, h7, h8, h9⟩

theorem ringOk_congr {σ : Type} (tx rx n : Nat) (w w' : AxiDmaWorld σ)
    (hs : w'.g_AxiDma.ring_size = w.g_AxiDma.ring_size)
    (htr : w'.g_AxiDma.tx_ring = w.g_AxiDma.tx_ring)
    (hrr : w'.g_AxiDma.rx_ring = w.g_AxiDma.rx_ring)
    (hth : w'.g_AxiDma.tx_head = w.g_AxiDma.tx_head)
    (hrh : w'.g_AxiDma.rx_head = w.g_AxiDma.rx_head)
    (htm : w'.tx_mem = w.tx_mem) (hrm : w'.rx_mem = w.rx_mem)
    (h : w.ringOk tx rx n) : w'.ringOk tx rx n := by
  unfold AxiDmaWorld.ringOk at h ⊢
  rw [hs, htr, hrr, hth, hrh, htm, hrm]
  exact h

theorem ringOk_wait_tx {σ : Type} (P : Platform σ) (tx rx n fuel T : Nat) (w : AxiDmaWorld σ)
    (r : AxiDmaWait σ) (h : axi_dma_wait_tx P fuel T w = some r) (hw : w.ringOk tx rx n) :
    r.world.ringOk tx rx n := by
  obtain ⟨hf, ht, hx⟩ := axi_dma_wait_tx_frame P fuel T w r h
  obtain ⟨h1, h2, h3, h4, h5, -⟩ := tx_wait_frame_fields _ _ hf
  exact ringOk_congr tx rx n w r.world h1 h2 h3 h4 h5 ht hx hw

theorem ringOk_wait_rx {σ : Type} (P : Platform σ) (tx rx n fuel T : Nat) (w : AxiDmaWorld σ)
    (r : AxiDmaWait σ) (h : axi_dma_wait_rx P fuel T w = some r) (hw : w.ringOk tx rx n) :
    r.world.ringOk tx rx n := by
  obtain ⟨hf, ht, hx⟩ := axi_dma_wait_rx_frame P fuel T w r h
  obtain ⟨h1, h2, h3, h4, h5, -⟩ := rx_wait_frame_fields _ _ hf
  exact ringOk_congr tx rx n w r.world h1 h2 h3 h4 h5 ht hx hw

theorem ringOk_wait_complete {σ : Type} (P : Platform σ) (tx rx n fuel T : Nat)
    (w : AxiDmaWorld σ) (r : Int × AxiDmaWorld σ)
    (h : axi_dma_wait_complete P fuel T w = some r) (hw : w.ringOk tx rx n) :
    r.2.ringOk tx rx n := by
  unfold axi_dma_wait_complete at h
  rcases ht : axi_dma_wait_tx P fuel T w with _ | t
  · rw [ht] at h
    cases h
  · rw [ht] at h
    have h1 := ringOk_wait_tx P tx rx n fuel T w t ht hw
    simp only [] at h
    split_ifs at h
    · cases h
      exact h1
    · rcases hr : axi_dma_wait_rx P fuel T t.world with _ | r'
      · rw [hr] at h
        cases h
      · rw [hr] at h
        cases h
        exact ringOk_wait_rx P tx rx n fuel T t.world r' hr h1

theorem axi_dma_start_rx_frame {σ : Type} (P : Platform σ) (buf len : Nat) (w : AxiDmaWorld σ) :
    { (axi_dma_start_rx P buf len w).2.g_AxiDma with rx_complete := w.g_AxiDma.rx_complete }
      = w.g_AxiDma ∧
    (axi_dma_start_rx P buf len w).2.tx_mem = w.tx_mem ∧
    (axi_dma_start_rx P buf len w).2.rx_mem = w.rx_mem := by
  unfold axi_dma_start_rx
  split_ifs
  · exact ⟨rfl, rfl, rfl⟩
  · exact ⟨rfl, rfl, rfl⟩

theorem axi_dma_start_tx_frame {σ : Type} (P : Platform σ) (buf len : Nat) (w : AxiDmaWorld σ) :
    { (axi_dma_start_tx P buf len w).2.g_AxiDma with tx_complete := w.g_AxiDma.tx_complete }
      = w.g_AxiDma ∧
    (axi_dma_start_tx P buf len w).2.tx_mem = w.tx_mem ∧
    (axi_dma_start_tx P buf len w).2.rx_mem = w.rx_mem := by
  unfold axi_dma_start_tx
  split_ifs
  · exact ⟨rfl, rfl, rfl⟩
  · exact ⟨rfl, rfl, rfl⟩

theorem ringOk_start_rx {σ : Type} (P : Platform σ) (tx rx n buf len : Nat) (w : AxiDmaWorld σ)
    (hw : w.ringOk tx rx n) : (axi_dma_start_rx P buf len w).2.ringOk tx rx n := by
  obtain ⟨hf, ht, hx⟩ := axi_dma_start_rx_frame P buf len w
  have h1 := congrArg AxiDmaInst.ring_size hf
  have h2 := congrArg AxiDmaInst.tx_ring hf
  have h3 := congrArg AxiDmaInst.rx_ring hf
  have h4 := congrArg AxiDmaInst.tx_head hf
  have h5 := congrArg AxiDmaInst.rx_head hf
  exact ringOk_congr tx rx n w _ h1 h2 h3 h4 h5 ht hx hw

theorem ringOk_start_tx {σ : Type} (P : Platform σ) (tx rx n buf len : Nat) (w : AxiDmaWorld σ)
    (hw : w.ringOk tx rx n) : (axi_dma_start_tx P buf len w).2.ringOk tx rx n := by
  obtain ⟨hf, ht, hx⟩ := axi_dma_start_tx_frame P buf len w
  have h1 := congrArg AxiDmaInst.ring_size hf
  have h2 := congrArg AxiDmaInst.tx_ring hf
  have h3 := congrArg AxiDmaInst.rx_ring hf
  have h4 := congrArg AxiDmaInst.tx_head hf
  have h5 := congrArg AxiDmaInst.rx_head hf
  exact ringOk_congr tx rx n w _ h1 h2 h3 h4 h5 ht hx hw

theorem ringOk_simple_transfer {σ : Type} (P : Platform σ) (tx rx n src dst len : Nat)
    (w : AxiDmaWorld σ) (hw : w.ringOk tx rx n) :
    (axi_dma_simple_transfer P src dst len w).2.ringOk tx rx n := by
  unfold axi_dma_simple_transfer
  by_cases h1 : ¬ (w.g_AxiDma.initialized = true)
  · rw [if_pos h1]
    exact hw
  · rw [if_neg h1]
    by_cases h2 : len > w.g_AxiDma.max_transfer_len
    · rw [if_pos h2]
      exact hw
    · rw [if_neg h2]
      simp only []
      by_cases h3 : (axi_dma_start_rx P dst len w).1 ≠ DMA_SUCCESS
      · rw [if_pos h3]
        exact ringOk_start_rx P tx rx n dst len w hw
      · rw [if_neg h3]
        by_cases h4 : (axi_dma_start_tx P src len (axi_dma_start_rx P dst len w).2).1
            ≠ DMA_SUCCESS
        · rw [if_pos h4]
          exact ringOk_start_tx P tx rx n src len _ (ringOk_start_rx P tx rx n dst len w hw)
        · rw [if_neg h4]
          exact ringOk_start_tx P tx rx n src len _ (ringOk_start_rx P tx rx n dst len w hw)

theorem ringOk_clear_stats {σ : Type} (tx rx n : Nat) (w : AxiDmaWorld σ)
    (hw : w.ringOk tx rx n) : (axi_dma_clear_stats w).ringOk tx rx n :=
  ringOk_congr tx rx n w _ rfl rfl rfl rfl rfl rfl rfl hw

theorem ringOk_sg_post {σ : Type} (P : Platform σ) (tx rx n src dst len : Nat)
    (w : AxiDmaWorld σ) (hn32 : n < 2 ^ 32) (hw : w.ringOk tx rx n) :
    (axi_dma_sg_post P src dst len w).ringOk tx rx n := by
  obtain ⟨hs, htr, hrr, hth, hrh, hl⟩ := hw
  have hn : 0 < n := by omega
  refine ⟨hs, htr, hrr, ?_, ?_, ?_⟩
  · show u32 (w.g_AxiDma.tx_head + 1) % w.g_AxiDma.ring_size < n
    rw [hs]
    exact Nat.mod_lt _ hn
  · show u32 (w.g_AxiDma.rx_head + 1) % w.g_AxiDma.ring_size < n
    rw [hs]
    exact Nat.mod_lt _ hn
  · intro i hi
    obtain ⟨h1, h2⟩ := hl i hi
    constructor
    · rw [← h1]
      by_cases hc : i = w.g_AxiDma.tx_head
      · subst hc
        simp only [axi_dma_sg_post, Function.update_same, axi_dma_fill_tx_desc,
          AxiDmaSgDesc.link]
      · simp only [axi_dma_sg_post, Function.update_noteq hc]
    · rw [← h2]
      by_cases hc : i = w.g_AxiDma.rx_head
      · subst hc
        simp only [axi_dma_sg_post, Function.update_same, axi_dma_fill_rx_desc,
          AxiDmaSgDesc.link]
      · simp only [axi_dma_sg_post, Function.update_noteq hc]

theorem ringOk_sg_transfer {σ : Type} (P : Platform σ) (tx rx n src dst len : Nat)
    (w : AxiDmaWorld σ) (hn32 : n < 2 ^ 32) (hw : w.ringOk tx rx n) :
    (axi_dma_sg_transfer P src dst len w).2.ringOk tx rx n := by
  rcases axi_dma_sg_transfer_world P src dst len w with h | h
  · rw [h]
    exact hw
  · rw [h]
    exact ringOk_sg_post P tx rx n src dst len w hn32 hw

theorem ringOk_run {σ : Type} (P : Platform σ) (tx rx n : Nat) (hn32 : n < 2 ^ 32)
    (c : AxiDmaCall) (w w' : AxiDmaWorld σ) (h : c.run P w = some w')
    (hw : w.ringOk tx rx n) : w'.ringOk tx rx n := by
  cases c with
  | sg_transfer s d l =>
    cases h
    exact ringOk_sg_transfer P tx rx n s d l w hn32 hw
  | simple_transfer s d l =>
    cases h
    exact ringOk_simple_transfer P tx rx n s d l w hw
  | wait_tx fuel t =>
    simp only [AxiDmaCall.run, Option.map_eq_some'] at h
    obtain ⟨r, hr, rfl⟩ := h
    exact ringOk_wait_tx P tx rx n fuel t w r hr hw
  | wait_rx fuel t =>
    simp only [AxiDmaCall.run, Option.map_eq_some'] at h
    obtain ⟨r, hr, rfl⟩ := h
    exact ringOk_wait_rx P tx rx n fuel t w r hr hw
  | wait_complete fuel t =>
    simp only [AxiDmaCall.run, Option.map_eq_some'] at h
    obtain ⟨r, hr, rfl⟩ := h
    exact ringOk_wait_complete P tx rx n fuel t w r hr hw
  | clear_stats =>
    cases h
    exact ringOk_clear_stats tx rx n w hw

theorem ringOk_run_calls {σ : Type} (P : Platform σ) (tx rx n : Nat) (hn32 : n < 2 ^ 32)
    (cs : List AxiDmaCall) :
    ∀ (w w' : AxiDmaWorld σ), axi_dma_run_calls P cs w = some w' → w.ringOk tx rx n →
      w'.ringOk tx rx n := by
  induction cs with
  | nil =>
    intro w w' h hw
    cases h
    exact hw
  | cons c cs ih =>
    intro w w' h hw
    unfold axi_dma_run_calls at h
    rcases hc : c.run P w with _ | w1
    · rw [hc] at h
      cases h
    · rw [hc] at h
      exact ih w1 w' h (ringOk_run P tx rx n hn32 c w w1 hc hw)

/-- A successful ring set-up establishes the ring invariant. -/
theorem ringOk_setup {σ : Type} (P : Platform σ) (w : AxiDmaWorld σ) (tx rx n : Nat)
    (htx : tx ≠ 0) (hrx : rx ≠ 0) (hn : 0 < n) (hn32 : n < 2 ^ 32)
    (htxfit : tx + 64 * n ≤ 2 ^ 64) (hrxfit : rx + 64 * n ≤ 2 ^ 64) :
    (axi_dma_setup_sg_ring P tx rx n w).1 = DMA_SUCCESS ∧
    (axi_dma_setup_sg_ring P tx rx n w).2.ringOk tx rx n := by
  have hga : ¬ (tx = 0 ∨ rx = 0 ∨ n = 0) := by
    rintro (h | h | h)
    · exact htx h
    · exact hrx h
    · omega
  refine ⟨?_, ?_, ?_, ?_, ?_, ?_, ?_⟩
  · simp only [axi_dma_setup_sg_ring, if_neg hga]
  · simp only [axi_dma_setup_sg_ring, if_neg hga]
  · simp only [axi_dma_setup_sg_ring, if_neg hga]
  · simp only [axi_dma_setup_sg_ring, if_neg hga]
  · simp only [axi_dma_setup_sg_ring, if_neg hga]
    exact hn
  · simp only [axi_dma_setup_sg_ring, if_neg hga]
    exact hn
  · intro i hi
    simp only [axi_dma_setup_sg_ring, if_neg hga, forEachIndex_apply, if_pos hi]
    exact ⟨axi_dma_link_slot_link tx n i _ hi hn32 htxfit,
      axi_dma_link_slot_link rx n i _ hi hn32 hrxfit⟩

/-! ### Event logs -/

/-- The scan `guardedBy` decides `Precedes`. -/
theorem precedes_of_guardedBy (p q : Event → Bool) :
    ∀ evs, guardedBy p q evs = true → Precedes p q evs := by
  intro evs
  induction evs with
  | nil =>
    intro _ pre e post h
    cases pre <;> cases h
  | cons a as ih =>
    intro hg pre e post h hq
    simp only [guardedBy, Bool.and_eq_true, Bool.not_eq_true', Bool.or_eq_true] at hg
    obtain ⟨hqa, hrest⟩ := hg
    cases pre with
    | nil =>
      simp only [List.nil_append, List.cons.injEq] at h
      rw [← h.1, hqa] at hq
      cases hq
    | cons b pre' =>
      simp only [List.cons_append, List.cons.injEq] at h
      obtain ⟨hab, has⟩ := h
      rcases hrest with hp | hg'
      · exact ⟨a, by rw [hab]; exact List.mem_cons_self _ _, hp⟩
      · obtain ⟨e', he', hpe'⟩ := ih hg' pre' e post has hq
        exact ⟨e', List.mem_cons_of_mem _ he', hpe'⟩

theorem isWriteIn_Out32_false (base span b v : Nat)
    (h : ∀ off, off < span → b ≠ u64 (base + off)) :
    Event.isWriteIn base span (Event.Out32 b v) = false := by
  simp only [Event.isWriteIn, decide_eq_false_iff_not]
  rintro ⟨off, hoff, hb⟩
  exact h off hoff hb

theorem isWriteIn_Out32_true (base span off v : Nat) (h : off < span) :
    Event.isWriteIn base span (Event.Out32 (u64 (base + off)) v) = true := by
  simp only [Event.isWriteIn, decide_eq_true_eq]
  exact ⟨off, h, rfl⟩

theorem continues_refl (ok : Event → Bool) (log : List Event) : Continues ok log log :=
  ⟨[], (List.append_nil log).symm, fun _ h => absurd h (List.not_mem_nil _)⟩

theorem continues_snoc (ok : Event → Bool) (log0 log : List Event) (e : Event)
    (h : Continues ok log0 log) (he : ok e = true) : Continues ok log0 (log ++ [e]) := by
  obtain ⟨evs, h1, h2⟩ := h
  refine ⟨evs ++ [e], ?_, ?_⟩
  · rw [h1, List.append_assoc]
  · intro x hx
    rcases List.mem_append.mp hx with hx | hx
    · exact h2 x hx
    · rw [List.mem_singleton.mp hx]
      exact he

theorem isWriteIn_In32 (base span a : Nat) :
    Event.isWriteIn base span (Event.In32 a) = false := rfl

theorem isWriteIn_usleep (base span us : Nat) :
    Event.isWriteIn base span (Event.usleep us) = false := rfl

theorem isWriteIn_flush (base span a n : Nat) :
    Event.isWriteIn base span (Event.DCacheFlushRange a n) = false := rfl

theorem isWriteIn_invalidate (base span a n : Nat) :
    Event.isWriteIn base span (Event.DCacheInvalidateRange a n) = false := rfl

theorem isWriteTo_self (a v : Nat) : Event.isWriteTo a (Event.Out32 a v) = true := by
  simp only [Event.isWriteTo, decide_True]

theorem isWriteTo_In32 (a b : Nat) : Event.isWriteTo a (Event.In32 b) = false := rfl

theorem isWriteTo_flush (a b n : Nat) :
    Event.isWriteTo a (Event.DCacheFlushRange b n) = false := rfl

theorem isWriteTo_invalidate (a b n : Nat) :
    Event.isWriteTo a (Event.DCacheInvalidateRange b n) = false := rfl

/-- A write to a register of the RX (S2MM) channel of the AXI DMA is not a write
to a register of its TX (MM2S) channel. -/
theorem axi_rx_write_not_tx (base k v : Nat) (hk : k < 0x30) :
    Event.isWriteIn (base + XAXIDMA_TX_OFFSET) 0x30
      (Event.Out32 (u64 (base + XAXIDMA_RX_OFFSET + k)) v) = false := by
  apply isWriteIn_Out32_false
  intro off hoff
  unfold u64 XAXIDMA_RX_OFFSET XAXIDMA_TX_OFFSET
  omega

/-- A write to a register of the S2MM side of an MCDMA channel is not a write
to a register of the MM2S side of that channel. -/
theorem mcdma_s2mm_write_not_mm2s (base channel k v : Nat) (hk : k < 0x40) :
    Event.isWriteIn (base + u32 (MCDMA_MM2S_BASE_OFFSET + u32 (channel * MCDMA_CHANNEL_OFFSET)))
      0x40
      (Event.Out32
        (u64 (base + u32 (MCDMA_S2MM_BASE_OFFSET + u32 (channel * MCDMA_CHANNEL_OFFSET)) + k)) v)
      = false := by
  apply isWriteIn_Out32_false
  intro off hoff
  unfold u64 u32 MCDMA_MM2S_BASE_OFFSET MCDMA_S2MM_BASE_OFFSET
  generalize channel * MCDMA_CHANNEL_OFFSET = c
  omega

theorem continues_mono (ok ok' : Event → Bool) (log0 log : List Event)
    (hm : ∀ e, ok e = true → ok' e = true) (h : Continues ok log0 log) :
    Continues ok' log0 log := by
  obtain ⟨evs, h1, h2⟩ := h
  exact ⟨evs, h1, fun e he => hm e (h2 e he)⟩

/-- The status registers of the two channels of the AXI DMA are at different
addresses. -/
theorem axi_tx_sr_ne_rx_sr (base : Nat) :
    u64 (base + XAXIDMA_TX_OFFSET + XAXIDMA_SR_OFFSET)
      ≠ u64 (base + XAXIDMA_RX_OFFSET + XAXIDMA_SR_OFFSET) := by
  unfold u64 XAXIDMA_TX_OFFSET XAXIDMA_RX_OFFSET XAXIDMA_SR_OFFSET
  omega

/-- The status registers of the two sides of an MCDMA channel are at different
addresses. -/
theorem mcdma_mm2s_sr_ne_s2mm_sr (base channel : Nat) :
    u64 (base + u32 (MCDMA_MM2S_BASE_OFFSET + u32 (channel * MCDMA_CHANNEL_OFFSET))
        + XMCDMA_CH_SR_OFFSET)
      ≠ u64 (base + u32 (MCDMA_S2MM_BASE_OFFSET + u32 (channel * MCDMA_CHANNEL_OFFSET))
        + XMCDMA_CH_SR_OFFSET) := by
  unfold u64 u32 MCDMA_MM2S_BASE_OFFSET MCDMA_S2MM_BASE_OFFSET XMCDMA_CH_SR_OFFSET
  generalize channel * MCDMA_CHANNEL_OFFSET = c
  omega

theorem isReadOf_In32_ne (a b : Nat) (h : b ≠ a) : Event.isReadOf a (Event.In32 b) = false := by
  simp only [Event.isReadOf, decide_eq_false_iff_not]
  exact h

/-! ### What the transfer functions do on the recording platform -/

/-- The primitive calls of `axi_dma_start_rx`, in order. -/
theorem axi_dma_start_rx_trace (rd : Nat → List Event → Nat) (clk : List Event → Nat)
    (buf len : Nat) (w : AxiDmaWorld (List Event)) (h : w.g_AxiDma.initialized = true) :
    ∃ v, (axi_dma_start_rx (Platform.recording rd clk) buf len w).2.hw = w.hw ++
      [Event.DCacheInvalidateRange buf len,
       Event.Out32 (u64 (w.g_AxiDma.base_addr + XAXIDMA_RX_OFFSET + XAXIDMA_DSTADDR_OFFSET))
         (u32 (buf &&& 0xFFFFFFFF)),
       Event.Out32 (u64 (w.g_AxiDma.base_addr + XAXIDMA_RX_OFFSET + (XAXIDMA_DSTADDR_OFFSET + 4)))
         (u32 (buf >>> 32)),
       Event.In32 (u64 (w.g_AxiDma.base_addr + XAXIDMA_RX_OFFSET + XAXIDMA_CR_OFFSET)),
       Event.Out32 (u64 (w.g_AxiDma.base_addr + XAXIDMA_RX_OFFSET + XAXIDMA_CR_OFFSET)) v,
       Event.Out32 (u64 (w.g_AxiDma.base_addr + XAXIDMA_RX_OFFSET + XAXIDMA_BUFFLEN_OFFSET)) len]
      := by
  apply Exists.intro
  simp only [axi_dma_start_rx, h, not_true_eq_false, if_false, axi_dma_write_rx_reg,
    axi_dma_read_rx_reg, Platform.recording, List.append_assoc, List.singleton_append,
    List.cons_append, List.nil_append]
  rfl

/-- The primitive calls of `axi_dma_start_tx`, in order. -/
theorem axi_dma_start_tx_trace (rd : Nat → List Event → Nat) (clk : List Event → Nat)
    (buf len : Nat) (w : AxiDmaWorld (List Event)) (h : w.g_AxiDma.initialized = true) :
    ∃ v, (axi_dma_start_tx (Platform.recording rd clk) buf len w).2.hw = w.hw ++
      [Event.DCacheFlushRange buf len,
       Event.Out32 (u64 (w.g_AxiDma.base_addr + XAXIDMA_TX_OFFSET + XAXIDMA_SRCADDR_OFFSET))
         (u32 (buf &&& 0xFFFFFFFF)),
       Event.Out32 (u64 (w.g_AxiDma.base_addr + XAXIDMA_TX_OFFSET + (XAXIDMA_SRCADDR_OFFSET + 4)))
         (u32 (buf >>> 32)),
       Event.In32 (u64 (w.g_AxiDma.base_addr + XAXIDMA_TX_OFFSET + XAXIDMA_CR_OFFSET)),
       Event.Out32 (u64 (w.g_AxiDma.base_addr + XAXIDMA_TX_OFFSET + XAXIDMA_CR_OFFSET)) v,
       Event.Out32 (u64 (w.g_AxiDma.base_addr + XAXIDMA_TX_OFFSET + XAXIDMA_BUFFLEN_OFFSET)) len]
      := by
  apply Exists.intro
  simp only [axi_dma_start_tx, h, not_true_eq_false, if_false, axi_dma_write_tx_reg,
    axi_dma_read_tx_reg, Platform.recording, List.append_assoc, List.singleton_append,
    List.cons_append, List.nil_append]
  rfl

/-- The primitive calls of a successful `axi_dma_simple_transfer`, in order:
those of `axi_dma_start_rx`, then those of `axi_dma_start_tx`. -/
theorem axi_dma_simple_transfer_trace (rd : Nat → List Event → Nat) (clk : List Event → Nat)
    (src dst len : Nat) (w : AxiDmaWorld (List Event)) (h1 : w.g_AxiDma.initialized = true)
    (h2 : len ≤ w.g_AxiDma.max_transfer_len) :
    ∃ v v', (axi_dma_simple_transfer (Platform.recording rd clk) src dst len w).2.hw = w.hw ++
      [Event.DCacheInvalidateRange dst len,
       Event.Out32 (u64 (w.g_AxiDma.base_addr + XAXIDMA_RX_OFFSET + XAXIDMA_DSTADDR_OFFSET))
         (u32 (dst &&& 0xFFFFFFFF)),
       Event.Out32 (u64 (w.g_AxiDma.base_addr + XAXIDMA_RX_OFFSET + (XAXIDMA_DSTADDR_OFFSET + 4)))
         (u32 (dst >>> 32)),
       Event.In32 (u64 (w.g_AxiDma.base_addr + XAXIDMA_RX_OFFSET + XAXIDMA_CR_OFFSET)),
       Event.Out32 (u64 (w.g_AxiDma.base_addr + XAXIDMA_RX_OFFSET + XAXIDMA_CR_OFFSET)) v,
       Event.Out32 (u64 (w.g_AxiDma.base_addr + XAXIDMA_RX_OFFSET + XAXIDMA_BUFFLEN_OFFSET)) len,
       Event.DCacheFlushRange src len,
       Event.Out32 (u64 (w.g_AxiDma.base_addr + XAXIDMA_TX_OFFSET + XAXIDMA_SRCADDR_OFFSET))
         (u32 (src &&& 0xFFFFFFFF)),
       Event.Out32 (u64 (w.g_AxiDma.base_addr + XAXIDMA_TX_OFFSET + (XAXIDMA_SRCADDR_OFFSET + 4)))
         (u32 (src >>> 32)),
       Event.In32 (u64 (w.g_AxiDma.base_addr + XAXIDMA_TX_OFFSET + XAXIDMA_CR_OFFSET)),
       Event.Out32 (u64 (w.g_AxiDma.base_addr + XAXIDMA_TX_OFFSET + XAXIDMA_CR_OFFSET)) v',
       Event.Out32 (u64 (w.g_AxiDma.base_addr + XAXIDMA_TX_OFFSET + XAXIDMA_BUFFLEN_OFFSET)) len]
      := by
  rw [axi_dma_simple_transfer_run _ src dst len w h1 h2]
  obtain ⟨v, hv⟩ := axi_dma_start_rx_trace rd clk dst len w h1
  have hi := (axi_dma_start_rx_initialized (Platform.recording rd clk) dst len w).trans h1
  obtain ⟨v', hv'⟩ := axi_dma_start_tx_trace rd clk src len _ hi
  have hb : (axi_dma_start_rx (Platform.recording rd clk) dst len w).2.g_AxiDma.base_addr
      = w.g_AxiDma.base_addr := by
    have := congrArg AxiDmaInst.base_addr
      (axi_dma_start_rx_frame (Platform.recording rd clk) dst len w).1
    exact this
  refine ⟨v, v', ?_⟩
  rw [hv', hv, hb, List.append_assoc]
  rfl

/-- The primitive calls of `axi_dma_sg_transfer` after its checks, in order. -/
theorem axi_dma_sg_post_trace (rd : Nat → List Event → Nat) (clk : List Event → Nat)
    (src dst len : Nat) (w : AxiDmaWorld (List Event)) :
    ∃ v v', (axi_dma_sg_post (Platform.recording rd clk) src dst len w).hw = w.hw ++
      [Event.DCacheFlushRange (u64 (w.g_AxiDma.tx_ring + sizeof_SgDesc * w.g_AxiDma.tx_head))
         sizeof_SgDesc,
       Event.DCacheFlushRange (u64 (w.g_AxiDma.rx_ring + sizeof_SgDesc * w.g_AxiDma.rx_head))
         sizeof_SgDesc,
       Event.DCacheFlushRange src len,
       Event.DCacheInvalidateRange dst len,
       Event.Out32 (u64 (w.g_AxiDma.base_addr + XAXIDMA_RX_OFFSET + XAXIDMA_CDESC_OFFSET))
         (u32 (u64 (w.g_AxiDma.rx_ring + sizeof_SgDesc * w.g_AxiDma.rx_head) &&& 0xFFFFFFFF)),
       Event.Out32 (u64 (w.g_AxiDma.base_addr + XAXIDMA_RX_OFFSET + XAXIDMA_CDESC_MSB_OFFSET))
         (u32 (u64 (w.g_AxiDma.rx_ring + sizeof_SgDesc * w.g_AxiDma.rx_head) >>> 32)),
       Event.In32 (u64 (w.g_AxiDma.base_addr + XAXIDMA_RX_OFFSET + XAXIDMA_CR_OFFSET)),
       Event.Out32 (u64 (w.g_AxiDma.base_addr + XAXIDMA_RX_OFFSET + XAXIDMA_CR_OFFSET)) v,
       Event.Out32 (u64 (w.g_AxiDma.base_addr + XAXIDMA_RX_OFFSET + XAXIDMA_TDESC_OFFSET))
         (u32 (u64 (w.g_AxiDma.rx_ring + sizeof_SgDesc * w.g_AxiDma.rx_head) &&& 0xFFFFFFFF)),
       Event.Out32 (u64 (w.g_AxiDma.base_addr + XAXIDMA_RX_OFFSET + XAXIDMA_TDESC_MSB_OFFSET))
         (u32 (u64 (w.g_AxiDma.rx_ring + sizeof_SgDesc * w.g_AxiDma.rx_head) >>> 32)),
       Event.Out32 (u64 (w.g_AxiDma.base_addr + XAXIDMA_TX_OFFSET + XAXIDMA_CDESC_OFFSET))
         (u32 (u64 (w.g_AxiDma.tx_ring + sizeof_SgDesc * w.g_AxiDma.tx_head) &&& 0xFFFFFFFF)),
       Event.Out32 (u64 (w.g_AxiDma.base_addr + XAXIDMA_TX_OFFSET + XAXIDMA_CDESC_MSB_OFFSET))
         (u32 (u64 (w.g_AxiDma.tx_ring + sizeof_SgDesc * w.g_AxiDma.tx_head) >>> 32)),
       Event.In32 (u64 (w.g_AxiDma.base_addr + XAXIDMA_TX_OFFSET + XAXIDMA_CR_OFFSET)),
       Event.Out32 (u64 (w.g_AxiDma.base_addr + XAXIDMA_TX_OFFSET + XAXIDMA_CR_OFFSET)) v',
       Event.Out32 (u64 (w.g_AxiDma.base_addr + XAXIDMA_TX_OFFSET + XAXIDMA_TDESC_OFFSET))
         (u32 (u64 (w.g_AxiDma.tx_ring + sizeof_SgDesc * w.g_AxiDma.tx_head) &&& 0xFFFFFFFF)),
       Event.Out32 (u64 (w.g_AxiDma.base_addr + XAXIDMA_TX_OFFSET + XAXIDMA_TDESC_MSB_OFFSET))
         (u32 (u64 (w.g_AxiDma.tx_ring + sizeof_SgDesc * w.g_AxiDma.tx_head) >>> 32)),
       Event.In32 (u64 (w.g_AxiDma.base_addr + XAXIDMA_TX_OFFSET + XAXIDMA_SR_OFFSET)),
       Event.In32 (u64 (w.g_AxiDma.base_addr + XAXIDMA_RX_OFFSET + XAXIDMA_SR_OFFSET))] := by
  apply Exists.intro
  apply Exists.intro
  simp only [axi_dma_sg_post, axi_dma_sg_start, axi_dma_write_rx_reg, axi_dma_read_rx_reg,
    axi_dma_write_tx_reg, axi_dma_read_tx_reg, Platform.recording, List.append_assoc,
    List.singleton_append, List.cons_append, List.nil_append]
  rfl

/-- The primitive calls of a successful `axi_mcdma_start_s2mm`, in order. -/
theorem axi_mcdma_start_s2mm_trace (rd : Nat → List Event → Nat) (clk : List Event → Nat)
    (channel buf len : Nat) (w : AxiMcdmaWorld (List Event))
    (h : (axi_mcdma_start_s2mm (Platform.recording rd clk) channel buf len w).1 = DMA_SUCCESS) :
    ∃ d v, (axi_mcdma_start_s2mm (Platform.recording rd clk) channel buf len w).2.hw = w.hw ++
      [Event.DCacheFlushRange d sizeof_SgDesc,
       Event.DCacheInvalidateRange buf len,
       Event.Out32 (u64 (w.g_AxiMcdma.base_addr
           + u32 (MCDMA_S2MM_BASE_OFFSET + u32 (channel * MCDMA_CHANNEL_OFFSET))
           + XMCDMA_CH_CDESC_OFFSET)) (u32 (d &&& 0xFFFFFFFF)),
       Event.Out32 (u64 (w.g_AxiMcdma.base_addr
           + u32 (MCDMA_S2MM_BASE_OFFSET + u32 (channel * MCDMA_CHANNEL_OFFSET))
           + XMCDMA_CH_CDESC_MSB_OFFSET)) (u32 (d >>> 32)),
       Event.In32 (u64 (w.g_AxiMcdma.base_addr
           + u32 (MCDMA_S2MM_BASE_OFFSET + u32 (channel * MCDMA_CHANNEL_OFFSET))
           + XMCDMA_CH_CR_OFFSET)),
       Event.Out32 (u64 (w.g_AxiMcdma.base_addr
           + u32 (MCDMA_S2MM_BASE_OFFSET + u32 (channel * MCDMA_CHANNEL_OFFSET))
           + XMCDMA_CH_CR_OFFSET)) v,
       Event.Out32 (u64 (w.g_AxiMcdma.base_addr
           + u32 (MCDMA_S2MM_BASE_OFFSET + u32 (channel * MCDMA_CHANNEL_OFFSET))
           + XMCDMA_CH_TDESC_OFFSET)) (u32 (d &&& 0xFFFFFFFF)),
       Event.Out32 (u64 (w.g_AxiMcdma.base_addr
           + u32 (MCDMA_S2MM_BASE_OFFSET + u32 (channel * MCDMA_CHANNEL_OFFSET))
           + XMCDMA_CH_TDESC_MSB_OFFSET)) (u32 (d >>> 32))] := by
  unfold axi_mcdma_start_s2mm at h ⊢
  split_ifs at h ⊢ <;> first
    | exact absurd h DMA_INVALID_PARAM_ne_SUCCESS
    | exact absurd h DMA_NOT_INIT_ne_SUCCESS
    | (apply Exists.intro
       apply Exists.intro
       simp only [AxiMcdmaWorld.setS2mm, mcdma_write_s2mm_ch_reg, mcdma_read_s2mm_ch_reg,
         Platform.recording, List.append_assoc, List.singleton_append, List.cons_append,
         List.nil_append]
       rfl)

/-- The primitive calls of a successful `axi_mcdma_start_mm2s`, in order. -/
theorem axi_mcdma_start_mm2s_trace (rd : Nat → List Event → Nat) (clk : List Event → Nat)
    (channel buf len : Nat) (w : AxiMcdmaWorld (List Event))
    (h : (axi_mcdma_start_mm2s (Platform.recording rd clk) channel buf len w).1 = DMA_SUCCESS) :
    ∃ d v, (axi_mcdma_start_mm2s (Platform.recording rd clk) channel buf len w).2.hw = w.hw ++
      [Event.DCacheFlushRange d sizeof_SgDesc,
       Event.DCacheFlushRange buf len,
       Event.Out32 (u64 (w.g_AxiMcdma.base_addr
           + u32 (MCDMA_MM2S_BASE_OFFSET + u32 (channel * MCDMA_CHANNEL_OFFSET))
           + XMCDMA_CH_CDESC_OFFSET)) (u32 (d &&& 0xFFFFFFFF)),
       Event.Out32 (u64 (w.g_AxiMcdma.base_addr
           + u32 (MCDMA_MM2S_BASE_OFFSET + u32 (channel * MCDMA_CHANNEL_OFFSET))
           + XMCDMA_CH_CDESC_MSB_OFFSET)) (u32 (d >>> 32)),
       Event.In32 (u64 (w.g_AxiMcdma.base_addr
           + u32 (MCDMA_MM2S_BASE_OFFSET + u32 (channel * MCDMA_CHANNEL_OFFSET))
           + XMCDMA_CH_CR_OFFSET)),
       Event.Out32 (u64 (w.g_AxiMcdma.base_addr
           + u32 (MCDMA_MM2S_BASE_OFFSET + u32 (channel * MCDMA_CHANNEL_OFFSET))
           + XMCDMA_CH_CR_OFFSET)) v,
       Event.Out32 (u64 (w.g_AxiMcdma.base_addr
           + u32 (MCDMA_MM2S_BASE_OFFSET + u32 (channel * MCDMA_CHANNEL_OFFSET))
           + XMCDMA_CH_TDESC_OFFSET)) (u32 (d &&& 0xFFFFFFFF)),
       Event.Out32 (u64 (w.g_AxiMcdma.base_addr
           + u32 (MCDMA_MM2S_BASE_OFFSET + u32 (channel * MCDMA_CHANNEL_OFFSET))
           + XMCDMA_CH_TDESC_MSB_OFFSET)) (u32 (d >>> 32))] := by
  unfold axi_mcdma_start_mm2s at h ⊢
  split_ifs at h ⊢ <;> first
    | exact absurd h DMA_INVALID_PARAM_ne_SUCCESS
    | exact absurd h DMA_NOT_INIT_ne_SUCCESS
    | (apply Exists.intro
       apply Exists.intro
       simp only [AxiMcdmaWorld.setMm2s, mcdma_write_mm2s_ch_reg, mcdma_read_mm2s_ch_reg,
         Platform.recording, List.append_assoc, List.singleton_append, List.cons_append,
         List.nil_append]
       rfl)

theorem axi_mcdma_start_s2mm_fail {σ : Type} (P : Platform σ) (channel buf len : Nat)
    (w : AxiMcdmaWorld σ) (h : (axi_mcdma_start_s2mm P channel buf len w).1 ≠ DMA_SUCCESS) :
    (axi_mcdma_start_s2mm P channel buf len w).2 = w := by
  unfold axi_mcdma_start_s2mm at h ⊢
  split_ifs at h ⊢ <;> first
    | rfl
    | exact absurd rfl h

theorem axi_mcdma_start_mm2s_fail {σ : Type} (P : Platform σ) (channel buf len : Nat)
    (w : AxiMcdmaWorld σ) (h : (axi_mcdma_start_mm2s P channel buf len w).1 ≠ DMA_SUCCESS) :
    (axi_mcdma_start_mm2s P channel buf len w).2 = w := by
  unfold axi_mcdma_start_mm2s at h ⊢
  split_ifs at h ⊢ <;> first
    | rfl
    | exact absurd rfl h

theorem axi_mcdma_start_s2mm_base {σ : Type} (P : Platform σ) (channel buf len : Nat)
    (w : AxiMcdmaWorld σ) :
    (axi_mcdma_start_s2mm P channel buf len w).2.g_AxiMcdma.base_addr
      = w.g_AxiMcdma.base_addr := by
  unfold axi_mcdma_start_s2mm
  split_ifs <;> rfl

theorem axi_dma_simple_transfer_fail {σ : Type} (P : Platform σ) (src dst len : Nat)
    (w : AxiDmaWorld σ) (h : (axi_dma_simple_transfer P src dst len w).1 ≠ DMA_SUCCESS) :
    (axi_dma_simple_transfer P src dst len w).2 = w := by
  rcases Bool.eq_false_or_eq_true w.g_AxiDma.initialized with h1 | h1
  · by_cases h2 : len ≤ w.g_AxiDma.max_transfer_len
    · rw [axi_dma_simple_transfer_run P src dst len w h1 h2] at h
      exact absurd rfl h
    · rw [axi_dma_simple_transfer_too_long P src dst len w h1 (by omega)]
  · rw [axi_dma_simple_transfer_not_init P src dst len w h1]

theorem axi_dma_simple_transfer_success {σ : Type} (P : Platform σ) (src dst len : Nat)
    (w : AxiDmaWorld σ) (h : (axi_dma_simple_transfer P src dst len w).1 = DMA_SUCCESS) :
    w.g_AxiDma.initialized = true ∧ len ≤ w.g_AxiDma.max_transfer_len := by
  rcases Bool.eq_false_or_eq_true w.g_AxiDma.initialized with h1 | h1
  · by_cases h2 : len ≤ w.g_AxiDma.max_transfer_len
    · exact ⟨h1, h2⟩
    · rw [axi_dma_simple_transfer_too_long P src dst len w h1 (by omega)] at h
      exact absurd h DMA_INVALID_PARAM_ne_SUCCESS
  · rw [axi_dma_simple_transfer_not_init P src dst len w h1] at h
    exact absurd h DMA_NOT_INIT_ne_SUCCESS

theorem axi_dma_sg_transfer_fail {σ : Type} (P : Platform σ) (src dst len : Nat)
    (w : AxiDmaWorld σ) (h : (axi_dma_sg_transfer P src dst len w).1 ≠ DMA_SUCCESS) :
    (axi_dma_sg_transfer P src dst len w).2 = w := by
  rcases Bool.eq_false_or_eq_true w.g_AxiDma.initialized with h1 | h1
  · rcases Bool.eq_false_or_eq_true w.g_AxiDma.sg_mode with h2 | h2
    · by_cases h3 : len ≤ w.g_AxiDma.max_transfer_len
      · rw [axi_dma_sg_transfer_run P src dst len w h1 h2 h3] at h
        exact absurd rfl h
      · rw [axi_dma_sg_transfer_too_long P src dst len w h1 h2 (by omega)]
    · rw [axi_dma_sg_transfer_no_sg P src dst len w h2]
  · rw [axi_dma_sg_transfer_not_init P src dst len w h1]

/-- A successful `axi_mcdma_transfer` has run `axi_mcdma_start_s2mm` and then
`axi_mcdma_start_mm2s`, both successfully. -/
theorem axi_mcdma_transfer_success {σ : Type} (P : Platform σ) (channel src dst len : Nat)
    (w : AxiMcdmaWorld σ) (h : (axi_mcdma_transfer P channel src dst len w).1 = DMA_SUCCESS) :
    (axi_mcdma_start_s2mm P channel dst len w).1 = DMA_SUCCESS ∧
    (axi_mcdma_start_mm2s P channel src len (axi_mcdma_start_s2mm P channel dst len w).2).1
      = DMA_SUCCESS ∧
    (axi_mcdma_transfer P channel src dst len w).2
      = (axi_mcdma_start_mm2s P channel src len (axi_mcdma_start_s2mm P channel dst len w).2).2
    := by
  unfold axi_mcdma_transfer at h ⊢
  simp only [] at h ⊢
  by_cases h1 : (axi_mcdma_start_s2mm P channel dst len w).1 ≠ DMA_SUCCESS
  · rw [if_pos h1] at h
    exact absurd h h1
  · rw [if_neg h1] at h ⊢
    by_cases h2 : (axi_mcdma_start_mm2s P channel src len
        (axi_mcdma_start_s2mm P channel dst len w).2).1 ≠ DMA_SUCCESS
    · rw [if_pos h2] at h
      exact absurd h h2
    · rw [if_neg h2]
      exact ⟨not_not.mp h1, not_not.mp h2, rfl⟩

theorem axi_mcdma_transfer_s2mm_fail {σ : Type} (P : Platform σ) (channel src dst len : Nat)
    (w : AxiMcdmaWorld σ) (h : (axi_mcdma_start_s2mm P channel dst len w).1 ≠ DMA_SUCCESS) :
    axi_mcdma_transfer P channel src dst len w
      = ((axi_mcdma_start_s2mm P channel dst len w).1, w) := by
  unfold axi_mcdma_transfer
  simp only []
  rw [if_pos h]
  exact Prod.ext rfl (axi_mcdma_start_s2mm_fail P channel dst len w h)

/-- The primitive calls of a successful `axi_cdma_simple_transfer`, in order. -/
theorem axi_cdma_simple_transfer_trace (rd : Nat → List Event → Nat) (clk : List Event → Nat)
    (src dst len : Nat) (w : AxiCdmaWorld (List Event))
    (h : (axi_cdma_simple_transfer (Platform.recording rd clk) src dst len w).1 = DMA_SUCCESS) :
    (axi_cdma_simple_transfer (Platform.recording rd clk) src dst len w).2.hw = w.hw ++
      [Event.In32 (u64 (w.g_AxiCdma.base_addr + XAXICDMA_SR_OFFSET)),
       Event.DCacheFlushRange src len,
       Event.DCacheInvalidateRange dst len,
       Event.Out32 (u64 (w.g_AxiCdma.base_addr + XAXICDMA_SA_OFFSET)) (u32 (src &&& 0xFFFFFFFF)),
       Event.Out32 (u64 (w.g_AxiCdma.base_addr + XAXICDMA_SA_MSB_OFFSET)) (u32 (src >>> 32)),
       Event.Out32 (u64 (w.g_AxiCdma.base_addr + XAXICDMA_DA_OFFSET)) (u32 (dst &&& 0xFFFFFFFF)),
       Event.Out32 (u64 (w.g_AxiCdma.base_addr + XAXICDMA_DA_MSB_OFFSET)) (u32 (dst >>> 32)),
       Event.Out32 (u64 (w.g_AxiCdma.base_addr + XAXICDMA_BTT_OFFSET)) len] := by
  unfold axi_cdma_simple_transfer at h ⊢
  simp only [] at h ⊢
  split_ifs at h ⊢ <;> first
    | exact absurd h DMA_NOT_INIT_ne_SUCCESS
    | exact absurd h DMA_BUSY_ne_SUCCESS
    | (simp only [axi_cdma_is_busy, axi_cdma_read_reg, axi_cdma_write_reg, Platform.recording,
         List.append_assoc, List.singleton_append, List.cons_append, List.nil_append])

/-- The primitive calls of a successful `axi_cdma_sg_transfer`, in order. -/
theorem axi_cdma_sg_transfer_trace (rd : Nat → List Event → Nat) (clk : List Event → Nat)
    (src dst len : Nat) (w : AxiCdmaWorld (List Event))
    (h : (axi_cdma_sg_transfer (Platform.recording rd clk) src dst len w).1 = DMA_SUCCESS) :
    ∃ d, (axi_cdma_sg_transfer (Platform.recording rd clk) src dst len w).2.hw = w.hw ++
      [Event.In32 (u64 (w.g_AxiCdma.base_addr + XAXICDMA_SR_OFFSET)),
       Event.DCacheFlushRange d sizeof_SgDesc,
       Event.DCacheFlushRange src len,
       Event.DCacheInvalidateRange dst len,
       Event.Out32 (u64 (w.g_AxiCdma.base_addr + XAXICDMA_CDESC_OFFSET)) (u32 (d &&& 0xFFFFFFFF)),
       Event.Out32 (u64 (w.g_AxiCdma.base_addr + XAXICDMA_CDESC_MSB_OFFSET)) (u32 (d >>> 32)),
       Event.Out32 (u64 (w.g_AxiCdma.base_addr + XAXICDMA_TDESC_OFFSET)) (u32 (d &&& 0xFFFFFFFF)),
       Event.Out32 (u64 (w.g_AxiCdma.base_addr + XAXICDMA_TDESC_MSB_OFFSET)) (u32 (d >>> 32))]
      := by
  unfold axi_cdma_sg_transfer at h ⊢
  simp only [] at h ⊢
  split_ifs at h ⊢ <;> first
    | exact absurd h DMA_NOT_INIT_ne_SUCCESS
    | exact absurd h DMA_BUSY_ne_SUCCESS
    | (apply Exists.intro
       simp only [axi_cdma_is_busy, axi_cdma_read_reg, axi_cdma_write_reg, Platform.recording,
         List.append_assoc, List.singleton_append, List.cons_append, List.nil_append]
       rfl)

/-- The primitive calls of a successful `lpd_dma_transfer`, in order. -/
theorem lpd_dma_transfer_trace (rd : Nat → List Event → Nat) (clk : List Event → Nat)
    (channel src dst len : Nat) (w : LpdDmaWorld (List Event))
    (h : (lpd_dma_transfer (Platform.recording rd clk) channel src dst len w).1 = DMA_SUCCESS) :
    (lpd_dma_transfer (Platform.recording rd clk) channel src dst len w).2.hw = w.hw ++
      [Event.In32 (u64 (w.g_ChannelBaseAddrs channel + XLPDDMA_ZDMA_CH_STATUS)),
       Event.DCacheFlushRange src len,
       Event.DCacheInvalidateRange dst len,
       Event.Out32 (u64 (w.g_ChannelBaseAddrs channel + XLPDDMA_ZDMA_CH_CTRL2)) 0,
       Event.Out32 (u64 (w.g_ChannelBaseAddrs channel + XLPDDMA_ZDMA_CH_ISR)) XLPDDMA_IXR_ALL_MASK,
       Event.Out32 (u64 (w.g_ChannelBaseAddrs channel + XLPDDMA_ZDMA_CH_SRC_DSCR_WRD0))
         (u32 (src &&& 0xFFFFFFFF)),
       Event.Out32 (u64 (w.g_ChannelBaseAddrs channel + XLPDDMA_ZDMA_CH_SRC_DSCR_WRD1))
         (u32 (src >>> 32)),
       Event.Out32 (u64 (w.g_ChannelBaseAddrs channel + XLPDDMA_ZDMA_CH_SRC_DSCR_WRD2)) len,
       Event.Out32 (u64 (w.g_ChannelBaseAddrs channel + XLPDDMA_ZDMA_CH_SRC_DSCR_WRD3)) 0,
       Event.Out32 (u64 (w.g_ChannelBaseAddrs channel + XLPDDMA_ZDMA_CH_DST_DSCR_WRD0))
         (u32 (dst &&& 0xFFFFFFFF)),
       Event.Out32 (u64 (w.g_ChannelBaseAddrs channel + XLPDDMA_ZDMA_CH_DST_DSCR_WRD1))
         (u32 (dst >>> 32)),
       Event.Out32 (u64 (w.g_ChannelBaseAddrs channel + XLPDDMA_ZDMA_CH_DST_DSCR_WRD2)) len,
       Event.Out32 (u64 (w.g_ChannelBaseAddrs channel + XLPDDMA_ZDMA_CH_DST_DSCR_WRD3)) 0,
       Event.Out32 (u64 (w.g_ChannelBaseAddrs channel + XLPDDMA_ZDMA_CH_TOTAL_BYTE)) len,
       Event.Out32 (u64 (w.g_ChannelBaseAddrs channel + XLPDDMA_ZDMA_CH_CTRL0))
         XLPDDMA_CTRL0_MODE_NORMAL,
       Event.In32 (u64 (w.g_ChannelBaseAddrs channel + XLPDDMA_ZDMA_CH_STATUS)),
       Event.In32 (u64 (w.g_ChannelBaseAddrs channel + XLPDDMA_ZDMA_CH_ISR)),
       Event.Out32 (u64 (w.g_ChannelBaseAddrs channel + XLPDDMA_ZDMA_CH_CTRL2)) 1,
       Event.usleep 10,
       Event.In32 (u64 (w.g_ChannelBaseAddrs channel + XLPDDMA_ZDMA_CH_STATUS)),
       Event.In32 (u64 (w.g_ChannelBaseAddrs channel + XLPDDMA_ZDMA_CH_ISR))] := by
  by_cases hc : channel ≥ LPD_DMA_NUM_CHANNELS
  · unfold lpd_dma_transfer at h
    rw [if_pos hc] at h
    exact absurd h DMA_INVALID_PARAM_ne_SUCCESS
  · have hlt : channel < LPD_DMA_NUM_CHANNELS := by omega
    unfold lpd_dma_transfer at h ⊢
    rw [if_neg hc] at h ⊢
    simp only [] at h ⊢
    split_ifs at h ⊢ <;> first
      | exact absurd h DMA_NOT_INIT_ne_SUCCESS
      | exact absurd h DMA_BUSY_ne_SUCCESS
      | (simp only [lpd_dma_program, lpd_dma_is_busy, lpd_dma_read_reg, lpd_dma_write_reg,
           LpdDmaWorld.setChannel, Platform.recording, hlt, hc, if_true, if_false,
           List.append_assoc, List.singleton_append, List.cons_append, List.nil_append])

/-! ### What the waits do on the recording platform -/

/-- A call of `axi_dma_wait_tx` that returns has made no read of the RX status
register. -/
theorem axi_dma_wait_tx_log (rd : Nat → List Event → Nat) (clk : List Event → Nat)
    (fuel T : Nat) (w : AxiDmaWorld (List Event)) (r : AxiDmaWait (List Event))
    (h : axi_dma_wait_tx (Platform.recording rd clk) fuel T w = some r) :
    Continues
      (fun e => !Event.isReadOf (u64 (w.g_AxiDma.base_addr + XAXIDMA_RX_OFFSET + XAXIDMA_SR_OFFSET)) e)
      w.hw r.world.hw := by
  have hrd : (fun e => !Event.isReadOf
      (u64 (w.g_AxiDma.base_addr + XAXIDMA_RX_OFFSET + XAXIDMA_SR_OFFSET)) e)
      (Event.In32 (u64 (w.g_AxiDma.base_addr + XAXIDMA_TX_OFFSET + XAXIDMA_SR_OFFSET))) = true := by
    simp only [isReadOf_In32_ne _ _ (axi_tx_sr_ne_rx_sr w.g_AxiDma.base_addr), Bool.not_false]
  refine pollLoop_inv T 10 (axi_dma_wait_tx_body (Platform.recording rd clk))
    (axi_dma_wait_sleep (Platform.recording rd clk))
    (axi_dma_wait_tx_after (Platform.recording rd clk))
    (fun q => q.world.g_AxiDma.base_addr = w.g_AxiDma.base_addr ∧
      Continues (fun e => !Event.isReadOf
        (u64 (w.g_AxiDma.base_addr + XAXIDMA_RX_OFFSET + XAXIDMA_SR_OFFSET)) e) w.hw q.world.hw)
    (fun r => Continues (fun e => !Event.isReadOf
        (u64 (w.g_AxiDma.base_addr + XAXIDMA_RX_OFFSET + XAXIDMA_SR_OFFSET)) e) w.hw r.world.hw)
    ?_ ?_ ?_ fuel 0 ⟨w, 0⟩ r ⟨rfl, continues_refl _ _⟩ h
  · intro e q r ⟨hb, hc⟩ hbody
    unfold axi_dma_wait_tx_body at hbody
    simp only [] at hbody
    split_ifs at hbody
    · cases hbody
      simp only [axi_dma_write_tx_reg, axi_dma_read_tx_reg, Platform.recording, hb]
      exact continues_snoc _ _ _ _ (continues_snoc _ _ _ _ hc hrd) rfl
    · cases hbody
      simp only [axi_dma_read_tx_reg, Platform.recording, hb]
      exact continues_snoc _ _ _ _ hc hrd
    · cases hbody
      simp only [axi_dma_write_tx_reg, axi_dma_read_tx_reg, Platform.recording, hb]
      exact continues_snoc _ _ _ _ (continues_snoc _ _ _ _ hc hrd) rfl
  · intro e q q' ⟨hb, hc⟩ hbody
    unfold axi_dma_wait_tx_body at hbody
    simp only [] at hbody
    split_ifs at hbody
    cases hbody
    refine ⟨hb, ?_⟩
    simp only [axi_dma_wait_sleep, axi_dma_read_tx_reg, Platform.recording, hb]
    exact continues_snoc _ _ _ _ (continues_snoc _ _ _ _ hc hrd) rfl
  · intro e q ⟨hb, hc⟩
    simp only [axi_dma_wait_tx_after, axi_dma_read_tx_reg, Platform.recording, hb]
    exact continues_snoc _ _ _ _ hc hrd

/-- A call of `axi_mcdma_wait_mm2s` that returns has left the S2MM channel
records and the register base alone, and when it returns `DMA_ERROR_TIMEOUT`
it has left the MM2S channel records alone as well. -/
theorem axi_mcdma_wait_mm2s_frame {σ : Type} (P : Platform σ) (fuel channel T : Nat)
    (w : AxiMcdmaWorld σ) (t : ChannelWait (AxiMcdmaWorld σ))
    (h : axi_mcdma_wait_mm2s P fuel channel T w = some t) :
    t.world.g_AxiMcdma.s2mm_channels = w.g_AxiMcdma.s2mm_channels ∧
    t.world.g_AxiMcdma.base_addr = w.g_AxiMcdma.base_addr ∧
    (t.ret = DMA_ERROR_TIMEOUT →
      t.world.g_AxiMcdma.mm2s_channels = w.g_AxiMcdma.mm2s_channels) := by
  unfold axi_mcdma_wait_mm2s at h
  by_cases hc : channel ≥ w.g_AxiMcdma.num_mm2s_channels
  · rw [if_pos hc] at h
    cases h
    exact ⟨rfl, rfl, fun _ => rfl⟩
  · rw [if_neg hc] at h
    refine pollLoop_inv T 10 (axi_mcdma_wait_mm2s_body P channel) (axi_mcdma_wait_sleep P)
      (axi_mcdma_wait_mm2s_after P channel)
      (fun q => q.g_AxiMcdma.s2mm_channels = w.g_AxiMcdma.s2mm_channels ∧
        q.g_AxiMcdma.base_addr = w.g_AxiMcdma.base_addr ∧
        q.g_AxiMcdma.mm2s_channels = w.g_AxiMcdma.mm2s_channels)
      (fun t => t.world.g_AxiMcdma.s2mm_channels = w.g_AxiMcdma.s2mm_channels ∧
        t.world.g_AxiMcdma.base_addr = w.g_AxiMcdma.base_addr ∧
        (t.ret = DMA_ERROR_TIMEOUT →
          t.world.g_AxiMcdma.mm2s_channels = w.g_AxiMcdma.mm2s_channels))
      ?_ ?_ ?_ fuel 0 w t ⟨rfl, rfl, rfl⟩ h
    · intro e q r ⟨h1, h2, h3⟩ hbody
      unfold axi_mcdma_wait_mm2s_body at hbody
      simp only [] at hbody
      split_ifs at hbody
      · cases hbody
        exact ⟨h1, h2, fun hr => absurd hr DMA_TIMEOUT_ne_FAIL.symm⟩
      · cases hbody
        exact ⟨h1, h2, fun hr => absurd hr.symm DMA_TIMEOUT_ne_SUCCESS⟩
      · cases hbody
        exact ⟨h1, h2, fun hr => absurd hr.symm DMA_TIMEOUT_ne_SUCCESS⟩
    · intro e q q' ⟨h1, h2, h3⟩ hbody
      unfold axi_mcdma_wait_mm2s_body at hbody
      simp only [] at hbody
      split_ifs at hbody
      cases hbody
      exact ⟨h1, h2, h3⟩
    · intro e q ⟨h1, h2, h3⟩
      exact ⟨h1, h2, fun _ => h3⟩

/-- On the recording platform a call of `axi_mcdma_wait_mm2s` that returns has
made no read of the S2MM status register of the channel, and when it returns
`DMA_ERROR_TIMEOUT` it has made no register write. -/
theorem axi_mcdma_wait_mm2s_log (rd : Nat → List Event → Nat) (clk : List Event → Nat)
    (fuel channel T : Nat) (w : AxiMcdmaWorld (List Event))
    (t : ChannelWait (AxiMcdmaWorld (List Event)))
    (h : axi_mcdma_wait_mm2s (Platform.recording rd clk) fuel channel T w = some t) :
    Continues (fun e => !Event.isReadOf (u64 (w.g_AxiMcdma.base_addr
        + u32 (MCDMA_S2MM_BASE_OFFSET + u32 (channel * MCDMA_CHANNEL_OFFSET))
        + XMCDMA_CH_SR_OFFSET)) e) w.hw t.world.hw ∧
    (t.ret = DMA_ERROR_TIMEOUT → Continues (fun e => !Event.isWrite e) w.hw t.world.hw) := by
  have hmono1 : ∀ e, (fun e => !Event.isReadOf (u64 (w.g_AxiMcdma.base_addr
        + u32 (MCDMA_S2MM_BASE_OFFSET + u32 (channel * MCDMA_CHANNEL_OFFSET))
        + XMCDMA_CH_SR_OFFSET)) e && !Event.isWrite e) e = true →
      (fun e => !Event.isReadOf (u64 (w.g_AxiMcdma.base_addr
        + u32 (MCDMA_S2MM_BASE_OFFSET + u32 (channel * MCDMA_CHANNEL_OFFSET))
        + XMCDMA_CH_SR_OFFSET)) e) e = true := by
    intro e he
    simp only [Bool.and_eq_true] at he
    exact he.1
  have hmono2 : ∀ e, (fun e => !Event.isReadOf (u64 (w.g_AxiMcdma.base_addr
        + u32 (MCDMA_S2MM_BASE_OFFSET + u32 (channel * MCDMA_CHANNEL_OFFSET))
        + XMCDMA_CH_SR_OFFSET)) e && !Event.isWrite e) e = true →
      (fun e => !Event.isWrite e) e = true := by
    intro e he
    simp only [Bool.and_eq_true] at he
    exact he.2
  have hrd : (fun e => !Event.isReadOf (u64 (w.g_AxiMcdma.base_addr
        + u32 (MCDMA_S2MM_BASE_OFFSET + u32 (channel * MCDMA_CHANNEL_OFFSET))
        + XMCDMA_CH_SR_OFFSET)) e && !Event.isWrite e)
      (Event.In32 (u64 (w.g_AxiMcdma.base_addr
        + u32 (MCDMA_MM2S_BASE_OFFSET + u32 (channel * MCDMA_CHANNEL_OFFSET))
        + XMCDMA_CH_SR_OFFSET))) = true := by
    simp only [isReadOf_In32_ne _ _ (mcdma_mm2s_sr_ne_s2mm_sr w.g_AxiMcdma.base_addr channel),
      Event.isWrite, Bool.not_false, Bool.and_self]
  unfold axi_mcdma_wait_mm2s at h
  by_cases hc : channel ≥ w.g_AxiMcdma.num_mm2s_channels
  · rw [if_pos hc] at h
    cases h
    exact ⟨continues_refl _ _, fun _ => continues_refl _ _⟩
  · rw [if_neg hc] at h
    refine pollLoop_inv T 10 (axi_mcdma_wait_mm2s_body (Platform.recording rd clk) channel)
      (axi_mcdma_wait_sleep (Platform.recording rd clk))
      (axi_mcdma_wait_mm2s_after (Platform.recording rd clk) channel)
      (fun q => q.g_AxiMcdma.base_addr = w.g_AxiMcdma.base_addr ∧
        Continues (fun e => !Event.isReadOf (u64 (w.g_AxiMcdma.base_addr
          + u32 (MCDMA_S2MM_BASE_OFFSET + u32 (channel * MCDMA_CHANNEL_OFFSET))
          + XMCDMA_CH_SR_OFFSET)) e && !Event.isWrite e) w.hw q.hw)
      (fun t => Continues (fun e => !Event.isReadOf (u64 (w.g_AxiMcdma.base_addr
          + u32 (MCDMA_S2MM_BASE_OFFSET + u32 (channel * MCDMA_CHANNEL_OFFSET))
          + XMCDMA_CH_SR_OFFSET)) e) w.hw t.world.hw ∧
        (t.ret = DMA_ERROR_TIMEOUT → Continues (fun e => !Event.isWrite e) w.hw t.world.hw))
      ?_ ?_ ?_ fuel 0 w t ⟨rfl, continues_refl _ _⟩ h
    · intro e q r ⟨hb, hcn⟩ hbody
      have hcn1 := continues_mono _ _ _ _ hmono1 (continues_snoc _ _ _ _ hcn hrd)
      unfold axi_mcdma_wait_mm2s_body at hbody
      simp only [] at hbody
      split_ifs at hbody
      · cases hbody
        refine ⟨?_, fun hr => absurd hr DMA_TIMEOUT_ne_FAIL.symm⟩
        simp only [AxiMcdmaWorld.setMm2s, mcdma_write_mm2s_ch_reg, mcdma_read_mm2s_ch_reg,
          Platform.recording, hb]
        exact continues_snoc _ _ _ _ hcn1 rfl
      · cases hbody
        refine ⟨?_, fun hr => absurd hr.symm DMA_TIMEOUT_ne_SUCCESS⟩
        simp only [AxiMcdmaWorld.setMm2s, mcdma_read_mm2s_ch_reg, Platform.recording, hb]
        exact hcn1
      · cases hbody
        refine ⟨?_, fun hr => absurd hr.symm DMA_TIMEOUT_ne_SUCCESS⟩
        simp only [AxiMcdmaWorld.setMm2s, mcdma_write_mm2s_ch_reg, mcdma_read_mm2s_ch_reg,
          Platform.recording, hb]
        exact continues_snoc _ _ _ _ hcn1 rfl
    · intro e q q' ⟨hb, hcn⟩ hbody
      unfold axi_mcdma_wait_mm2s_body at hbody
      simp only [] at hbody
      split_ifs at hbody
      cases hbody
      refine ⟨hb, ?_⟩
      simp only [axi_mcdma_wait_sleep, mcdma_read_mm2s_ch_reg, Platform.recording, hb]
      exact continues_snoc _ _ _ _ (continues_snoc _ _ _ _ hcn hrd) rfl
    · intro e q ⟨hb, hcn⟩
      have hcn' := continues_snoc _ _ _ _ hcn hrd
      simp only [axi_mcdma_wait_mm2s_after, mcdma_read_mm2s_ch_reg, Platform.recording, hb]
      exact ⟨continues_mono _ _ _ _ hmono1 hcn', fun _ => continues_mono _ _ _ _ hmono2 hcn'⟩

/-- A call of `axi_mcdma_wait_s2mm` that returns has left the MM2S channel
records and the register base alone, and when it returns `DMA_ERROR_TIMEOUT`
it has left the S2MM channel records alone as well. -/
theorem axi_mcdma_wait_s2mm_frame {σ : Type} (P : Platform σ) (fuel channel T : Nat)
    (w : AxiMcdmaWorld σ) (t : ChannelWait (AxiMcdmaWorld σ))
    (h : axi_mcdma_wait_s2mm P fuel channel T w = some t) :
    t.world.g_AxiMcdma.mm2s_channels = w.g_AxiMcdma.mm2s_channels ∧
    t.world.g_AxiMcdma.base_addr = w.g_AxiMcdma.base_addr ∧
    (t.ret = DMA_ERROR_TIMEOUT →
      t.world.g_AxiMcdma.s2mm_channels = w.g_AxiMcdma.s2mm_channels) := by
  unfold axi_mcdma_wait_s2mm at h
  by_cases hc : channel ≥ w.g_AxiMcdma.num_s2mm_channels
  · rw [if_pos hc] at h
    cases h
    exact ⟨rfl, rfl, fun _ => rfl⟩
  · rw [if_neg hc] at h
    refine pollLoop_inv T 10 (axi_mcdma_wait_s2mm_body P channel) (axi_mcdma_wait_sleep P)
      (axi_mcdma_wait_s2mm_after P channel)
      (fun q => q.g_AxiMcdma.mm2s_channels = w.g_AxiMcdma.mm2s_channels ∧
        q.g_AxiMcdma.base_addr = w.g_AxiMcdma.base_addr ∧
        q.g_AxiMcdma.s2mm_channels = w.g_AxiMcdma.s2mm_channels)
      (fun t => t.world.g_AxiMcdma.mm2s_channels = w.g_AxiMcdma.mm2s_channels ∧
        t.world.g_AxiMcdma.base_addr = w.g_AxiMcdma.base_addr ∧
        (t.ret = DMA_ERROR_TIMEOUT →
          t.world.g_AxiMcdma.s2mm_channels = w.g_AxiMcdma.s2mm_channels))
      ?_ ?_ ?_ fuel 0 w t ⟨rfl, rfl, rfl⟩ h
    · intro e q r ⟨h1, h2, h3⟩ hbody
      unfold axi_mcdma_wait_s2mm_body at hbody
      simp only [] at hbody
      split_ifs at hbody
      · cases hbody
        exact ⟨h1, h2, fun hr => absurd hr DMA_TIMEOUT_ne_FAIL.symm⟩
      · cases hbody
        exact ⟨h1, h2, fun hr => absurd hr.symm DMA_TIMEOUT_ne_SUCCESS⟩
      · cases hbody
        exact ⟨h1, h2, fun hr => absurd hr.symm DMA_TIMEOUT_ne_SUCCESS⟩
    · intro e q q' ⟨h1, h2, h3⟩ hbody
      unfold axi_mcdma_wait_s2mm_body at hbody
      simp only [] at hbody
      split_ifs at hbody
      cases hbody
      exact ⟨h1, h2, h3⟩
    · intro e q ⟨h1, h2, h3⟩
      exact ⟨h1, h2, fun _ => h3⟩

/-- On the recording platform a call of `axi_mcdma_wait_s2mm` that returns has
made no read of the MM2S status register of the channel, and when it returns
`DMA_ERROR_TIMEOUT` it has made no register write. -/
theorem axi_mcdma_wait_s2mm_log (rd : Nat → List Event → Nat) (clk : List Event → Nat)
    (fuel channel T : Nat) (w : AxiMcdmaWorld (List Event))
    (t : ChannelWait (AxiMcdmaWorld (List Event)))
    (h : axi_mcdma_wait_s2mm (Platform.recording rd clk) fuel channel T w = some t) :
    Continues (fun e => !Event.isReadOf (u64 (w.g_AxiMcdma.base_addr
        + u32 (MCDMA_MM2S_BASE_OFFSET + u32 (channel * MCDMA_CHANNEL_OFFSET))
        + XMCDMA_CH_SR_OFFSET)) e) w.hw t.world.hw ∧
    (t.ret = DMA_ERROR_TIMEOUT → Continues (fun e => !Event.isWrite e) w.hw t.world.hw) := by
  have hmono1 : ∀ e, (fun e => !Event.isReadOf (u64 (w.g_AxiMcdma.base_addr
        + u32 (MCDMA_MM2S_BASE_OFFSET + u32 (channel * MCDMA_CHANNEL_OFFSET))
        + XMCDMA_CH_SR_OFFSET)) e && !Event.isWrite e) e = true →
      (fun e => !Event.isReadOf (u64 (w.g_AxiMcdma.base_addr
        + u32 (MCDMA_MM2S_BASE_OFFSET + u32 (channel * MCDMA_CHANNEL_OFFSET))
        + XMCDMA_CH_SR_OFFSET)) e) e = true := by
    intro e he
    simp only [Bool.and_eq_true] at he
    exact he.1
  have hmono2 : ∀ e, (fun e => !Event.isReadOf (u64 (w.g_AxiMcdma.base_addr
        + u32 (MCDMA_MM2S_BASE_OFFSET + u32 (channel * MCDMA_CHANNEL_OFFSET))
        + XMCDMA_CH_SR_OFFSET)) e && !Event.isWrite e) e = true →
      (fun e => !Event.isWrite e) e = true := by
    intro e he
    simp only [Bool.and_eq_true] at he
    exact he.2
  have hrd : (fun e => !Event.isReadOf (u64 (w.g_AxiMcdma.base_addr
        + u32 (MCDMA_MM2S_BASE_OFFSET + u32 (channel * MCDMA_CHANNEL_OFFSET))
        + XMCDMA_CH_SR_OFFSET)) e && !Event.isWrite e)
      (Event.In32 (u64 (w.g_AxiMcdma.base_addr
        + u32 (MCDMA_S2MM_BASE_OFFSET + u32 (channel * MCDMA_CHANNEL_OFFSET))
        + XMCDMA_CH_SR_OFFSET))) = true := by
    simp only [isReadOf_In32_ne _ _ ((mcdma_mm2s_sr_ne_s2mm_sr w.g_AxiMcdma.base_addr channel).symm),
      Event.isWrite, Bool.not_false, Bool.and_self]
  unfold axi_mcdma_wait_s2mm at h
  by_cases hc : channel ≥ w.g_AxiMcdma.num_s2mm_channels
  · rw [if_pos hc] at h
    cases h
    exact ⟨continues_refl _ _, fun _ => continues_refl _ _⟩
  · rw [if_neg hc] at h
    refine pollLoop_inv T 10 (axi_mcdma_wait_s2mm_body (Platform.recording rd clk) channel)
      (axi_mcdma_wait_sleep (Platform.recording rd clk))
      (axi_mcdma_wait_s2mm_after (Platform.recording rd clk) channel)
      (fun q => q.g_AxiMcdma.base_addr = w.g_AxiMcdma.base_addr ∧
        Continues (fun e => !Event.isReadOf (u64 (w.g_AxiMcdma.base_addr
          + u32 (MCDMA_MM2S_BASE_OFFSET + u32 (channel * MCDMA_CHANNEL_OFFSET))
          + XMCDMA_CH_SR_OFFSET)) e && !Event.isWrite e) w.hw q.hw)
      (fun t => Continues (fun e => !Event.isReadOf (u64 (w.g_AxiMcdma.base_addr
          + u32 (MCDMA_MM2S_BASE_OFFSET + u32 (channel * MCDMA_CHANNEL_OFFSET))
          + XMCDMA_CH_SR_OFFSET)) e) w.hw t.world.hw ∧
        (t.ret = DMA_ERROR_TIMEOUT → Continues (fun e => !Event.isWrite e) w.hw t.world.hw))
      ?_ ?_ ?_ fuel 0 w t ⟨rfl, continues_refl _ _⟩ h
    · intro e q r ⟨hb, hcn⟩ hbody
      have hcn1 := continues_mono _ _ _ _ hmono1 (continues_snoc _ _ _ _ hcn hrd)
      unfold axi_mcdma_wait_s2mm_body at hbody
      simp only [] at hbody
      split_ifs at hbody
      · cases hbody
        refine ⟨?_, fun hr => absurd hr DMA_TIMEOUT_ne_FAIL.symm⟩
        simp only [AxiMcdmaWorld.setS2mm, mcdma_write_s2mm_ch_reg, mcdma_read_s2mm_ch_reg,
          Platform.recording, hb]
        exact continues_snoc _ _ _ _ hcn1 rfl
      · cases hbody
        refine ⟨?_, fun hr => absurd hr.symm DMA_TIMEOUT_ne_SUCCESS⟩
        simp only [AxiMcdmaWorld.setS2mm, mcdma_read_s2mm_ch_reg, Platform.recording, hb]
        exact hcn1
      · cases hbody
        refine ⟨?_, fun hr => absurd hr.symm DMA_TIMEOUT_ne_SUCCESS⟩
        simp only [AxiMcdmaWorld.setS2mm, mcdma_write_s2mm_ch_reg, mcdma_read_s2mm_ch_reg,
          Platform.recording, hb]
        exact continues_snoc _ _ _ _ hcn1 rfl
    · intro e q q' ⟨hb, hcn⟩ hbody
      unfold axi_mcdma_wait_s2mm_body at hbody
      simp only [] at hbody
      split_ifs at hbody
      cases hbody
      refine ⟨hb, ?_⟩
      simp only [axi_mcdma_wait_sleep, mcdma_read_s2mm_ch_reg, Platform.recording, hb]
      exact continues_snoc _ _ _ _ (continues_snoc _ _ _ _ hcn hrd) rfl
    · intro e q ⟨hb, hcn⟩
      have hcn' := continues_snoc _ _ _ _ hcn hrd
      simp only [axi_mcdma_wait_s2mm_after, mcdma_read_s2mm_ch_reg, Platform.recording, hb]
      exact ⟨continues_mono _ _ _ _ hmono1 hcn', fun _ => continues_mono _ _ _ _ hmono2 hcn'⟩

/-- On the recording platform a call of `lpd_dma_wait_complete` that returns
`DMA_ERROR_TIMEOUT` leaves the channel's `busy` flag false and has made no
register write. -/
theorem lpd_dma_wait_timeout (rd : Nat → List Event → Nat) (clk : List Event → Nat)
    (fuel channel T : Nat) (w : LpdDmaWorld (List Event))
    (t : ChannelWait (LpdDmaWorld (List Event)))
    (h : lpd_dma_wait_complete (Platform.recording rd clk) fuel channel T w = some t)
    (ht : t.ret = DMA_ERROR_TIMEOUT) :
    (t.world.g_LpdDma.channels channel).busy = false ∧
    Continues (fun e => !Event.isWrite e) w.hw t.world.hw := by
  unfold lpd_dma_wait_complete at h
  by_cases hc : channel ≥ LPD_DMA_NUM_CHANNELS
  · rw [if_pos hc] at h
    cases h
    exact absurd ht DMA_INVALID_PARAM_ne_TIMEOUT
  · rw [if_neg hc] at h
    have hlt : channel < LPD_DMA_NUM_CHANNELS := by omega
    refine pollLoop_inv T 10 (lpd_dma_wait_body (Platform.recording rd clk) channel)
      (lpd_dma_wait_sleep (Platform.recording rd clk))
      (lpd_dma_wait_after (Platform.recording rd clk) channel)
      (fun q => Continues (fun e => !Event.isWrite e) w.hw q.hw)
      (fun t => t.ret = DMA_ERROR_TIMEOUT →
        (t.world.g_LpdDma.channels channel).busy = false ∧
        Continues (fun e => !Event.isWrite e) w.hw t.world.hw)
      ?_ ?_ ?_ fuel 0 w t (continues_refl _ _) h ht
    · intro e q r hcn hbody
      unfold lpd_dma_wait_body at hbody
      simp only [] at hbody
      split_ifs at hbody
      · cases hbody
        exact fun hr => absurd hr DMA_TIMEOUT_ne_FAIL.symm
      · cases hbody
        exact fun hr => absurd hr.symm DMA_TIMEOUT_ne_SUCCESS
      · cases hbody
        exact fun hr => absurd hr.symm DMA_TIMEOUT_ne_SUCCESS
    · intro e q q' hcn hbody
      unfold lpd_dma_wait_body at hbody
      simp only [] at hbody
      split_ifs at hbody
      cases hbody
      simp only [lpd_dma_wait_sleep, lpd_dma_read_reg, Platform.recording, hlt, if_true]
      exact continues_snoc _ _ _ _ (continues_snoc _ _ _ _ (continues_snoc _ _ _ _ hcn rfl) rfl)
        rfl
    · intro e q hcn _
      constructor
      · simp only [lpd_dma_wait_after, LpdDmaWorld.setChannel, Function.update_same]
      · simp only [lpd_dma_wait_after, LpdDmaWorld.setChannel, lpd_dma_read_reg,
          Platform.recording, hlt, if_true]
        exact continues_snoc _ _ _ _ (continues_snoc _ _ _ _ (continues_snoc _ _ _ _ hcn rfl) rfl)
          rfl

/-- A successful `axi_mcdma_start_mm2s` leaves the channel marked busy. -/
theorem axi_mcdma_start_mm2s_busy {σ : Type} (P : Platform σ) (channel src length : Nat)
    (w s : AxiMcdmaWorld σ) (h : axi_mcdma_start_mm2s P channel src length w = (DMA_SUCCESS, s)) :
    (s.g_AxiMcdma.mm2s_channels channel).busy = true := by
  unfold axi_mcdma_start_mm2s at h
  simp only [] at h
  split_ifs at h <;>
    first
    | exact absurd (congrArg Prod.fst h) DMA_INVALID_PARAM_ne_SUCCESS
    | exact absurd (congrArg Prod.fst h) DMA_NOT_INIT_ne_SUCCESS
    | (have h2 := congrArg Prod.snd h
       simp only [] at h2
       rw [← h2]
       simp [AxiMcdmaWorld.setMm2s])

/-- A successful `axi_mcdma_start_s2mm` leaves the channel marked busy. -/
theorem axi_mcdma_start_s2mm_busy {σ : Type} (P : Platform σ) (channel dst length : Nat)
    (w s : AxiMcdmaWorld σ) (h : axi_mcdma_start_s2mm P channel dst length w = (DMA_SUCCESS, s)) :
    (s.g_AxiMcdma.s2mm_channels channel).busy = true := by
  unfold axi_mcdma_start_s2mm at h
  simp only [] at h
  split_ifs at h <;>
    first
    | exact absurd (congrArg Prod.fst h) DMA_INVALID_PARAM_ne_SUCCESS
    | exact absurd (congrArg Prod.fst h) DMA_NOT_INIT_ne_SUCCESS
    | (have h2 := congrArg Prod.snd h
       simp only [] at h2
       rw [← h2]
       simp [AxiMcdmaWorld.setS2mm])

/-! ## Transfer starts on an engine that is not initialised -/

theorem axi_cdma_simple_transfer_not_init {σ : Type} (P : Platform σ) (src dst len : Nat)
    (w : AxiCdmaWorld σ) (h : w.g_AxiCdma.initialized = false) :
    axi_cdma_simple_transfer P src dst len w = (DMA_ERROR_NOT_INIT, w) := by
  simp [axi_cdma_simple_transfer, h]

theorem axi_cdma_sg_transfer_not_init {σ : Type} (P : Platform σ) (src dst len : Nat)
    (w : AxiCdmaWorld σ) (h : w.g_AxiCdma.initialized = false) :
    axi_cdma_sg_transfer P src dst len w = (DMA_ERROR_NOT_INIT, w) := by
  simp [axi_cdma_sg_transfer, h]

theorem axi_mcdma_start_mm2s_not_init {σ : Type} (P : Platform σ) (channel buf len : Nat)
    (w : AxiMcdmaWorld σ) (h : w.g_AxiMcdma.initialized = false) :
    axi_mcdma_start_mm2s P channel buf len w = (DMA_ERROR_INVALID_PARAM, w) := by
  simp [axi_mcdma_start_mm2s, h]

theorem axi_mcdma_start_s2mm_not_init {σ : Type} (P : Platform σ) (channel buf len : Nat)
    (w : AxiMcdmaWorld σ) (h : w.g_AxiMcdma.initialized = false) :
    axi_mcdma_start_s2mm P channel buf len w = (DMA_ERROR_INVALID_PARAM, w) := by
  simp [axi_mcdma_start_s2mm, h]

theorem lpd_dma_transfer_channel_not_init {σ : Type} (P : Platform σ) (channel src dst len : Nat)
    (w : LpdDmaWorld σ) (hc : channel < LPD_DMA_NUM_CHANNELS)
    (h : (w.g_LpdDma.channels channel).initialized = false) :
    lpd_dma_transfer P channel src dst len w = (DMA_ERROR_NOT_INIT, w) := by
  have hc' : ¬ channel ≥ LPD_DMA_NUM_CHANNELS := by omega
  simp [lpd_dma_transfer, h, hc']

/-- The function `lpd_dma_transfer` consults only the flag of the channel: with
that flag set and the channel idle it starts the transfer, whatever the
engine flag `g_LpdDma.initialized` is. -/
theorem lpd_dma_transfer_proceeds {σ : Type} (P : Platform σ) (channel src dst len : Nat)
    (w : LpdDmaWorld σ) (hc : channel < LPD_DMA_NUM_CHANNELS)
    (h : (w.g_LpdDma.channels channel).initialized = true)
    (hb : (lpd_dma_is_busy P channel w).1 = false) :
    (lpd_dma_transfer P channel src dst len w).1 = DMA_SUCCESS ∧
    ((lpd_dma_transfer P channel src dst len w).2.g_LpdDma.channels channel).busy = true := by
  have hc' : ¬ channel ≥ LPD_DMA_NUM_CHANNELS := by omega
  unfold lpd_dma_transfer
  rw [if_neg hc']
  simp only [h, hb]
  simp [lpd_dma_program, LpdDmaWorld.setChannel]

/-! ## Bitwise arithmetic -/

theorem lor_eq_zero (x y : Nat) : x ||| y = 0 ↔ x = 0 ∧ y = 0 := by
  constructor
  · intro h
    constructor
    · apply Nat.eq_of_testBit_eq
      intro i
      have := congrArg (fun z => Nat.testBit z i) h
      simp only [Nat.testBit_or, Nat.zero_testBit, Bool.or_eq_false_iff] at this
      simp [this.1]
    · apply Nat.eq_of_testBit_eq
      intro i
      have := congrArg (fun z => Nat.testBit z i) h
      simp only [Nat.testBit_or, Nat.zero_testBit, Bool.or_eq_false_iff] at this
      simp [this.2]
  · rintro ⟨rfl, rfl⟩
    rfl

theorem land_lor_ne_zero (x a b : Nat) : x &&& (a ||| b) ≠ 0 ↔ x &&& a ≠ 0 ∨ x &&& b ≠ 0 := by
  rw [Nat.and_or_distrib_left, Ne, lor_eq_zero]
  tauto

theorem land_eq_zero_of_lt (L n K : Nat) (h : L < 2 ^ n) (hK : (2 ^ n - 1) &&& K = 0) :
    L &&& K = 0 := by
  have h1 : L = L &&& (2 ^ n - 1) := by
    rw [Nat.and_pow_two_sub_one_eq_mod, Nat.mod_eq_of_lt h]
  rw [h1, Nat.and_assoc, hK, Nat.and_zero]

theorem lor_land_distrib (a b m : Nat) : (a ||| b) &&& m = (a &&& m) ||| (b &&& m) := by
  rw [Nat.and_comm, Nat.and_or_distrib_left, Nat.and_comm m a, Nat.and_comm m b]

/-! ## The error test of the LPD wait -/

theorem DMA_SUCCESS_ne_DMA_FAIL : DMA_SUCCESS ≠ DMA_ERROR_DMA_FAIL := by decide

theorem DMA_TIMEOUT_ne_DMA_FAIL : DMA_ERROR_TIMEOUT ≠ DMA_ERROR_DMA_FAIL := by decide

theorem DMA_INVALID_PARAM_ne_DMA_FAIL : DMA_ERROR_INVALID_PARAM ≠ DMA_ERROR_DMA_FAIL := by
  decide

/-- One pass through the body of `lpd_dma_wait_complete` returns
`DMA_ERROR_DMA_FAIL` exactly when the interrupt status it read has a bit of
`XLPDDMA_IXR_ERR_MASK`. -/
theorem lpd_dma_wait_body_fail_iff {σ : Type} (P : Platform σ) (channel e : Nat)
    (w : LpdDmaWorld σ) :
    (∃ r, lpd_dma_wait_body P channel e w = Poll.ret r ∧ r.ret = DMA_ERROR_DMA_FAIL) ↔
      (lpd_dma_read_reg P w channel XLPDDMA_ZDMA_CH_ISR).1 &&& XLPDDMA_IXR_ERR_MASK ≠ 0 := by
  unfold lpd_dma_wait_body
  simp only []
  split_ifs with h1 h2 h3
  · exact ⟨fun _ => h1, fun _ => ⟨_, rfl, rfl⟩⟩
  · constructor
    · rintro ⟨r, hr, hf⟩
      cases hr
      exact absurd hf DMA_SUCCESS_ne_DMA_FAIL
    · intro h
      exact absurd h h1
  · constructor
    · rintro ⟨r, hr, hf⟩
      cases hr
      exact absurd hf DMA_SUCCESS_ne_DMA_FAIL
    · intro h
      exact absurd h h1
  · constructor
    · rintro ⟨r, hr, _⟩
      cases hr
    · intro h
      exact absurd h h1

/-- A `DMA_ERROR_DMA_FAIL` out of the body leaves the interrupt status in
`transfer_error` of the channel. -/
theorem lpd_dma_wait_body_fail_error {σ : Type} (P : Platform σ) (channel e : Nat)
    (w : LpdDmaWorld σ) (r : ChannelWait (LpdDmaWorld σ))
    (h : lpd_dma_wait_body P channel e w = Poll.ret r) (hf : r.ret = DMA_ERROR_DMA_FAIL) :
    (r.world.g_LpdDma.channels channel).transfer_error &&& XLPDDMA_IXR_ERR_MASK ≠ 0 := by
  unfold lpd_dma_wait_body at h
  simp only [] at h
  split_ifs at h with h1 h2 h3
  · cases h
    simpa [LpdDmaWorld.setChannel] using h1
  · cases h
    exact absurd hf DMA_SUCCESS_ne_DMA_FAIL
  · cases h
    exact absurd hf DMA_SUCCESS_ne_DMA_FAIL

/-! ## Control words of the descriptors -/

/-- A length that fits the 26-bit field can be read back from a control word
`flags | length` whose flags lie above the field, and the flags stay as
they are. -/
theorem ctrl_word_fields (flags length : Nat) (hf : flags &&& (2 ^ 26 - 1) = 0)
    (hl : length < 2 ^ 26) :
    (flags ||| length) &&& (2 ^ 26 - 1) = length ∧
    ∀ K, (2 ^ 26 - 1) &&& K = 0 → (flags ||| length) &&& K = flags &&& K := by
  constructor
  · rw [lor_land_distrib, hf, Nat.zero_or, Nat.and_pow_two_sub_one_eq_mod, Nat.mod_eq_of_lt hl]
  · intro K hK
    rw [lor_land_distrib, land_eq_zero_of_lt length 26 K hl hK, Nat.or_zero]

theorem axi_mcdma_start_mm2s_posts {σ : Type} (P : Platform σ) (channel buf length : Nat)
    (w : AxiMcdmaWorld σ) (hi : w.g_AxiMcdma.initialized = true)
    (hc : channel < w.g_AxiMcdma.num_mm2s_channels)
    (he : (w.g_AxiMcdma.mm2s_channels channel).enabled = true) :
    (axi_mcdma_start_mm2s P channel buf length w).1 = DMA_SUCCESS ∧
    ((axi_mcdma_start_mm2s P channel buf length w).2.mm2s_mem channel
        (w.g_AxiMcdma.mm2s_channels channel).desc_head).control
      = u32 (XMCDMA_BD_CTRL_SOF_MASK ||| XMCDMA_BD_CTRL_EOF_MASK ||| length) := by
  have hc' : ¬ channel ≥ w.g_AxiMcdma.num_mm2s_channels := by omega
  simp [axi_mcdma_start_mm2s, hi, hc', he, AxiMcdmaWorld.setMm2s, mcdma_fill_mm2s_desc]

/-! ### The register accesses of a scatter/gather start, with their values -/

/-- A write to a register of the TX (MM2S) channel of the AXI DMA is not a write
to a register of its RX (S2MM) channel. -/
theorem axi_tx_write_not_rx (base k v : Nat) (hk : k < 0x30) :
    Event.isWriteIn (base + XAXIDMA_RX_OFFSET) 0x30
      (Event.Out32 (u64 (base + XAXIDMA_TX_OFFSET + k)) v) = false := by
  apply isWriteIn_Out32_false
  intro off hoff
  unfold u64 XAXIDMA_RX_OFFSET XAXIDMA_TX_OFFSET
  omega

/-- The primitive calls of the part of `axi_dma_sg_transfer` after its checks,
in order and with the values written: the four cache operations, the RX
channel block, the TX channel block and the two status reads.  The value
written to a control register is the value that the read just before it
returned, with the run bit set. -/
theorem axi_dma_sg_post_trace_exact (rd : Nat → List Event → Nat) (clk : List Event → Nat)
    (src dst len : Nat) (w : AxiDmaWorld (List Event)) :
    ∃ vrx vtx,
      (axi_dma_sg_post (Platform.recording rd clk) src dst len w).hw =
        w.hw ++
        ([Event.DCacheFlushRange (u64 (w.g_AxiDma.tx_ring + sizeof_SgDesc * w.g_AxiDma.tx_head))
            sizeof_SgDesc,
          Event.DCacheFlushRange (u64 (w.g_AxiDma.rx_ring + sizeof_SgDesc * w.g_AxiDma.rx_head))
            sizeof_SgDesc,
          Event.DCacheFlushRange src len,
          Event.DCacheInvalidateRange dst len] ++
         [Event.Out32 (u64 (w.g_AxiDma.base_addr + XAXIDMA_RX_OFFSET + XAXIDMA_CDESC_OFFSET))
            (u32 (u64 (w.g_AxiDma.rx_ring + sizeof_SgDesc * w.g_AxiDma.rx_head) &&& 0xFFFFFFFF)),
          Event.Out32 (u64 (w.g_AxiDma.base_addr + XAXIDMA_RX_OFFSET + XAXIDMA_CDESC_MSB_OFFSET))
            (u32 (u64 (w.g_AxiDma.rx_ring + sizeof_SgDesc * w.g_AxiDma.rx_head) >>> 32)),
          Event.In32 (u64 (w.g_AxiDma.base_addr + XAXIDMA_RX_OFFSET + XAXIDMA_CR_OFFSET)),
          Event.Out32 (u64 (w.g_AxiDma.base_addr + XAXIDMA_RX_OFFSET + XAXIDMA_CR_OFFSET))
            (vrx ||| XAXIDMA_CR_RUNSTOP_MASK),
          Event.Out32 (u64 (w.g_AxiDma.base_addr + XAXIDMA_RX_OFFSET + XAXIDMA_TDESC_OFFSET))
            (u32 (u64 (w.g_AxiDma.rx_ring + sizeof_SgDesc * w.g_AxiDma.rx_head) &&& 0xFFFFFFFF)),
          Event.Out32 (u64 (w.g_AxiDma.base_addr + XAXIDMA_RX_OFFSET + XAXIDMA_TDESC_MSB_OFFSET))
            (u32 (u64 (w.g_AxiDma.rx_ring + sizeof_SgDesc * w.g_AxiDma.rx_head) >>> 32))] ++
         [Event.Out32 (u64 (w.g_AxiDma.base_addr + XAXIDMA_TX_OFFSET + XAXIDMA_CDESC_OFFSET))
            (u32 (u64 (w.g_AxiDma.tx_ring + sizeof_SgDesc * w.g_AxiDma.tx_head) &&& 0xFFFFFFFF)),
          Event.Out32 (u64 (w.g_AxiDma.base_addr + XAXIDMA_TX_OFFSET + XAXIDMA_CDESC_MSB_OFFSET))
            (u32 (u64 (w.g_AxiDma.tx_ring + sizeof_SgDesc * w.g_AxiDma.tx_head) >>> 32)),
          Event.In32 (u64 (w.g_AxiDma.base_addr + XAXIDMA_TX_OFFSET + XAXIDMA_CR_OFFSET)),
          Event.Out32 (u64 (w.g_AxiDma.base_addr + XAXIDMA_TX_OFFSET + XAXIDMA_CR_OFFSET))
            (vtx ||| XAXIDMA_CR_RUNSTOP_MASK),
          Event.Out32 (u64 (w.g_AxiDma.base_addr + XAXIDMA_TX_OFFSET + XAXIDMA_TDESC_OFFSET))
            (u32 (u64 (w.g_AxiDma.tx_ring + sizeof_SgDesc * w.g_AxiDma.tx_head) &&& 0xFFFFFFFF)),
          Event.Out32 (u64 (w.g_AxiDma.base_addr + XAXIDMA_TX_OFFSET + XAXIDMA_TDESC_MSB_OFFSET))
            (u32 (u64 (w.g_AxiDma.tx_ring + sizeof_SgDesc * w.g_AxiDma.tx_head) >>> 32))] ++
         [Event.In32 (u64 (w.g_AxiDma.base_addr + XAXIDMA_TX_OFFSET + XAXIDMA_SR_OFFSET)),
          Event.In32 (u64 (w.g_AxiDma.base_addr + XAXIDMA_RX_OFFSET + XAXIDMA_SR_OFFSET))]) ∧
      vrx = u32 (rd (u64 (w.g_AxiDma.base_addr + XAXIDMA_RX_OFFSET + XAXIDMA_CR_OFFSET))
        (w.hw ++
         ([Event.DCacheFlushRange (u64 (w.g_AxiDma.tx_ring + sizeof_SgDesc * w.g_AxiDma.tx_head))
             sizeof_SgDesc,
           Event.DCacheFlushRange (u64 (w.g_AxiDma.rx_ring + sizeof_SgDesc * w.g_AxiDma.rx_head))
             sizeof_SgDesc,
           Event.DCacheFlushRange src len,
           Event.DCacheInvalidateRange dst len] ++
          [Event.Out32 (u64 (w.g_AxiDma.base_addr + XAXIDMA_RX_OFFSET + XAXIDMA_CDESC_OFFSET))
             (u32 (u64 (w.g_AxiDma.rx_ring + sizeof_SgDesc * w.g_AxiDma.rx_head)
               &&& 0xFFFFFFFF)),
           Event.Out32 (u64 (w.g_AxiDma.base_addr + XAXIDMA_RX_OFFSET + XAXIDMA_CDESC_MSB_OFFSET))
             (u32 (u64 (w.g_AxiDma.rx_ring + sizeof_SgDesc * w.g_AxiDma.rx_head) >>> 32))]))) ∧
      vtx = u32 (rd (u64 (w.g_AxiDma.base_addr + XAXIDMA_TX_OFFSET + XAXIDMA_CR_OFFSET))
        (w.hw ++
         ([Event.DCacheFlushRange (u64 (w.g_AxiDma.tx_ring + sizeof_SgDesc * w.g_AxiDma.tx_head))
             sizeof_SgDesc,
           Event.DCacheFlushRange (u64 (w.g_AxiDma.rx_ring + sizeof_SgDesc * w.g_AxiDma.rx_head))
             sizeof_SgDesc,
           Event.DCacheFlushRange src len,
           Event.DCacheInvalidateRange dst len] ++
          [Event.Out32 (u64 (w.g_AxiDma.base_addr + XAXIDMA_RX_OFFSET + XAXIDMA_CDESC_OFFSET))
             (u32 (u64 (w.g_AxiDma.rx_ring + sizeof_SgDesc * w.g_AxiDma.rx_head)
               &&& 0xFFFFFFFF)),
           Event.Out32 (u64 (w.g_AxiDma.base_addr + XAXIDMA_RX_OFFSET + XAXIDMA_CDESC_MSB_OFFSET))
             (u32 (u64 (w.g_AxiDma.rx_ring + sizeof_SgDesc * w.g_AxiDma.rx_head) >>> 32)),
           Event.In32 (u64 (w.g_AxiDma.base_addr + XAXIDMA_RX_OFFSET + XAXIDMA_CR_OFFSET)),
           Event.Out32 (u64 (w.g_AxiDma.base_addr + XAXIDMA_RX_OFFSET + XAXIDMA_CR_OFFSET))
             (vrx ||| XAXIDMA_CR_RUNSTOP_MASK),
           Event.Out32 (u64 (w.g_AxiDma.base_addr + XAXIDMA_RX_OFFSET + XAXIDMA_TDESC_OFFSET))
             (u32 (u64 (w.g_AxiDma.rx_ring + sizeof_SgDesc * w.g_AxiDma.rx_head)
               &&& 0xFFFFFFFF)),
           Event.Out32 (u64 (w.g_AxiDma.base_addr + XAXIDMA_RX_OFFSET + XAXIDMA_TDESC_MSB_OFFSET))
             (u32 (u64 (w.g_AxiDma.rx_ring + sizeof_SgDesc * w.g_AxiDma.rx_head) >>> 32))] ++
          [Event.Out32 (u64 (w.g_AxiDma.base_addr + XAXIDMA_TX_OFFSET + XAXIDMA_CDESC_OFFSET))
             (u32 (u64 (w.g_AxiDma.tx_ring + sizeof_SgDesc * w.g_AxiDma.tx_head)
               &&& 0xFFFFFFFF)),
           Event.Out32 (u64 (w.g_AxiDma.base_addr + XAXIDMA_TX_OFFSET + XAXIDMA_CDESC_MSB_OFFSET))
             (u32 (u64 (w.g_AxiDma.tx_ring + sizeof_SgDesc * w.g_AxiDma.tx_head) >>> 32))]))) := by
  refine ⟨_, _, ?_, rfl, rfl⟩
  simp only [axi_dma_sg_post, axi_dma_sg_start, axi_dma_write_rx_reg, axi_dma_read_rx_reg,
    axi_dma_write_tx_reg, axi_dma_read_tx_reg, Platform.recording, List.append_assoc,
    List.singleton_append, List.cons_append, List.nil_append]

/-- The primitive calls of a successful `axi_mcdma_start_mm2s`, in order and with
the values written; `v` is the value that the read of the control register
returned. -/
theorem axi_mcdma_start_mm2s_trace_exact (rd : Nat → List Event → Nat)
    (clk : List Event → Nat) (channel buf length : Nat) (wm : AxiMcdmaWorld (List Event))
    (h : (axi_mcdma_start_mm2s (Platform.recording rd clk) channel buf length wm).1 = DMA_SUCCESS) :
    ∃ v, (axi_mcdma_start_mm2s (Platform.recording rd clk) channel buf length wm).2.hw =
        wm.hw ++
        ([Event.DCacheFlushRange (u64 ((wm.g_AxiMcdma.mm2s_channels channel).desc_ring + sizeof_SgDesc * (wm.g_AxiMcdma.mm2s_channels channel).desc_head)) sizeof_SgDesc,
          Event.DCacheFlushRange buf length] ++
         [Event.Out32 (u64 (wm.g_AxiMcdma.base_addr + u32 (MCDMA_MM2S_BASE_OFFSET + u32 (channel * MCDMA_CHANNEL_OFFSET)) + XMCDMA_CH_CDESC_OFFSET))
            (u32 (u64 ((wm.g_AxiMcdma.mm2s_channels channel).desc_ring + sizeof_SgDesc * (wm.g_AxiMcdma.mm2s_channels channel).desc_head) &&& 0xFFFFFFFF)),
          Event.Out32 (u64 (wm.g_AxiMcdma.base_addr + u32 (MCDMA_MM2S_BASE_OFFSET + u32 (channel * MCDMA_CHANNEL_OFFSET)) + XMCDMA_CH_CDESC_MSB_OFFSET))
            (u32 (u64 ((wm.g_AxiMcdma.mm2s_channels channel).desc_ring + sizeof_SgDesc * (wm.g_AxiMcdma.mm2s_channels channel).desc_head) >>> 32)),
          Event.In32 (u64 (wm.g_AxiMcdma.base_addr + u32 (MCDMA_MM2S_BASE_OFFSET + u32 (channel * MCDMA_CHANNEL_OFFSET)) + XMCDMA_CH_CR_OFFSET)),
          Event.Out32 (u64 (wm.g_AxiMcdma.base_addr + u32 (MCDMA_MM2S_BASE_OFFSET + u32 (channel * MCDMA_CHANNEL_OFFSET)) + XMCDMA_CH_CR_OFFSET))
            (v ||| XMCDMA_CH_CR_RS_MASK),
          Event.Out32 (u64 (wm.g_AxiMcdma.base_addr + u32 (MCDMA_MM2S_BASE_OFFSET + u32 (channel * MCDMA_CHANNEL_OFFSET)) + XMCDMA_CH_TDESC_OFFSET))
            (u32 (u64 ((wm.g_AxiMcdma.mm2s_channels channel).desc_ring + sizeof_SgDesc * (wm.g_AxiMcdma.mm2s_channels channel).desc_head) &&& 0xFFFFFFFF)),
          Event.Out32 (u64 (wm.g_AxiMcdma.base_addr + u32 (MCDMA_MM2S_BASE_OFFSET + u32 (channel * MCDMA_CHANNEL_OFFSET)) + XMCDMA_CH_TDESC_MSB_OFFSET))
            (u32 (u64 ((wm.g_AxiMcdma.mm2s_channels channel).desc_ring + sizeof_SgDesc * (wm.g_AxiMcdma.mm2s_channels channel).desc_head) >>> 32))]) ∧
      v = u32 (rd (u64 (wm.g_AxiMcdma.base_addr + u32 (MCDMA_MM2S_BASE_OFFSET + u32 (channel * MCDMA_CHANNEL_OFFSET)) + XMCDMA_CH_CR_OFFSET))
        (wm.hw ++
         ([Event.DCacheFlushRange (u64 ((wm.g_AxiMcdma.mm2s_channels channel).desc_ring + sizeof_SgDesc * (wm.g_AxiMcdma.mm2s_channels channel).desc_head)) sizeof_SgDesc,
           Event.DCacheFlushRange buf length] ++
          [Event.Out32 (u64 (wm.g_AxiMcdma.base_addr + u32 (MCDMA_MM2S_BASE_OFFSET + u32 (channel * MCDMA_CHANNEL_OFFSET)) + XMCDMA_CH_CDESC_OFFSET))
             (u32 (u64 ((wm.g_AxiMcdma.mm2s_channels channel).desc_ring + sizeof_SgDesc * (wm.g_AxiMcdma.mm2s_channels channel).desc_head) &&& 0xFFFFFFFF)),
           Event.Out32 (u64 (wm.g_AxiMcdma.base_addr + u32 (MCDMA_MM2S_BASE_OFFSET + u32 (channel * MCDMA_CHANNEL_OFFSET)) + XMCDMA_CH_CDESC_MSB_OFFSET))
             (u32 (u64 ((wm.g_AxiMcdma.mm2s_channels channel).desc_ring + sizeof_SgDesc * (wm.g_AxiMcdma.mm2s_channels channel).desc_head) >>> 32))]))) := by
  unfold axi_mcdma_start_mm2s at h ⊢
  split_ifs at h ⊢ <;> first
    | exact absurd h DMA_INVALID_PARAM_ne_SUCCESS
    | exact absurd h DMA_NOT_INIT_ne_SUCCESS
    | (refine ⟨_, ?_, rfl⟩
       simp only [AxiMcdmaWorld.setMm2s, mcdma_write_mm2s_ch_reg,
         mcdma_read_mm2s_ch_reg, Platform.recording, List.append_assoc, List.singleton_append,
         List.cons_append, List.nil_append])

/-- The primitive calls of a successful `axi_mcdma_start_s2mm`, in order and with
the values written; `v` is the value that the read of the control register
returned. -/
theorem axi_mcdma_start_s2mm_trace_exact (rd : Nat → List Event → Nat)
    (clk : List Event → Nat) (channel buf length : Nat) (wm : AxiMcdmaWorld (List Event))
    (h : (axi_mcdma_start_s2mm (Platform.recording rd clk) channel buf length wm).1 = DMA_SUCCESS) :
    ∃ v, (axi_mcdma_start_s2mm (Platform.recording rd clk) channel buf length wm).2.hw =
        wm.hw ++
        ([Event.DCacheFlushRange (u64 ((wm.g_AxiMcdma.s2mm_channels channel).desc_ring + sizeof_SgDesc * (wm.g_AxiMcdma.s2mm_channels channel).desc_head)) sizeof_SgDesc,
          Event.DCacheInvalidateRange buf length] ++
         [Event.Out32 (u64 (wm.g_AxiMcdma.base_addr + u32 (MCDMA_S2MM_BASE_OFFSET + u32 (channel * MCDMA_CHANNEL_OFFSET)) + XMCDMA_CH_CDESC_OFFSET))
            (u32 (u64 ((wm.g_AxiMcdma.s2mm_channels channel).desc_ring + sizeof_SgDesc * (wm.g_AxiMcdma.s2mm_channels channel).desc_head) &&& 0xFFFFFFFF)),
          Event.Out32 (u64 (wm.g_AxiMcdma.base_addr + u32 (MCDMA_S2MM_BASE_OFFSET + u32 (channel * MCDMA_CHANNEL_OFFSET)) + XMCDMA_CH_CDESC_MSB_OFFSET))
            (u32 (u64 ((wm.g_AxiMcdma.s2mm_channels channel).desc_ring + sizeof_SgDesc * (wm.g_AxiMcdma.s2mm_channels channel).desc_head) >>> 32)),
          Event.In32 (u64 (wm.g_AxiMcdma.base_addr + u32 (MCDMA_S2MM_BASE_OFFSET + u32 (channel * MCDMA_CHANNEL_OFFSET)) + XMCDMA_CH_CR_OFFSET)),
          Event.Out32 (u64 (wm.g_AxiMcdma.base_addr + u32 (MCDMA_S2MM_BASE_OFFSET + u32 (channel * MCDMA_CHANNEL_OFFSET)) + XMCDMA_CH_CR_OFFSET))
            (v ||| XMCDMA_CH_CR_RS_MASK),
          Event.Out32 (u64 (wm.g_AxiMcdma.base_addr + u32 (MCDMA_S2MM_BASE_OFFSET + u32 (channel * MCDMA_CHANNEL_OFFSET)) + XMCDMA_CH_TDESC_OFFSET))
            (u32 (u64 ((wm.g_AxiMcdma.s2mm_channels channel).desc_ring + sizeof_SgDesc * (wm.g_AxiMcdma.s2mm_channels channel).desc_head) &&& 0xFFFFFFFF)),
          Event.Out32 (u64 (wm.g_AxiMcdma.base_addr + u32 (MCDMA_S2MM_BASE_OFFSET + u32 (channel * MCDMA_CHANNEL_OFFSET)) + XMCDMA_CH_TDESC_MSB_OFFSET))
            (u32 (u64 ((wm.g_AxiMcdma.s2mm_channels channel).desc_ring + sizeof_SgDesc * (wm.g_AxiMcdma.s2mm_channels channel).desc_head) >>> 32))]) ∧
      v = u32 (rd (u64 (wm.g_AxiMcdma.base_addr + u32 (MCDMA_S2MM_BASE_OFFSET + u32 (channel * MCDMA_CHANNEL_OFFSET)) + XMCDMA_CH_CR_OFFSET))
        (wm.hw ++
         ([Event.DCacheFlushRange (u64 ((wm.g_AxiMcdma.s2mm_channels channel).desc_ring + sizeof_SgDesc * (wm.g_AxiMcdma.s2mm_channels channel).desc_head)) sizeof_SgDesc,
           Event.DCacheInvalidateRange buf length] ++
          [Event.Out32 (u64 (wm.g_AxiMcdma.base_addr + u32 (MCDMA_S2MM_BASE_OFFSET + u32 (channel * MCDMA_CHANNEL_OFFSET)) + XMCDMA_CH_CDESC_OFFSET))
             (u32 (u64 ((wm.g_AxiMcdma.s2mm_channels channel).desc_ring + sizeof_SgDesc * (wm.g_AxiMcdma.s2mm_channels channel).desc_head) &&& 0xFFFFFFFF)),
           Event.Out32 (u64 (wm.g_AxiMcdma.base_addr + u32 (MCDMA_S2MM_BASE_OFFSET + u32 (channel * MCDMA_CHANNEL_OFFSET)) + XMCDMA_CH_CDESC_MSB_OFFSET))
             (u32 (u64 ((wm.g_AxiMcdma.s2mm_channels channel).desc_ring + sizeof_SgDesc * (wm.g_AxiMcdma.s2mm_channels channel).desc_head) >>> 32))]))) := by
  unfold axi_mcdma_start_s2mm at h ⊢
  split_ifs at h ⊢ <;> first
    | exact absurd h DMA_INVALID_PARAM_ne_SUCCESS
    | exact absurd h DMA_NOT_INIT_ne_SUCCESS
    | (refine ⟨_, ?_, rfl⟩
       simp only [AxiMcdmaWorld.setS2mm, mcdma_write_s2mm_ch_reg,
         mcdma_read_s2mm_ch_reg, Platform.recording, List.append_assoc, List.singleton_append,
         List.cons_append, List.nil_append])

/-! ### The verify loop on the deterministic patterns -/

/-- For the four deterministic patterns the `switch` of `pattern_verify` does
not touch the statics, and the byte it yields does not depend on them. -/
theorem pattern_verify_expected_deterministic (pattern i : Nat) (st st' : PatternStatics)
    (hp : pattern = PATTERN_INCREMENTAL ∨ pattern = PATTERN_ALL_ONES ∨
      pattern = PATTERN_ALL_ZEROS ∨ pattern = PATTERN_CHECKERBOARD) :
    pattern_verify_expected pattern i st' = ((pattern_verify_expected pattern i st).1, st') := by
  rcases hp with rfl | rfl | rfl | rfl <;> rfl

/-- What the loop of `pattern_verify` computes when the expected byte at offset
`j` is `E j` whatever the statics are: it runs through when all bytes from
offset `i` on agree, and otherwise stops at the first offset that does not. -/
theorem pattern_verify_loop_spec (buf : Buffer) (pattern : Nat) (E : Nat → Nat)
    (hE : ∀ i st, pattern_verify_expected pattern i st = (E i, st)) :
    ∀ n i st,
      ((pattern_verify_loop buf pattern n i st).ok = true ∧
        (pattern_verify_loop buf pattern n i st).error = none ∧
        ∀ j, i ≤ j → j < i + n → buf j = E j) ∨
      ((pattern_verify_loop buf pattern n i st).ok = false ∧
        ∃ k, i ≤ k ∧ k < i + n ∧ buf k ≠ E k ∧ (∀ j, i ≤ j → j < k → buf j = E j) ∧
          (pattern_verify_loop buf pattern n i st).error = some (k, E k, buf k)) := by
  intro n
  induction n with
  | zero =>
    intro i st
    left
    refine ⟨rfl, rfl, ?_⟩
    intro j h1 h2
    omega
  | succ n ih =>
    intro i st
    unfold pattern_verify_loop
    simp only [hE]
    by_cases hb : buf i ≠ E i
    · rw [if_pos hb]
      right
      refine ⟨rfl, i, Nat.le_refl i, by omega, hb, ?_, rfl⟩
      intro j h1 h2
      omega
    · rw [if_neg hb]
      have hbi : buf i = E i := not_not.mp hb
      rcases ih (i + 1) st with ⟨h1, h2, h3⟩ | ⟨h1, k, hk1, hk2, hk3, hk4, hk5⟩
      · left
        refine ⟨h1, h2, ?_⟩
        intro j hj1 hj2
        by_cases hji : j = i
        · rw [hji]
          exact hbi
        · exact h3 j (by omega) (by omega)
      · right
        refine ⟨h1, k, by omega, by omega, hk3, ?_, hk5⟩
        intro j hj1 hj2
        by_cases hji : j = i
        · rw [hji]
          exact hbi
        · exact hk4 j (by omega) hj2

/-! ### Store loops -/

theorem store8_eq (buf : Buffer) (i v j : Nat) :
    store8 buf i v j = if j = i then v % 256 else buf j := rfl

theorem store32_eq (buf : Buffer) (i v j : Nat) :
    store32 buf i v j =
      if j = 4 * i then v % 256
      else if j = 4 * i + 1 then (v / 2 ^ 8) % 256
      else if j = 4 * i + 2 then (v / 2 ^ 16) % 256
      else if j = 4 * i + 3 then (v / 2 ^ 24) % 256
      else buf j := rfl

theorem foldl_store8 (g : Nat → Nat) (lo : Nat) :
    ∀ m (buf : Buffer) j,
      (List.range m).foldl (fun s k => store8 s (lo + k) (g (lo + k))) buf j
        = if lo ≤ j ∧ j < lo + m then g j % 256 else buf j := by
  intro m
  induction m with
  | zero =>
    intro buf j
    have h : ¬ (lo ≤ j ∧ j < lo + 0) := by omega
    rw [if_neg h]
    rfl
  | succ m ih =>
    intro buf j
    rw [List.range_succ, List.foldl_append, List.foldl_cons, List.foldl_nil, store8_eq]
    by_cases hj : j = lo + m
    · rw [if_pos hj, if_pos (by omega), hj]
    · rw [if_neg hj, ih]
      by_cases h : lo ≤ j ∧ j < lo + m
      · rw [if_pos h, if_pos (by omega)]
      · rw [if_neg h, if_neg (by omega)]

/-- A byte loop `for (i = lo; i < hi; i++) p[i] = g(i);` leaves `g(j)` at the
offsets it visits and the rest of the buffer as it was. -/
theorem forRange_store8 (g : Nat → Nat) (lo hi : Nat) (buf : Buffer) (j : Nat) :
    forRange lo hi (fun i b => store8 b i (g i)) buf j
      = if lo ≤ j ∧ j < hi then g j % 256 else buf j := by
  unfold forRange
  rw [foldl_store8 g lo (hi - lo) buf j]
  by_cases h : lo ≤ j ∧ j < hi
  · rw [if_pos h, if_pos (by omega)]
  · rw [if_neg h, if_neg (by omega)]

theorem foldl_store32 (pat : Nat) :
    ∀ m (buf : Buffer) j,
      (List.range m).foldl (fun s k => store32 s k pat) buf j
        = if j < 4 * m then (pat / 2 ^ (8 * (j % 4))) % 256 else buf j := by
  intro m
  induction m with
  | zero =>
    intro buf j
    rfl
  | succ m ih =>
    intro buf j
    rw [List.range_succ, List.foldl_append, List.foldl_cons, List.foldl_nil, store32_eq]
    by_cases h0 : j = 4 * m
    · have hm : j % 4 = 0 := by omega
      rw [if_pos h0, if_pos (by omega), hm]
      simp
    · rw [if_neg h0]
      by_cases h1 : j = 4 * m + 1
      · have hm : j % 4 = 1 := by omega
        rw [if_pos h1, if_pos (by omega), hm]
      · rw [if_neg h1]
        by_cases h2 : j = 4 * m + 2
        · have hm : j % 4 = 2 := by omega
          rw [if_pos h2, if_pos (by omega), hm]
        · rw [if_neg h2]
          by_cases h3 : j = 4 * m + 3
          · have hm : j % 4 = 3 := by omega
            rw [if_pos h3, if_pos (by omega), hm]
          · rw [if_neg h3, ih]
            by_cases h : j < 4 * m
            · rw [if_pos h, if_pos (by omega)]
            · rw [if_neg h, if_neg (by omega)]

/-- A word loop `for (i = 0; i < m; i++) p32[i] = pat;` leaves byte `j mod 4` of
`pat` (little-endian) at every offset `j < 4 * m`. -/
theorem forRange_store32 (pat m : Nat) (buf : Buffer) (j : Nat) :
    forRange 0 m (fun i b => store32 b i pat) buf j
      = if j < 4 * m then (pat / 2 ^ (8 * (j % 4))) % 256 else buf j := by
  unfold forRange
  simp only [Nat.sub_zero, Nat.zero_add]
  exact foldl_store32 pat m buf j

/-! ### The scans of `memory_compare` -/

/-- Two chunks of eight bytes that are equal as 64-bit words are equal byte by
byte. -/
theorem load64_inj (p1 p2 : Buffer) (i : Nat) (h1 : ∀ j, p1 j < 256) (h2 : ∀ j, p2 j < 256)
    (h : load64 p1 i = load64 p2 i) : ∀ j, 8 * i ≤ j → j < 8 * i + 8 → p1 j = p2 j := by
  unfold load64 at h
  have a0 := h1 (8 * i)
  have a1 := h1 (8 * i + 1)
  have a2 := h1 (8 * i + 2)
  have a3 := h1 (8 * i + 3)
  have a4 := h1 (8 * i + 4)
  have a5 := h1 (8 * i + 5)
  have a6 := h1 (8 * i + 6)
  have a7 := h1 (8 * i + 7)
  have b0 := h2 (8 * i)
  have b1 := h2 (8 * i + 1)
  have b2 := h2 (8 * i + 2)
  have b3 := h2 (8 * i + 3)
  have b4 := h2 (8 * i + 4)
  have b5 := h2 (8 * i + 5)
  have b6 := h2 (8 * i + 6)
  have b7 := h2 (8 * i + 7)
  have e : p1 (8 * i) = p2 (8 * i) ∧ p1 (8 * i + 1) = p2 (8 * i + 1) ∧
      p1 (8 * i + 2) = p2 (8 * i + 2) ∧ p1 (8 * i + 3) = p2 (8 * i + 3) ∧
      p1 (8 * i + 4) = p2 (8 * i + 4) ∧ p1 (8 * i + 5) = p2 (8 * i + 5) ∧
      p1 (8 * i + 6) = p2 (8 * i + 6) ∧ p1 (8 * i + 7) = p2 (8 * i + 7) := by
    omega
  intro j hj1 hj2
  have hj : j = 8 * i ∨ j = 8 * i + 1 ∨ j = 8 * i + 2 ∨ j = 8 * i + 3 ∨ j = 8 * i + 4 ∨
      j = 8 * i + 5 ∨ j = 8 * i + 6 ∨ j = 8 * i + 7 := by omega
  rcases hj with rfl | rfl | rfl | rfl | rfl | rfl | rfl | rfl
  · exact e.1
  · exact e.2.1
  · exact e.2.2.1
  · exact e.2.2.2.1
  · exact e.2.2.2.2.1
  · exact e.2.2.2.2.2.1
  · exact e.2.2.2.2.2.2.1
  · exact e.2.2.2.2.2.2.2

theorem firstDiff_unique (p1 p2 : Buffer) (lo hi : Nat) (r r' : Option Nat)
    (h : FirstDiff p1 p2 lo hi r) (h' : FirstDiff p1 p2 lo hi r') : r = r' := by
  rcases h with ⟨rfl, ha⟩ | ⟨d, rfl, h1, h2, h3, h4⟩
  · rcases h' with ⟨rfl, -⟩ | ⟨d', rfl, h1', h2', h3', -⟩
    · rfl
    · exact absurd (ha d' h1' h2') h3'
  · rcases h' with ⟨rfl, ha'⟩ | ⟨d', rfl, h1', h2', h3', h4'⟩
    · exact absurd (ha' d h1 h2) h3
    · have hd : d = d' := by
        rcases Nat.lt_trichotomy d d' with hlt | heq | hgt
        · exact absurd (h4' d h1 hlt) h3
        · exact heq
        · exact absurd (h4 d' h1' hgt) h3'
      rw [hd]

/-- A scan that found nothing up to `mid` continues with the scan from `mid`. -/
theorem firstDiff_none_append (p1 p2 : Buffer) (lo mid hi : Nat) (r : Option Nat)
    (hlm : lo ≤ mid) (h : FirstDiff p1 p2 lo mid none) (h' : FirstDiff p1 p2 mid hi r) :
    FirstDiff p1 p2 lo hi r := by
  rcases h with ⟨-, ha⟩ | ⟨d, hd, -⟩
  · rcases h' with ⟨rfl, hb⟩ | ⟨d, rfl, h1, h2, h3, h4⟩
    · left
      refine ⟨rfl, ?_⟩
      intro j hj1 hj2
      by_cases hjm : j < mid
      · exact ha j hj1 hjm
      · exact hb j (by omega) hj2
    · right
      refine ⟨d, rfl, by omega, h2, h3, ?_⟩
      intro j hj1 hj2
      by_cases hjm : j < mid
      · exact ha j hj1 hjm
      · exact h4 j (by omega) hj2
  · cases hd

/-- A difference found up to `mid` is the first one of any longer range. -/
theorem firstDiff_some_extend (p1 p2 : Buffer) (lo mid hi d : Nat) (hmh : mid ≤ hi)
    (h : FirstDiff p1 p2 lo mid (some d)) : FirstDiff p1 p2 lo hi (some d) := by
  rcases h with ⟨hd, -⟩ | ⟨d', hd, h1, h2, h3, h4⟩
  · cases hd
  · cases hd
    right
    exact ⟨d, rfl, h1, by omega, h3, h4⟩

theorem bytewise_first_diff_spec (p1 p2 : Buffer) :
    ∀ n i, FirstDiff p1 p2 i (i + n) (bytewise_first_diff p1 p2 n i) := by
  intro n
  induction n with
  | zero =>
    intro i
    left
    refine ⟨rfl, ?_⟩
    intro j h1 h2
    omega
  | succ n ih =>
    intro i
    unfold bytewise_first_diff
    by_cases hb : p1 i ≠ p2 i
    · rw [if_pos hb]
      right
      refine ⟨i, rfl, Nat.le_refl i, by omega, hb, ?_⟩
      intro j h1 h2
      omega
    · rw [if_neg hb]
      have h0 : FirstDiff p1 p2 i (i + 1) none := by
        left
        refine ⟨rfl, ?_⟩
        intro j h1 h2
        have hji : j = i := by omega
        rw [hji]
        exact not_not.mp hb
      have h1 := ih (i + 1)
      have he : i + 1 + n = i + (n + 1) := by omega
      rw [he] at h1
      exact firstDiff_none_append p1 p2 i (i + 1) (i + (n + 1)) _ (by omega) h0 h1

theorem memory_compare_tail_spec (p1 p2 : Buffer) :
    ∀ n i, FirstDiff p1 p2 i (i + n) (memory_compare_tail p1 p2 n i) := by
  intro n
  induction n with
  | zero =>
    intro i
    left
    refine ⟨rfl, ?_⟩
    intro j h1 h2
    omega
  | succ n ih =>
    intro i
    unfold memory_compare_tail
    by_cases hb : p1 i ≠ p2 i
    · rw [if_pos hb]
      right
      refine ⟨i, rfl, Nat.le_refl i, by omega, hb, ?_⟩
      intro j h1 h2
      omega
    · rw [if_neg hb]
      have h0 : FirstDiff p1 p2 i (i + 1) none := by
        left
        refine ⟨rfl, ?_⟩
        intro j h1 h2
        have hji : j = i := by omega
        rw [hji]
        exact not_not.mp hb
      have h1 := ih (i + 1)
      have he : i + 1 + n = i + (n + 1) := by omega
      rw [he] at h1
      exact firstDiff_none_append p1 p2 i (i + 1) (i + (n + 1)) _ (by omega) h0 h1

theorem memory_compare_find_spec (p1 p2 : Buffer) (byte_offset : Nat) :
    ∀ n j, byte_offset + j + n ≤ 2 ^ 32 →
      FirstDiff p1 p2 (byte_offset + j) (byte_offset + j + n)
        (memory_compare_find p1 p2 byte_offset n j) := by
  intro n
  induction n with
  | zero =>
    intro j _
    left
    refine ⟨rfl, ?_⟩
    intro k h1 h2
    omega
  | succ n ih =>
    intro j hfit
    have hu : u32 (byte_offset + j) = byte_offset + j := Nat.mod_eq_of_lt (by omega)
    unfold memory_compare_find
    rw [hu]
    by_cases hb : p1 (byte_offset + j) ≠ p2 (byte_offset + j)
    · rw [if_pos hb]
      right
      refine ⟨byte_offset + j, rfl, Nat.le_refl _, by omega, hb, ?_⟩
      intro k h1 h2
      omega
    · rw [if_neg hb]
      have h0 : FirstDiff p1 p2 (byte_offset + j) (byte_offset + j + 1) none := by
        left
        refine ⟨rfl, ?_⟩
        intro k h1 h2
        have hk : k = byte_offset + j := by omega
        rw [hk]
        exact not_not.mp hb
      have h1 := ih (j + 1) (by omega)
      have he : byte_offset + (j + 1) + n = byte_offset + j + (n + 1) := by omega
      have he' : byte_offset + (j + 1) = byte_offset + j + 1 := by omega
      rw [he, he'] at h1
      exact firstDiff_none_append p1 p2 _ _ _ _ (by omega) h0 h1

theorem memory_compare_chunks_spec (p1 p2 : Buffer) (h1 : ∀ j, p1 j < 256)
    (h2 : ∀ j, p2 j < 256) :
    ∀ n i, 8 * (i + n) ≤ 2 ^ 32 →
      FirstDiff p1 p2 (8 * i) (8 * (i + n)) (memory_compare_chunks p1 p2 n i) := by
  intro n
  induction n with
  | zero =>
    intro i _
    left
    refine ⟨rfl, ?_⟩
    intro k hk1 hk2
    omega
  | succ n ih =>
    intro i hfit
    have hrest := ih (i + 1) (by omega)
    have he : 8 * (i + 1 + n) = 8 * (i + (n + 1)) := by omega
    have he' : 8 * (i + 1) = 8 * i + 8 := by omega
    rw [he, he'] at hrest
    have hu : u32 (i * 8) = 8 * i := by
      have : i * 8 < 2 ^ 32 := by omega
      rw [u32, Nat.mod_eq_of_lt this]
      omega
    have hfind := memory_compare_find_spec p1 p2 (8 * i) 8 0 (by omega)
    rw [Nat.add_zero] at hfind
    unfold memory_compare_chunks
    rw [hu]
    by_cases hw : load64 p1 i ≠ load64 p2 i
    · rw [if_pos hw]
      rcases hf : memory_compare_find p1 p2 (8 * i) 8 0 with _ | d
      · rw [hf] at hfind
        exact firstDiff_none_append p1 p2 _ _ _ _ (by omega) hfind hrest
      · rw [hf] at hfind
        exact firstDiff_some_extend p1 p2 _ _ _ d (by omega) hfind
    · rw [if_neg hw]
      have h0 : FirstDiff p1 p2 (8 * i) (8 * i + 8) none :=
        Or.inl ⟨rfl, load64_inj p1 p2 i h1 h2 (not_not.mp hw)⟩
      exact firstDiff_none_append p1 p2 _ _ _ _ (by omega) h0 hrest

/-- The function `memory_compare` finds the first difference below `size`. -/
theorem memory_compare_spec (p1 p2 : Buffer) (size : Nat) (h1 : ∀ j, p1 j < 256)
    (h2 : ∀ j, p2 j < 256) (hs : size < 2 ^ 32) :
    FirstDiff p1 p2 0 size (memory_compare p1 p2 size).first_diff ∧
    (memory_compare p1 p2 size).ok = (memory_compare p1 p2 size).first_diff.isNone := by
  have hu : u32 (size / 8 * 8) = size / 8 * 8 := Nat.mod_eq_of_lt (by omega)
  have hc := memory_compare_chunks_spec p1 p2 h1 h2 (size / 8) 0 (by omega)
  have ht := memory_compare_tail_spec p1 p2 (size - size / 8 * 8) (size / 8 * 8)
  have e1 : 8 * (0 + size / 8) = size / 8 * 8 := by omega
  have e2 : size / 8 * 8 + (size - size / 8 * 8) = size := by omega
  rw [e1, Nat.mul_zero] at hc
  rw [e2] at ht
  unfold memory_compare
  simp only [hu]
  rcases hcv : memory_compare_chunks p1 p2 (size / 8) 0 with _ | d
  · rw [hcv] at hc
    rcases htv : memory_compare_tail p1 p2 (size - size / 8 * 8) (size / 8 * 8) with _ | d
    · rw [htv] at ht
      exact ⟨firstDiff_none_append p1 p2 _ _ _ _ (Nat.zero_le _) hc ht, rfl⟩
    · rw [htv] at ht
      exact ⟨firstDiff_none_append p1 p2 _ _ _ _ (Nat.zero_le _) hc ht, rfl⟩
  · rw [hcv] at hc
    exact ⟨firstDiff_some_extend p1 p2 _ _ _ d (by omega) hc, rfl⟩

/-- The plain comparison finds the first difference below `size`. -/
theorem bytewise_compare_spec (p1 p2 : Buffer) (size : Nat) :
    FirstDiff p1 p2 0 size (bytewise_compare p1 p2 size).first_diff ∧
    (bytewise_compare p1 p2 size).ok = (bytewise_compare p1 p2 size).first_diff.isNone := by
  have h := bytewise_first_diff_spec p1 p2 size 0
  rw [Nat.zero_add] at h
  unfold bytewise_compare
  rcases hv : bytewise_first_diff p1 p2 size 0 with _ | d
  · rw [hv] at h
    exact ⟨h, rfl⟩
  · rw [hv] at h
    exact ⟨h, rfl⟩

/-! ### The timed loop of the throughput tests -/

/-- If in every state that the loop reaches the transfer start fails, or
succeeds and is followed by a wait that fails whenever it returns, then
`elapsed_sec` is never assigned and the loop does not end. -/
theorem stress_test_continuous_loop_stuck {σ : Type} (P : Platform σ) (env : StressEnv σ)
    (wfuel duration_sec src_addr dst_addr start_time : Nat) (Inv : AxiCdmaWorld σ → Prop)
    (habort : ∀ h, env.g_TestAbort h = false)
    (hstep : ∀ w, Inv w →
      ((axi_cdma_simple_transfer P src_addr dst_addr STRESS_BUFFER_SIZE
          { w with hw := cache_prep_dma_dst P dst_addr STRESS_BUFFER_SIZE w.hw }).1
          ≠ DMA_SUCCESS ∧
        Inv (axi_cdma_simple_transfer P src_addr dst_addr STRESS_BUFFER_SIZE
          { w with hw := cache_prep_dma_dst P dst_addr STRESS_BUFFER_SIZE w.hw }).2) ∨
      ((axi_cdma_simple_transfer P src_addr dst_addr STRESS_BUFFER_SIZE
          { w with hw := cache_prep_dma_dst P dst_addr STRESS_BUFFER_SIZE w.hw }).1
          = DMA_SUCCESS ∧
        ∀ q, axi_cdma_wait_complete P wfuel DMA_TIMEOUT_US
            (axi_cdma_simple_transfer P src_addr dst_addr STRESS_BUFFER_SIZE
              { w with hw := cache_prep_dma_dst P dst_addr STRESS_BUFFER_SIZE w.hw }).2 = some q →
          q.1 ≠ DMA_SUCCESS ∧ Inv q.2)) :
    ∀ fuel (s : StressState σ), Inv s.world → s.elapsed_sec < duration_sec →
      stress_test_continuous_loop P env wfuel duration_sec src_addr dst_addr start_time fuel s
        = none := by
  intro fuel
  induction fuel with
  | zero =>
    intro s _ _
    rfl
  | succ n ih =>
    intro s hinv hel
    unfold stress_test_continuous_loop
    rw [if_pos ⟨hel, habort _⟩]
    simp only []
    rcases hstep s.world hinv with ⟨h1, h2⟩ | ⟨h1, h2⟩
    · rw [if_pos h1]
      exact ih _ h2 hel
    · rw [if_neg (not_not.mpr h1)]
      rcases hq : axi_cdma_wait_complete P wfuel DMA_TIMEOUT_US
          (axi_cdma_simple_transfer P src_addr dst_addr STRESS_BUFFER_SIZE
            { s.world with
              hw := cache_prep_dma_dst P dst_addr STRESS_BUFFER_SIZE s.world.hw }).2 with _ | q
      · rfl
      · obtain ⟨h3, h4⟩ := h2 q hq
        simp only []
        rw [if_pos h3]
        exact ih _ h4 hel

theorem axi_cdma_simple_transfer_not_init_hw {σ : Type} (P : Platform σ) (src dst len : Nat)
    (w : AxiCdmaWorld σ) (hw' : σ) (h : w.g_AxiCdma.initialized = false) :
    axi_cdma_simple_transfer P src dst len { w with hw := hw' }
      = (DMA_ERROR_NOT_INIT, { w with hw := hw' }) :=
  axi_cdma_simple_transfer_not_init P src dst len _ h

/-! ### Calls in flight in the multi-channel tests -/

theorem outstanding_append (l1 l2 : List TestCall) (ch : Nat) :
    outstanding (l1 ++ l2) ch = outstanding l1 ch + outstanding l2 ch := by
  induction l1 with
  | nil => simp [outstanding]
  | cons a l ih =>
    cases a with
    | transfer c =>
      show (if c = ch then 1 else 0) + outstanding (l ++ l2) ch
        = ((if c = ch then 1 else 0) + outstanding l ch) + outstanding l2 ch
      rw [ih]
      omega
    | wait_complete c =>
      show (if c = ch then -1 else 0) + outstanding (l ++ l2) ch
        = ((if c = ch then -1 else 0) + outstanding l ch) + outstanding l2 ch
      rw [ih]
      omega

theorem outstanding_snoc_transfer (l : List TestCall) (c ch : Nat) :
    outstanding (l ++ [TestCall.transfer c]) ch
      = outstanding l ch + (if c = ch then 1 else 0) := by
  rw [outstanding_append]
  simp [outstanding]

theorem outstanding_snoc_wait (l : List TestCall) (c ch : Nat) :
    outstanding (l ++ [TestCall.wait_complete c]) ch
      = outstanding l ch + (if c = ch then -1 else 0) := by
  rw [outstanding_append]
  simp [outstanding]

theorem atMostOneInFlight_nil : AtMostOneInFlight [] := by
  intro pre hpre ch
  rw [List.prefix_nil.mp hpre]
  left
  rfl

theorem atMostOneInFlight_snoc (l : List TestCall) (e : TestCall) (h : AtMostOneInFlight l)
    (he : ∀ ch, outstanding (l ++ [e]) ch = 0 ∨ outstanding (l ++ [e]) ch = 1) :
    AtMostOneInFlight (l ++ [e]) := by
  intro pre hpre ch
  rcases List.prefix_concat_iff.mp hpre with hp | hp
  · rw [hp]
    exact he ch
  · exact h pre hp ch

theorem ne_returned_success (st : Int) (h : st ≠ DMA_SUCCESS) :
    TestExit.returned st ≠ TestExit.returned DMA_SUCCESS := by
  intro he
  exact h (TestExit.returned.inj he)

/-- The start loop: entered with the channels below `ch` in flight and no
others, it keeps at most one transfer in flight per channel; when it runs
through, the channels below `ch + m` are in flight and no others. -/
theorem start_channels_inv {W : Type} (ops : TestOps W) (check : Bool)
    (src_addrs dst_addrs : Nat → Nat) (size : Nat) :
    ∀ m ch (s : TestState W), AtMostOneInFlight s.calls →
      (∀ c, outstanding s.calls c = if c < ch then 1 else 0) →
      AtMostOneInFlight (start_channels ops check src_addrs dst_addrs size m ch s).2.calls ∧
      (∀ e, (start_channels ops check src_addrs dst_addrs size m ch s).1 = some e →
        e ≠ TestExit.returned DMA_SUCCESS ∧ e ≠ TestExit.division_by_zero) ∧
      ((start_channels ops check src_addrs dst_addrs size m ch s).1 = none →
        (∀ c, outstanding (start_channels ops check src_addrs dst_addrs size m ch s).2.calls c
          = if c < ch + m then 1 else 0) ∧
        (start_channels ops check src_addrs dst_addrs size m ch s).2.timed_started
          = s.timed_started + (if check then m else 0)) := by
  intro m
  induction m with
  | zero =>
    intro ch s hs ho
    refine ⟨hs, ?_, ?_⟩
    · intro e he
      cases he
    · intro _
      refine ⟨ho, ?_⟩
      simp [start_channels]
  | succ m ih =>
    intro ch s hs ho
    have ho' : ∀ c, outstanding (s.calls ++ [TestCall.transfer ch]) c
        = if c < ch + 1 then 1 else 0 := by
      intro c
      rw [outstanding_snoc_transfer, ho c]
      by_cases h1 : ch = c
      · rw [if_pos h1, if_neg (by omega), if_pos (by omega)]
        rfl
      · rw [if_neg h1]
        by_cases h2 : c < ch
        · rw [if_pos h2, if_pos (by omega)]
          rfl
        · rw [if_neg h2, if_neg (by omega)]
          rfl
    have hs' : AtMostOneInFlight (s.calls ++ [TestCall.transfer ch]) := by
      apply atMostOneInFlight_snoc _ _ hs
      intro c
      rw [ho' c]
      by_cases h : c < ch + 1
      · rw [if_pos h]
        right
        rfl
      · rw [if_neg h]
        left
        rfl
    unfold start_channels
    simp only []
    by_cases hc : check = true ∧
        (ops.transfer ch (src_addrs ch) (dst_addrs ch) size s.world).1 ≠ DMA_SUCCESS
    · rw [if_pos hc]
      refine ⟨hs', ?_, ?_⟩
      · intro e he
        simp only [Option.some.injEq] at he
        rw [← he]
        exact ⟨ne_returned_success _ hc.2, fun h => (by cases h)⟩
      · intro h
        cases h
    · rw [if_neg hc]
      obtain ⟨h1, h2, h3⟩ := ih (ch + 1)
        { world := (ops.transfer ch (src_addrs ch) (dst_addrs ch) size s.world).2,
          calls := s.calls ++ [TestCall.transfer ch],
          timed_started := if check then s.timed_started + 1 else s.timed_started } hs' ho'
      refine ⟨h1, h2, ?_⟩
      intro hn
      obtain ⟨h4, h5⟩ := h3 hn
      refine ⟨?_, ?_⟩
      · intro c
        rw [h4 c]
        have : ch + 1 + m = ch + (m + 1) := by omega
        rw [this]
      · rw [h5]
        cases check
        · simp
        · simp only [if_true]
          omega

/-- The wait loop: entered with the channels from `ch` up to `n` in flight and
no others, it keeps at most one transfer in flight per channel; when it runs
through, no channel is in flight. -/
theorem wait_channels_inv {W : Type} (ops : TestOps W) (check : Bool) (n : Nat) :
    ∀ m ch (s : TestState W), ch + m = n → AtMostOneInFlight s.calls →
      (∀ c, outstanding s.calls c = if ch ≤ c ∧ c < n then 1 else 0) →
      AtMostOneInFlight (wait_channels ops check m ch s).2.calls ∧
      (∀ e, (wait_channels ops check m ch s).1 = some e →
        e ≠ TestExit.returned DMA_SUCCESS ∧ e ≠ TestExit.division_by_zero) ∧
      ((wait_channels ops check m ch s).1 = none →
        (∀ c, outstanding (wait_channels ops check m ch s).2.calls c = 0) ∧
        (wait_channels ops check m ch s).2.timed_started = s.timed_started) := by
  intro m
  induction m with
  | zero =>
    intro ch s hn hs ho
    refine ⟨hs, ?_, ?_⟩
    · intro e he
      cases he
    · intro _
      refine ⟨?_, rfl⟩
      intro c
      rw [show (wait_channels ops check 0 ch s).2 = s from rfl, ho c, if_neg (by omega)]
  | succ m ih =>
    intro ch s hn hs ho
    have ho' : ∀ c, outstanding (s.calls ++ [TestCall.wait_complete ch]) c
        = if ch + 1 ≤ c ∧ c < n then 1 else 0 := by
      intro c
      rw [outstanding_snoc_wait, ho c]
      by_cases h1 : ch = c
      · rw [if_pos h1, if_pos (by omega), if_neg (by omega)]
        rfl
      · rw [if_neg h1]
        by_cases h2 : ch ≤ c ∧ c < n
        · rw [if_pos h2, if_pos (by omega)]
          rfl
        · rw [if_neg h2, if_neg (by omega)]
          rfl
    have hs' : AtMostOneInFlight (s.calls ++ [TestCall.wait_complete ch]) := by
      apply atMostOneInFlight_snoc _ _ hs
      intro c
      rw [ho' c]
      by_cases h : ch + 1 ≤ c ∧ c < n
      · rw [if_pos h]
        right
        rfl
      · rw [if_neg h]
        left
        rfl
    unfold wait_channels
    simp only []
    rcases hw : ops.wait_complete ch DMA_TIMEOUT_US s.world with _ | r
    · simp only []
      refine ⟨hs', ?_, ?_⟩
      · intro e he
        simp only [Option.some.injEq] at he
        rw [← he]
        exact ⟨fun h => (by cases h), fun h => (by cases h)⟩
      · intro h
        cases h
    · simp only []
      by_cases hc : check = true ∧ r.1 ≠ DMA_SUCCESS
      · rw [if_pos hc]
        refine ⟨hs', ?_, ?_⟩
        · intro e he
          simp only [Option.some.injEq] at he
          rw [← he]
          exact ⟨ne_returned_success _ hc.2, fun h => (by cases h)⟩
        · intro h
          cases h
      · rw [if_neg hc]
        exact ih (ch + 1)
          { world := r.2, calls := s.calls ++ [TestCall.wait_complete ch],
            timed_started := s.timed_started } (by omega) hs' ho'

/-- One iteration: entered with no channel in flight, it keeps at most one
transfer in flight per channel and, when it runs through, leaves none. -/
theorem test_round_inv {W : Type} (ops : TestOps W) (check : Bool)
    (src_addrs dst_addrs : Nat → Nat) (size n : Nat) (s : TestState W)
    (hs : AtMostOneInFlight s.calls) (ho : ∀ c, outstanding s.calls c = 0) :
    AtMostOneInFlight (test_round ops check src_addrs dst_addrs size n s).2.calls ∧
    (∀ e, (test_round ops check src_addrs dst_addrs size n s).1 = some e →
      e ≠ TestExit.returned DMA_SUCCESS ∧ e ≠ TestExit.division_by_zero) ∧
    ((test_round ops check src_addrs dst_addrs size n s).1 = none →
      (∀ c, outstanding (test_round ops check src_addrs dst_addrs size n s).2.calls c = 0) ∧
      (test_round ops check src_addrs dst_addrs size n s).2.timed_started
        = s.timed_started + (if check then n else 0)) := by
  have hprep : ∀ s' : TestState W, s'.calls = s.calls → s'.timed_started = s.timed_started →
      AtMostOneInFlight
        (match start_channels ops check src_addrs dst_addrs size n 0 s' with
          | (some e, t) => (some e, t)
          | (none, t) => wait_channels ops check n 0 t).2.calls ∧
      (∀ e, (match start_channels ops check src_addrs dst_addrs size n 0 s' with
          | (some e, t) => (some e, t)
          | (none, t) => wait_channels ops check n 0 t).1 = some e →
        e ≠ TestExit.returned DMA_SUCCESS ∧ e ≠ TestExit.division_by_zero) ∧
      ((match start_channels ops check src_addrs dst_addrs size n 0 s' with
          | (some e, t) => (some e, t)
          | (none, t) => wait_channels ops check n 0 t).1 = none →
        (∀ c, outstanding (match start_channels ops check src_addrs dst_addrs size n 0 s' with
          | (some e, t) => (some e, t)
          | (none, t) => wait_channels ops check n 0 t).2.calls c = 0) ∧
        (match start_channels ops check src_addrs dst_addrs size n 0 s' with
          | (some e, t) => (some e, t)
          | (none, t) => wait_channels ops check n 0 t).2.timed_started
          = s.timed_started + (if check then n else 0)) := by
    intro s' hc ht
    have hs1 : AtMostOneInFlight s'.calls := by
      rw [hc]
      exact hs
    have ho1 : ∀ c, outstanding s'.calls c = if c < 0 then 1 else 0 := by
      intro c
      rw [hc, ho c, if_neg (by omega)]
    obtain ⟨h1, h2, h3⟩ := start_channels_inv ops check src_addrs dst_addrs size n 0 s' hs1 ho1
    rcases hst : start_channels ops check src_addrs dst_addrs size n 0 s' with ⟨oe, t⟩
    rw [hst] at h1 h2 h3
    cases oe with
    | some e =>
      refine ⟨h1, ?_, ?_⟩
      · intro e' he'
        exact h2 e' he'
      · intro h
        cases h
    | none =>
      obtain ⟨h4, h5⟩ := h3 rfl
      simp only [] at h1 h4 h5
      have ho2 : ∀ c, outstanding t.calls c = if 0 ≤ c ∧ c < n then 1 else 0 := by
        intro c
        rw [h4 c, Nat.zero_add]
        by_cases h : c < n
        · rw [if_pos h, if_pos ⟨Nat.zero_le c, h⟩]
        · rw [if_neg h, if_neg (by omega)]
      obtain ⟨h6, h7, h8⟩ := wait_channels_inv ops check n n 0 t (by omega) h1 ho2
      refine ⟨h6, h7, ?_⟩
      intro hn
      obtain ⟨h9, h10⟩ := h8 hn
      refine ⟨h9, ?_⟩
      simp only []
      rw [h10, h5, ht]
  unfold test_round
  simp only []
  cases check with
  | false => exact hprep s rfl rfl
  | true => exact hprep _ rfl rfl

/-- The loop round the iterations: entered with no channel in flight, it keeps
at most one transfer in flight per channel; when it runs through, no channel
is in flight and `k * n` more transfers have been started in a timed loop. -/
theorem test_rounds_inv {W : Type} (ops : TestOps W) (check : Bool)
    (src_addrs dst_addrs : Nat → Nat) (size n : Nat) :
    ∀ k (s : TestState W), AtMostOneInFlight s.calls → (∀ c, outstanding s.calls c = 0) →
      AtMostOneInFlight (test_rounds ops check src_addrs dst_addrs size n k s).2.calls ∧
      (∀ e, (test_rounds ops check src_addrs dst_addrs size n k s).1 = some e →
        e ≠ TestExit.returned DMA_SUCCESS ∧ e ≠ TestExit.division_by_zero) ∧
      ((test_rounds ops check src_addrs dst_addrs size n k s).1 = none →
        (∀ c, outstanding (test_rounds ops check src_addrs dst_addrs size n k s).2.calls c = 0) ∧
        (test_rounds ops check src_addrs dst_addrs size n k s).2.timed_started
          = s.timed_started + (if check then k * n else 0)) := by
  intro k
  induction k with
  | zero =>
    intro s hs ho
    refine ⟨hs, ?_, ?_⟩
    · intro e he
      cases he
    · intro _
      refine ⟨ho, ?_⟩
      simp [test_rounds]
  | succ k ih =>
    intro s hs ho
    obtain ⟨h1, h2, h3⟩ := test_round_inv ops check src_addrs dst_addrs size n s hs ho
    unfold test_rounds
    rcases hr : test_round ops check src_addrs dst_addrs size n s with ⟨oe, t⟩
    rw [hr] at h1 h2 h3
    cases oe with
    | some e =>
      refine ⟨h1, ?_, ?_⟩
      · intro e' he'
        exact h2 e' he'
      · intro h
        cases h
    | none =>
      obtain ⟨h4, h5⟩ := h3 rfl
      obtain ⟨h6, h7, h8⟩ := ih t h1 h4
      refine ⟨h6, h7, ?_⟩
      intro hn
      obtain ⟨h9, h10⟩ := h8 hn
      refine ⟨h9, ?_⟩
      simp only [] at h5 h10 ⊢
      rw [h10, h5]
      cases check
      · simp
      · simp only [if_true]
        rw [Nat.add_mul, Nat.one_mul]
        omega

/-! ### The order of the driver calls in the multi-channel tests -/

theorem rounds_calls_add (a b n : Nat) :
    rounds_calls (a + b) n = rounds_calls a n ++ rounds_calls b n := by
  induction a with
  | zero =>
    rw [Nat.zero_add]
    rfl
  | succ a ih =>
    rw [Nat.succ_add]
    show round_calls n ++ rounds_calls (a + b) n = (round_calls n ++ rounds_calls a n) ++ _
    rw [ih, List.append_assoc]

/-- The start loop appends transfer starts on consecutive channels from `ch`
on, all `m` of them when it runs through. -/
theorem start_channels_calls {W : Type} (ops : TestOps W) (check : Bool)
    (src_addrs dst_addrs : Nat → Nat) (size : Nat) :
    ∀ m ch (s : TestState W), ∃ x,
      (start_channels ops check src_addrs dst_addrs size m ch s).2.calls = s.calls ++ x ∧
      x <+: (List.range' ch m).map TestCall.transfer ∧
      ((start_channels ops check src_addrs dst_addrs size m ch s).1 = none →
        x = (List.range' ch m).map TestCall.transfer) := by
  intro m
  induction m with
  | zero =>
    intro ch s
    exact ⟨[], (List.append_nil _).symm, List.prefix_rfl, fun _ => rfl⟩
  | succ m ih =>
    intro ch s
    unfold start_channels
    simp only []
    by_cases hc : check = true ∧
        (ops.transfer ch (src_addrs ch) (dst_addrs ch) size s.world).1 ≠ DMA_SUCCESS
    · rw [if_pos hc]
      refine ⟨[TestCall.transfer ch], rfl, ?_, ?_⟩
      · show [TestCall.transfer ch] <+: TestCall.transfer ch
          :: (List.range' (ch + 1) m).map TestCall.transfer
        exact List.cons_prefix_cons.mpr ⟨rfl, List.nil_prefix⟩
      · intro h
        cases h
    · rw [if_neg hc]
      obtain ⟨x, h1, h2, h3⟩ := ih (ch + 1)
        { world := (ops.transfer ch (src_addrs ch) (dst_addrs ch) size s.world).2,
          calls := s.calls ++ [TestCall.transfer ch],
          timed_started := if check then s.timed_started + 1 else s.timed_started }
      refine ⟨TestCall.transfer ch :: x, ?_, ?_, ?_⟩
      · rw [h1]
        simp only [List.append_assoc, List.singleton_append]
      · show TestCall.transfer ch :: x <+: TestCall.transfer ch
          :: (List.range' (ch + 1) m).map TestCall.transfer
        exact List.cons_prefix_cons.mpr ⟨rfl, h2⟩
      · intro hn
        rw [h3 hn]
        rfl

/-- The wait loop appends waits on consecutive channels from `ch` on, all `m`
of them when it runs through. -/
theorem wait_channels_calls {W : Type} (ops : TestOps W) (check : Bool) :
    ∀ m ch (s : TestState W), ∃ x,
      (wait_channels ops check m ch s).2.calls = s.calls ++ x ∧
      x <+: (List.range' ch m).map TestCall.wait_complete ∧
      ((wait_channels ops check m ch s).1 = none →
        x = (List.range' ch m).map TestCall.wait_complete) := by
  intro m
  induction m with
  | zero =>
    intro ch s
    exact ⟨[], (List.append_nil _).symm, List.prefix_rfl, fun _ => rfl⟩
  | succ m ih =>
    intro ch s
    have hp : [TestCall.wait_complete ch]
        <+: (List.range' ch (m + 1)).map TestCall.wait_complete := by
      show [TestCall.wait_complete ch] <+: TestCall.wait_complete ch
        :: (List.range' (ch + 1) m).map TestCall.wait_complete
      exact List.cons_prefix_cons.mpr ⟨rfl, List.nil_prefix⟩
    unfold wait_channels
    simp only []
    rcases hw : ops.wait_complete ch DMA_TIMEOUT_US s.world with _ | r
    · simp only []
      refine ⟨[TestCall.wait_complete ch], rfl, hp, ?_⟩
      intro h
      cases h
    · simp only []
      by_cases hc : check = true ∧ r.1 ≠ DMA_SUCCESS
      · rw [if_pos hc]
        refine ⟨[TestCall.wait_complete ch], rfl, hp, ?_⟩
        intro h
        cases h
      · rw [if_neg hc]
        obtain ⟨x, h1, h2, h3⟩ := ih (ch + 1)
          { world := r.2, calls := s.calls ++ [TestCall.wait_complete ch],
            timed_started := s.timed_started }
        refine ⟨TestCall.wait_complete ch :: x, ?_, ?_, ?_⟩
        · rw [h1]
          simp only [List.append_assoc, List.singleton_append]
        · show TestCall.wait_complete ch :: x <+: TestCall.wait_complete ch
            :: (List.range' (ch + 1) m).map TestCall.wait_complete
          exact List.cons_prefix_cons.mpr ⟨rfl, h2⟩
        · intro hn
          rw [h3 hn]
          rfl

/-- One iteration appends a beginning of `round_calls n`, all of it when it
runs through. -/
theorem test_round_calls {W : Type} (ops : TestOps W) (check : Bool)
    (src_addrs dst_addrs : Nat → Nat) (size n : Nat) (s : TestState W) :
    ∃ x, (test_round ops check src_addrs dst_addrs size n s).2.calls = s.calls ++ x ∧
      x <+: round_calls n ∧
      ((test_round ops check src_addrs dst_addrs size n s).1 = none → x = round_calls n) := by
  have hprep : ∀ s' : TestState W, s'.calls = s.calls →
      ∃ x, (match start_channels ops check src_addrs dst_addrs size n 0 s' with
          | (some e, t) => (some e, t)
          | (none, t) => wait_channels ops check n 0 t).2.calls = s.calls ++ x ∧
        x <+: round_calls n ∧
        ((match start_channels ops check src_addrs dst_addrs size n 0 s' with
          | (some e, t) => (some e, t)
          | (none, t) => wait_channels ops check n 0 t).1 = none → x = round_calls n) := by
    intro s' hc
    obtain ⟨x, h1, h2, h3⟩ := start_channels_calls ops check src_addrs dst_addrs size n 0 s'
    rcases hst : start_channels ops check src_addrs dst_addrs size n 0 s' with ⟨oe, t⟩
    rw [hst] at h1 h3
    cases oe with
    | some e =>
      refine ⟨x, ?_, ?_, ?_⟩
      · rw [← hc]
        exact h1
      · exact List.IsPrefix.trans h2 (List.prefix_append _ _)
      · intro h
        cases h
    | none =>
      obtain ⟨y, h4, h5, h6⟩ := wait_channels_calls ops check n 0 t
      refine ⟨x ++ y, ?_, ?_, ?_⟩
      · show (wait_channels ops check n 0 t).2.calls = s.calls ++ (x ++ y)
        rw [h4]
        simp only [] at h1
        rw [h1, hc, List.append_assoc]
      · rw [h3 rfl]
        exact (List.prefix_append_right_inj _).mpr h5
      · intro hn
        rw [h3 rfl, h6 hn]
        rfl
  unfold test_round
  simp only []
  cases check with
  | false => exact hprep s rfl
  | true => exact hprep _ rfl

/-- The loop round the iterations appends a beginning of `rounds_calls k n`,
all of it when it runs through. -/
theorem test_rounds_calls {W : Type} (ops : TestOps W) (check : Bool)
    (src_addrs dst_addrs : Nat → Nat) (size n : Nat) :
    ∀ k (s : TestState W), ∃ x,
      (test_rounds ops check src_addrs dst_addrs size n k s).2.calls = s.calls ++ x ∧
      x <+: rounds_calls k n ∧
      ((test_rounds ops check src_addrs dst_addrs size n k s).1 = none →
        x = rounds_calls k n) := by
  intro k
  induction k with
  | zero =>
    intro s
    exact ⟨[], (List.append_nil _).symm, List.prefix_rfl, fun _ => rfl⟩
  | succ k ih =>
    intro s
    obtain ⟨x, h1, h2, h3⟩ := test_round_calls ops check src_addrs dst_addrs size n s
    unfold test_rounds
    rcases hr : test_round ops check src_addrs dst_addrs size n s with ⟨oe, t⟩
    rw [hr] at h1 h3
    cases oe with
    | some e =>
      refine ⟨x, h1, ?_, ?_⟩
      · exact List.IsPrefix.trans h2 (List.prefix_append _ _)
      · intro h
        cases h
    | none =>
      obtain ⟨y, h4, h5, h6⟩ := ih t
      refine ⟨x ++ y, ?_, ?_, ?_⟩
      · show (test_rounds ops check src_addrs dst_addrs size n k t).2.calls = s.calls ++ (x ++ y)
        rw [h4]
        simp only [] at h1
        rw [h1, List.append_assoc]
      · rw [h3 rfl]
        exact (List.prefix_append_right_inj _).mpr h5
      · intro hn
        rw [h3 rfl, h6 hn]
        rfl

/-- The warm-up and timed loops of a multi-channel test, entered with no call
made: at most one transfer is in flight per channel at every point, the calls
are a beginning of `WARMUP_ITERATIONS + iterations` full iterations, no
division is made, and a run that returns `DMA_SUCCESS` has made all the calls,
started `iterations * num_channels` transfers in the timed loop and filled in
the result record. -/
theorem multi_channel_loops_spec {W : Type} (ops : TestOps W) (src_addrs dst_addrs : Nat → Nat)
    (size n iterations : Nat) (result : TestResult) (w : W) :
    AtMostOneInFlight
      (multi_channel_loops ops src_addrs dst_addrs size n iterations result w).calls ∧
    (multi_channel_loops ops src_addrs dst_addrs size n iterations result w).calls
      <+: rounds_calls (ops.WARMUP_ITERATIONS + iterations) n ∧
    (multi_channel_loops ops src_addrs dst_addrs size n iterations result w).exit
      ≠ TestExit.division_by_zero ∧
    ((multi_channel_loops ops src_addrs dst_addrs size n iterations result w).exit
        = TestExit.returned DMA_SUCCESS →
      (multi_channel_loops ops src_addrs dst_addrs size n iterations result w).calls
        = rounds_calls (ops.WARMUP_ITERATIONS + iterations) n ∧
      (multi_channel_loops ops src_addrs dst_addrs size n iterations result w).timed_started
        = iterations * n ∧
      (multi_channel_loops ops src_addrs dst_addrs size n iterations result w).result.iterations
        = iterations ∧
      (multi_channel_loops ops src_addrs dst_addrs size n iterations result w).result.num_channels
        = n ∧
      (multi_channel_loops ops src_addrs dst_addrs size n iterations result w).result.total_bytes
        = u64 (u64 (size * iterations) * n)) := by
  have hz : ∀ c, outstanding ([] : List TestCall) c = 0 := fun _ => rfl
  obtain ⟨a1, a2, a3⟩ := test_rounds_inv ops false src_addrs dst_addrs size n
    ops.WARMUP_ITERATIONS { world := w, calls := [], timed_started := 0 }
    atMostOneInFlight_nil hz
  obtain ⟨x, b1, b2, b3⟩ := test_rounds_calls ops false src_addrs dst_addrs size n
    ops.WARMUP_ITERATIONS { world := w, calls := [], timed_started := 0 }
  unfold multi_channel_loops
  rcases hr : test_rounds ops false src_addrs dst_addrs size n ops.WARMUP_ITERATIONS
    { world := w, calls := [], timed_started := 0 } with ⟨oe, s⟩
  rw [hr] at a1 a2 a3 b1 b3
  simp only [List.nil_append] at b1
  cases oe with
  | some e =>
    simp only []
    refine ⟨a1, ?_, (a2 e rfl).2, ?_⟩
    · rw [b1, rounds_calls_add]
      exact List.IsPrefix.trans b2 (List.prefix_append _ _)
    · intro he
      exact absurd he (a2 e rfl).1
  | none =>
    simp only []
    obtain ⟨a4, a5⟩ := a3 rfl
    simp only [] at a1 a4 a5 b1
    obtain ⟨c1, c2, c3⟩ := test_rounds_inv ops true src_addrs dst_addrs size n iterations
      { s with world := (ops.timer_start s.world).2 } a1 a4
    obtain ⟨y, d1, d2, d3⟩ := test_rounds_calls ops true src_addrs dst_addrs size n iterations
      { s with world := (ops.timer_start s.world).2 }
    rcases ht : test_rounds ops true src_addrs dst_addrs size n iterations
      { s with world := (ops.timer_start s.world).2 } with ⟨oe2, t⟩
    rw [ht] at c1 c2 c3 d1 d3
    simp only [] at d1
    cases oe2 with
    | some e =>
      simp only []
      refine ⟨c1, ?_, (c2 e rfl).2, ?_⟩
      · rw [d1, b1, b3 rfl, rounds_calls_add]
        exact (List.prefix_append_right_inj _).mpr d2
      · intro he
        exact absurd he (c2 e rfl).1
    | none =>
      simp only []
      obtain ⟨c4, c5⟩ := c3 rfl
      simp only [if_true] at c5
      refine ⟨c1, ?_, fun h => (by cases h), ?_⟩
      · rw [d1, b1, b3 rfl, d3 rfl, rounds_calls_add]
      · intro _
        refine ⟨?_, ?_, trivial, trivial, trivial⟩
        · rw [d1, b1, b3 rfl, d3 rfl, rounds_calls_add]
        · rw [c5, a5]
          simp

/-- The set-up loop of `axi_mcdma_test_multi_channel` leaves the function only
with `DMA_ERROR_INVALID_PARAM`. -/
theorem axi_mcdma_test_setup_exit {W : Type} (ops : TestOps W) (size : Nat) :
    ∀ n ch (w : W) e, (axi_mcdma_test_setup ops size n ch w).1 = some e →
      e = TestExit.returned DMA_ERROR_INVALID_PARAM := by
  intro n
  induction n with
  | zero =>
    intro ch w e he
    cases he
  | succ n ih =>
    intro ch w e he
    unfold axi_mcdma_test_setup at he
    simp only [] at he
    split_ifs at he with h
    · simp only [Option.some.injEq] at he
      exact he.symm
    · exact ih _ _ e he

theorem axi_mcdma_test_setup_ne_success {W : Type} (ops : TestOps W) (size n ch : Nat)
    (w w1 : W) :
    axi_mcdma_test_setup ops size n ch w ≠ (some (TestExit.returned DMA_SUCCESS), w1) := by
  intro h
  have h1 := axi_mcdma_test_setup_exit ops size n ch w (TestExit.returned DMA_SUCCESS)
    (by rw [h])
  exact absurd (TestExit.returned.inj h1) (by decide)

/-- The 64-bit product `(uint64_t)size * iterations * num_channels` does not
wrap: `iterations` is a 32-bit quotient by the number of channels as passed
and the clamped number of channels is no larger than that. -/
theorem total_bytes_no_wrap (D n size lim : Nat) (hsize : size < 2 ^ 32) :
    u64 (u64 (size * (u32 D / n)) * (if n > lim then lim else n))
      = size * (u32 D / n) * (if n > lim then lim else n) := by
  have hD : u32 D < 2 ^ 32 := Nat.mod_lt _ (by norm_num)
  have hq : u32 D / n * n ≤ u32 D := Nat.div_mul_le_self _ _
  have hc : (if n > lim then lim else n) ≤ n := by
    split_ifs with h
    · omega
    · exact Nat.le_refl _
  have h1 : u32 D / n * (if n > lim then lim else n) < 2 ^ 32 :=
    Nat.lt_of_le_of_lt (Nat.le_trans (Nat.mul_le_mul_left _ hc) hq) hD
  have h2 : u32 D / n < 2 ^ 32 := Nat.lt_of_le_of_lt (Nat.div_le_self _ _) hD
  have h3 : size * (u32 D / n) < 2 ^ 64 := by
    calc size * (u32 D / n) < 2 ^ 32 * 2 ^ 32 := by
          rcases Nat.eq_zero_or_pos (u32 D / n) with hz | hp
          · rw [hz]
            norm_num
          · exact Nat.mul_lt_mul_of_lt_of_le hsize (Nat.le_of_lt h2) (by norm_num)
      _ = 2 ^ 64 := by norm_num
  have h4 : size * (u32 D / n) * (if n > lim then lim else n) < 2 ^ 64 := by
    rw [Nat.mul_assoc]
    calc size * (u32 D / n * (if n > lim then lim else n)) < 2 ^ 32 * 2 ^ 32 := by
          rcases Nat.eq_zero_or_pos (u32 D / n * (if n > lim then lim else n)) with hz | hp
          · rw [hz]
            norm_num
          · exact Nat.mul_lt_mul_of_lt_of_le hsize (Nat.le_of_lt h1) (by norm_num)
      _ = 2 ^ 64 := by norm_num
  unfold u64
  rw [Nat.mod_eq_of_lt h3, Nat.mod_eq_of_lt h4]
/-! ### Claims -/

/-- C1: for every `num_descs > 0` (a `uint32_t`) and non-null descriptor arrays
lying in the 64-bit address space, `axi_dma_setup_sg_ring` returns
`DMA_SUCCESS` and afterwards, for every `i < num_descs`, the 64-bit link of
slot `i` equals the address `base + 64 * ((i + 1) mod num_descs)` of the next
slot of the same ring, for the TX ring and for the RX ring; the same holds for
the ring of `axi_cdma_setup_sg_ring` and, on a channel below
`MCDMA_MAX_CHANNELS`, for `axi_mcdma_setup_mm2s_ring` and
`axi_mcdma_setup_s2mm_ring`. -/
theorem C1_ring_links {σ : Type} (P : Platform σ) (wa : AxiDmaWorld σ) (wc : AxiCdmaWorld σ)
    (wm : AxiMcdmaWorld σ) (tx rx descs channel num_descs : Nat)
    (hn : 0 < num_descs) (hn32 : num_descs < 2 ^ 32)
    (htx : tx ≠ 0) (hrx : rx ≠ 0) (hd : descs ≠ 0) (hch : channel < MCDMA_MAX_CHANNELS)
    (htxfit : tx + 64 * num_descs ≤ 2 ^ 64) (hrxfit : rx + 64 * num_descs ≤ 2 ^ 64)
    (hdfit : descs + 64 * num_descs ≤ 2 ^ 64) :
    ((axi_dma_setup_sg_ring P tx rx num_descs wa).1 = DMA_SUCCESS ∧
      ∀ i, i < num_descs →
        ((axi_dma_setup_sg_ring P tx rx num_descs wa).2.tx_mem i).link
            = tx + 64 * ((i + 1) % num_descs) ∧
        ((axi_dma_setup_sg_ring P tx rx num_descs wa).2.rx_mem i).link
            = rx + 64 * ((i + 1) % num_descs)) ∧
    ((axi_cdma_setup_sg_ring P descs num_descs wc).1 = DMA_SUCCESS ∧
      ∀ i, i < num_descs →
        ((axi_cdma_setup_sg_ring P descs num_descs wc).2.desc_mem i).link
            = descs + 64 * ((i + 1) % num_descs)) ∧
    ((axi_mcdma_setup_mm2s_ring P channel descs num_descs wm).1 = DMA_SUCCESS ∧
      ∀ i, i < num_descs →
        ((axi_mcdma_setup_mm2s_ring P channel descs num_descs wm).2.mm2s_mem channel i).link
            = descs + 64 * ((i + 1) % num_descs)) ∧
    ((axi_mcdma_setup_s2mm_ring P channel descs num_descs wm).1 = DMA_SUCCESS ∧
      ∀ i, i < num_descs →
        ((axi_mcdma_setup_s2mm_ring P channel descs num_descs wm).2.s2mm_mem channel i).link
            = descs + 64 * ((i + 1) % num_descs)) := by
  have hn0 : num_descs ≠ 0 := by omega
  have hga : ¬ (tx = 0 ∨ rx = 0 ∨ num_descs = 0) := by
    rintro (h | h | h)
    · exact htx h
    · exact hrx h
    · exact hn0 h
  have hgc : ¬ (descs = 0 ∨ num_descs = 0) := by
    rintro (h | h)
    · exact hd h
    · exact hn0 h
  have hgm : ¬ (channel ≥ MCDMA_MAX_CHANNELS ∨ descs = 0 ∨ num_descs = 0) := by
    rintro (h | h | h)
    · omega
    · exact hd h
    · exact hn0 h
  refine ⟨⟨?_, ?_⟩, ⟨?_, ?_⟩, ⟨?_, ?_⟩, ⟨?_, ?_⟩⟩
  · simp only [axi_dma_setup_sg_ring, if_neg hga]
  · intro i hi
    simp only [axi_dma_setup_sg_ring, if_neg hga, forEachIndex_apply, if_pos hi]
    exact ⟨axi_dma_link_slot_link tx num_descs i _ hi hn32 htxfit,
      axi_dma_link_slot_link rx num_descs i _ hi hn32 hrxfit⟩
  · simp only [axi_cdma_setup_sg_ring, if_neg hgc]
  · intro i hi
    simp only [axi_cdma_setup_sg_ring, if_neg hgc, forEachIndex_apply, if_pos hi]
    exact axi_cdma_link_slot_link descs num_descs i _ hi hn32 hdfit
  · simp only [axi_mcdma_setup_mm2s_ring, if_neg hgm]
  · intro i hi
    simp only [axi_mcdma_setup_mm2s_ring, if_neg hgm, Function.update_same, forEachIndex_apply,
      if_pos hi]
    exact mcdma_link_slot_link descs num_descs i _ hi hn32 hdfit
  · simp only [axi_mcdma_setup_s2mm_ring, if_neg hgm]
  · intro i hi
    simp only [axi_mcdma_setup_s2mm_ring, if_neg hgm, Function.update_same, forEachIndex_apply,
      if_pos hi]
    exact mcdma_link_slot_link descs num_descs i _ hi hn32 hdfit

/-- Witness for C1: rings of four slots at `0x1000`, `0x2000` and `0x3000` on a
device-free platform; the last slot links back to the ring base and slot 0
links to the slot 64 bytes further on. -/
theorem C1_ring_links_witness :
    ((axi_dma_setup_sg_ring Platform.quiet 0x1000 0x2000 4 (AxiDmaWorld.boot ())).2.tx_mem 3).link
        = 0x1000 ∧
    ((axi_dma_setup_sg_ring Platform.quiet 0x1000 0x2000 4 (AxiDmaWorld.boot ())).2.rx_mem 0).link
        = 0x2040 ∧
    ((axi_cdma_setup_sg_ring Platform.quiet 0x3000 4 (AxiCdmaWorld.boot ())).2.desc_mem 3).link
        = 0x3000 ∧
    ((axi_mcdma_setup_mm2s_ring Platform.quiet 2 0x3000 4
        (AxiMcdmaWorld.boot ())).2.mm2s_mem 2 1).link = 0x3080 :=
  have h := C1_ring_links Platform.quiet (AxiDmaWorld.boot ()) (AxiCdmaWorld.boot ())
    (AxiMcdmaWorld.boot ()) 0x1000 0x2000 0x3000 2 4 (by decide) (by decide) (by decide)
    (by decide) (by decide) (by decide) (by decide) (by decide) (by decide)
  ⟨(h.1.2 3 (by decide)).1, (h.1.2 0 (by decide)).2, h.2.1.2 3 (by decide),
    h.2.2.1.2 1 (by decide)⟩

/-- C2 (code at two failing inputs): the round trip fails for two of the five
patterns.  CHECKERBOARD, size 4: `pattern_fill` stores the word `0xAA55AA55`
little-endian, so the buffer is `55 AA 55 AA`, while `pattern_verify` expects
`0xAA` at even offsets; it returns false at offset 0 (expected `0xAA`, found
`0x55`).  RANDOM, seed 0, size 2: the fill stores `B2 78`, the two low bytes
of the first generator word, and `pattern_verify` returns false at offset 1
(expected `0x00`, found `0x78`). -/
theorem C2_round_trip_fails :
    (List.range 4).map (pattern_fill (fun _ => 0) 4 PATTERN_CHECKERBOARD 0 PatternStatics.boot).1
      = [0x55, 0xAA, 0x55, 0xAA] ∧
    (pattern_verify (pattern_fill (fun _ => 0) 4 PATTERN_CHECKERBOARD 0 PatternStatics.boot).1 4
        PATTERN_CHECKERBOARD 0
        (pattern_fill (fun _ => 0) 4 PATTERN_CHECKERBOARD 0 PatternStatics.boot).2).ok = false ∧
    (pattern_verify (pattern_fill (fun _ => 0) 4 PATTERN_CHECKERBOARD 0 PatternStatics.boot).1 4
        PATTERN_CHECKERBOARD 0
        (pattern_fill (fun _ => 0) 4 PATTERN_CHECKERBOARD 0 PatternStatics.boot).2).error
      = some (0, 0xAA, 0x55) ∧
    (List.range 2).map (pattern_fill (fun _ => 0) 2 PATTERN_RANDOM 0 PatternStatics.boot).1
      = [0xB2, 0x78] ∧
    (pattern_verify (pattern_fill (fun _ => 0) 2 PATTERN_RANDOM 0 PatternStatics.boot).1 2
        PATTERN_RANDOM 0
        (pattern_fill (fun _ => 0) 2 PATTERN_RANDOM 0 PatternStatics.boot).2).ok = false ∧
    (pattern_verify (pattern_fill (fun _ => 0) 2 PATTERN_RANDOM 0 PatternStatics.boot).1 2
        PATTERN_RANDOM 0
        (pattern_fill (fun _ => 0) 2 PATTERN_RANDOM 0 PatternStatics.boot).2).error
      = some (1, 0x00, 0x78) := by
  decide

/-- The `else`-block static of `pattern_verify` is written by nothing in
data_patterns.c. -/
theorem pattern_get_random_rest (st : PatternStatics) :
    (pattern_get_random st).2.rand_val_rest = st.rand_val_rest := rfl

theorem pattern_seed_prng_rest (seed : Nat) (st : PatternStatics) :
    (pattern_seed_prng seed st).rand_val_rest = st.rand_val_rest := by
  unfold pattern_seed_prng
  generalize List.range 20 = l
  simp only []
  have key : ∀ (l : List Nat) (s : PatternStatics),
      (l.foldl (fun st _ => (pattern_get_random st).2) s).rand_val_rest = s.rand_val_rest := by
    intro l
    induction l with
    | nil => intro s; rfl
    | cons a t ih => intro s; rw [List.foldl_cons, ih, pattern_get_random_rest]
  rw [key]

theorem pattern_verify_expected_rest (pattern i : Nat) (st : PatternStatics) :
    (pattern_verify_expected pattern i st).2.rand_val_rest = st.rand_val_rest := by
  unfold pattern_verify_expected
  split_ifs <;> rfl

theorem pattern_verify_expected_random_rest (i : Nat) (st : PatternStatics) (hi : i % 4 ≠ 0) :
    (pattern_verify_expected PATTERN_RANDOM i st).1
      = (st.rand_val_rest >>> ((i % 4) * 8)) &&& 0xFF := by
  unfold pattern_verify_expected
  rw [if_neg (by decide), if_neg (by decide), if_neg (by decide), if_pos rfl, if_neg hi]

/-- For every seed and every offset `i` that is not a multiple of 4, the
expected byte `pattern_verify` computes for PATTERN_RANDOM at offset `i` is
`0` (given the zero-initialised `else`-block static): it is read from a
variable that never receives the generator word. -/
theorem pattern_verify_random_expected_zero (seed i : Nat) (st : PatternStatics)
    (hst : st.rand_val_rest = 0) (hi : i % 4 ≠ 0) :
    pattern_verify_expected_at PATTERN_RANDOM seed i st = 0 := by
  have key : ∀ (l : List Nat) (s : PatternStatics),
      (l.foldl (fun st k => (pattern_verify_expected PATTERN_RANDOM k st).2) s).rand_val_rest
        = s.rand_val_rest := by
    intro l
    induction l with
    | nil => intro s; rfl
    | cons a t ih => intro s; rw [List.foldl_cons, ih, pattern_verify_expected_rest]
  have hrest : ((List.range i).foldl
      (fun st k => (pattern_verify_expected PATTERN_RANDOM k st).2)
      (pattern_seed_prng seed st)).rand_val_rest = 0 := by
    rw [key, pattern_seed_prng_rest, hst]
  simp only [pattern_verify_expected_at, if_true]
  rw [pattern_verify_expected_random_rest _ _ hi, hrest]
  simp only [Nat.zero_shiftRight, Nat.zero_and]

/-- C3 (code at the failing input seed 0, offset 1): the first word that
`pattern_get_random` returns after `pattern_seed_prng(0)` is `0x481778B2`, its
byte 1 is `0x78`, and `pattern_fill_random` stores `0x78` at offset 1 of a
2-byte buffer; but the expected byte `pattern_verify` derives for
PATTERN_RANDOM at offset 1 is `0x00`, and on that buffer it reports a mismatch
at offset 1 (expected `0x00`, found `0x78`). -/
theorem C3_random_expected_byte_diverges :
    prng_word 0 0 PatternStatics.boot = 0x481778B2 ∧
    (prng_word 0 (1 / 4) PatternStatics.boot / 2 ^ (8 * (1 % 4))) % 256 = 0x78 ∧
    (pattern_fill_random (fun _ => 0) 2 0 PatternStatics.boot).1 1 = 0x78 ∧
    pattern_verify_expected_at PATTERN_RANDOM 0 1 PatternStatics.boot = 0x00 ∧
    (pattern_verify (pattern_fill_random (fun _ => 0) 2 0 PatternStatics.boot).1 2
        PATTERN_RANDOM 0 (pattern_fill_random (fun _ => 0) 2 0 PatternStatics.boot).2).error
      = some (1, 0x00, 0x78) := by
  decide

/-- C4: in `axi_dma_wait_tx`, at every poll (every entry of the loop with
`elapsed_us < timeout_us`, which a `timeout_us > 0` guarantees for the first
one) whose status read `s` has an error bit, whatever its idle and IOC bits
are, the call returns `DMA_ERROR_DMA_FAIL`; the platform state is the one
after the read followed by the single write of `s & XAXIDMA_SR_ALL_ERR_MASK` to
the TX status register; `tx_error` holds those bits, `errors` is incremented
by one (as a `uint32_t`), `tx_complete` and `tx_transfers` are unchanged.
`axi_dma_wait_rx` does the same on the RX side. -/
theorem C4_error_poll {σ : Type} (P : Platform σ) (timeout_us fuel elapsed_us : Nat)
    (p : AxiDmaPoll σ) (w : AxiDmaWorld σ)
    (he : elapsed_us < timeout_us) (h0 : 0 < timeout_us) :
    (∀ s, (axi_dma_read_tx_reg P p.world.g_AxiDma XAXIDMA_SR_OFFSET p.world.hw).1 = s →
      s &&& XAXIDMA_SR_ALL_ERR_MASK ≠ 0 →
      ∃ r, axi_dma_wait_tx_loop P timeout_us (fuel + 1) elapsed_us p = some r ∧
        r.ret = DMA_ERROR_DMA_FAIL ∧
        r.world.hw = P.Xil_Out32
          (u64 (p.world.g_AxiDma.base_addr + XAXIDMA_TX_OFFSET + XAXIDMA_SR_OFFSET))
          (s &&& XAXIDMA_SR_ALL_ERR_MASK)
          (P.Xil_In32 (u64 (p.world.g_AxiDma.base_addr + XAXIDMA_TX_OFFSET + XAXIDMA_SR_OFFSET))
            p.world.hw).2 ∧
        r.world.g_AxiDma.tx_error = s &&& XAXIDMA_SR_ALL_ERR_MASK ∧
        r.world.g_AxiDma.errors = (p.world.g_AxiDma.errors + 1) % 2 ^ 32 ∧
        r.world.g_AxiDma.tx_complete = p.world.g_AxiDma.tx_complete ∧
        r.world.g_AxiDma.tx_transfers = p.world.g_AxiDma.tx_transfers) ∧
    (∀ s, (axi_dma_read_tx_reg P w.g_AxiDma XAXIDMA_SR_OFFSET w.hw).1 = s →
      s &&& XAXIDMA_SR_ALL_ERR_MASK ≠ 0 →
      ∃ r, axi_dma_wait_tx P (fuel + 1) timeout_us w = some r ∧
        r.ret = DMA_ERROR_DMA_FAIL ∧
        r.world.hw = P.Xil_Out32
          (u64 (w.g_AxiDma.base_addr + XAXIDMA_TX_OFFSET + XAXIDMA_SR_OFFSET))
          (s &&& XAXIDMA_SR_ALL_ERR_MASK)
          (P.Xil_In32 (u64 (w.g_AxiDma.base_addr + XAXIDMA_TX_OFFSET + XAXIDMA_SR_OFFSET))
            w.hw).2 ∧
        r.world.g_AxiDma.tx_error = s &&& XAXIDMA_SR_ALL_ERR_MASK ∧
        r.world.g_AxiDma.errors = (w.g_AxiDma.errors + 1) % 2 ^ 32 ∧
        r.world.g_AxiDma.tx_complete = w.g_AxiDma.tx_complete ∧
        r.world.g_AxiDma.tx_transfers = w.g_AxiDma.tx_transfers) ∧
    (∀ s, (axi_dma_read_rx_reg P p.world.g_AxiDma XAXIDMA_SR_OFFSET p.world.hw).1 = s →
      s &&& XAXIDMA_SR_ALL_ERR_MASK ≠ 0 →
      ∃ r, axi_dma_wait_rx_loop P timeout_us (fuel + 1) elapsed_us p = some r ∧
        r.ret = DMA_ERROR_DMA_FAIL ∧
        r.world.hw = P.Xil_Out32
          (u64 (p.world.g_AxiDma.base_addr + XAXIDMA_RX_OFFSET + XAXIDMA_SR_OFFSET))
          (s &&& XAXIDMA_SR_ALL_ERR_MASK)
          (P.Xil_In32 (u64 (p.world.g_AxiDma.base_addr + XAXIDMA_RX_OFFSET + XAXIDMA_SR_OFFSET))
            p.world.hw).2 ∧
        r.world.g_AxiDma.rx_error = s &&& XAXIDMA_SR_ALL_ERR_MASK ∧
        r.world.g_AxiDma.errors = (p.world.g_AxiDma.errors + 1) % 2 ^ 32 ∧
        r.world.g_AxiDma.rx_complete = p.world.g_AxiDma.rx_complete ∧
        r.world.g_AxiDma.rx_transfers = p.world.g_AxiDma.rx_transfers) ∧
    (∀ s, (axi_dma_read_rx_reg P w.g_AxiDma XAXIDMA_SR_OFFSET w.hw).1 = s →
      s &&& XAXIDMA_SR_ALL_ERR_MASK ≠ 0 →
      ∃ r, axi_dma_wait_rx P (fuel + 1) timeout_us w = some r ∧
        r.ret = DMA_ERROR_DMA_FAIL ∧
        r.world.hw = P.Xil_Out32
          (u64 (w.g_AxiDma.base_addr + XAXIDMA_RX_OFFSET + XAXIDMA_SR_OFFSET))
          (s &&& XAXIDMA_SR_ALL_ERR_MASK)
          (P.Xil_In32 (u64 (w.g_AxiDma.base_addr + XAXIDMA_RX_OFFSET + XAXIDMA_SR_OFFSET))
            w.hw).2 ∧
        r.world.g_AxiDma.rx_error = s &&& XAXIDMA_SR_ALL_ERR_MASK ∧
        r.world.g_AxiDma.errors = (w.g_AxiDma.errors + 1) % 2 ^ 32 ∧
        r.world.g_AxiDma.rx_complete = w.g_AxiDma.rx_complete ∧
        r.world.g_AxiDma.rx_transfers = w.g_AxiDma.rx_transfers) := by
  have tx : ∀ (e : Nat) (q : AxiDmaPoll σ), e < timeout_us → ∀ s,
      (axi_dma_read_tx_reg P q.world.g_AxiDma XAXIDMA_SR_OFFSET q.world.hw).1 = s →
      s &&& XAXIDMA_SR_ALL_ERR_MASK ≠ 0 →
      ∃ r, axi_dma_wait_tx_loop P timeout_us (fuel + 1) e q = some r ∧
        r.ret = DMA_ERROR_DMA_FAIL ∧
        r.world.hw = P.Xil_Out32
          (u64 (q.world.g_AxiDma.base_addr + XAXIDMA_TX_OFFSET + XAXIDMA_SR_OFFSET))
          (s &&& XAXIDMA_SR_ALL_ERR_MASK)
          (P.Xil_In32 (u64 (q.world.g_AxiDma.base_addr + XAXIDMA_TX_OFFSET + XAXIDMA_SR_OFFSET))
            q.world.hw).2 ∧
        r.world.g_AxiDma.tx_error = s &&& XAXIDMA_SR_ALL_ERR_MASK ∧
        r.world.g_AxiDma.errors = (q.world.g_AxiDma.errors + 1) % 2 ^ 32 ∧
        r.world.g_AxiDma.tx_complete = q.world.g_AxiDma.tx_complete ∧
        r.world.g_AxiDma.tx_transfers = q.world.g_AxiDma.tx_transfers := by
    intro e q hq s hs herr
    subst hs
    exact ⟨_, pollLoop_ret _ _ _ _ _ fuel e q _ hq (axi_dma_wait_tx_body_err P e q herr),
      rfl, rfl, rfl, rfl, rfl, rfl⟩
  have rx : ∀ (e : Nat) (q : AxiDmaPoll σ), e < timeout_us → ∀ s,
      (axi_dma_read_rx_reg P q.world.g_AxiDma XAXIDMA_SR_OFFSET q.world.hw).1 = s →
      s &&& XAXIDMA_SR_ALL_ERR_MASK ≠ 0 →
      ∃ r, axi_dma_wait_rx_loop P timeout_us (fuel + 1) e q = some r ∧
        r.ret = DMA_ERROR_DMA_FAIL ∧
        r.world.hw = P.Xil_Out32
          (u64 (q.world.g_AxiDma.base_addr + XAXIDMA_RX_OFFSET + XAXIDMA_SR_OFFSET))
          (s &&& XAXIDMA_SR_ALL_ERR_MASK)
          (P.Xil_In32 (u64 (q.world.g_AxiDma.base_addr + XAXIDMA_RX_OFFSET + XAXIDMA_SR_OFFSET))
            q.world.hw).2 ∧
        r.world.g_AxiDma.rx_error = s &&& XAXIDMA_SR_ALL_ERR_MASK ∧
        r.world.g_AxiDma.errors = (q.world.g_AxiDma.errors + 1) % 2 ^ 32 ∧
        r.world.g_AxiDma.rx_complete = q.world.g_AxiDma.rx_complete ∧
        r.world.g_AxiDma.rx_transfers = q.world.g_AxiDma.rx_transfers := by
    intro e q hq s hs herr
    subst hs
    exact ⟨_, pollLoop_ret _ _ _ _ _ fuel e q _ hq (axi_dma_wait_rx_body_err P e q herr),
      rfl, rfl, rfl, rfl, rfl, rfl⟩
  exact ⟨tx elapsed_us p he, tx 0 ⟨w, 0⟩ h0, rx elapsed_us p he, rx 0 ⟨w, 0⟩ h0⟩

/-- Witness for C4: a write-one-to-clear status register at the TX status
address `0x04` holding decode error, idle and IOC together (`0x1042`); the
call with a 100 us timeout fails, writes `0x40` back (leaving `0x1002`) and
counts one error. -/
theorem C4_error_poll_witness :
    ∃ r, axi_dma_wait_tx (Platform.w1c 4 1) 1 100 (AxiDmaWorld.boot ⟨0x1042, 0⟩) = some r ∧
      r.ret = DMA_ERROR_DMA_FAIL ∧ r.world.hw = ⟨0x1002, 0⟩ ∧
      r.world.g_AxiDma.tx_error = 0x40 ∧ r.world.g_AxiDma.errors = 1 ∧
      r.world.g_AxiDma.tx_complete = false ∧ r.world.g_AxiDma.tx_transfers = 0 := by
  obtain ⟨r, h1, h2, h3, h4, h5, h6, h7⟩ :=
    (C4_error_poll (Platform.w1c 4 1) 100 0 0 ⟨AxiDmaWorld.boot ⟨0x1042, 0⟩, 0⟩
      (AxiDmaWorld.boot ⟨0x1042, 0⟩) (by decide) (by decide)).2.1 0x1042 (by decide) (by decide)
  exact ⟨r, h1, h2, h3.trans (by decide), h4.trans (by decide), h5.trans (by decide),
    h6.trans (by decide), h7.trans (by decide)⟩

/-- C5 (as stated, refuted): a write-one-to-clear status register at the TX
status address `0x04` holds idle and IOC together (`0x1002`, no error bit).
`axi_dma_wait_tx` with a 100 us timeout returns `DMA_SUCCESS`, sets
`tx_complete` and counts the transfer, but returns from the idle branch
without writing the status register: the register still reads `0x1002`
afterwards, the IOC bit has not been cleared. -/
theorem C5_counterexample :
    (axi_dma_wait_tx (Platform.w1c 4 1) 1 100 (AxiDmaWorld.boot ⟨0x1002, 0⟩)).map
        (fun r => (r.ret, r.world.hw.sr, r.world.g_AxiDma.tx_complete,
          r.world.g_AxiDma.tx_transfers))
      = some (DMA_SUCCESS, 0x1002, true, 1) ∧
    0x1002 &&& XAXIDMA_SR_ALL_ERR_MASK = 0 ∧
    0x1002 &&& XAXIDMA_SR_IDLE_MASK ≠ 0 ∧
    0x1002 &&& XAXIDMA_SR_IOC_IRQ_MASK ≠ 0 := by
  decide

/-- C5 (amended): at every poll of `axi_dma_wait_tx`, `axi_dma_wait_rx`,
`axi_cdma_wait_complete`, `axi_mcdma_wait_mm2s` and `axi_mcdma_wait_s2mm`
(every entry of the loop that passes the timeout check, as the first one does
for `timeout_us > 0` resp. a clock that has not yet run past the timeout)
whose status read `s` has no error bit and has the idle bit or the IOC bit
set, the call returns `DMA_SUCCESS`, sets the completion flag and increments
the transfer counter by one (as a `uint32_t`).  When the idle bit is set the
call writes nothing to the status register (the platform state is the one
left by the read); when the idle bit is clear it writes the IOC bit back to
the status register, once. -/
theorem C5_completion_poll {σ : Type} (P : Platform σ) (timeout_us fuel elapsed_us : Nat)
    (p : AxiDmaPoll σ) (w : AxiDmaWorld σ) (wc : AxiCdmaWorld σ) (start_time : Nat)
    (wm : AxiMcdmaWorld σ) (channel : Nat)
    (he : elapsed_us < timeout_us) (h0 : 0 < timeout_us)
    (hclk : u64 ((timer_get_us P wc.hw).1 + 2 ^ 64 - start_time) < timeout_us)
    (hclk0 : u64 ((timer_get_us P (timer_get_us P wc.hw).2).1 + 2 ^ 64
      - (timer_get_us P wc.hw).1) < timeout_us)
    (hch_mm2s : channel < wm.g_AxiMcdma.num_mm2s_channels)
    (hch_s2mm : channel < wm.g_AxiMcdma.num_s2mm_channels) :
    (∀ s, (axi_dma_read_tx_reg P p.world.g_AxiDma XAXIDMA_SR_OFFSET p.world.hw).1 = s →
      s &&& XAXIDMA_SR_ALL_ERR_MASK = 0 → (s &&& XAXIDMA_SR_IDLE_MASK ≠ 0 ∨ s &&& XAXIDMA_SR_IOC_IRQ_MASK ≠ 0) →
      ∃ r, axi_dma_wait_tx_loop P timeout_us (fuel + 1) elapsed_us p = some r ∧
        r.ret = DMA_SUCCESS ∧
        r.world.g_AxiDma.tx_complete = true ∧
        r.world.g_AxiDma.tx_transfers = (p.world.g_AxiDma.tx_transfers + 1) % 2 ^ 32 ∧
        r.world.hw =
          if s &&& XAXIDMA_SR_IDLE_MASK ≠ 0 then
            (P.Xil_In32 (u64 (p.world.g_AxiDma.base_addr + XAXIDMA_TX_OFFSET + XAXIDMA_SR_OFFSET)) p.world.hw).2
          else
            P.Xil_Out32 (u64 (p.world.g_AxiDma.base_addr + XAXIDMA_TX_OFFSET + XAXIDMA_SR_OFFSET)) XAXIDMA_SR_IOC_IRQ_MASK
              (P.Xil_In32 (u64 (p.world.g_AxiDma.base_addr + XAXIDMA_TX_OFFSET + XAXIDMA_SR_OFFSET)) p.world.hw).2) ∧
    (∀ s, (axi_dma_read_tx_reg P w.g_AxiDma XAXIDMA_SR_OFFSET w.hw).1 = s →
      s &&& XAXIDMA_SR_ALL_ERR_MASK = 0 → (s &&& XAXIDMA_SR_IDLE_MASK ≠ 0 ∨ s &&& XAXIDMA_SR_IOC_IRQ_MASK ≠ 0) →
      ∃ r, axi_dma_wait_tx P (fuel + 1) timeout_us w = some r ∧
        r.ret = DMA_SUCCESS ∧
        r.world.g_AxiDma.tx_complete = true ∧
        r.world.g_AxiDma.tx_transfers = (w.g_AxiDma.tx_transfers + 1) % 2 ^ 32 ∧
        r.world.hw =
          if s &&& XAXIDMA_SR_IDLE_MASK ≠ 0 then
            (P.Xil_In32 (u64 (w.g_AxiDma.base_addr + XAXIDMA_TX_OFFSET + XAXIDMA_SR_OFFSET)) w.hw).2
          else
            P.Xil_Out32 (u64 (w.g_AxiDma.base_addr + XAXIDMA_TX_OFFSET + XAXIDMA_SR_OFFSET)) XAXIDMA_SR_IOC_IRQ_MASK
              (P.Xil_In32 (u64 (w.g_AxiDma.base_addr + XAXIDMA_TX_OFFSET + XAXIDMA_SR_OFFSET)) w.hw).2) ∧
    (∀ s, (axi_dma_read_rx_reg P p.world.g_AxiDma XAXIDMA_SR_OFFSET p.world.hw).1 = s →
      s &&& XAXIDMA_SR_ALL_ERR_MASK = 0 → (s &&& XAXIDMA_SR_IDLE_MASK ≠ 0 ∨ s &&& XAXIDMA_SR_IOC_IRQ_MASK ≠ 0) →
      ∃ r, axi_dma_wait_rx_loop P timeout_us (fuel + 1) elapsed_us p = some r ∧
        r.ret = DMA_SUCCESS ∧
        r.world.g_AxiDma.rx_complete = true ∧
        r.world.g_AxiDma.rx_transfers = (p.world.g_AxiDma.rx_transfers + 1) % 2 ^ 32 ∧
        r.world.hw =
          if s &&& XAXIDMA_SR_IDLE_MASK ≠ 0 then
            (P.Xil_In32 (u64 (p.world.g_AxiDma.base_addr + XAXIDMA_RX_OFFSET + XAXIDMA_SR_OFFSET)) p.world.hw).2
          else
            P.Xil_Out32 (u64 (p.world.g_AxiDma.base_addr + XAXIDMA_RX_OFFSET + XAXIDMA_SR_OFFSET)) XAXIDMA_SR_IOC_IRQ_MASK
              (P.Xil_In32 (u64 (p.world.g_AxiDma.base_addr + XAXIDMA_RX_OFFSET + XAXIDMA_SR_OFFSET)) p.world.hw).2) ∧
    (∀ s, (axi_dma_read_rx_reg P w.g_AxiDma XAXIDMA_SR_OFFSET w.hw).1 = s →
      s &&& XAXIDMA_SR_ALL_ERR_MASK = 0 → (s &&& XAXIDMA_SR_IDLE_MASK ≠ 0 ∨ s &&& XAXIDMA_SR_IOC_IRQ_MASK ≠ 0) →
      ∃ r, axi_dma_wait_rx P (fuel + 1) timeout_us w = some r ∧
        r.ret = DMA_SUCCESS ∧
        r.world.g_AxiDma.rx_complete = true ∧
        r.world.g_AxiDma.rx_transfers = (w.g_AxiDma.rx_transfers + 1) % 2 ^ 32 ∧
        r.world.hw =
          if s &&& XAXIDMA_SR_IDLE_MASK ≠ 0 then
            (P.Xil_In32 (u64 (w.g_AxiDma.base_addr + XAXIDMA_RX_OFFSET + XAXIDMA_SR_OFFSET)) w.hw).2
          else
            P.Xil_Out32 (u64 (w.g_AxiDma.base_addr + XAXIDMA_RX_OFFSET + XAXIDMA_SR_OFFSET)) XAXIDMA_SR_IOC_IRQ_MASK
              (P.Xil_In32 (u64 (w.g_AxiDma.base_addr + XAXIDMA_RX_OFFSET + XAXIDMA_SR_OFFSET)) w.hw).2) ∧
    (∀ s, (axi_cdma_read_reg P wc.g_AxiCdma XAXICDMA_SR_OFFSET
        (timer_get_us P wc.hw).2).1 = s →
      s &&& XAXICDMA_SR_ALL_ERR_MASK = 0 → (s &&& XAXICDMA_SR_IDLE_MASK ≠ 0 ∨ s &&& XAXICDMA_SR_IOC_IRQ_MASK ≠ 0) →
      ∃ r, axi_cdma_wait_loop P timeout_us start_time (fuel + 1) wc = some r ∧
        r.1 = DMA_SUCCESS ∧
        r.2.g_AxiCdma.transfer_complete = true ∧
        r.2.g_AxiCdma.num_transfers = (wc.g_AxiCdma.num_transfers + 1) % 2 ^ 32 ∧
        r.2.hw =
          if s &&& XAXICDMA_SR_IDLE_MASK ≠ 0 then
            (P.Xil_In32 (u64 (wc.g_AxiCdma.base_addr + XAXICDMA_SR_OFFSET)) (timer_get_us P wc.hw).2).2
          else
            P.Xil_Out32 (u64 (wc.g_AxiCdma.base_addr + XAXICDMA_SR_OFFSET)) XAXICDMA_SR_IOC_IRQ_MASK
              (P.Xil_In32 (u64 (wc.g_AxiCdma.base_addr + XAXICDMA_SR_OFFSET)) (timer_get_us P wc.hw).2).2) ∧
    (∀ s, (axi_cdma_read_reg P wc.g_AxiCdma XAXICDMA_SR_OFFSET
        (timer_get_us P (timer_get_us P wc.hw).2).2).1 = s →
      s &&& XAXICDMA_SR_ALL_ERR_MASK = 0 → (s &&& XAXICDMA_SR_IDLE_MASK ≠ 0 ∨ s &&& XAXICDMA_SR_IOC_IRQ_MASK ≠ 0) →
      ∃ r, axi_cdma_wait_complete P (fuel + 1) timeout_us wc = some r ∧
        r.1 = DMA_SUCCESS ∧
        r.2.g_AxiCdma.transfer_complete = true ∧
        r.2.g_AxiCdma.num_transfers = (wc.g_AxiCdma.num_transfers + 1) % 2 ^ 32 ∧
        r.2.hw =
          if s &&& XAXICDMA_SR_IDLE_MASK ≠ 0 then
            (P.Xil_In32 (u64 (wc.g_AxiCdma.base_addr + XAXICDMA_SR_OFFSET)) (timer_get_us P (timer_get_us P wc.hw).2).2).2
          else
            P.Xil_Out32 (u64 (wc.g_AxiCdma.base_addr + XAXICDMA_SR_OFFSET)) XAXICDMA_SR_IOC_IRQ_MASK
              (P.Xil_In32 (u64 (wc.g_AxiCdma.base_addr + XAXICDMA_SR_OFFSET)) (timer_get_us P (timer_get_us P wc.hw).2).2).2) ∧
    (∀ s, (mcdma_read_mm2s_ch_reg P wm.g_AxiMcdma channel XMCDMA_CH_SR_OFFSET wm.hw).1 = s →
      s &&& XMCDMA_CH_SR_ERR_MASK = 0 → (s &&& XMCDMA_CH_SR_IDLE_MASK ≠ 0 ∨ s &&& XMCDMA_CH_SR_IOC_IRQ_MASK ≠ 0) →
      ∃ r, axi_mcdma_wait_mm2s_loop P channel timeout_us (fuel + 1) elapsed_us wm = some r ∧
        r.ret = DMA_SUCCESS ∧
        (r.world.g_AxiMcdma.mm2s_channels channel).transfer_complete = true ∧
        (r.world.g_AxiMcdma.mm2s_channels channel).num_transfers = ((wm.g_AxiMcdma.mm2s_channels channel).num_transfers + 1) % 2 ^ 32 ∧
        r.world.hw =
          if s &&& XMCDMA_CH_SR_IDLE_MASK ≠ 0 then
            (P.Xil_In32 (u64 (wm.g_AxiMcdma.base_addr +
              u32 (MCDMA_MM2S_BASE_OFFSET + u32 (channel * MCDMA_CHANNEL_OFFSET)) + XMCDMA_CH_SR_OFFSET)) wm.hw).2
          else
            P.Xil_Out32 (u64 (wm.g_AxiMcdma.base_addr +
              u32 (MCDMA_MM2S_BASE_OFFSET + u32 (channel * MCDMA_CHANNEL_OFFSET)) + XMCDMA_CH_SR_OFFSET)) XMCDMA_CH_SR_IOC_IRQ_MASK
              (P.Xil_In32 (u64 (wm.g_AxiMcdma.base_addr +
              u32 (MCDMA_MM2S_BASE_OFFSET + u32 (channel * MCDMA_CHANNEL_OFFSET)) + XMCDMA_CH_SR_OFFSET)) wm.hw).2) ∧
    (∀ s, (mcdma_read_mm2s_ch_reg P wm.g_AxiMcdma channel XMCDMA_CH_SR_OFFSET wm.hw).1 = s →
      s &&& XMCDMA_CH_SR_ERR_MASK = 0 → (s &&& XMCDMA_CH_SR_IDLE_MASK ≠ 0 ∨ s &&& XMCDMA_CH_SR_IOC_IRQ_MASK ≠ 0) →
      ∃ r, axi_mcdma_wait_mm2s P (fuel + 1) channel timeout_us wm = some r ∧
        r.ret = DMA_SUCCESS ∧
        (r.world.g_AxiMcdma.mm2s_channels channel).transfer_complete = true ∧
        (r.world.g_AxiMcdma.mm2s_channels channel).num_transfers = ((wm.g_AxiMcdma.mm2s_channels channel).num_transfers + 1) % 2 ^ 32 ∧
        r.world.hw =
          if s &&& XMCDMA_CH_SR_IDLE_MASK ≠ 0 then
            (P.Xil_In32 (u64 (wm.g_AxiMcdma.base_addr +
              u32 (MCDMA_MM2S_BASE_OFFSET + u32 (channel * MCDMA_CHANNEL_OFFSET)) + XMCDMA_CH_SR_OFFSET)) wm.hw).2
          else
            P.Xil_Out32 (u64 (wm.g_AxiMcdma.base_addr +
              u32 (MCDMA_MM2S_BASE_OFFSET + u32 (channel * MCDMA_CHANNEL_OFFSET)) + XMCDMA_CH_SR_OFFSET)) XMCDMA_CH_SR_IOC_IRQ_MASK
              (P.Xil_In32 (u64 (wm.g_AxiMcdma.base_addr +
              u32 (MCDMA_MM2S_BASE_OFFSET + u32 (channel * MCDMA_CHANNEL_OFFSET)) + XMCDMA_CH_SR_OFFSET)) wm.hw).2) ∧
    (∀ s, (mcdma_read_s2mm_ch_reg P wm.g_AxiMcdma channel XMCDMA_CH_SR_OFFSET wm.hw).1 = s →
      s &&& XMCDMA_CH_SR_ERR_MASK = 0 → (s &&& XMCDMA_CH_SR_IDLE_MASK ≠ 0 ∨ s &&& XMCDMA_CH_SR_IOC_IRQ_MASK ≠ 0) →
      ∃ r, axi_mcdma_wait_s2mm_loop P channel timeout_us (fuel + 1) elapsed_us wm = some r ∧
        r.ret = DMA_SUCCESS ∧
        (r.world.g_AxiMcdma.s2mm_channels channel).transfer_complete = true ∧
        (r.world.g_AxiMcdma.s2mm_channels channel).num_transfers = ((wm.g_AxiMcdma.s2mm_channels channel).num_transfers + 1) % 2 ^ 32 ∧
        r.world.hw =
          if s &&& XMCDMA_CH_SR_IDLE_MASK ≠ 0 then
            (P.Xil_In32 (u64 (wm.g_AxiMcdma.base_addr +
              u32 (MCDMA_S2MM_BASE_OFFSET + u32 (channel * MCDMA_CHANNEL_OFFSET)) + XMCDMA_CH_SR_OFFSET)) wm.hw).2
          else
            P.Xil_Out32 (u64 (wm.g_AxiMcdma.base_addr +
              u32 (MCDMA_S2MM_BASE_OFFSET + u32 (channel * MCDMA_CHANNEL_OFFSET)) + XMCDMA_CH_SR_OFFSET)) XMCDMA_CH_SR_IOC_IRQ_MASK
              (P.Xil_In32 (u64 (wm.g_AxiMcdma.base_addr +
              u32 (MCDMA_S2MM_BASE_OFFSET + u32 (channel * MCDMA_CHANNEL_OFFSET)) + XMCDMA_CH_SR_OFFSET)) wm.hw).2) ∧
    (∀ s, (mcdma_read_s2mm_ch_reg P wm.g_AxiMcdma channel XMCDMA_CH_SR_OFFSET wm.hw).1 = s →
      s &&& XMCDMA_CH_SR_ERR_MASK = 0 → (s &&& XMCDMA_CH_SR_IDLE_MASK ≠ 0 ∨ s &&& XMCDMA_CH_SR_IOC_IRQ_MASK ≠ 0) →
      ∃ r, axi_mcdma_wait_s2mm P (fuel + 1) channel timeout_us wm = some r ∧
        r.ret = DMA_SUCCESS ∧
        (r.world.g_AxiMcdma.s2mm_channels channel).transfer_complete = true ∧
        (r.world.g_AxiMcdma.s2mm_channels channel).num_transfers = ((wm.g_AxiMcdma.s2mm_channels channel).num_transfers + 1) % 2 ^ 32 ∧
        r.world.hw =
          if s &&& XMCDMA_CH_SR_IDLE_MASK ≠ 0 then
            (P.Xil_In32 (u64 (wm.g_AxiMcdma.base_addr +
              u32 (MCDMA_S2MM_BASE_OFFSET + u32 (channel * MCDMA_CHANNEL_OFFSET)) + XMCDMA_CH_SR_OFFSET)) wm.hw).2
          else
            P.Xil_Out32 (u64 (wm.g_AxiMcdma.base_addr +
              u32 (MCDMA_S2MM_BASE_OFFSET + u32 (channel * MCDMA_CHANNEL_OFFSET)) + XMCDMA_CH_SR_OFFSET)) XMCDMA_CH_SR_IOC_IRQ_MASK
              (P.Xil_In32 (u64 (wm.g_AxiMcdma.base_addr +
              u32 (MCDMA_S2MM_BASE_OFFSET + u32 (channel * MCDMA_CHANNEL_OFFSET)) + XMCDMA_CH_SR_OFFSET)) wm.hw).2) := by
  have h_tx : ∀ (e : Nat) (q : AxiDmaPoll σ), e < timeout_us →
      (∀ s, (axi_dma_read_tx_reg P q.world.g_AxiDma XAXIDMA_SR_OFFSET q.world.hw).1 = s →
      s &&& XAXIDMA_SR_ALL_ERR_MASK = 0 → (s &&& XAXIDMA_SR_IDLE_MASK ≠ 0 ∨ s &&& XAXIDMA_SR_IOC_IRQ_MASK ≠ 0) →
      ∃ r, axi_dma_wait_tx_loop P timeout_us (fuel + 1) e q = some r ∧
        r.ret = DMA_SUCCESS ∧
        r.world.g_AxiDma.tx_complete = true ∧
        r.world.g_AxiDma.tx_transfers = (q.world.g_AxiDma.tx_transfers + 1) % 2 ^ 32 ∧
        r.world.hw =
          if s &&& XAXIDMA_SR_IDLE_MASK ≠ 0 then
            (P.Xil_In32 (u64 (q.world.g_AxiDma.base_addr + XAXIDMA_TX_OFFSET + XAXIDMA_SR_OFFSET)) q.world.hw).2
          else
            P.Xil_Out32 (u64 (q.world.g_AxiDma.base_addr + XAXIDMA_TX_OFFSET + XAXIDMA_SR_OFFSET)) XAXIDMA_SR_IOC_IRQ_MASK
              (P.Xil_In32 (u64 (q.world.g_AxiDma.base_addr + XAXIDMA_TX_OFFSET + XAXIDMA_SR_OFFSET)) q.world.hw).2) := by
    intro e q hq s hs herr hdone
    subst hs
    by_cases hi : (axi_dma_read_tx_reg P q.world.g_AxiDma XAXIDMA_SR_OFFSET q.world.hw).1 &&&
        XAXIDMA_SR_IDLE_MASK ≠ 0
    · exact ⟨_, pollLoop_ret _ _ _ _ _ fuel e q _ hq
        (axi_dma_wait_tx_body_idle P e q herr hi), rfl, rfl, rfl, (if_pos hi).symm⟩
    · exact ⟨_, pollLoop_ret _ _ _ _ _ fuel e q _ hq
        (axi_dma_wait_tx_body_ioc P e q herr (not_not.mp hi) (hdone.resolve_left hi)),
        rfl, rfl, rfl, (if_neg hi).symm⟩
  have h_rx : ∀ (e : Nat) (q : AxiDmaPoll σ), e < timeout_us →
      (∀ s, (axi_dma_read_rx_reg P q.world.g_AxiDma XAXIDMA_SR_OFFSET q.world.hw).1 = s →
      s &&& XAXIDMA_SR_ALL_ERR_MASK = 0 → (s &&& XAXIDMA_SR_IDLE_MASK ≠ 0 ∨ s &&& XAXIDMA_SR_IOC_IRQ_MASK ≠ 0) →
      ∃ r, axi_dma_wait_rx_loop P timeout_us (fuel + 1) e q = some r ∧
        r.ret = DMA_SUCCESS ∧
        r.world.g_AxiDma.rx_complete = true ∧
        r.world.g_AxiDma.rx_transfers = (q.world.g_AxiDma.rx_transfers + 1) % 2 ^ 32 ∧
        r.world.hw =
          if s &&& XAXIDMA_SR_IDLE_MASK ≠ 0 then
            (P.Xil_In32 (u64 (q.world.g_AxiDma.base_addr + XAXIDMA_RX_OFFSET + XAXIDMA_SR_OFFSET)) q.world.hw).2
          else
            P.Xil_Out32 (u64 (q.world.g_AxiDma.base_addr + XAXIDMA_RX_OFFSET + XAXIDMA_SR_OFFSET)) XAXIDMA_SR_IOC_IRQ_MASK
              (P.Xil_In32 (u64 (q.world.g_AxiDma.base_addr + XAXIDMA_RX_OFFSET + XAXIDMA_SR_OFFSET)) q.world.hw).2) := by
    intro e q hq s hs herr hdone
    subst hs
    by_cases hi : (axi_dma_read_rx_reg P q.world.g_AxiDma XAXIDMA_SR_OFFSET q.world.hw).1 &&&
        XAXIDMA_SR_IDLE_MASK ≠ 0
    · exact ⟨_, pollLoop_ret _ _ _ _ _ fuel e q _ hq
        (axi_dma_wait_rx_body_idle P e q herr hi), rfl, rfl, rfl, (if_pos hi).symm⟩
    · exact ⟨_, pollLoop_ret _ _ _ _ _ fuel e q _ hq
        (axi_dma_wait_rx_body_ioc P e q herr (not_not.mp hi) (hdone.resolve_left hi)),
        rfl, rfl, rfl, (if_neg hi).symm⟩
  have h_cdma : ∀ (st0 : Nat) (v : AxiCdmaWorld σ),
      u64 ((timer_get_us P v.hw).1 + 2 ^ 64 - st0) < timeout_us →
      (∀ s, (axi_cdma_read_reg P v.g_AxiCdma XAXICDMA_SR_OFFSET
        (timer_get_us P v.hw).2).1 = s →
      s &&& XAXICDMA_SR_ALL_ERR_MASK = 0 → (s &&& XAXICDMA_SR_IDLE_MASK ≠ 0 ∨ s &&& XAXICDMA_SR_IOC_IRQ_MASK ≠ 0) →
      ∃ r, axi_cdma_wait_loop P timeout_us st0 (fuel + 1) v = some r ∧
        r.1 = DMA_SUCCESS ∧
        r.2.g_AxiCdma.transfer_complete = true ∧
        r.2.g_AxiCdma.num_transfers = (v.g_AxiCdma.num_transfers + 1) % 2 ^ 32 ∧
        r.2.hw =
          if s &&& XAXICDMA_SR_IDLE_MASK ≠ 0 then
            (P.Xil_In32 (u64 (v.g_AxiCdma.base_addr + XAXICDMA_SR_OFFSET)) (timer_get_us P v.hw).2).2
          else
            P.Xil_Out32 (u64 (v.g_AxiCdma.base_addr + XAXICDMA_SR_OFFSET)) XAXICDMA_SR_IOC_IRQ_MASK
              (P.Xil_In32 (u64 (v.g_AxiCdma.base_addr + XAXICDMA_SR_OFFSET)) (timer_get_us P v.hw).2).2) := by
    intro st0 v hq s hs herr hdone
    subst hs
    by_cases hi : (axi_cdma_read_reg P v.g_AxiCdma XAXICDMA_SR_OFFSET
        (timer_get_us P v.hw).2).1 &&& XAXICDMA_SR_IDLE_MASK ≠ 0
    · exact ⟨_, cdma_ret P timeout_us st0 fuel v hq (axi_cdma_wait_body_idle P _ herr hi),
        rfl, rfl, rfl, (if_pos hi).symm⟩
    · exact ⟨_, cdma_ret P timeout_us st0 fuel v hq
        (axi_cdma_wait_body_ioc P _ herr (not_not.mp hi) (hdone.resolve_left hi)),
        rfl, rfl, rfl, (if_neg hi).symm⟩
  have h_mm2s : ∀ (e : Nat) (v : AxiMcdmaWorld σ), e < timeout_us →
      (∀ s, (mcdma_read_mm2s_ch_reg P v.g_AxiMcdma channel XMCDMA_CH_SR_OFFSET v.hw).1 = s →
      s &&& XMCDMA_CH_SR_ERR_MASK = 0 → (s &&& XMCDMA_CH_SR_IDLE_MASK ≠ 0 ∨ s &&& XMCDMA_CH_SR_IOC_IRQ_MASK ≠ 0) →
      ∃ r, axi_mcdma_wait_mm2s_loop P channel timeout_us (fuel + 1) e v = some r ∧
        r.ret = DMA_SUCCESS ∧
        (r.world.g_AxiMcdma.mm2s_channels channel).transfer_complete = true ∧
        (r.world.g_AxiMcdma.mm2s_channels channel).num_transfers = ((v.g_AxiMcdma.mm2s_channels channel).num_transfers + 1) % 2 ^ 32 ∧
        r.world.hw =
          if s &&& XMCDMA_CH_SR_IDLE_MASK ≠ 0 then
            (P.Xil_In32 (u64 (v.g_AxiMcdma.base_addr +
              u32 (MCDMA_MM2S_BASE_OFFSET + u32 (channel * MCDMA_CHANNEL_OFFSET)) + XMCDMA_CH_SR_OFFSET)) v.hw).2
          else
            P.Xil_Out32 (u64 (v.g_AxiMcdma.base_addr +
              u32 (MCDMA_MM2S_BASE_OFFSET + u32 (channel * MCDMA_CHANNEL_OFFSET)) + XMCDMA_CH_SR_OFFSET)) XMCDMA_CH_SR_IOC_IRQ_MASK
              (P.Xil_In32 (u64 (v.g_AxiMcdma.base_addr +
              u32 (MCDMA_MM2S_BASE_OFFSET + u32 (channel * MCDMA_CHANNEL_OFFSET)) + XMCDMA_CH_SR_OFFSET)) v.hw).2) := by
    intro e v hq s hs herr hdone
    subst hs
    by_cases hi : (mcdma_read_mm2s_ch_reg P v.g_AxiMcdma channel XMCDMA_CH_SR_OFFSET v.hw).1 &&&
        XMCDMA_CH_SR_IDLE_MASK ≠ 0
    · exact ⟨_, pollLoop_ret _ _ _ _ _ fuel e v _ hq
        (axi_mcdma_wait_mm2s_body_idle P channel e v herr hi), rfl,
        by simp [AxiMcdmaWorld.setMm2s, u32], by simp [AxiMcdmaWorld.setMm2s, u32],
        (if_pos hi).symm⟩
    · exact ⟨_, pollLoop_ret _ _ _ _ _ fuel e v _ hq
        (axi_mcdma_wait_mm2s_body_ioc P channel e v herr (not_not.mp hi)
          (hdone.resolve_left hi)), rfl,
        by simp [AxiMcdmaWorld.setMm2s, u32], by simp [AxiMcdmaWorld.setMm2s, u32],
        (if_neg hi).symm⟩
  have h_s2mm : ∀ (e : Nat) (v : AxiMcdmaWorld σ), e < timeout_us →
      (∀ s, (mcdma_read_s2mm_ch_reg P v.g_AxiMcdma channel XMCDMA_CH_SR_OFFSET v.hw).1 = s →
      s &&& XMCDMA_CH_SR_ERR_MASK = 0 → (s &&& XMCDMA_CH_SR_IDLE_MASK ≠ 0 ∨ s &&& XMCDMA_CH_SR_IOC_IRQ_MASK ≠ 0) →
      ∃ r, axi_mcdma_wait_s2mm_loop P channel timeout_us (fuel + 1) e v = some r ∧
        r.ret = DMA_SUCCESS ∧
        (r.world.g_AxiMcdma.s2mm_channels channel).transfer_complete = true ∧
        (r.world.g_AxiMcdma.s2mm_channels channel).num_transfers = ((v.g_AxiMcdma.s2mm_channels channel).num_transfers + 1) % 2 ^ 32 ∧
        r.world.hw =
          if s &&& XMCDMA_CH_SR_IDLE_MASK ≠ 0 then
            (P.Xil_In32 (u64 (v.g_AxiMcdma.base_addr +
              u32 (MCDMA_S2MM_BASE_OFFSET + u32 (channel * MCDMA_CHANNEL_OFFSET)) + XMCDMA_CH_SR_OFFSET)) v.hw).2
          else
            P.Xil_Out32 (u64 (v.g_AxiMcdma.base_addr +
              u32 (MCDMA_S2MM_BASE_OFFSET + u32 (channel * MCDMA_CHANNEL_OFFSET)) + XMCDMA_CH_SR_OFFSET)) XMCDMA_CH_SR_IOC_IRQ_MASK
              (P.Xil_In32 (u64 (v.g_AxiMcdma.base_addr +
              u32 (MCDMA_S2MM_BASE_OFFSET + u32 (channel * MCDMA_CHANNEL_OFFSET)) + XMCDMA_CH_SR_OFFSET)) v.hw).2) := by
    intro e v hq s hs herr hdone
    subst hs
    by_cases hi : (mcdma_read_s2mm_ch_reg P v.g_AxiMcdma channel XMCDMA_CH_SR_OFFSET v.hw).1 &&&
        XMCDMA_CH_SR_IDLE_MASK ≠ 0
    · exact ⟨_, pollLoop_ret _ _ _ _ _ fuel e v _ hq
        (axi_mcdma_wait_s2mm_body_idle P channel e v herr hi), rfl,
        by simp [AxiMcdmaWorld.setS2mm, u32], by simp [AxiMcdmaWorld.setS2mm, u32],
        (if_pos hi).symm⟩
    · exact ⟨_, pollLoop_ret _ _ _ _ _ fuel e v _ hq
        (axi_mcdma_wait_s2mm_body_ioc P channel e v herr (not_not.mp hi)
          (hdone.resolve_left hi)), rfl,
        by simp [AxiMcdmaWorld.setS2mm, u32], by simp [AxiMcdmaWorld.setS2mm, u32],
        (if_neg hi).symm⟩
  refine ⟨h_tx elapsed_us p he, h_tx 0 ⟨w, 0⟩ h0, h_rx elapsed_us p he, h_rx 0 ⟨w, 0⟩ h0,
    h_cdma start_time wc hclk, h_cdma (timer_get_us P wc.hw).1 { wc with hw := (timer_get_us P wc.hw).2 } hclk0,
    h_mm2s elapsed_us wm he, ?_, h_s2mm elapsed_us wm he, ?_⟩
  · simp only [axi_mcdma_wait_mm2s, if_neg (not_le.mpr hch_mm2s)]
    exact h_mm2s 0 wm h0
  · simp only [axi_mcdma_wait_s2mm, if_neg (not_le.mpr hch_s2mm)]
    exact h_s2mm 0 wm h0

/-- Witness for C5: the same register holding only the IOC bit (`0x1000`); the
call succeeds and its write-back of the IOC bit leaves the register at `0`. -/
theorem C5_completion_poll_witness :
    ∃ r, axi_dma_wait_tx (Platform.w1c 4 1) 1 100 (AxiDmaWorld.boot ⟨0x1000, 0⟩) = some r ∧
      r.ret = DMA_SUCCESS ∧ r.world.g_AxiDma.tx_complete = true ∧
      r.world.g_AxiDma.tx_transfers = 1 ∧ r.world.hw = ⟨0, 0⟩ := by
  obtain ⟨r, h1, h2, h3, h4, h5⟩ :=
    (C5_completion_poll (Platform.w1c 4 1) 100 0 0 ⟨AxiDmaWorld.boot ⟨0x1000, 0⟩, 0⟩
      (AxiDmaWorld.boot ⟨0x1000, 0⟩) (AxiCdmaWorld.boot ⟨0x1000, 0⟩) 0
      { AxiMcdmaWorld.boot ⟨0x1000, 0⟩ with
        g_AxiMcdma := { AxiMcdmaInst.zero with num_mm2s_channels := 16,
                                               num_s2mm_channels := 16 } }
      0 (by decide) (by decide) (by decide) (by decide) (by decide) (by decide)).2.1
      0x1000 (by decide) (by decide) (by decide)
  exact ⟨r, h1, h2, h3, h4.trans (by decide), h5.trans (by decide)⟩

/-- C6 (code at the failing input `timeout_us = 0xFFFFFFFF`): when the status
reads never show an error, idle or completion bit (for the LPD engine: no
error or done interrupt and a state other than idle), `axi_dma_wait_tx`,
`axi_dma_wait_rx`, `axi_mcdma_wait_mm2s`, `axi_mcdma_wait_s2mm` and
`lpd_dma_wait_complete` called with `timeout_us = 0xFFFFFFFF` are still
polling after any number of iterations: the 32-bit `elapsed_us` advances by
10 from 0, so it is always even and never reaches the odd timeout.  No call
returns `DMA_ERROR_TIMEOUT`. -/
theorem C6_wait_never_returns {σ : Type} (P : Platform σ) (w : AxiDmaWorld σ)
    (wm : AxiMcdmaWorld σ) (wl : LpdDmaWorld σ) (channel : Nat)
    (htx : ∀ h,
      (axi_dma_read_tx_reg P w.g_AxiDma XAXIDMA_SR_OFFSET h).1 &&& XAXIDMA_SR_ALL_ERR_MASK = 0 ∧
      (axi_dma_read_tx_reg P w.g_AxiDma XAXIDMA_SR_OFFSET h).1 &&& XAXIDMA_SR_IDLE_MASK = 0 ∧
      (axi_dma_read_tx_reg P w.g_AxiDma XAXIDMA_SR_OFFSET h).1 &&& XAXIDMA_SR_IOC_IRQ_MASK = 0)
    (hrx : ∀ h,
      (axi_dma_read_rx_reg P w.g_AxiDma XAXIDMA_SR_OFFSET h).1 &&& XAXIDMA_SR_ALL_ERR_MASK = 0 ∧
      (axi_dma_read_rx_reg P w.g_AxiDma XAXIDMA_SR_OFFSET h).1 &&& XAXIDMA_SR_IDLE_MASK = 0 ∧
      (axi_dma_read_rx_reg P w.g_AxiDma XAXIDMA_SR_OFFSET h).1 &&& XAXIDMA_SR_IOC_IRQ_MASK = 0)
    (hmm2s : ∀ h,
      (mcdma_read_mm2s_ch_reg P wm.g_AxiMcdma channel XMCDMA_CH_SR_OFFSET h).1
        &&& XMCDMA_CH_SR_ERR_MASK = 0 ∧
      (mcdma_read_mm2s_ch_reg P wm.g_AxiMcdma channel XMCDMA_CH_SR_OFFSET h).1
        &&& XMCDMA_CH_SR_IDLE_MASK = 0 ∧
      (mcdma_read_mm2s_ch_reg P wm.g_AxiMcdma channel XMCDMA_CH_SR_OFFSET h).1
        &&& XMCDMA_CH_SR_IOC_IRQ_MASK = 0)
    (hs2mm : ∀ h,
      (mcdma_read_s2mm_ch_reg P wm.g_AxiMcdma channel XMCDMA_CH_SR_OFFSET h).1
        &&& XMCDMA_CH_SR_ERR_MASK = 0 ∧
      (mcdma_read_s2mm_ch_reg P wm.g_AxiMcdma channel XMCDMA_CH_SR_OFFSET h).1
        &&& XMCDMA_CH_SR_IDLE_MASK = 0 ∧
      (mcdma_read_s2mm_ch_reg P wm.g_AxiMcdma channel XMCDMA_CH_SR_OFFSET h).1
        &&& XMCDMA_CH_SR_IOC_IRQ_MASK = 0)
    (hlpd : ∀ h,
      (lpd_dma_read_reg P { wl with hw := h } channel XLPDDMA_ZDMA_CH_ISR).1
        &&& XLPDDMA_IXR_ERR_MASK = 0 ∧
      (lpd_dma_read_reg P { wl with hw := h } channel XLPDDMA_ZDMA_CH_ISR).1
        &&& XLPDDMA_IXR_DMA_DONE = 0 ∧
      (lpd_dma_read_reg P { wl with hw := h } channel XLPDDMA_ZDMA_CH_STATUS).1
        &&& XLPDDMA_STATUS_STATE_MASK ≠ XLPDDMA_STATUS_STATE_IDLE)
    (hch_mm2s : channel < wm.g_AxiMcdma.num_mm2s_channels)
    (hch_s2mm : channel < wm.g_AxiMcdma.num_s2mm_channels)
    (hch_lpd : channel < LPD_DMA_NUM_CHANNELS) :
    ∀ fuel,
      axi_dma_wait_tx P fuel 0xFFFFFFFF w = none ∧
      axi_dma_wait_rx P fuel 0xFFFFFFFF w = none ∧
      axi_mcdma_wait_mm2s P fuel channel 0xFFFFFFFF wm = none ∧
      axi_mcdma_wait_s2mm P fuel channel 0xFFFFFFFF wm = none ∧
      lpd_dma_wait_complete P fuel channel 0xFFFFFFFF wl = none := by
  intro fuel
  refine ⟨?_, ?_, ?_, ?_, ?_⟩
  · refine pollLoop_never_ends (axi_dma_wait_tx_body P) (axi_dma_wait_sleep P)
      (axi_dma_wait_tx_after P) (fun q => q.world.g_AxiDma = w.g_AxiDma) ?_ fuel 0 ⟨w, 0⟩ rfl
      (by decide) (by decide)
    intro e q hq
    have h := htx q.world.hw
    rw [← hq] at h
    exact ⟨_, axi_dma_wait_tx_body_next P e q h.1 h.2.1 h.2.2, hq⟩
  · refine pollLoop_never_ends (axi_dma_wait_rx_body P) (axi_dma_wait_sleep P)
      (axi_dma_wait_rx_after P) (fun q => q.world.g_AxiDma = w.g_AxiDma) ?_ fuel 0 ⟨w, 0⟩ rfl
      (by decide) (by decide)
    intro e q hq
    have h := hrx q.world.hw
    rw [← hq] at h
    exact ⟨_, axi_dma_wait_rx_body_next P e q h.1 h.2.1 h.2.2, hq⟩
  · simp only [axi_mcdma_wait_mm2s, if_neg (not_le.mpr hch_mm2s)]
    refine pollLoop_never_ends (axi_mcdma_wait_mm2s_body P channel) (axi_mcdma_wait_sleep P)
      (axi_mcdma_wait_mm2s_after P channel) (fun v => v.g_AxiMcdma = wm.g_AxiMcdma) ?_ fuel 0 wm
      rfl (by decide) (by decide)
    intro e v hv
    have h := hmm2s v.hw
    rw [← hv] at h
    exact ⟨_, axi_mcdma_wait_mm2s_body_next P channel e v h.1 h.2.1 h.2.2, hv⟩
  · simp only [axi_mcdma_wait_s2mm, if_neg (not_le.mpr hch_s2mm)]
    refine pollLoop_never_ends (axi_mcdma_wait_s2mm_body P channel) (axi_mcdma_wait_sleep P)
      (axi_mcdma_wait_s2mm_after P channel) (fun v => v.g_AxiMcdma = wm.g_AxiMcdma) ?_ fuel 0 wm
      rfl (by decide) (by decide)
    intro e v hv
    have h := hs2mm v.hw
    rw [← hv] at h
    exact ⟨_, axi_mcdma_wait_s2mm_body_next P channel e v h.1 h.2.1 h.2.2, hv⟩
  · simp only [lpd_dma_wait_complete, if_neg (not_le.mpr hch_lpd)]
    refine pollLoop_never_ends (lpd_dma_wait_body P channel) (lpd_dma_wait_sleep P)
      (lpd_dma_wait_after P channel)
      (fun v => v.g_ChannelBaseAddrs = wl.g_ChannelBaseAddrs) ?_ fuel 0 wl
      rfl (by decide) (by decide)
    intro e v hv
    have hread : ∀ (h : σ) (off : Nat),
        lpd_dma_read_reg P { v with hw := h } channel off
          = lpd_dma_read_reg P { wl with hw := h } channel off := by
      intro h off
      simp only [lpd_dma_read_reg, hv]
    have h1 := hlpd v.hw
    have h2 := (hlpd (lpd_dma_read_reg P v channel XLPDDMA_ZDMA_CH_ISR).2).2.2
    rw [← hread] at h1
    rw [← hread] at h2
    exact ⟨_, lpd_dma_wait_body_next P channel e v h1.1 h1.2.1 h2, hv⟩

/-- Witness for C6: on the stalled platform (sixteen MCDMA channels, LPD
channel windows 64 KiB apart from address 0), a thousand iterations into the
calls with `timeout_us = 0xFFFFFFFF` nothing has returned. -/
theorem C6_wait_never_returns_witness :
    axi_dma_wait_tx Platform.stalled 1000 0xFFFFFFFF (AxiDmaWorld.boot ()) = none ∧
    lpd_dma_wait_complete Platform.stalled 1000 0 0xFFFFFFFF
      (LpdDmaWorld.boot () (fun c => 0x10000 * c)) = none :=
  have h := C6_wait_never_returns Platform.stalled (AxiDmaWorld.boot ())
    { AxiMcdmaWorld.boot () with
      g_AxiMcdma := { AxiMcdmaInst.zero with num_mm2s_channels := 16,
                                             num_s2mm_channels := 16 } }
    (LpdDmaWorld.boot () (fun c => 0x10000 * c)) 0
    (by intro h; cases h; decide) (by intro h; cases h; decide) (by intro h; cases h; decide)
    (by intro h; cases h; decide) (by intro h; cases h; decide) (by decide) (by decide)
    (by decide) 1000
  ⟨h.1, h.2.2.2.2⟩

/-- C7 (as stated, refuted): with a write-one-to-clear status register holding
the decode-error bit (`0x40`), a first call `axi_dma_wait_tx(0)` never enters
its loop: it returns `DMA_ERROR_TIMEOUT`, not `DMA_ERROR_DMA_FAIL`, leaves the
error counter at 0 and the error bit set in the register. -/
theorem C7_counterexample :
    (axi_dma_wait_tx (Platform.w1c 4 1) 10 0 (AxiDmaWorld.boot ⟨0x40, 0⟩)).map
        (fun r => (r.ret, r.world.g_AxiDma.errors, r.world.hw.sr))
      = some (DMA_ERROR_TIMEOUT, 0, 0x40) ∧
    DMA_ERROR_TIMEOUT ≠ DMA_ERROR_DMA_FAIL ∧
    0x40 &&& XAXIDMA_SR_DMADECERR_MASK ≠ 0 := by
  decide

/-- C7 (amended): the status register is write-one-to-clear, holds a value with
the decode-error bit set, and nothing but the driver changes it.  A first
call of `axi_dma_wait_tx` that polls at least once (`timeout_us > 0`) returns
`DMA_ERROR_DMA_FAIL` and increments the error counter once; afterwards the
register holds no error bit, and a second call, with any timeout and however
long it runs, does not return `DMA_ERROR_DMA_FAIL` and leaves the error
counter as the first call left it.  The same holds for
`axi_cdma_wait_complete` when its first clock check is below the timeout. -/
theorem C7_error_reported_once (addr tick T1 T2 fuel : Nat) (w : AxiDmaWorld StatusReg)
    (wc : AxiCdmaWorld StatusReg)
    (haddr : u64 (w.g_AxiDma.base_addr + XAXIDMA_TX_OFFSET + XAXIDMA_SR_OFFSET) = addr)
    (haddrc : u64 (wc.g_AxiCdma.base_addr + XAXICDMA_SR_OFFSET) = addr)
    (hsr : w.hw.sr < 2 ^ 32) (hdec : w.hw.sr &&& XAXIDMA_SR_DMADECERR_MASK ≠ 0)
    (hsrc : wc.hw.sr < 2 ^ 32) (hdecc : wc.hw.sr &&& XAXICDMA_SR_DMADECERR_MASK ≠ 0)
    (hT1 : 0 < T1)
    (hclk : u64 ((timer_get_us (Platform.w1c addr tick)
        (timer_get_us (Platform.w1c addr tick) wc.hw).2).1 + 2 ^ 64
        - (timer_get_us (Platform.w1c addr tick) wc.hw).1) < T1) :
    (∃ r1, axi_dma_wait_tx (Platform.w1c addr tick) (fuel + 1) T1 w = some r1 ∧
      r1.ret = DMA_ERROR_DMA_FAIL ∧
      r1.world.g_AxiDma.errors = (w.g_AxiDma.errors + 1) % 2 ^ 32 ∧
      r1.world.hw.sr &&& XAXIDMA_SR_ALL_ERR_MASK = 0 ∧
      ∀ fuel2 r2, axi_dma_wait_tx (Platform.w1c addr tick) fuel2 T2 r1.world = some r2 →
        r2.ret ≠ DMA_ERROR_DMA_FAIL ∧
        r2.world.g_AxiDma.errors = r1.world.g_AxiDma.errors) ∧
    (∃ r1, axi_cdma_wait_complete (Platform.w1c addr tick) (fuel + 1) T1 wc = some r1 ∧
      r1.1 = DMA_ERROR_DMA_FAIL ∧
      r1.2.g_AxiCdma.errors = (wc.g_AxiCdma.errors + 1) % 2 ^ 32 ∧
      r1.2.hw.sr &&& XAXICDMA_SR_ALL_ERR_MASK = 0 ∧
      ∀ fuel2 r2, axi_cdma_wait_complete (Platform.w1c addr tick) fuel2 T2 r1.2 = some r2 →
        r2.1 ≠ DMA_ERROR_DMA_FAIL ∧
        r2.2.g_AxiCdma.errors = r1.2.g_AxiCdma.errors) := by
  constructor
  · -- AXI DMA
    have hrd := w1c_read_tx addr tick w.g_AxiDma w.hw haddr hsr
    have herr : (axi_dma_read_tx_reg (Platform.w1c addr tick) w.g_AxiDma XAXIDMA_SR_OFFSET
        w.hw).1 &&& XAXIDMA_SR_ALL_ERR_MASK ≠ 0 := by
      rw [hrd]; exact decerr_in_all_err _ hdec
    have hcall := pollLoop_ret T1 10 (axi_dma_wait_tx_body (Platform.w1c addr tick))
      (axi_dma_wait_sleep (Platform.w1c addr tick))
      (axi_dma_wait_tx_after (Platform.w1c addr tick)) fuel 0 ⟨w, 0⟩ _ hT1
      (axi_dma_wait_tx_body_err (Platform.w1c addr tick) 0 ⟨w, 0⟩ herr)
    refine ⟨_, hcall, rfl, rfl, ?_, ?_⟩
    · simp only [hrd]
      simp only [haddr, Platform.w1c, if_true]
      exact w1c_clears _ _
    · intro fuel2 r2 h2
      refine pollLoop_inv T2 10 (axi_dma_wait_tx_body (Platform.w1c addr tick))
        (axi_dma_wait_sleep (Platform.w1c addr tick))
        (axi_dma_wait_tx_after (Platform.w1c addr tick))
        (fun q => u64 (q.world.g_AxiDma.base_addr + XAXIDMA_TX_OFFSET + XAXIDMA_SR_OFFSET) = addr ∧
          q.world.hw.sr < 2 ^ 32 ∧ q.world.hw.sr &&& XAXIDMA_SR_ALL_ERR_MASK = 0 ∧
          q.world.g_AxiDma.errors = u32 (w.g_AxiDma.errors + 1))
        (fun r => r.ret ≠ DMA_ERROR_DMA_FAIL ∧
          r.world.g_AxiDma.errors = u32 (w.g_AxiDma.errors + 1))
        ?_ ?_ ?_ fuel2 0 _ r2 ?_ h2
      · -- a `return` inside the loop
        intro e q r ⟨ha, hlt, hz, hE⟩ hb
        have hq := w1c_read_tx addr tick q.world.g_AxiDma q.world.hw ha hlt
        have h1 : (axi_dma_read_tx_reg (Platform.w1c addr tick) q.world.g_AxiDma
            XAXIDMA_SR_OFFSET q.world.hw).1 &&& XAXIDMA_SR_ALL_ERR_MASK = 0 := by
          rw [hq]; exact hz
        by_cases hi : (axi_dma_read_tx_reg (Platform.w1c addr tick) q.world.g_AxiDma
            XAXIDMA_SR_OFFSET q.world.hw).1 &&& XAXIDMA_SR_IDLE_MASK ≠ 0
        · rw [axi_dma_wait_tx_body_idle _ e q h1 hi] at hb
          have hr := Poll.ret.inj hb
          rw [← hr]
          exact ⟨DMA_SUCCESS_ne_FAIL, hE⟩
        · by_cases hc : (axi_dma_read_tx_reg (Platform.w1c addr tick) q.world.g_AxiDma
              XAXIDMA_SR_OFFSET q.world.hw).1 &&& XAXIDMA_SR_IOC_IRQ_MASK ≠ 0
          · rw [axi_dma_wait_tx_body_ioc _ e q h1 (not_not.mp hi) hc] at hb
            have hr := Poll.ret.inj hb
            rw [← hr]
            exact ⟨DMA_SUCCESS_ne_FAIL, hE⟩
          · rw [axi_dma_wait_tx_body_next _ e q h1 (not_not.mp hi) (not_not.mp hc)] at hb
            cases hb
      · -- falling through to the sleep
        intro e q q' ⟨ha, hlt, hz, hE⟩ hb
        have hq := w1c_read_tx addr tick q.world.g_AxiDma q.world.hw ha hlt
        have h1 : (axi_dma_read_tx_reg (Platform.w1c addr tick) q.world.g_AxiDma
            XAXIDMA_SR_OFFSET q.world.hw).1 &&& XAXIDMA_SR_ALL_ERR_MASK = 0 := by
          rw [hq]; exact hz
        by_cases hi : (axi_dma_read_tx_reg (Platform.w1c addr tick) q.world.g_AxiDma
            XAXIDMA_SR_OFFSET q.world.hw).1 &&& XAXIDMA_SR_IDLE_MASK ≠ 0
        · rw [axi_dma_wait_tx_body_idle _ e q h1 hi] at hb
          cases hb
        · by_cases hc : (axi_dma_read_tx_reg (Platform.w1c addr tick) q.world.g_AxiDma
              XAXIDMA_SR_OFFSET q.world.hw).1 &&& XAXIDMA_SR_IOC_IRQ_MASK ≠ 0
          · rw [axi_dma_wait_tx_body_ioc _ e q h1 (not_not.mp hi) hc] at hb
            cases hb
          · rw [axi_dma_wait_tx_body_next _ e q h1 (not_not.mp hi) (not_not.mp hc)] at hb
            have hr := Poll.next.inj hb
            rw [← hr]
            simp only [axi_dma_wait_sleep, Platform.w1c, ha, if_true]
            exact ⟨trivial, hlt, hz, hE⟩
      · -- the code after the loop
        intro e q ⟨ha, hlt, hz, hE⟩
        exact ⟨DMA_TIMEOUT_ne_FAIL, hE⟩
      · -- the state the first call leaves
        refine ⟨haddr, ?_, ?_, rfl⟩
        · simp only [hrd]
          simp only [haddr, Platform.w1c, if_true]
          exact w1c_lt _ _ hsr
        · simp only [hrd]
          simp only [haddr, Platform.w1c, if_true]
          exact w1c_clears _ _
  · -- AXI CDMA
    have hrd := w1c_read_cdma addr tick wc.g_AxiCdma
      (timer_get_us (Platform.w1c addr tick) (timer_get_us (Platform.w1c addr tick) wc.hw).2).2
      haddrc hsrc
    have herr : (axi_cdma_read_reg (Platform.w1c addr tick) wc.g_AxiCdma XAXICDMA_SR_OFFSET
        (timer_get_us (Platform.w1c addr tick)
          (timer_get_us (Platform.w1c addr tick) wc.hw).2).2).1
        &&& XAXICDMA_SR_ALL_ERR_MASK ≠ 0 := by
      rw [hrd]; exact decerr_in_all_err _ hdecc
    have hcall := cdma_ret (Platform.w1c addr tick) T1
      (timer_get_us (Platform.w1c addr tick) wc.hw).1 fuel
      { wc with hw := (timer_get_us (Platform.w1c addr tick) wc.hw).2 } hclk
      (axi_cdma_wait_body_err (Platform.w1c addr tick)
        { wc with hw := (timer_get_us (Platform.w1c addr tick)
            (timer_get_us (Platform.w1c addr tick) wc.hw).2).2 } herr)
    refine ⟨_, hcall, rfl, rfl, ?_, ?_⟩
    · simp only [hrd]
      simp only [haddrc, Platform.w1c, if_true]
      exact w1c_clears _ _
    · intro fuel2 r2 h2
      refine axi_cdma_wait_loop_inv (Platform.w1c addr tick) T2 _
        (fun q => u64 (q.g_AxiCdma.base_addr + XAXICDMA_SR_OFFSET) = addr ∧
          q.hw.sr < 2 ^ 32 ∧ q.hw.sr &&& XAXICDMA_SR_ALL_ERR_MASK = 0 ∧
          q.g_AxiCdma.errors = u32 (wc.g_AxiCdma.errors + 1))
        (fun r => r.1 ≠ DMA_ERROR_DMA_FAIL ∧
          r.2.g_AxiCdma.errors = u32 (wc.g_AxiCdma.errors + 1))
        ?_ ?_ ?_ ?_ fuel2 _ r2 ?_ h2
      · -- reading the clock
        intro q ⟨ha, hlt, hz, hE⟩
        exact ⟨ha, hlt, hz, hE⟩
      · -- a `return` inside the loop
        intro q r ⟨ha, hlt, hz, hE⟩ hb
        have hq := w1c_read_cdma addr tick q.g_AxiCdma q.hw ha hlt
        have h1 : (axi_cdma_read_reg (Platform.w1c addr tick) q.g_AxiCdma
            XAXICDMA_SR_OFFSET q.hw).1 &&& XAXICDMA_SR_ALL_ERR_MASK = 0 := by
          rw [hq]; exact hz
        by_cases hi : (axi_cdma_read_reg (Platform.w1c addr tick) q.g_AxiCdma
            XAXICDMA_SR_OFFSET q.hw).1 &&& XAXICDMA_SR_IDLE_MASK ≠ 0
        · rw [axi_cdma_wait_body_idle _ q h1 hi] at hb
          have hr := Poll.ret.inj hb
          rw [← hr]
          exact ⟨DMA_SUCCESS_ne_FAIL, hE⟩
        · by_cases hc : (axi_cdma_read_reg (Platform.w1c addr tick) q.g_AxiCdma
              XAXICDMA_SR_OFFSET q.hw).1 &&& XAXICDMA_SR_IOC_IRQ_MASK ≠ 0
          · rw [axi_cdma_wait_body_ioc _ q h1 (not_not.mp hi) hc] at hb
            have hr := Poll.ret.inj hb
            rw [← hr]
            exact ⟨DMA_SUCCESS_ne_FAIL, hE⟩
          · rw [axi_cdma_wait_body_next _ q h1 (not_not.mp hi) (not_not.mp hc)] at hb
            cases hb
      · -- falling through to the next clock check
        intro q q' ⟨ha, hlt, hz, hE⟩ hb
        have hq := w1c_read_cdma addr tick q.g_AxiCdma q.hw ha hlt
        have h1 : (axi_cdma_read_reg (Platform.w1c addr tick) q.g_AxiCdma
            XAXICDMA_SR_OFFSET q.hw).1 &&& XAXICDMA_SR_ALL_ERR_MASK = 0 := by
          rw [hq]; exact hz
        by_cases hi : (axi_cdma_read_reg (Platform.w1c addr tick) q.g_AxiCdma
            XAXICDMA_SR_OFFSET q.hw).1 &&& XAXICDMA_SR_IDLE_MASK ≠ 0
        · rw [axi_cdma_wait_body_idle _ q h1 hi] at hb
          cases hb
        · by_cases hc : (axi_cdma_read_reg (Platform.w1c addr tick) q.g_AxiCdma
              XAXICDMA_SR_OFFSET q.hw).1 &&& XAXICDMA_SR_IOC_IRQ_MASK ≠ 0
          · rw [axi_cdma_wait_body_ioc _ q h1 (not_not.mp hi) hc] at hb
            cases hb
          · rw [axi_cdma_wait_body_next _ q h1 (not_not.mp hi) (not_not.mp hc)] at hb
            have hr := Poll.next.inj hb
            rw [← hr]
            simp only [Platform.w1c, ha, if_true]
            exact ⟨trivial, hlt, hz, hE⟩
      · -- the code after the loop
        intro q ⟨ha, hlt, hz, hE⟩
        exact ⟨DMA_TIMEOUT_ne_FAIL, hE⟩
      · -- the state the first call leaves
        refine ⟨haddrc, ?_, ?_, rfl⟩
        · simp only [hrd]
          simp only [haddrc, Platform.w1c, if_true]
          exact w1c_lt _ _ hsrc
        · simp only [hrd]
          simp only [haddrc, Platform.w1c, if_true]
          exact w1c_clears _ _

/-- Witness for C7: the status register at address `0x04` holds the decode
error bit (`0x40`).  A first call with a 100 us timeout fails and counts one
error; a second call cannot fail again, and the CDMA driver behaves alike. -/
theorem C7_error_reported_once_witness :
    (∃ r1, axi_dma_wait_tx (Platform.w1c 4 1) 1 100 (AxiDmaWorld.boot ⟨0x40, 0⟩) = some r1 ∧
      r1.ret = DMA_ERROR_DMA_FAIL ∧ r1.world.g_AxiDma.errors = 1 ∧
      ∀ fuel2 r2, axi_dma_wait_tx (Platform.w1c 4 1) fuel2 100 r1.world = some r2 →
        r2.ret ≠ DMA_ERROR_DMA_FAIL ∧ r2.world.g_AxiDma.errors = 1) ∧
    (∃ r1, axi_cdma_wait_complete (Platform.w1c 4 1) 1 100 (AxiCdmaWorld.boot ⟨0x40, 0⟩)
        = some r1 ∧
      r1.1 = DMA_ERROR_DMA_FAIL ∧ r1.2.g_AxiCdma.errors = 1 ∧
      ∀ fuel2 r2, axi_cdma_wait_complete (Platform.w1c 4 1) fuel2 100 r1.2 = some r2 →
        r2.1 ≠ DMA_ERROR_DMA_FAIL ∧ r2.2.g_AxiCdma.errors = 1) := by
  obtain ⟨⟨r, h1, h2, h3, _, h5⟩, ⟨c, k1, k2, k3, _, k5⟩⟩ :=
    C7_error_reported_once 4 1 100 100 0 (AxiDmaWorld.boot ⟨0x40, 0⟩)
      (AxiCdmaWorld.boot ⟨0x40, 0⟩) (by decide) (by decide) (by decide) (by decide)
      (by decide) (by decide) (by decide) (by decide)
  have h3' : r.world.g_AxiDma.errors = 1 := h3.trans (by decide)
  have k3' : c.2.g_AxiCdma.errors = 1 := k3.trans (by decide)
  refine ⟨⟨r, h1, h2, h3', ?_⟩, ⟨c, k1, k2, k3', ?_⟩⟩
  · intro f r2 hr
    exact ⟨(h5 f r2 hr).1, (h5 f r2 hr).2.trans h3'⟩
  · intro f r2 hr
    exact ⟨(k5 f r2 hr).1, (k5 f r2 hr).2.trans k3'⟩
/-- C8: against a TX status register that never shows an error, idle or IOC
bit, for 32-bit timeouts `T1 < T2` for which both calls of `axi_dma_wait_tx`
return: the call with `T1` returns `DMA_ERROR_TIMEOUT` (as does the one with
`T2`), its number of polls `loop_count` is no greater than that of the call
with `T2`, and the elapsed time it has accounted in `elapsed_us` at the return
is at least `T1` and less than `T1 + 10`.  While the counter cannot wrap
(`T1 ≤ 0xFFFFFFF6`) that accounted time is exactly 10 us per poll.  The call
with `T1` does return: 858993460 iterations of the model are enough. -/
theorem C8_timeout_monotone {σ : Type} (P : Platform σ) (w : AxiDmaWorld σ)
    (T1 T2 fuel1 fuel2 : Nat) (r1 r2 : AxiDmaWait σ)
    (hquiet : ∀ h,
      (axi_dma_read_tx_reg P w.g_AxiDma XAXIDMA_SR_OFFSET h).1 &&& XAXIDMA_SR_ALL_ERR_MASK = 0 ∧
      (axi_dma_read_tx_reg P w.g_AxiDma XAXIDMA_SR_OFFSET h).1 &&& XAXIDMA_SR_IDLE_MASK = 0 ∧
      (axi_dma_read_tx_reg P w.g_AxiDma XAXIDMA_SR_OFFSET h).1 &&& XAXIDMA_SR_IOC_IRQ_MASK = 0)
    (hlt : T1 < T2) (hT2 : T2 < 2 ^ 32)
    (h1 : axi_dma_wait_tx P fuel1 T1 w = some r1)
    (h2 : axi_dma_wait_tx P fuel2 T2 w = some r2) :
    r1.ret = DMA_ERROR_TIMEOUT ∧ r2.ret = DMA_ERROR_TIMEOUT ∧
    r1.loop_count ≤ r2.loop_count ∧
    T1 ≤ r1.elapsed_us ∧ r1.elapsed_us < T1 + 10 ∧
    (T1 ≤ 0xFFFFFFF6 → r1.elapsed_us = 10 * r1.loop_count) ∧
    ∃ r, axi_dma_wait_tx P 858993460 T1 w = some r := by
  obtain ⟨K1, -, hlt1, hge1, hret1, hlc1, hel1, -⟩ :=
    axi_dma_wait_tx_quiet_returned P w T1 fuel1 r1 hquiet h1
  obtain ⟨K2, -, hlt2, hge2, hret2, hlc2, -, -⟩ :=
    axi_dma_wait_tx_quiet_returned P w T2 fuel2 r2 hquiet h2
  -- the counter reaches `0xFFFFFFFE` after 858993459 polls, so neither count exceeds that
  have hK1 : K1 ≤ 858993459 := by
    by_contra hc
    have := hlt1 858993459 (by omega)
    omega
  have hK2 : K2 ≤ 858993459 := by
    by_contra hc
    have := hlt2 858993459 (by omega)
    omega
  have hK12 : K1 ≤ K2 := by
    by_contra hc
    have := hlt1 K2 (by omega)
    omega
  have hprev : K1 = 0 ∨ (10 * (K1 - 1)) % 2 ^ 32 < T1 := by
    rcases Nat.eq_zero_or_pos K1 with h | h
    · exact Or.inl h
    · exact Or.inr (hlt1 (K1 - 1) (by omega))
  refine ⟨hret1, hret2, ?_, ?_, ?_, ?_, ?_⟩
  · rw [hlc1, hlc2]; omega
  · rw [hel1]; omega
  · rw [hel1]; rcases hprev with h | h
    · subst h; omega
    · omega
  · intro hT1
    have hsmall : K1 ≤ 429496729 := by
      by_contra hc
      have := hlt1 429496729 (by omega)
      omega
    rw [hel1, hlc1]; omega
  · obtain ⟨r, hr, -⟩ := axi_dma_wait_tx_quiet_returns P w T1 858993460 K1 hquiet (by omega)
      hlt1 hge1
    exact ⟨r, hr⟩

/-- Witness for C8: on the device-free platform (status always `0`) the calls
with timeouts 25 us and 100 us both return; the first times out after 3 polls
with 30 us accounted, within the bounds that the theorem gives. -/
theorem C8_timeout_monotone_witness :
    ∃ r1 r2, axi_dma_wait_tx Platform.quiet 20 25 (AxiDmaWorld.boot ()) = some r1 ∧
      axi_dma_wait_tx Platform.quiet 20 100 (AxiDmaWorld.boot ()) = some r2 ∧
      r1.ret = DMA_ERROR_TIMEOUT ∧ r1.loop_count ≤ r2.loop_count ∧
      25 ≤ r1.elapsed_us ∧ r1.elapsed_us < 25 + 10 ∧ r1.elapsed_us = 10 * r1.loop_count := by
  obtain ⟨r1, hr1⟩ := Option.isSome_iff_exists.mp
    (show (axi_dma_wait_tx Platform.quiet 20 25 (AxiDmaWorld.boot ())).isSome = true by decide)
  obtain ⟨r2, hr2⟩ := Option.isSome_iff_exists.mp
    (show (axi_dma_wait_tx Platform.quiet 20 100 (AxiDmaWorld.boot ())).isSome = true by decide)
  have h := C8_timeout_monotone Platform.quiet (AxiDmaWorld.boot ()) 25 100 20 20 r1 r2
    (by intro h; cases h; decide) (by decide) (by decide) hr1 hr2
  exact ⟨r1, r2, hr1, hr2, h.1, h.2.2.1, h.2.2.2.1, h.2.2.2.2.1, h.2.2.2.2.2.1 (by decide)⟩

/-- C9 (as stated, refuted): at `bytes = 2^44`, `us = 1` neither product wraps,
but the exact quotient `2^44 * 10^6 / 2^20 = 16777216000000` does not fit the
`uint32_t` the macro casts to, so the macro yields `1073741824` instead. -/
theorem C9_counterexample :
    CALC_THROUGHPUT_MBPS (2 ^ 44) 1 = 1073741824 ∧
    2 ^ 44 * 10 ^ 6 / (1 * 2 ^ 20) = 16777216000000 ∧
    CALC_THROUGHPUT_MBPS (2 ^ 44) 1 ≠ 2 ^ 44 * 10 ^ 6 / (1 * 2 ^ 20) := by
  decide

/-- C9 (amended): whenever neither 64-bit product wraps (`bytes * 10^6 < 2^64`
and `us * 2^20 < 2^64`) and the quotient fits 32 bits, the macro equals
`floor(bytes * 10^6 / (us * 2^20))` over the unbounded integers; in particular
1,048,576 bytes times 100 iterations at 10,000 us gives exactly 10000. -/
theorem C9_throughput_exact (bytes us : Nat) (hus : 0 < us)
    (hb : bytes * 10 ^ 6 < 2 ^ 64) (hu : us * 2 ^ 20 < 2 ^ 64)
    (hq : bytes * 10 ^ 6 / (us * 2 ^ 20) < 2 ^ 32) :
    CALC_THROUGHPUT_MBPS bytes us = bytes * 10 ^ 6 / (us * 2 ^ 20) ∧
    CALC_THROUGHPUT_MBPS (1048576 * 100) 10000 = 10000 := by
  refine ⟨?_, by decide⟩
  simp only [CALC_THROUGHPUT_MBPS, u32, u64, if_pos hus]
  norm_num at hb hu hq ⊢
  rw [Nat.mod_eq_of_lt hb, Nat.mod_eq_of_lt hu, Nat.mod_eq_of_lt hq]

/-- Witness for C9: the amended statement at the spec's scenario (100 MiB in
10,000 us), whose hypotheses hold. -/
theorem C9_throughput_exact_witness :
    (1048576 * 100) * 10 ^ 6 / (10000 * 2 ^ 20) = 10000 ∧
    CALC_THROUGHPUT_MBPS (1048576 * 100) 10000
      = (1048576 * 100) * 10 ^ 6 / (10000 * 2 ^ 20) :=
  ⟨by norm_num,
   (C9_throughput_exact (1048576 * 100) 10000 (by norm_num) (by norm_num) (by norm_num)
    (by norm_num)).1⟩

/-- Where the 32-bit sum `offset + size` does not wrap, `memory_get_test_addr`
returns `test_base + offset` exactly for a valid non-HOST region whose test
window holds the range, and `0` otherwise. -/
theorem memory_get_test_addr_no_wrap (cfg : RegionTable) (region offset size : Nat)
    (hsum : offset + size < 2 ^ 32) :
    memory_get_test_addr cfg region offset size =
      if region < cfg.MEM_REGION_COUNT ∧ region ≠ cfg.MEM_REGION_HOST ∧
          offset + size ≤ (cfg.g_MemoryRegions region).test_size
      then u64 ((cfg.g_MemoryRegions region).test_base + offset) else 0 := by
  have ho : offset % 2 ^ 32 = offset := Nat.mod_eq_of_lt (by omega)
  have hs : size % 2 ^ 32 = size := Nat.mod_eq_of_lt (by omega)
  have h2 : (offset + size) % 2 ^ 32 = offset + size := Nat.mod_eq_of_lt hsum
  unfold memory_get_test_addr
  simp only [u32, ho, hs, h2]
  by_cases h1 : region ≥ cfg.MEM_REGION_COUNT ∨ region = cfg.MEM_REGION_HOST
  · rw [if_pos h1, if_neg]
    rintro ⟨ha, hb, -⟩
    rcases h1 with h1 | h1
    · omega
    · exact hb h1
  · rw [if_neg h1]
    have hv : region < cfg.MEM_REGION_COUNT ∧ region ≠ cfg.MEM_REGION_HOST := by
      constructor
      · by_contra hc; exact h1 (Or.inl (by omega))
      · intro hc; exact h1 (Or.inr hc)
    by_cases h3 : offset + size > (cfg.g_MemoryRegions region).test_size
    · rw [if_pos h3, if_neg]
      rintro ⟨-, -, hc⟩
      omega
    · rw [if_neg h3, if_pos ⟨hv.1, hv.2, by omega⟩]

/-- C10 (code at the failing input): for every valid non-HOST region whose test
window is smaller than 4 GiB, `memory_get_test_addr(region, 0xFFFFFFFF, 1)`
returns the address `test_base + 0xFFFFFFFF` although `offset + size = 2^32`
exceeds `test_size`: the 32-bit sum wraps to `0` and passes the range check. -/
theorem C10_wrapped_sum_passes_check (cfg : RegionTable) (region : Nat)
    (hr : region < cfg.MEM_REGION_COUNT) (hh : region ≠ cfg.MEM_REGION_HOST)
    (hsz : (cfg.g_MemoryRegions region).test_size < 2 ^ 32) :
    memory_get_test_addr cfg region 0xFFFFFFFF 1
        = u64 ((cfg.g_MemoryRegions region).test_base + 0xFFFFFFFF) ∧
    ¬ (0xFFFFFFFF + 1 ≤ (cfg.g_MemoryRegions region).test_size) := by
  refine ⟨?_, by omega⟩
  unfold memory_get_test_addr
  have h1 : ¬ (region ≥ cfg.MEM_REGION_COUNT ∨ region = cfg.MEM_REGION_HOST) := by
    rintro (h | h)
    · omega
    · exact hh h
  rw [if_neg h1]
  have h2 : u32 (u32 0xFFFFFFFF + u32 1) = 0 := by decide
  have h3 : u32 0xFFFFFFFF = 0xFFFFFFFF := by decide
  rw [h2, h3, if_neg (by omega)]

/-- Witness for C10: a table of six regions (HOST is region 5) whose windows are
256 KiB at `0xFFFC0000`; region 2 returns the non-zero address `0x1FFFBFFFF`,
which is `0xFFFFFFFF` bytes past the window base. -/
theorem C10_wrapped_sum_passes_check_witness :
    memory_get_test_addr ⟨6, 5, fun _ => ⟨0xFFFC0000, 0x40000, 0xFFFC0000, 0x40000, 0⟩⟩
        2 0xFFFFFFFF 1 = 0x1FFFBFFFF :=
  (C10_wrapped_sum_passes_check ⟨6, 5, fun _ => ⟨0xFFFC0000, 0x40000, 0xFFFC0000, 0x40000, 0⟩⟩
    2 (by decide) (by decide) (by decide)).1.trans (by decide)


/-- C11: a call of `axi_dma_setup_sg_ring` with `tx_descs` null, `rx_descs`
null or `num_descs = 0` returns `DMA_ERROR_INVALID_PARAM` and leaves the whole
world as it was: the instance record (ring pointers, `ring_size`, the four
head/tail indices), both descriptor arrays and the platform state.  The same
holds for `axi_cdma_setup_sg_ring` (null `descs` or `num_descs = 0`) and for
`axi_mcdma_setup_mm2s_ring` / `axi_mcdma_setup_s2mm_ring`, for which a channel
of `MCDMA_MAX_CHANNELS = 16` or more is rejected as well. -/
theorem C11_invalid_setup_unchanged {σ : Type} (P : Platform σ) (wa : AxiDmaWorld σ)
    (wc : AxiCdmaWorld σ) (wm : AxiMcdmaWorld σ) (tx rx descs channel num_descs : Nat) :
    (tx = 0 ∨ rx = 0 ∨ num_descs = 0 →
      axi_dma_setup_sg_ring P tx rx num_descs wa = (DMA_ERROR_INVALID_PARAM, wa)) ∧
    (descs = 0 ∨ num_descs = 0 →
      axi_cdma_setup_sg_ring P descs num_descs wc = (DMA_ERROR_INVALID_PARAM, wc)) ∧
    (channel ≥ 16 ∨ descs = 0 ∨ num_descs = 0 →
      axi_mcdma_setup_mm2s_ring P channel descs num_descs wm = (DMA_ERROR_INVALID_PARAM, wm) ∧
      axi_mcdma_setup_s2mm_ring P channel descs num_descs wm = (DMA_ERROR_INVALID_PARAM, wm)) := by
  refine ⟨?_, ?_, ?_⟩
  · intro h
    simp only [axi_dma_setup_sg_ring, if_pos h]
  · intro h
    simp only [axi_cdma_setup_sg_ring, if_pos h]
  · intro h
    have h' : channel ≥ MCDMA_MAX_CHANNELS ∨ descs = 0 ∨ num_descs = 0 := h
    constructor
    · simp only [axi_mcdma_setup_mm2s_ring, if_pos h']
    · simp only [axi_mcdma_setup_s2mm_ring, if_pos h']

/-- Witness for C11: after a ring of four slots has been set up, calls with a
null TX array, with zero descriptors and with channel 16 are rejected and
change nothing. -/
theorem C11_invalid_setup_unchanged_witness :
    axi_dma_setup_sg_ring Platform.quiet 0 0x2000 4
        (axi_dma_setup_sg_ring Platform.quiet 0x1000 0x2000 4 (AxiDmaWorld.boot ())).2
      = (DMA_ERROR_INVALID_PARAM,
        (axi_dma_setup_sg_ring Platform.quiet 0x1000 0x2000 4 (AxiDmaWorld.boot ())).2) ∧
    axi_cdma_setup_sg_ring Platform.quiet 0x3000 0 (AxiCdmaWorld.boot ())
      = (DMA_ERROR_INVALID_PARAM, AxiCdmaWorld.boot ()) ∧
    axi_mcdma_setup_mm2s_ring Platform.quiet 16 0x3000 4 (AxiMcdmaWorld.boot ())
      = (DMA_ERROR_INVALID_PARAM, AxiMcdmaWorld.boot ()) :=
  ⟨(C11_invalid_setup_unchanged Platform.quiet
      (axi_dma_setup_sg_ring Platform.quiet 0x1000 0x2000 4 (AxiDmaWorld.boot ())).2
      (AxiCdmaWorld.boot ()) (AxiMcdmaWorld.boot ()) 0 0x2000 0x3000 16 4).1 (Or.inl rfl),
    (C11_invalid_setup_unchanged Platform.quiet (AxiDmaWorld.boot ()) (AxiCdmaWorld.boot ())
      (AxiMcdmaWorld.boot ()) 0 0x2000 0x3000 16 0).2.1 (Or.inr rfl),
    ((C11_invalid_setup_unchanged Platform.quiet (AxiDmaWorld.boot ()) (AxiCdmaWorld.boot ())
      (AxiMcdmaWorld.boot ()) 0 0x2000 0x3000 16 4).2.2 (Or.inl (by decide))).1⟩

/-- C12: for every `num_descs > 0` (a `uint32_t`), non-null arrays and any
prior world, `axi_dma_setup_sg_ring` succeeds and afterwards, in every slot
`i < num_descs` of the TX ring and of the RX ring, every field other than the
two link words is zero (buffer address low and high, the reserved words,
control, status and the application words); `ring_size = num_descs` and
`tx_head = tx_tail = rx_head = rx_tail = 0`. -/
theorem C12_ring_zeroed {σ : Type} (P : Platform σ) (w : AxiDmaWorld σ)
    (tx rx num_descs : Nat) (htx : tx ≠ 0) (hrx : rx ≠ 0) (hn : 0 < num_descs)
    (hn32 : num_descs < 2 ^ 32) :
    (axi_dma_setup_sg_ring P tx rx num_descs w).1 = DMA_SUCCESS ∧
    (axi_dma_setup_sg_ring P tx rx num_descs w).2.g_AxiDma.ring_size = num_descs ∧
    (axi_dma_setup_sg_ring P tx rx num_descs w).2.g_AxiDma.tx_head = 0 ∧
    (axi_dma_setup_sg_ring P tx rx num_descs w).2.g_AxiDma.tx_tail = 0 ∧
    (axi_dma_setup_sg_ring P tx rx num_descs w).2.g_AxiDma.rx_head = 0 ∧
    (axi_dma_setup_sg_ring P tx rx num_descs w).2.g_AxiDma.rx_tail = 0 ∧
    ∀ i, i < num_descs →
      ∀ d, (d = (axi_dma_setup_sg_ring P tx rx num_descs w).2.tx_mem i ∨
            d = (axi_dma_setup_sg_ring P tx rx num_descs w).2.rx_mem i) →
        d.buffer_addr = 0 ∧ d.buffer_addr_msb = 0 ∧ d.reserved1 = [0, 0] ∧ d.control = 0 ∧
        d.status = 0 ∧ d.app = [0, 0, 0, 0, 0] ∧ d.reserved2 = [0, 0, 0] := by
  have hga : ¬ (tx = 0 ∨ rx = 0 ∨ num_descs = 0) := by
    rintro (h | h | h)
    · exact htx h
    · exact hrx h
    · omega
  refine ⟨?_, ?_, ?_, ?_, ?_, ?_, ?_⟩
  · simp only [axi_dma_setup_sg_ring, if_neg hga]
  · simp only [axi_dma_setup_sg_ring, if_neg hga]
  · simp only [axi_dma_setup_sg_ring, if_neg hga]
  · simp only [axi_dma_setup_sg_ring, if_neg hga]
  · simp only [axi_dma_setup_sg_ring, if_neg hga]
  · simp only [axi_dma_setup_sg_ring, if_neg hga]
  · intro i hi d hd
    have htxi : (axi_dma_setup_sg_ring P tx rx num_descs w).2.tx_mem i
        = axi_dma_link_slot tx num_descs i AxiDmaSgDesc.zero := by
      simp only [axi_dma_setup_sg_ring, if_neg hga, forEachIndex_apply, if_pos hi,
        memset_zero_inside _ _ _ _ hi hn32]
    have hrxi : (axi_dma_setup_sg_ring P tx rx num_descs w).2.rx_mem i
        = axi_dma_link_slot rx num_descs i AxiDmaSgDesc.zero := by
      simp only [axi_dma_setup_sg_ring, if_neg hga, forEachIndex_apply, if_pos hi,
        memset_zero_inside _ _ _ _ hi hn32]
    rcases hd with hd | hd
    · rw [hd, htxi]
      exact ⟨rfl, rfl, rfl, rfl, rfl, rfl, rfl⟩
    · rw [hd, hrxi]
      exact ⟨rfl, rfl, rfl, rfl, rfl, rfl, rfl⟩

/-- Witness for C12: a world whose slots hold stale descriptors and whose head
indices are 3 and 2; after set-up of four slots the stale fields are cleared
and the indices are back at 0. -/
theorem C12_ring_zeroed_witness :
    ((axi_dma_setup_sg_ring Platform.quiet 0x1000 0x2000 4 AxiDmaWorld.stale).2.tx_mem 1).control
      = 0 ∧
    ((axi_dma_setup_sg_ring Platform.quiet 0x1000 0x2000 4 AxiDmaWorld.stale).2.rx_mem 3).status
      = 0 ∧
    (axi_dma_setup_sg_ring Platform.quiet 0x1000 0x2000 4 AxiDmaWorld.stale).2.g_AxiDma.tx_head
      = 0 :=
  have h := C12_ring_zeroed Platform.quiet AxiDmaWorld.stale 0x1000 0x2000 4 (by decide)
    (by decide) (by decide) (by decide)
  ⟨(h.2.2.2.2.2.2 1 (by decide) _ (Or.inl rfl)).2.2.2.1,
    (h.2.2.2.2.2.2 3 (by decide) _ (Or.inr rfl)).2.2.2.2.1, h.2.2.1⟩

/-- C13: a successful `axi_dma_sg_transfer(src, dst, length)` started with
`tx_head = h` and `rx_head = h'`, both below `ring_size`, leaves in TX slot `h`
the buffer address `src` (the two 32-bit halves recombine to `src`),
`control = SOF | EOF | length` and `status = 0`; in RX slot `h'` the buffer
address `dst`, `control = length` and `status = 0`; every other slot of both
rings and both link words of every slot are unchanged; and afterwards
`tx_head = (h + 1) mod ring_size` and `rx_head = (h' + 1) mod ring_size`, with
`ring_size` itself unchanged. -/
theorem C13_sg_transfer_posts {σ : Type} (P : Platform σ) (w r : AxiDmaWorld σ)
    (src dst length : Nat) (hsrc : src < 2 ^ 64) (hdst : dst < 2 ^ 64) (hlen : length < 2 ^ 32)
    (hsize : w.g_AxiDma.ring_size < 2 ^ 32)
    (hh : w.g_AxiDma.tx_head < w.g_AxiDma.ring_size)
    (hh' : w.g_AxiDma.rx_head < w.g_AxiDma.ring_size)
    (hok : axi_dma_sg_transfer P src dst length w = (DMA_SUCCESS, r)) :
    (r.tx_mem w.g_AxiDma.tx_head).buffer = src ∧
    (r.tx_mem w.g_AxiDma.tx_head).control
      = XAXIDMA_BD_CTRL_TXSOF_MASK ||| XAXIDMA_BD_CTRL_TXEOF_MASK ||| length ∧
    (r.tx_mem w.g_AxiDma.tx_head).status = 0 ∧
    (r.rx_mem w.g_AxiDma.rx_head).buffer = dst ∧
    (r.rx_mem w.g_AxiDma.rx_head).control = length ∧
    (r.rx_mem w.g_AxiDma.rx_head).status = 0 ∧
    (∀ i, i ≠ w.g_AxiDma.tx_head → r.tx_mem i = w.tx_mem i) ∧
    (∀ i, i ≠ w.g_AxiDma.rx_head → r.rx_mem i = w.rx_mem i) ∧
    (∀ i, (r.tx_mem i).next_desc = (w.tx_mem i).next_desc ∧
          (r.tx_mem i).next_desc_msb = (w.tx_mem i).next_desc_msb ∧
          (r.rx_mem i).next_desc = (w.rx_mem i).next_desc ∧
          (r.rx_mem i).next_desc_msb = (w.rx_mem i).next_desc_msb) ∧
    r.g_AxiDma.tx_head = (w.g_AxiDma.tx_head + 1) % w.g_AxiDma.ring_size ∧
    r.g_AxiDma.rx_head = (w.g_AxiDma.rx_head + 1) % w.g_AxiDma.ring_size ∧
    r.g_AxiDma.ring_size = w.g_AxiDma.ring_size := by
  obtain ⟨-, -, -, hr⟩ := axi_dma_sg_transfer_success P src dst length w r hok
  subst hr
  have hctl : u32 (XAXIDMA_BD_CTRL_TXSOF_MASK ||| XAXIDMA_BD_CTRL_TXEOF_MASK ||| length)
      = XAXIDMA_BD_CTRL_TXSOF_MASK ||| XAXIDMA_BD_CTRL_TXEOF_MASK ||| length :=
    Nat.mod_eq_of_lt (Nat.or_lt_two_pow (by decide) hlen)
  have htxh : u32 (w.g_AxiDma.tx_head + 1) = w.g_AxiDma.tx_head + 1 :=
    Nat.mod_eq_of_lt (by omega)
  have hrxh : u32 (w.g_AxiDma.rx_head + 1) = w.g_AxiDma.rx_head + 1 :=
    Nat.mod_eq_of_lt (by omega)
  refine ⟨?_, ?_, ?_, ?_, ?_, ?_, ?_, ?_, ?_, ?_, ?_, ?_⟩
  · simp only [axi_dma_sg_post, Function.update_same, axi_dma_fill_tx_desc, AxiDmaSgDesc.buffer]
    exact link_recombine src hsrc
  · simp only [axi_dma_sg_post, Function.update_same, axi_dma_fill_tx_desc]
    exact hctl
  · simp only [axi_dma_sg_post, Function.update_same, axi_dma_fill_tx_desc]
  · simp only [axi_dma_sg_post, Function.update_same, axi_dma_fill_rx_desc, AxiDmaSgDesc.buffer]
    exact link_recombine dst hdst
  · simp only [axi_dma_sg_post, Function.update_same, axi_dma_fill_rx_desc]
  · simp only [axi_dma_sg_post, Function.update_same, axi_dma_fill_rx_desc]
  · intro i hi
    simp only [axi_dma_sg_post, Function.update_noteq hi]
  · intro i hi
    simp only [axi_dma_sg_post, Function.update_noteq hi]
  · intro i
    refine ⟨?_, ?_, ?_, ?_⟩
    · by_cases hi : i = w.g_AxiDma.tx_head
      · subst hi
        simp only [axi_dma_sg_post, Function.update_same, axi_dma_fill_tx_desc]
      · simp only [axi_dma_sg_post, Function.update_noteq hi]
    · by_cases hi : i = w.g_AxiDma.tx_head
      · subst hi
        simp only [axi_dma_sg_post, Function.update_same, axi_dma_fill_tx_desc]
      · simp only [axi_dma_sg_post, Function.update_noteq hi]
    · by_cases hi : i = w.g_AxiDma.rx_head
      · subst hi
        simp only [axi_dma_sg_post, Function.update_same, axi_dma_fill_rx_desc]
      · simp only [axi_dma_sg_post, Function.update_noteq hi]
    · by_cases hi : i = w.g_AxiDma.rx_head
      · subst hi
        simp only [axi_dma_sg_post, Function.update_same, axi_dma_fill_rx_desc]
      · simp only [axi_dma_sg_post, Function.update_noteq hi]
  · simp only [axi_dma_sg_post, htxh]
  · simp only [axi_dma_sg_post, hrxh]
  · simp only [axi_dma_sg_post]

/-- Witness for C13: on rings of four slots with both heads at 0, a transfer of
256 bytes from `0x1_0000_0040` to `0x20000` is posted in slot 0 of each ring
and the TX head moves to 1. -/
theorem C13_sg_transfer_posts_witness :
    ((axi_dma_sg_transfer Platform.quiet 0x100000040 0x20000 256
        (AxiDmaWorld.ready Platform.quiet ())).2.tx_mem 0).buffer = 0x100000040 ∧
    ((axi_dma_sg_transfer Platform.quiet 0x100000040 0x20000 256
        (AxiDmaWorld.ready Platform.quiet ())).2.tx_mem 0).control = 0x0C000100 ∧
    ((axi_dma_sg_transfer Platform.quiet 0x100000040 0x20000 256
        (AxiDmaWorld.ready Platform.quiet ())).2.rx_mem 0).buffer = 0x20000 ∧
    (axi_dma_sg_transfer Platform.quiet 0x100000040 0x20000 256
        (AxiDmaWorld.ready Platform.quiet ())).2.g_AxiDma.tx_head = 1 :=
  have h := C13_sg_transfer_posts Platform.quiet (AxiDmaWorld.ready Platform.quiet ())
    (axi_dma_sg_transfer Platform.quiet 0x100000040 0x20000 256
      (AxiDmaWorld.ready Platform.quiet ())).2
    0x100000040 0x20000 256 (by decide) (by decide) (by decide) (by decide) (by decide)
    (by decide) (Prod.ext (by decide) rfl)
  ⟨h.1, h.2.1.trans (by decide), h.2.2.2.1, h.2.2.2.2.2.2.2.2.2.1.trans (by decide)⟩

/-- C14: let `axi_dma_setup_sg_ring(tx, rx, n)` succeed (non-null arrays of `n`
slots lying in the 64-bit address space, `0 < n < 2^32`), and let any sequence
of calls of `axi_dma_sg_transfer`, `axi_dma_simple_transfer`,
`axi_dma_wait_tx`, `axi_dma_wait_rx`, `axi_dma_wait_complete` and
`axi_dma_clear_stats`, with any arguments, follow and return.  In the world
reached, `ring_size` is still `n`, `tx_head < n`, `rx_head < n`, and for every
`i < n` the link of slot `i` of either ring is the address of slot
`(i + 1) mod n` of that ring. -/
theorem C14_ring_invariant {σ : Type} (P : Platform σ) (w0 w : AxiDmaWorld σ)
    (tx rx n : Nat) (calls : List AxiDmaCall)
    (htx : tx ≠ 0) (hrx : rx ≠ 0) (hn : 0 < n) (hn32 : n < 2 ^ 32)
    (htxfit : tx + 64 * n ≤ 2 ^ 64) (hrxfit : rx + 64 * n ≤ 2 ^ 64)
    (hrun : axi_dma_run_calls P calls (axi_dma_setup_sg_ring P tx rx n w0).2 = some w) :
    (axi_dma_setup_sg_ring P tx rx n w0).1 = DMA_SUCCESS ∧
    w.g_AxiDma.ring_size = n ∧ w.g_AxiDma.tx_head < n ∧ w.g_AxiDma.rx_head < n ∧
    ∀ i, i < n → (w.tx_mem i).link = tx + 64 * ((i + 1) % n) ∧
                 (w.rx_mem i).link = rx + 64 * ((i + 1) % n) := by
  obtain ⟨h1, h2⟩ := ringOk_setup P w0 tx rx n htx hrx hn hn32 htxfit hrxfit
  obtain ⟨hs, -, -, hth, hrh, hl⟩ := ringOk_run_calls P tx rx n hn32 calls _ w hrun h2
  exact ⟨h1, hs, hth, hrh, hl⟩

/-- Witness for C14: on the device-free platform, rings of four slots are set
up on an initialised scatter/gather engine; five transfers (the head wraps
round), a simple transfer, a timed-out wait and a statistics reset follow.  The
heads are at 1 and the last slot still links back to the ring base. -/
theorem C14_ring_invariant_witness :
    ∃ w, axi_dma_run_calls Platform.quiet
        [AxiDmaCall.sg_transfer 0x10000 0x20000 64, AxiDmaCall.sg_transfer 0x10000 0x20000 64,
         AxiDmaCall.sg_transfer 0x10000 0x20000 64, AxiDmaCall.sg_transfer 0x10000 0x20000 64,
         AxiDmaCall.sg_transfer 0x10000 0x20000 64, AxiDmaCall.simple_transfer 0x10000 0x20000 8,
         AxiDmaCall.wait_complete 10 30, AxiDmaCall.clear_stats]
        (AxiDmaWorld.ready Platform.quiet ()) = some w ∧
      w.g_AxiDma.ring_size = 4 ∧ w.g_AxiDma.tx_head = 1 ∧ w.g_AxiDma.rx_head = 1 ∧
      (w.tx_mem 3).link = 0x1000 ∧ (w.rx_mem 3).link = 0x2000 := by
  obtain ⟨w, hw⟩ := Option.isSome_iff_exists.mp
    (show (axi_dma_run_calls Platform.quiet
        [AxiDmaCall.sg_transfer 0x10000 0x20000 64, AxiDmaCall.sg_transfer 0x10000 0x20000 64,
         AxiDmaCall.sg_transfer 0x10000 0x20000 64, AxiDmaCall.sg_transfer 0x10000 0x20000 64,
         AxiDmaCall.sg_transfer 0x10000 0x20000 64, AxiDmaCall.simple_transfer 0x10000 0x20000 8,
         AxiDmaCall.wait_complete 10 30, AxiDmaCall.clear_stats]
        (AxiDmaWorld.ready Platform.quiet ())).isSome = true by decide)
  have h := C14_ring_invariant Platform.quiet _ w 0x1000 0x2000 4 _ (by decide) (by decide)
    (by decide) (by decide) (by decide) (by decide) hw
  have ht : (axi_dma_run_calls Platform.quiet
        [AxiDmaCall.sg_transfer 0x10000 0x20000 64, AxiDmaCall.sg_transfer 0x10000 0x20000 64,
         AxiDmaCall.sg_transfer 0x10000 0x20000 64, AxiDmaCall.sg_transfer 0x10000 0x20000 64,
         AxiDmaCall.sg_transfer 0x10000 0x20000 64, AxiDmaCall.simple_transfer 0x10000 0x20000 8,
         AxiDmaCall.wait_complete 10 30, AxiDmaCall.clear_stats]
        (AxiDmaWorld.ready Platform.quiet ())).map
      (fun w => (w.g_AxiDma.tx_head, w.g_AxiDma.rx_head)) = some (1, 1) := by decide
  rw [hw] at ht
  have ht' := Option.some.inj ht
  exact ⟨w, hw, h.2.1, congrArg Prod.fst ht', congrArg Prod.snd ht',
    (h.2.2.2.2 3 (by decide)).1, (h.2.2.2.2 3 (by decide)).2⟩

/-- C15: `axi_dma_wait_complete(t)` first runs `axi_dma_wait_tx(t)` (and does not
return if that call does not).  If that result is not `DMA_SUCCESS`, it is
returned as it is together with the world that `axi_dma_wait_tx` left, in which
`rx_complete`, `rx_transfers` and `rx_error` are as before the call; on the
recording platform the events of the call contain no read of the RX status
register.  Otherwise the result is that of `axi_dma_wait_rx(t)` run next.
`axi_mcdma_wait_complete(channel, t)` relates in the same way to
`axi_mcdma_wait_mm2s` and `axi_mcdma_wait_s2mm`: on an MM2S result other than
`DMA_SUCCESS` the S2MM channel records are untouched and the S2MM status
register of the channel is not read. -/
theorem C15_wait_complete_sequencing {σ : Type} (P : Platform σ)
    (rd : Nat → List Event → Nat) (clk : List Event → Nat) (fuel T channel : Nat)
    (w : AxiDmaWorld σ) (wm : AxiMcdmaWorld σ) (v : AxiDmaWorld (List Event))
    (vm : AxiMcdmaWorld (List Event)) :
    (axi_dma_wait_tx P fuel T w = none → axi_dma_wait_complete P fuel T w = none) ∧
    (∀ t, axi_dma_wait_tx P fuel T w = some t → t.ret ≠ DMA_SUCCESS →
      axi_dma_wait_complete P fuel T w = some (t.ret, t.world) ∧
      t.world.g_AxiDma.rx_complete = w.g_AxiDma.rx_complete ∧
      t.world.g_AxiDma.rx_transfers = w.g_AxiDma.rx_transfers ∧
      t.world.g_AxiDma.rx_error = w.g_AxiDma.rx_error) ∧
    (∀ t, axi_dma_wait_tx P fuel T w = some t → t.ret = DMA_SUCCESS →
      axi_dma_wait_complete P fuel T w
        = (axi_dma_wait_rx P fuel T t.world).map (fun r => (r.ret, r.world))) ∧
    (∀ t, axi_dma_wait_tx (Platform.recording rd clk) fuel T v = some t → t.ret ≠ DMA_SUCCESS →
      axi_dma_wait_complete (Platform.recording rd clk) fuel T v = some (t.ret, t.world) ∧
      ∃ evs, t.world.hw = v.hw ++ evs ∧
        ∀ e, e ∈ evs →
          Event.isReadOf (u64 (v.g_AxiDma.base_addr + XAXIDMA_RX_OFFSET + XAXIDMA_SR_OFFSET)) e
            = false) ∧
    (axi_mcdma_wait_mm2s P fuel channel T wm = none →
      axi_mcdma_wait_complete P fuel channel T wm = none) ∧
    (∀ t, axi_mcdma_wait_mm2s P fuel channel T wm = some t → t.ret ≠ DMA_SUCCESS →
      axi_mcdma_wait_complete P fuel channel T wm = some (t.ret, t.world) ∧
      t.world.g_AxiMcdma.s2mm_channels = wm.g_AxiMcdma.s2mm_channels) ∧
    (∀ t, axi_mcdma_wait_mm2s P fuel channel T wm = some t → t.ret = DMA_SUCCESS →
      axi_mcdma_wait_complete P fuel channel T wm
        = (axi_mcdma_wait_s2mm P fuel channel T t.world).map (fun r => (r.ret, r.world))) ∧
    (∀ t, axi_mcdma_wait_mm2s (Platform.recording rd clk) fuel channel T vm = some t →
      t.ret ≠ DMA_SUCCESS →
      axi_mcdma_wait_complete (Platform.recording rd clk) fuel channel T vm
        = some (t.ret, t.world) ∧
      ∃ evs, t.world.hw = vm.hw ++ evs ∧
        ∀ e, e ∈ evs →
          Event.isReadOf (u64 (vm.g_AxiMcdma.base_addr
            + u32 (MCDMA_S2MM_BASE_OFFSET + u32 (channel * MCDMA_CHANNEL_OFFSET))
            + XMCDMA_CH_SR_OFFSET)) e = false) := by
  have hfail : ∀ {τ : Type} (Q : Platform τ) (x : AxiDmaWorld τ) (t : AxiDmaWait τ),
      axi_dma_wait_tx Q fuel T x = some t → t.ret ≠ DMA_SUCCESS →
      axi_dma_wait_complete Q fuel T x = some (t.ret, t.world) := by
    intro τ Q x t h hne
    unfold axi_dma_wait_complete
    rw [h]
    simp only []
    rw [if_pos hne]
  have hmfail : ∀ {τ : Type} (Q : Platform τ) (x : AxiMcdmaWorld τ)
      (t : ChannelWait (AxiMcdmaWorld τ)),
      axi_mcdma_wait_mm2s Q fuel channel T x = some t → t.ret ≠ DMA_SUCCESS →
      axi_mcdma_wait_complete Q fuel channel T x = some (t.ret, t.world) := by
    intro τ Q x t h hne
    unfold axi_mcdma_wait_complete
    rw [h]
    simp only []
    rw [if_pos hne]
  refine ⟨?_, ?_, ?_, ?_, ?_, ?_, ?_, ?_⟩
  · intro h
    unfold axi_dma_wait_complete
    rw [h]
  · intro t h hne
    obtain ⟨hf, -, -⟩ := axi_dma_wait_tx_frame P fuel T w t h
    obtain ⟨-, -, -, -, -, h6, h7, h8, -⟩ := tx_wait_frame_fields _ _ hf
    exact ⟨hfail P w t h hne, h6, h7, h8⟩
  · intro t h hs
    unfold axi_dma_wait_complete
    rw [h]
    simp only []
    rw [if_neg (not_not.mpr hs)]
    rcases axi_dma_wait_rx P fuel T t.world with _ | r
    · rfl
    · rfl
  · intro t h hne
    refine ⟨hfail _ v t h hne, ?_⟩
    obtain ⟨evs, h1, h2⟩ := axi_dma_wait_tx_log rd clk fuel T v t h
    refine ⟨evs, h1, ?_⟩
    intro e he
    have := h2 e he
    simpa using this
  · intro h
    unfold axi_mcdma_wait_complete
    rw [h]
  · intro t h hne
    exact ⟨hmfail P wm t h hne, (axi_mcdma_wait_mm2s_frame P fuel channel T wm t h).1⟩
  · intro t h hs
    unfold axi_mcdma_wait_complete
    rw [h]
    simp only []
    rw [if_neg (not_not.mpr hs)]
    rcases axi_mcdma_wait_s2mm P fuel channel T t.world with _ | r
    · rfl
    · rfl
  · intro t h hne
    refine ⟨hmfail _ vm t h hne, ?_⟩
    obtain ⟨evs, h1, h2⟩ := (axi_mcdma_wait_mm2s_log rd clk fuel channel T vm t h).1
    refine ⟨evs, h1, ?_⟩
    intro e he
    have := h2 e he
    simpa using this

/-- Witness for C15: on the device-free platform (status always `0`) the
transmit wait with a 25 us timeout times out, `axi_dma_wait_complete` returns
that result and world, and the receive records are as before the call. -/
theorem C15_wait_complete_sequencing_witness :
    ∃ t, axi_dma_wait_tx Platform.quiet 20 25 (AxiDmaWorld.boot ()) = some t ∧
      t.ret = DMA_ERROR_TIMEOUT ∧
      axi_dma_wait_complete Platform.quiet 20 25 (AxiDmaWorld.boot ()) = some (t.ret, t.world) ∧
      t.world.g_AxiDma.rx_complete = (AxiDmaWorld.boot ()).g_AxiDma.rx_complete ∧
      t.world.g_AxiDma.rx_transfers = (AxiDmaWorld.boot ()).g_AxiDma.rx_transfers ∧
      t.world.g_AxiDma.rx_error = (AxiDmaWorld.boot ()).g_AxiDma.rx_error := by
  obtain ⟨t, ht⟩ := Option.isSome_iff_exists.mp
    (show (axi_dma_wait_tx Platform.quiet 20 25 (AxiDmaWorld.boot ())).isSome = true by decide)
  have hret : t.ret = DMA_ERROR_TIMEOUT := by
    have h : (axi_dma_wait_tx Platform.quiet 20 25 (AxiDmaWorld.boot ())).map (fun r => r.ret)
        = some DMA_ERROR_TIMEOUT := by decide
    rw [ht] at h
    exact Option.some.inj h
  have h := (C15_wait_complete_sequencing Platform.quiet (fun _ _ => 0) (fun _ => 0) 20 25 0
    (AxiDmaWorld.boot ()) (AxiMcdmaWorld.boot ()) (AxiDmaWorld.boot [])
    (AxiMcdmaWorld.boot [])).2.1 t ht (by rw [hret]; exact DMA_TIMEOUT_ne_SUCCESS)
  exact ⟨t, ht, hret, h⟩

/-- C16 does not hold for the MCDMA channels: when `axi_mcdma_wait_mm2s` (or
`axi_mcdma_wait_s2mm`) on a channel started by `axi_mcdma_start_mm2s`
(`axi_mcdma_start_s2mm`) returns `DMA_ERROR_TIMEOUT`, the busy flag of the
channel is still true.  The other half of the claim holds: on the recording
platform a wait that returns `DMA_ERROR_TIMEOUT` has written no register at
all, for the MCDMA channels and for the LPD DMA channels, and
`lpd_dma_wait_complete` does leave the busy flag of its channel false. -/
theorem C16_mcdma_timeout_keeps_busy {σ : Type} (P : Platform σ)
    (rd : Nat → List Event → Nat) (clk : List Event → Nat) (fuel T channel buf length : Nat) :
    (∀ (w s : AxiMcdmaWorld σ) t, axi_mcdma_start_mm2s P channel buf length w = (DMA_SUCCESS, s) →
      axi_mcdma_wait_mm2s P fuel channel T s = some t → t.ret = DMA_ERROR_TIMEOUT →
      (t.world.g_AxiMcdma.mm2s_channels channel).busy = true) ∧
    (∀ (w s : AxiMcdmaWorld σ) t, axi_mcdma_start_s2mm P channel buf length w = (DMA_SUCCESS, s) →
      axi_mcdma_wait_s2mm P fuel channel T s = some t → t.ret = DMA_ERROR_TIMEOUT →
      (t.world.g_AxiMcdma.s2mm_channels channel).busy = true) ∧
    (∀ (v : AxiMcdmaWorld (List Event)) t,
      axi_mcdma_wait_mm2s (Platform.recording rd clk) fuel channel T v = some t →
      t.ret = DMA_ERROR_TIMEOUT →
      ∃ evs, t.world.hw = v.hw ++ evs ∧ ∀ e, e ∈ evs → Event.isWrite e = false) ∧
    (∀ (v : AxiMcdmaWorld (List Event)) t,
      axi_mcdma_wait_s2mm (Platform.recording rd clk) fuel channel T v = some t →
      t.ret = DMA_ERROR_TIMEOUT →
      ∃ evs, t.world.hw = v.hw ++ evs ∧ ∀ e, e ∈ evs → Event.isWrite e = false) ∧
    (∀ (v : LpdDmaWorld (List Event)) t,
      lpd_dma_wait_complete (Platform.recording rd clk) fuel channel T v = some t →
      t.ret = DMA_ERROR_TIMEOUT →
      (t.world.g_LpdDma.channels channel).busy = false ∧
      ∃ evs, t.world.hw = v.hw ++ evs ∧ ∀ e, e ∈ evs → Event.isWrite e = false) := by
  have hflip : ∀ (a b : List Event), Continues (fun e => !Event.isWrite e) a b →
      ∃ evs, b = a ++ evs ∧ ∀ e, e ∈ evs → Event.isWrite e = false := by
    intro a b hc
    obtain ⟨evs, h1, h2⟩ := hc
    refine ⟨evs, h1, ?_⟩
    intro e he
    have := h2 e he
    simpa using this
  refine ⟨?_, ?_, ?_, ?_, ?_⟩
  · intro w s t hs ht hto
    rw [(axi_mcdma_wait_mm2s_frame P fuel channel T s t ht).2.2 hto]
    exact axi_mcdma_start_mm2s_busy P channel buf length w s hs
  · intro w s t hs ht hto
    rw [(axi_mcdma_wait_s2mm_frame P fuel channel T s t ht).2.2 hto]
    exact axi_mcdma_start_s2mm_busy P channel buf length w s hs
  · intro v t ht hto
    exact hflip _ _ ((axi_mcdma_wait_mm2s_log rd clk fuel channel T v t ht).2 hto)
  · intro v t ht hto
    exact hflip _ _ ((axi_mcdma_wait_s2mm_log rd clk fuel channel T v t ht).2 hto)
  · intro v t ht hto
    obtain ⟨h1, h2⟩ := lpd_dma_wait_timeout rd clk fuel channel T v t ht hto
    exact ⟨h1, hflip _ _ h2⟩

/-- Witness for C16: on the device-free platform, channel 0 of an initialised
MCDMA engine is started with a 64-byte buffer at `0x10000` and then waited for
with a 25 us timeout; the wait returns `DMA_ERROR_TIMEOUT` and the channel is
still marked busy. -/
theorem C16_mcdma_timeout_keeps_busy_witness :
    ∃ t, axi_mcdma_wait_mm2s Platform.quiet 20 0 25
        (axi_mcdma_start_mm2s Platform.quiet 0 0x10000 64 (AxiMcdmaWorld.ready ())).2 = some t ∧
      t.ret = DMA_ERROR_TIMEOUT ∧ (t.world.g_AxiMcdma.mm2s_channels 0).busy = true := by
  obtain ⟨t, ht⟩ := Option.isSome_iff_exists.mp
    (show (axi_mcdma_wait_mm2s Platform.quiet 20 0 25
      (axi_mcdma_start_mm2s Platform.quiet 0 0x10000 64 (AxiMcdmaWorld.ready ())).2).isSome = true
      by decide)
  have hret : t.ret = DMA_ERROR_TIMEOUT := by
    have h : (axi_mcdma_wait_mm2s Platform.quiet 20 0 25
        (axi_mcdma_start_mm2s Platform.quiet 0 0x10000 64 (AxiMcdmaWorld.ready ())).2).map
        (fun r => r.ret) = some DMA_ERROR_TIMEOUT := by decide
    rw [ht] at h
    exact Option.some.inj h
  exact ⟨t, ht, hret,
    (C16_mcdma_timeout_keeps_busy Platform.quiet (fun _ _ => 0) (fun _ => 0) 20 25 0 0x10000 64).1
      (AxiMcdmaWorld.ready ()) _ t (Prod.ext (by decide) rfl) ht hret⟩

/-- C17 does not hold for two of the engines.  With the engine flag
`initialized` false, `axi_dma_simple_transfer`, `axi_dma_sg_transfer`,
`axi_cdma_simple_transfer` and `axi_cdma_sg_transfer` return
`DMA_ERROR_NOT_INIT` and leave the whole state as it was, and so does
`lpd_dma_transfer` on a channel whose own flag is false (as before
`lpd_dma_init`).  But `axi_mcdma_start_mm2s` and `axi_mcdma_start_s2mm` return
`DMA_ERROR_INVALID_PARAM` (state unchanged), and `lpd_dma_transfer` looks only
at the flag of the channel: in a state where `g_LpdDma.initialized` is false
and the channel flag is still true (as `lpd_dma_cleanup` leaves it) an idle
channel is started, the call returns `DMA_SUCCESS`, sets the busy flag and, on
the recording platform, writes the start bit to the control register. -/
theorem C17_start_when_not_initialized {σ : Type} (P : Platform σ)
    (rd : Nat → List Event → Nat) (clk : List Event → Nat) (channel src dst length : Nat) :
    (∀ w : AxiDmaWorld σ, w.g_AxiDma.initialized = false →
      axi_dma_simple_transfer P src dst length w = (DMA_ERROR_NOT_INIT, w) ∧
      axi_dma_sg_transfer P src dst length w = (DMA_ERROR_NOT_INIT, w)) ∧
    (∀ w : AxiCdmaWorld σ, w.g_AxiCdma.initialized = false →
      axi_cdma_simple_transfer P src dst length w = (DMA_ERROR_NOT_INIT, w) ∧
      axi_cdma_sg_transfer P src dst length w = (DMA_ERROR_NOT_INIT, w)) ∧
    (∀ w : AxiMcdmaWorld σ, w.g_AxiMcdma.initialized = false →
      axi_mcdma_start_mm2s P channel src length w = (DMA_ERROR_INVALID_PARAM, w) ∧
      axi_mcdma_start_s2mm P channel dst length w = (DMA_ERROR_INVALID_PARAM, w)) ∧
    (∀ w : LpdDmaWorld σ, channel < LPD_DMA_NUM_CHANNELS →
      (w.g_LpdDma.channels channel).initialized = false →
      lpd_dma_transfer P channel src dst length w = (DMA_ERROR_NOT_INIT, w)) ∧
    (∀ w : LpdDmaWorld σ, w.g_LpdDma.initialized = false → channel < LPD_DMA_NUM_CHANNELS →
      (w.g_LpdDma.channels channel).initialized = true →
      (lpd_dma_is_busy P channel w).1 = false →
      (lpd_dma_transfer P channel src dst length w).1 = DMA_SUCCESS ∧
      ((lpd_dma_transfer P channel src dst length w).2.g_LpdDma.channels channel).busy = true) ∧
    (∀ v : LpdDmaWorld (List Event), v.g_LpdDma.initialized = false →
      (lpd_dma_transfer (Platform.recording rd clk) channel src dst length v).1 = DMA_SUCCESS →
      Event.Out32 (u64 (v.g_ChannelBaseAddrs channel + XLPDDMA_ZDMA_CH_CTRL2)) 1
        ∈ (lpd_dma_transfer (Platform.recording rd clk) channel src dst length v).2.hw) := by
  refine ⟨?_, ?_, ?_, ?_, ?_, ?_⟩
  · intro w h
    exact ⟨axi_dma_simple_transfer_not_init P src dst length w h,
      axi_dma_sg_transfer_not_init P src dst length w h⟩
  · intro w h
    exact ⟨axi_cdma_simple_transfer_not_init P src dst length w h,
      axi_cdma_sg_transfer_not_init P src dst length w h⟩
  · intro w h
    exact ⟨axi_mcdma_start_mm2s_not_init P channel src length w h,
      axi_mcdma_start_s2mm_not_init P channel dst length w h⟩
  · intro w hc h
    exact lpd_dma_transfer_channel_not_init P channel src dst length w hc h
  · intro w _ hc h hb
    exact lpd_dma_transfer_proceeds P channel src dst length w hc h hb
  · intro v _ hs
    rw [lpd_dma_transfer_trace rd clk channel src dst length v hs]
    simp

/-- Witness for C17: on the recording platform whose registers read `0`, after
`lpd_dma_init()` and `lpd_dma_cleanup()` the engine flag is false, and
`lpd_dma_transfer(0, 0x10000, 0x20000, 64)` returns `DMA_SUCCESS`, marks
channel 0 busy and writes `1` to its control register at `0xFFA80200`. -/
theorem C17_start_when_not_initialized_witness :
    LpdDmaWorld.cleanedUp.g_LpdDma.initialized = false ∧
    (lpd_dma_transfer (Platform.recording (fun _ _ => 0) (fun _ => 0)) 0 0x10000 0x20000 64
      LpdDmaWorld.cleanedUp).1 = DMA_SUCCESS ∧
    ((lpd_dma_transfer (Platform.recording (fun _ _ => 0) (fun _ => 0)) 0 0x10000 0x20000 64
      LpdDmaWorld.cleanedUp).2.g_LpdDma.channels 0).busy = true ∧
    Event.Out32 0xFFA80200 1
      ∈ (lpd_dma_transfer (Platform.recording (fun _ _ => 0) (fun _ => 0)) 0 0x10000 0x20000 64
          LpdDmaWorld.cleanedUp).2.hw :=
  have h := (C17_start_when_not_initialized (Platform.recording (fun _ _ => 0) (fun _ => 0))
    (fun _ _ => 0) (fun _ => 0) 0 0x10000 0x20000 64).2.2.2.2
  have h1 := h.1 LpdDmaWorld.cleanedUp (by decide) (by decide) (by decide) (by decide)
  ⟨by decide, h1.1, h1.2, h.2 LpdDmaWorld.cleanedUp (by decide) h1.1⟩

/-- C18 (as stated, refuted): on an initialised engine without scatter/gather
support and with `max_transfer_len = 100`, `axi_dma_sg_transfer` with
`length = 101` returns `DMA_ERROR_NOT_INIT`, not `DMA_ERROR_INVALID_PARAM`: the
`sg_mode` check precedes the length check. -/
theorem C18_counterexample :
    (AxiDmaWorld.simpleOnly ()).g_AxiDma.initialized = true ∧
    101 > (AxiDmaWorld.simpleOnly ()).g_AxiDma.max_transfer_len ∧
    (axi_dma_sg_transfer Platform.quiet 0x10000 0x20000 101 (AxiDmaWorld.simpleOnly ())).1
      = DMA_ERROR_NOT_INIT ∧
    DMA_ERROR_NOT_INIT ≠ DMA_ERROR_INVALID_PARAM := by
  decide

/-- C18 (amended): on an initialised AXI DMA engine, for every
`length > max_transfer_len`, `axi_dma_simple_transfer` returns
`DMA_ERROR_INVALID_PARAM`, and so does `axi_dma_sg_transfer` when the engine is
in scatter/gather mode (without it `axi_dma_sg_transfer` returns
`DMA_ERROR_NOT_INIT` for every length); in each of these cases the world is
exactly as before the call: no register written, no descriptor modified, the
head indices and the completion flags unchanged.  For every
`length <= max_transfer_len` neither function returns
`DMA_ERROR_INVALID_PARAM`. -/
theorem C18_length_check {σ : Type} (P : Platform σ) (w : AxiDmaWorld σ)
    (src dst length : Nat) (hinit : w.g_AxiDma.initialized = true) :
    (length > w.g_AxiDma.max_transfer_len →
      axi_dma_simple_transfer P src dst length w = (DMA_ERROR_INVALID_PARAM, w)) ∧
    (length > w.g_AxiDma.max_transfer_len → w.g_AxiDma.sg_mode = true →
      axi_dma_sg_transfer P src dst length w = (DMA_ERROR_INVALID_PARAM, w)) ∧
    (w.g_AxiDma.sg_mode = false →
      axi_dma_sg_transfer P src dst length w = (DMA_ERROR_NOT_INIT, w)) ∧
    (length ≤ w.g_AxiDma.max_transfer_len →
      (axi_dma_simple_transfer P src dst length w).1 ≠ DMA_ERROR_INVALID_PARAM ∧
      (axi_dma_sg_transfer P src dst length w).1 ≠ DMA_ERROR_INVALID_PARAM) := by
  refine ⟨?_, ?_, ?_, ?_⟩
  · intro h
    exact axi_dma_simple_transfer_too_long P src dst length w hinit h
  · intro h hsg
    exact axi_dma_sg_transfer_too_long P src dst length w hinit hsg h
  · intro hsg
    exact axi_dma_sg_transfer_no_sg P src dst length w hsg
  · intro h
    constructor
    · rw [axi_dma_simple_transfer_run P src dst length w hinit h]
      exact DMA_INVALID_PARAM_ne_SUCCESS.symm
    · rcases Bool.eq_false_or_eq_true w.g_AxiDma.sg_mode with hsg | hsg
      · rw [axi_dma_sg_transfer_run P src dst length w hinit hsg h]
        exact DMA_INVALID_PARAM_ne_SUCCESS.symm
      · rw [axi_dma_sg_transfer_no_sg P src dst length w hsg]
        exact DMA_NOT_INIT_ne_INVALID_PARAM

/-- Witness for C18: the scatter/gather engine with rings of four slots and
`max_transfer_len = 0x3FFFFFF`; a length of `0x4000000` is rejected by both
functions and the head index stays at 0, a length of `0x3FFFFFF` is accepted. -/
theorem C18_length_check_witness :
    (axi_dma_simple_transfer Platform.quiet 0x10000 0x20000 0x4000000
      (AxiDmaWorld.ready Platform.quiet ())).1 = DMA_ERROR_INVALID_PARAM ∧
    (axi_dma_sg_transfer Platform.quiet 0x10000 0x20000 0x4000000
      (AxiDmaWorld.ready Platform.quiet ())).1 = DMA_ERROR_INVALID_PARAM ∧
    (axi_dma_sg_transfer Platform.quiet 0x10000 0x20000 0x4000000
      (AxiDmaWorld.ready Platform.quiet ())).2.g_AxiDma.tx_head = 0 ∧
    (axi_dma_sg_transfer Platform.quiet 0x10000 0x20000 0x3FFFFFF
      (AxiDmaWorld.ready Platform.quiet ())).1 ≠ DMA_ERROR_INVALID_PARAM :=
  have h := C18_length_check Platform.quiet (AxiDmaWorld.ready Platform.quiet ()) 0x10000 0x20000
    0x4000000 (by decide)
  have h' := C18_length_check Platform.quiet (AxiDmaWorld.ready Platform.quiet ()) 0x10000
    0x20000 0x3FFFFFF (by decide)
  ⟨congrArg Prod.fst (h.1 (by decide)), congrArg Prod.fst (h.2.1 (by decide) (by decide)),
    (congrArg (fun r => r.2.g_AxiDma.tx_head) (h.2.1 (by decide) (by decide))).trans (by decide),
    (h'.2.2.2 (by decide)).2⟩

/-- C19: on the platform that records every primitive call, with any register
contents.  In the events of a successful `axi_dma_simple_transfer` the
outbound trigger (TX length register) is written, and every write to a
register of the TX channel comes after a write to the RX length register.  In
those of a successful `axi_dma_sg_transfer` every write to a TX channel
register comes after the writes to the RX tail-descriptor register (low and
high word).  In those of a successful `axi_mcdma_transfer` every write to
a register of the MM2S side of the channel comes after the writes to the S2MM
tail-descriptor register.  An AXI DMA call that does not succeed leaves the
world as it was, and when `axi_mcdma_start_s2mm` returns an error,
`axi_mcdma_transfer` returns that error with the world as it was: no outbound
register has been written. -/
theorem C19_inbound_armed_first (rd : Nat → List Event → Nat) (clk : List Event → Nat)
    (w : AxiDmaWorld (List Event)) (wm : AxiMcdmaWorld (List Event))
    (src dst length channel : Nat) :
    ((axi_dma_simple_transfer (Platform.recording rd clk) src dst length w).1 = DMA_SUCCESS →
      ∃ evs, (axi_dma_simple_transfer (Platform.recording rd clk) src dst length w).2.hw
          = w.hw ++ evs ∧
        (∃ v, Event.Out32
          (u64 (w.g_AxiDma.base_addr + XAXIDMA_TX_OFFSET + XAXIDMA_BUFFLEN_OFFSET)) v ∈ evs) ∧
        Precedes
          (Event.isWriteTo (u64 (w.g_AxiDma.base_addr + XAXIDMA_RX_OFFSET + XAXIDMA_BUFFLEN_OFFSET)))
          (Event.isWriteIn (w.g_AxiDma.base_addr + XAXIDMA_TX_OFFSET) 0x30) evs) ∧
    ((axi_dma_simple_transfer (Platform.recording rd clk) src dst length w).1 ≠ DMA_SUCCESS →
      (axi_dma_simple_transfer (Platform.recording rd clk) src dst length w).2 = w) ∧
    ((axi_dma_sg_transfer (Platform.recording rd clk) src dst length w).1 = DMA_SUCCESS →
      ∃ evs, (axi_dma_sg_transfer (Platform.recording rd clk) src dst length w).2.hw
          = w.hw ++ evs ∧
        (∃ v, Event.Out32
          (u64 (w.g_AxiDma.base_addr + XAXIDMA_TX_OFFSET + XAXIDMA_TDESC_OFFSET)) v ∈ evs) ∧
        Precedes
          (Event.isWriteTo (u64 (w.g_AxiDma.base_addr + XAXIDMA_RX_OFFSET + XAXIDMA_TDESC_OFFSET)))
          (Event.isWriteIn (w.g_AxiDma.base_addr + XAXIDMA_TX_OFFSET) 0x30) evs ∧
        Precedes
          (Event.isWriteTo
            (u64 (w.g_AxiDma.base_addr + XAXIDMA_RX_OFFSET + XAXIDMA_TDESC_MSB_OFFSET)))
          (Event.isWriteIn (w.g_AxiDma.base_addr + XAXIDMA_TX_OFFSET) 0x30) evs) ∧
    ((axi_dma_sg_transfer (Platform.recording rd clk) src dst length w).1 ≠ DMA_SUCCESS →
      (axi_dma_sg_transfer (Platform.recording rd clk) src dst length w).2 = w) ∧
    ((axi_mcdma_transfer (Platform.recording rd clk) channel src dst length wm).1 = DMA_SUCCESS →
      ∃ evs, (axi_mcdma_transfer (Platform.recording rd clk) channel src dst length wm).2.hw
          = wm.hw ++ evs ∧
        (∃ v, Event.Out32 (u64 (wm.g_AxiMcdma.base_addr
          + u32 (MCDMA_MM2S_BASE_OFFSET + u32 (channel * MCDMA_CHANNEL_OFFSET))
          + XMCDMA_CH_TDESC_OFFSET)) v ∈ evs) ∧
        Precedes
          (Event.isWriteTo (u64 (wm.g_AxiMcdma.base_addr
            + u32 (MCDMA_S2MM_BASE_OFFSET + u32 (channel * MCDMA_CHANNEL_OFFSET))
            + XMCDMA_CH_TDESC_OFFSET)))
          (Event.isWriteIn (wm.g_AxiMcdma.base_addr
            + u32 (MCDMA_MM2S_BASE_OFFSET + u32 (channel * MCDMA_CHANNEL_OFFSET))) 0x40) evs ∧
        Precedes
          (Event.isWriteTo (u64 (wm.g_AxiMcdma.base_addr
            + u32 (MCDMA_S2MM_BASE_OFFSET + u32 (channel * MCDMA_CHANNEL_OFFSET))
            + XMCDMA_CH_TDESC_MSB_OFFSET)))
          (Event.isWriteIn (wm.g_AxiMcdma.base_addr
            + u32 (MCDMA_MM2S_BASE_OFFSET + u32 (channel * MCDMA_CHANNEL_OFFSET))) 0x40) evs) ∧
    ((axi_mcdma_start_s2mm (Platform.recording rd clk) channel dst length wm).1 ≠ DMA_SUCCESS →
      axi_mcdma_transfer (Platform.recording rd clk) channel src dst length wm
        = ((axi_mcdma_start_s2mm (Platform.recording rd clk) channel dst length wm).1, wm)) := by
  have erx : ∀ k v, k < 0x30 → Event.isWriteIn (w.g_AxiDma.base_addr + XAXIDMA_TX_OFFSET) 0x30
      (Event.Out32 (u64 (w.g_AxiDma.base_addr + XAXIDMA_RX_OFFSET + k)) v) = false :=
    fun k v hk => axi_rx_write_not_tx _ k v hk
  refine ⟨?_, ?_, ?_, ?_, ?_, ?_⟩
  · intro h
    obtain ⟨h1, h2⟩ := axi_dma_simple_transfer_success _ src dst length w h
    obtain ⟨v, v', ht⟩ := axi_dma_simple_transfer_trace rd clk src dst length w h1 h2
    refine ⟨_, ht, ⟨length, by simp⟩, ?_⟩
    apply precedes_of_guardedBy
    simp only [guardedBy, isWriteIn_invalidate, isWriteIn_In32, isWriteIn_flush, isWriteTo_self,
      erx _ _ (show XAXIDMA_DSTADDR_OFFSET < 0x30 by decide),
      erx _ _ (show XAXIDMA_DSTADDR_OFFSET + 4 < 0x30 by decide),
      erx _ _ (show XAXIDMA_CR_OFFSET < 0x30 by decide),
      erx _ _ (show XAXIDMA_BUFFLEN_OFFSET < 0x30 by decide),
      Bool.not_false, Bool.true_and, Bool.true_or, Bool.or_true]
  · exact axi_dma_simple_transfer_fail _ src dst length w
  · intro h
    have hr : axi_dma_sg_transfer (Platform.recording rd clk) src dst length w
        = (DMA_SUCCESS, (axi_dma_sg_transfer (Platform.recording rd clk) src dst length w).2) :=
      Prod.ext h rfl
    obtain ⟨-, -, -, hp⟩ := axi_dma_sg_transfer_success _ src dst length w _ hr
    obtain ⟨v, v', ht⟩ := axi_dma_sg_post_trace rd clk src dst length w
    rw [hp]
    refine ⟨_, ht,
      ⟨u32 (u64 (w.g_AxiDma.tx_ring + sizeof_SgDesc * w.g_AxiDma.tx_head) &&& 0xFFFFFFFF),
        by simp⟩, ?_, ?_⟩
    · apply precedes_of_guardedBy
      simp only [guardedBy, isWriteIn_invalidate, isWriteIn_In32, isWriteIn_flush, isWriteTo_self,
        erx _ _ (show XAXIDMA_CDESC_OFFSET < 0x30 by decide),
        erx _ _ (show XAXIDMA_CDESC_MSB_OFFSET < 0x30 by decide),
        erx _ _ (show XAXIDMA_CR_OFFSET < 0x30 by decide),
        erx _ _ (show XAXIDMA_TDESC_OFFSET < 0x30 by decide),
        Bool.not_false, Bool.true_and, Bool.true_or, Bool.or_true]
    · apply precedes_of_guardedBy
      simp only [guardedBy, isWriteIn_invalidate, isWriteIn_In32, isWriteIn_flush, isWriteTo_self,
        erx _ _ (show XAXIDMA_CDESC_OFFSET < 0x30 by decide),
        erx _ _ (show XAXIDMA_CDESC_MSB_OFFSET < 0x30 by decide),
        erx _ _ (show XAXIDMA_CR_OFFSET < 0x30 by decide),
        erx _ _ (show XAXIDMA_TDESC_OFFSET < 0x30 by decide),
        erx _ _ (show XAXIDMA_TDESC_MSB_OFFSET < 0x30 by decide),
        Bool.not_false, Bool.true_and, Bool.true_or, Bool.or_true]
  · exact axi_dma_sg_transfer_fail _ src dst length w
  · intro h
    obtain ⟨h1, h2, h3⟩ := axi_mcdma_transfer_success _ channel src dst length wm h
    obtain ⟨d, v, ht⟩ := axi_mcdma_start_s2mm_trace rd clk channel dst length wm h1
    obtain ⟨d', v', ht'⟩ := axi_mcdma_start_mm2s_trace rd clk channel src length _ h2
    rw [axi_mcdma_start_s2mm_base, ht, List.append_assoc] at ht'
    rw [h3]
    have es : ∀ k v, k < 0x40 → Event.isWriteIn (wm.g_AxiMcdma.base_addr
          + u32 (MCDMA_MM2S_BASE_OFFSET + u32 (channel * MCDMA_CHANNEL_OFFSET))) 0x40
        (Event.Out32 (u64 (wm.g_AxiMcdma.base_addr
          + u32 (MCDMA_S2MM_BASE_OFFSET + u32 (channel * MCDMA_CHANNEL_OFFSET)) + k)) v) = false :=
      fun k v hk => mcdma_s2mm_write_not_mm2s _ channel k v hk
    refine ⟨_, ht', ⟨u32 (d' &&& 0xFFFFFFFF), by simp⟩, ?_, ?_⟩
    · apply precedes_of_guardedBy
      simp only [List.cons_append, List.nil_append, guardedBy, isWriteIn_invalidate,
        isWriteIn_In32, isWriteIn_flush, isWriteTo_self,
        es _ _ (show XMCDMA_CH_CDESC_OFFSET < 0x40 by decide),
        es _ _ (show XMCDMA_CH_CDESC_MSB_OFFSET < 0x40 by decide),
        es _ _ (show XMCDMA_CH_CR_OFFSET < 0x40 by decide),
        es _ _ (show XMCDMA_CH_TDESC_OFFSET < 0x40 by decide),
        Bool.not_false, Bool.true_and, Bool.true_or, Bool.or_true]
    · apply precedes_of_guardedBy
      simp only [List.cons_append, List.nil_append, guardedBy, isWriteIn_invalidate,
        isWriteIn_In32, isWriteIn_flush, isWriteTo_self,
        es _ _ (show XMCDMA_CH_CDESC_OFFSET < 0x40 by decide),
        es _ _ (show XMCDMA_CH_CDESC_MSB_OFFSET < 0x40 by decide),
        es _ _ (show XMCDMA_CH_CR_OFFSET < 0x40 by decide),
        es _ _ (show XMCDMA_CH_TDESC_OFFSET < 0x40 by decide),
        es _ _ (show XMCDMA_CH_TDESC_MSB_OFFSET < 0x40 by decide),
        Bool.not_false, Bool.true_and, Bool.true_or, Bool.or_true]
  · exact axi_mcdma_transfer_s2mm_fail _ channel src dst length wm

/-- Witness for C19: a simple transfer of 64 bytes on the initialised engine at
`0xA4000000`, recorded with all registers reading 0: the TX length register
`0xA4000028` is written, and only after the RX length register `0xA4000058`. -/
theorem C19_inbound_armed_first_witness :
    ∃ evs, (axi_dma_simple_transfer (Platform.recording (fun _ _ => 0) (fun _ => 0))
          0x10000 0x20000 64
          (AxiDmaWorld.ready (Platform.recording (fun _ _ => 0) (fun _ => 0)) [])).2.hw
        = (AxiDmaWorld.ready (Platform.recording (fun _ _ => 0) (fun _ => 0)) []).hw ++ evs ∧
      (∃ v, Event.Out32 0xA4000028 v ∈ evs) ∧
      Precedes (Event.isWriteTo 0xA4000058) (Event.isWriteIn 0xA4000000 0x30) evs :=
  (C19_inbound_armed_first (fun _ _ => 0) (fun _ => 0)
    (AxiDmaWorld.ready (Platform.recording (fun _ _ => 0) (fun _ => 0)) [])
    (AxiMcdmaWorld.boot []) 0x10000 0x20000 64 0).1 (by decide)

/-- C20: on the platform that records every primitive call, with any register
contents, the events of a successful transfer start contain the write that
triggers each channel, a cache flush of exactly `(src, length)` before every
register write of the read side, and a cache invalidate of exactly
`(dst, length)` before every register write of the write side.  For
`axi_dma_simple_transfer` and `axi_mcdma_transfer` the read side is the TX /
MM2S channel (trigger: TX length register, MM2S tail descriptor) and the
invalidate precedes every register write of the call; for
`axi_dma_sg_transfer`, `axi_cdma_simple_transfer`, `axi_cdma_sg_transfer` and
`lpd_dma_transfer` both cache operations precede every register write of the
call (triggers: tail descriptor registers, bytes-to-transfer register, tail
descriptor register, `CTRL2 = 1`). -/
theorem C20_cache_before_trigger (rd : Nat → List Event → Nat) (clk : List Event → Nat)
    (w : AxiDmaWorld (List Event)) (wc : AxiCdmaWorld (List Event))
    (wm : AxiMcdmaWorld (List Event)) (wl : LpdDmaWorld (List Event))
    (src dst length channel : Nat) :
    ((axi_dma_simple_transfer (Platform.recording rd clk) src dst length w).1 = DMA_SUCCESS →
      ∃ evs, (axi_dma_simple_transfer (Platform.recording rd clk) src dst length w).2.hw
          = w.hw ++ evs ∧
        Event.Out32 (u64 (w.g_AxiDma.base_addr + XAXIDMA_TX_OFFSET + XAXIDMA_BUFFLEN_OFFSET))
          length ∈ evs ∧
        Event.Out32 (u64 (w.g_AxiDma.base_addr + XAXIDMA_RX_OFFSET + XAXIDMA_BUFFLEN_OFFSET))
          length ∈ evs ∧
        Precedes (Event.isFlush src length)
          (Event.isWriteIn (w.g_AxiDma.base_addr + XAXIDMA_TX_OFFSET) 0x30) evs ∧
        Precedes (Event.isInvalidate dst length) Event.isWrite evs) ∧
    ((axi_dma_sg_transfer (Platform.recording rd clk) src dst length w).1 = DMA_SUCCESS →
      ∃ evs, (axi_dma_sg_transfer (Platform.recording rd clk) src dst length w).2.hw
          = w.hw ++ evs ∧
        (∃ v, Event.Out32
          (u64 (w.g_AxiDma.base_addr + XAXIDMA_TX_OFFSET + XAXIDMA_TDESC_OFFSET)) v ∈ evs) ∧
        (∃ v, Event.Out32
          (u64 (w.g_AxiDma.base_addr + XAXIDMA_RX_OFFSET + XAXIDMA_TDESC_OFFSET)) v ∈ evs) ∧
        Precedes (Event.isFlush src length) Event.isWrite evs ∧
        Precedes (Event.isInvalidate dst length) Event.isWrite evs) ∧
    ((axi_cdma_simple_transfer (Platform.recording rd clk) src dst length wc).1 = DMA_SUCCESS →
      ∃ evs, (axi_cdma_simple_transfer (Platform.recording rd clk) src dst length wc).2.hw
          = wc.hw ++ evs ∧
        Event.Out32 (u64 (wc.g_AxiCdma.base_addr + XAXICDMA_BTT_OFFSET)) length ∈ evs ∧
        Precedes (Event.isFlush src length) Event.isWrite evs ∧
        Precedes (Event.isInvalidate dst length) Event.isWrite evs) ∧
    ((axi_cdma_sg_transfer (Platform.recording rd clk) src dst length wc).1 = DMA_SUCCESS →
      ∃ evs, (axi_cdma_sg_transfer (Platform.recording rd clk) src dst length wc).2.hw
          = wc.hw ++ evs ∧
        (∃ v, Event.Out32 (u64 (wc.g_AxiCdma.base_addr + XAXICDMA_TDESC_OFFSET)) v ∈ evs) ∧
        Precedes (Event.isFlush src length) Event.isWrite evs ∧
        Precedes (Event.isInvalidate dst length) Event.isWrite evs) ∧
    ((axi_mcdma_transfer (Platform.recording rd clk) channel src dst length wm).1 = DMA_SUCCESS →
      ∃ evs, (axi_mcdma_transfer (Platform.recording rd clk) channel src dst length wm).2.hw
          = wm.hw ++ evs ∧
        (∃ v, Event.Out32 (u64 (wm.g_AxiMcdma.base_addr
          + u32 (MCDMA_MM2S_BASE_OFFSET + u32 (channel * MCDMA_CHANNEL_OFFSET))
          + XMCDMA_CH_TDESC_OFFSET)) v ∈ evs) ∧
        (∃ v, Event.Out32 (u64 (wm.g_AxiMcdma.base_addr
          + u32 (MCDMA_S2MM_BASE_OFFSET + u32 (channel * MCDMA_CHANNEL_OFFSET))
          + XMCDMA_CH_TDESC_OFFSET)) v ∈ evs) ∧
        Precedes (Event.isFlush src length)
          (Event.isWriteIn (wm.g_AxiMcdma.base_addr
            + u32 (MCDMA_MM2S_BASE_OFFSET + u32 (channel * MCDMA_CHANNEL_OFFSET))) 0x40) evs ∧
        Precedes (Event.isInvalidate dst length) Event.isWrite evs) ∧
    ((lpd_dma_transfer (Platform.recording rd clk) channel src dst length wl).1 = DMA_SUCCESS →
      ∃ evs, (lpd_dma_transfer (Platform.recording rd clk) channel src dst length wl).2.hw
          = wl.hw ++ evs ∧
        Event.Out32 (u64 (wl.g_ChannelBaseAddrs channel + XLPDDMA_ZDMA_CH_CTRL2)) 1 ∈ evs ∧
        Precedes (Event.isFlush src length) Event.isWrite evs ∧
        Precedes (Event.isInvalidate dst length) Event.isWrite evs) := by
  have erx : ∀ k v, k < 0x30 → Event.isWriteIn (w.g_AxiDma.base_addr + XAXIDMA_TX_OFFSET) 0x30
      (Event.Out32 (u64 (w.g_AxiDma.base_addr + XAXIDMA_RX_OFFSET + k)) v) = false :=
    fun k v hk => axi_rx_write_not_tx _ k v hk
  have es : ∀ k v, k < 0x40 → Event.isWriteIn (wm.g_AxiMcdma.base_addr
        + u32 (MCDMA_MM2S_BASE_OFFSET + u32 (channel * MCDMA_CHANNEL_OFFSET))) 0x40
      (Event.Out32 (u64 (wm.g_AxiMcdma.base_addr
        + u32 (MCDMA_S2MM_BASE_OFFSET + u32 (channel * MCDMA_CHANNEL_OFFSET)) + k)) v) = false :=
    fun k v hk => mcdma_s2mm_write_not_mm2s _ channel k v hk
  refine ⟨?_, ?_, ?_, ?_, ?_, ?_⟩
  · intro h
    obtain ⟨h1, h2⟩ := axi_dma_simple_transfer_success _ src dst length w h
    obtain ⟨v, v', ht⟩ := axi_dma_simple_transfer_trace rd clk src dst length w h1 h2
    refine ⟨_, ht, by simp, by simp, ?_, ?_⟩
    · apply precedes_of_guardedBy
      simp only [guardedBy, isWriteIn_invalidate, isWriteIn_In32, isWriteIn_flush,
        Event.isFlush, and_self, decide_True,
        erx _ _ (show XAXIDMA_DSTADDR_OFFSET < 0x30 by decide),
        erx _ _ (show XAXIDMA_DSTADDR_OFFSET + 4 < 0x30 by decide),
        erx _ _ (show XAXIDMA_CR_OFFSET < 0x30 by decide),
        erx _ _ (show XAXIDMA_BUFFLEN_OFFSET < 0x30 by decide),
        Bool.not_false, Bool.true_and, Bool.true_or, Bool.or_true, Bool.false_or]
    · apply precedes_of_guardedBy
      simp [guardedBy, Event.isWrite, Event.isInvalidate]
  · intro h
    have hr : axi_dma_sg_transfer (Platform.recording rd clk) src dst length w
        = (DMA_SUCCESS, (axi_dma_sg_transfer (Platform.recording rd clk) src dst length w).2) :=
      Prod.ext h rfl
    obtain ⟨-, -, -, hp⟩ := axi_dma_sg_transfer_success _ src dst length w _ hr
    obtain ⟨v, v', ht⟩ := axi_dma_sg_post_trace rd clk src dst length w
    rw [hp]
    refine ⟨_, ht,
      ⟨u32 (u64 (w.g_AxiDma.tx_ring + sizeof_SgDesc * w.g_AxiDma.tx_head) &&& 0xFFFFFFFF),
        by simp⟩,
      ⟨u32 (u64 (w.g_AxiDma.rx_ring + sizeof_SgDesc * w.g_AxiDma.rx_head) &&& 0xFFFFFFFF),
        by simp⟩, ?_, ?_⟩
    · apply precedes_of_guardedBy
      simp [guardedBy, Event.isWrite, Event.isFlush]
    · apply precedes_of_guardedBy
      simp [guardedBy, Event.isWrite, Event.isInvalidate]
  · intro h
    have ht := axi_cdma_simple_transfer_trace rd clk src dst length wc h
    refine ⟨_, ht, by simp, ?_, ?_⟩
    · apply precedes_of_guardedBy
      simp [guardedBy, Event.isWrite, Event.isFlush]
    · apply precedes_of_guardedBy
      simp [guardedBy, Event.isWrite, Event.isInvalidate]
  · intro h
    obtain ⟨d, ht⟩ := axi_cdma_sg_transfer_trace rd clk src dst length wc h
    refine ⟨_, ht, ⟨u32 (d &&& 0xFFFFFFFF), by simp⟩, ?_, ?_⟩
    · apply precedes_of_guardedBy
      simp [guardedBy, Event.isWrite, Event.isFlush]
    · apply precedes_of_guardedBy
      simp [guardedBy, Event.isWrite, Event.isInvalidate]
  · intro h
    obtain ⟨h1, h2, h3⟩ := axi_mcdma_transfer_success _ channel src dst length wm h
    obtain ⟨d, v, ht⟩ := axi_mcdma_start_s2mm_trace rd clk channel dst length wm h1
    obtain ⟨d', v', ht'⟩ := axi_mcdma_start_mm2s_trace rd clk channel src length _ h2
    rw [axi_mcdma_start_s2mm_base, ht, List.append_assoc] at ht'
    rw [h3]
    refine ⟨_, ht', ⟨u32 (d' &&& 0xFFFFFFFF), by simp⟩, ⟨u32 (d &&& 0xFFFFFFFF), by simp⟩,
      ?_, ?_⟩
    · apply precedes_of_guardedBy
      simp only [List.cons_append, List.nil_append, guardedBy, isWriteIn_invalidate,
        isWriteIn_In32, isWriteIn_flush, Event.isFlush, and_self, decide_True,
        es _ _ (show XMCDMA_CH_CDESC_OFFSET < 0x40 by decide),
        es _ _ (show XMCDMA_CH_CDESC_MSB_OFFSET < 0x40 by decide),
        es _ _ (show XMCDMA_CH_CR_OFFSET < 0x40 by decide),
        es _ _ (show XMCDMA_CH_TDESC_OFFSET < 0x40 by decide),
        es _ _ (show XMCDMA_CH_TDESC_MSB_OFFSET < 0x40 by decide),
        Bool.not_false, Bool.true_and, Bool.true_or, Bool.or_true, Bool.false_or]
    · apply precedes_of_guardedBy
      simp [guardedBy, Event.isWrite, Event.isInvalidate]
  · intro h
    have ht := lpd_dma_transfer_trace rd clk channel src dst length wl h
    refine ⟨_, ht, by simp, ?_, ?_⟩
    · apply precedes_of_guardedBy
      simp [guardedBy, Event.isWrite, Event.isFlush]
    · apply precedes_of_guardedBy
      simp [guardedBy, Event.isWrite, Event.isInvalidate]

/-- Witness for C20: an `axi_cdma_simple_transfer` of 256 bytes on the
initialised engine at `0xA4010000`, recorded with every register reading `2`
(idle): the bytes-to-transfer register `0xA4010028` is written with 256, after
the flush of `(0x10000, 256)` and the invalidate of `(0x20000, 256)`. -/
theorem C20_cache_before_trigger_witness :
    ∃ evs, (axi_cdma_simple_transfer (Platform.recording (fun _ _ => 2) (fun _ => 0))
          0x10000 0x20000 256 (AxiCdmaWorld.ready [])).2.hw = [] ++ evs ∧
      Event.Out32 0xA4010028 256 ∈ evs ∧
      Precedes (Event.isFlush 0x10000 256) Event.isWrite evs ∧
      Precedes (Event.isInvalidate 0x20000 256) Event.isWrite evs :=
  (C20_cache_before_trigger (fun _ _ => 2) (fun _ => 0) (AxiDmaWorld.boot [])
    (AxiCdmaWorld.ready []) (AxiMcdmaWorld.boot []) (LpdDmaWorld.boot [] (fun _ => 0))
    0x10000 0x20000 256 0).2.2.1 (by decide)

/-! ## C21 -/

/-- C22: for every buffer, size, seed and state of the statics, and for each of
the deterministic patterns INCREMENTAL, ALL_ONES, ALL_ZEROS and CHECKERBOARD
(expected byte at offset `i`: `i mod 256`, `0xFF`, `0x00`, and `0x55` for odd
`i`, `0xAA` for even `i`): `pattern_verify` returns false exactly when some
offset `i < size` holds a byte different from the expected byte; in that case
the values handed back through `error_offset`, `error_expected` and
`error_actual` are the least such `i`, the expected byte at `i` and
`buffer[i]`; and when it returns true nothing is stored through the three
pointers. -/
theorem C22_verify_deterministic (buf : Buffer) (size pattern seed : Nat) (st : PatternStatics)
    (hp : pattern = PATTERN_INCREMENTAL ∨ pattern = PATTERN_ALL_ONES ∨
      pattern = PATTERN_ALL_ZEROS ∨ pattern = PATTERN_CHECKERBOARD) :
    (∀ i, (pattern_verify_expected pattern i st).1 =
      if pattern = PATTERN_INCREMENTAL then i % 256
      else if pattern = PATTERN_ALL_ONES then 0xFF
      else if pattern = PATTERN_ALL_ZEROS then 0x00
      else if i % 2 = 1 then 0x55 else 0xAA) ∧
    ((pattern_verify buf size pattern seed st).ok = false ↔
      ∃ i, i < size ∧ buf i ≠ (pattern_verify_expected pattern i st).1) ∧
    ((pattern_verify buf size pattern seed st).ok = false →
      ∃ i, i < size ∧ buf i ≠ (pattern_verify_expected pattern i st).1 ∧
        (∀ j, j < i → buf j = (pattern_verify_expected pattern j st).1) ∧
        (pattern_verify buf size pattern seed st).error
          = some (i, (pattern_verify_expected pattern i st).1, buf i)) ∧
    ((pattern_verify buf size pattern seed st).ok = true →
      (pattern_verify buf size pattern seed st).error = none) := by
  have hnr : pattern ≠ PATTERN_RANDOM := by
    rcases hp with rfl | rfl | rfl | rfl <;> decide
  have hv : pattern_verify buf size pattern seed st
      = pattern_verify_loop buf pattern size 0 st := by
    simp only [pattern_verify, if_neg hnr]
  have hspec := pattern_verify_loop_spec buf pattern
    (fun i => (pattern_verify_expected pattern i st).1)
    (fun i st' => pattern_verify_expected_deterministic pattern i st st' hp) size 0 st
  rw [hv]
  refine ⟨?_, ?_, ?_, ?_⟩
  · intro i
    rcases hp with rfl | rfl | rfl | rfl
    · have h8 : (0xFF : Nat) = 2 ^ 8 - 1 := by decide
      simp only [pattern_verify_expected, if_true]
      rw [h8, Nat.and_pow_two_sub_one_eq_mod]
    · rfl
    · rfl
    · have h1 : i &&& 1 = i % 2 := Nat.and_pow_two_sub_one_eq_mod i 1
      have hc : pattern_verify_expected PATTERN_CHECKERBOARD i st
          = (if i &&& 1 ≠ 0 then 0x55 else 0xAA, st) := rfl
      have hd1 : PATTERN_CHECKERBOARD ≠ PATTERN_INCREMENTAL := by decide
      have hd2 : PATTERN_CHECKERBOARD ≠ PATTERN_ALL_ONES := by decide
      have hd3 : PATTERN_CHECKERBOARD ≠ PATTERN_ALL_ZEROS := by decide
      rw [hc, if_neg hd1, if_neg hd2, if_neg hd3, h1]
      by_cases h : i % 2 = 1
      · rw [if_pos h, if_pos (by omega)]
      · rw [if_neg h, if_neg (by omega)]
  · constructor
    · intro hf
      rcases hspec with ⟨h1, -, -⟩ | ⟨-, k, -, hk2, hk3, -, -⟩
      · rw [h1] at hf
        cases hf
      · exact ⟨k, by omega, hk3⟩
    · rintro ⟨i, hi, hne⟩
      rcases hspec with ⟨-, -, h3⟩ | ⟨h1, -⟩
      · exact absurd (h3 i (Nat.zero_le i) (by omega)) hne
      · exact h1
  · intro hf
    rcases hspec with ⟨h1, -, -⟩ | ⟨-, k, -, hk2, hk3, hk4, hk5⟩
    · rw [h1] at hf
      cases hf
    · exact ⟨k, by omega, hk3, fun j hj => hk4 j (Nat.zero_le j) hj, hk5⟩
  · intro ht
    rcases hspec with ⟨-, h2, -⟩ | ⟨h1, -⟩
    · exact h2
    · rw [h1] at ht
      cases ht

/-- Witness for C22: a buffer of 16 bytes holding the incremental pattern except
for a `0` at offset 5; `pattern_verify` reports offset 5, expected `5`,
actual `0`. -/
theorem C22_verify_deterministic_witness :
    ∃ i, i < 16 ∧
      (fun j => if j = 5 then 0 else j % 256) i
        ≠ (pattern_verify_expected PATTERN_INCREMENTAL i PatternStatics.boot).1 ∧
      (∀ j, j < i → (fun j => if j = 5 then 0 else j % 256) j
        = (pattern_verify_expected PATTERN_INCREMENTAL j PatternStatics.boot).1) ∧
      (pattern_verify (fun j => if j = 5 then 0 else j % 256) 16 PATTERN_INCREMENTAL 0
          PatternStatics.boot).error
        = some (i, (pattern_verify_expected PATTERN_INCREMENTAL i PatternStatics.boot).1,
            (fun j => if j = 5 then 0 else j % 256) i) :=
  (C22_verify_deterministic (fun j => if j = 5 then 0 else j % 256) 16 PATTERN_INCREMENTAL 0
    PatternStatics.boot (Or.inl rfl)).2.2.1 (by decide)

/-- C23 does not hold inside the word part: for every `size` (a `uint32_t`)
and every offset `i < size`, after `pattern_fill_checkerboard(buffer, size)`
the byte at an offset below `4 * (size / 4)`, stored as part of the word
`0xAA55AA55` in little-endian order, is `0x55` when `i` is even and `0xAA` when
`i` is odd; only in the trailing remainder is it `0xAA` for even `i` and `0x55`
for odd `i`, as the claim states for all offsets. -/
theorem C23_checkerboard_bytes (buf : Buffer) (size i : Nat) (hs : size < 2 ^ 32)
    (hi : i < size) :
    pattern_fill_checkerboard buf size i =
      if i < 4 * (size / 4) then (if i % 2 = 0 then 0x55 else 0xAA)
      else (if i % 2 = 0 then 0xAA else 0x55) := by
  have hu : u32 (size / 4 * 4) = size / 4 * 4 := Nat.mod_eq_of_lt (by omega)
  have h1 : i &&& 1 = i % 2 := Nat.and_pow_two_sub_one_eq_mod i 1
  unfold pattern_fill_checkerboard
  rw [forRange_store8, forRange_store32, hu, h1]
  by_cases hw : i < 4 * (size / 4)
  · rw [if_neg (by omega), if_pos hw, if_pos hw]
    have h4 : i % 4 = 0 ∨ i % 4 = 1 ∨ i % 4 = 2 ∨ i % 4 = 3 := by omega
    rcases h4 with h | h | h | h
    · rw [h, if_pos (by omega)]
      decide
    · rw [h, if_neg (by omega)]
      decide
    · rw [h, if_pos (by omega)]
      decide
    · rw [h, if_neg (by omega)]
      decide
  · rw [if_pos (by omega), if_neg hw]
    by_cases h : i % 2 = 0
    · rw [if_pos h, if_neg (by omega)]
    · rw [if_neg h, if_pos h]

/-- Witness for C23: after `pattern_fill_checkerboard(buffer, 4)` the byte at
the even offset 0 is `0x55`. -/
theorem C23_checkerboard_bytes_witness :
    pattern_fill_checkerboard (fun _ => 0) 4 0 = 0x55 :=
  (C23_checkerboard_bytes (fun _ => 0) 4 0 (by decide) (by decide)).trans (by decide)

/-- C24: for all buffers of bytes `buf1`, `buf2` and every `size` (a
`uint32_t`), `memory_compare` gives the same return value and the same
`first_diff` as the plain byte-by-byte comparison; it returns true exactly
when `buf1[i] = buf2[i]` for every `i < size`, and when it returns false the
value stored through `first_diff` is the least index at which the two buffers
differ. -/
theorem C24_memory_compare_bytewise (p1 p2 : Buffer) (size : Nat) (h1 : ∀ j, p1 j < 256)
    (h2 : ∀ j, p2 j < 256) (hs : size < 2 ^ 32) :
    memory_compare p1 p2 size = bytewise_compare p1 p2 size ∧
    ((memory_compare p1 p2 size).ok = true ↔ ∀ i, i < size → p1 i = p2 i) ∧
    ((memory_compare p1 p2 size).ok = false →
      ∃ d, (memory_compare p1 p2 size).first_diff = some d ∧ d < size ∧ p1 d ≠ p2 d ∧
        ∀ i, i < d → p1 i = p2 i) := by
  obtain ⟨hm, hmo⟩ := memory_compare_spec p1 p2 size h1 h2 hs
  obtain ⟨hb, hbo⟩ := bytewise_compare_spec p1 p2 size
  have hfd := firstDiff_unique p1 p2 0 size _ _ hm hb
  refine ⟨?_, ?_, ?_⟩
  · have hok : (memory_compare p1 p2 size).ok = (bytewise_compare p1 p2 size).ok := by
      rw [hmo, hbo, hfd]
    cases hx : memory_compare p1 p2 size with
    | mk ok fd =>
      cases hy : bytewise_compare p1 p2 size with
      | mk ok' fd' =>
        rw [hx, hy] at hok hfd
        simp only at hok hfd
        rw [hok, hfd]
  · rcases hm with ⟨hn, ha⟩ | ⟨d, hd, -, hd2, hd3, -⟩
    · rw [hmo, hn]
      exact ⟨fun _ i hi => ha i (Nat.zero_le i) hi, fun _ => rfl⟩
    · rw [hmo, hd]
      constructor
      · intro h
        cases h
      · intro h
        exact absurd (h d hd2) hd3
  · intro hf
    rcases hm with ⟨hn, -⟩ | ⟨d, hd, -, hd2, hd3, hd4⟩
    · rw [hmo, hn] at hf
      cases hf
    · exact ⟨d, hd, hd2, hd3, fun i hi => hd4 i (Nat.zero_le i) hi⟩

/-- Witness for C24: two buffers of 20 bytes that differ only at offset 13,
inside the second 8-byte chunk; both comparisons return false with
`first_diff = 13`. -/
theorem C24_memory_compare_bytewise_witness :
    memory_compare (fun j => j % 256) (fun j => if j = 13 then 0 else j % 256) 20
      = bytewise_compare (fun j => j % 256) (fun j => if j = 13 then 0 else j % 256) 20 ∧
    (memory_compare (fun j => j % 256) (fun j => if j = 13 then 0 else j % 256) 20).first_diff
      = some 13 :=
  ⟨(C24_memory_compare_bytewise (fun j => j % 256) (fun j => if j = 13 then 0 else j % 256) 20
      (fun j => Nat.mod_lt j (by decide))
      (fun j => by
        show (if j = 13 then 0 else j % 256) < 256
        by_cases h : j = 13
        · rw [if_pos h]
          decide
        · rw [if_neg h]
          exact Nat.mod_lt j (by decide))
      (by decide)).1,
    by decide⟩

/-- C25: on the platform that records every primitive call, with any register
contents.  In the events of a successful `axi_dma_sg_transfer` the accesses to
the registers of the RX channel are, in this order: current descriptor low
and high written with the address of the RX descriptor just posted, the
control register read and written back with the run bit set, tail descriptor
low and high written with the same address; no other event of the call, before
or after, is a write to an RX channel register.  The same holds for the TX
channel and the TX descriptor.  The events of a successful
`axi_mcdma_start_mm2s` end with these six accesses to the MM2S registers of
the channel, for the descriptor just posted, and no earlier event of the call
is a register write; likewise `axi_mcdma_start_s2mm`.  In each case the
tail-descriptor high word is the last register write to the channel. -/
theorem C25_sg_start_order (rd : Nat → List Event → Nat) (clk : List Event → Nat)
    (w : AxiDmaWorld (List Event)) (wm : AxiMcdmaWorld (List Event))
    (src dst buf length channel : Nat) :
    ((axi_dma_sg_transfer (Platform.recording rd clk) src dst length w).1 = DMA_SUCCESS →
      ∃ pre post,
        (axi_dma_sg_transfer (Platform.recording rd clk) src dst length w).2.hw =
          w.hw ++ (pre ++
            [Event.Out32 (u64 (w.g_AxiDma.base_addr + XAXIDMA_RX_OFFSET + XAXIDMA_CDESC_OFFSET))
               (u32 (u64 (w.g_AxiDma.rx_ring + sizeof_SgDesc * w.g_AxiDma.rx_head) &&& 0xFFFFFFFF)),
             Event.Out32 (u64 (w.g_AxiDma.base_addr + XAXIDMA_RX_OFFSET + XAXIDMA_CDESC_MSB_OFFSET))
               (u32 (u64 (w.g_AxiDma.rx_ring + sizeof_SgDesc * w.g_AxiDma.rx_head) >>> 32)),
             Event.In32 (u64 (w.g_AxiDma.base_addr + XAXIDMA_RX_OFFSET + XAXIDMA_CR_OFFSET)),
             Event.Out32 (u64 (w.g_AxiDma.base_addr + XAXIDMA_RX_OFFSET + XAXIDMA_CR_OFFSET))
               (u32 (rd (u64 (w.g_AxiDma.base_addr + XAXIDMA_RX_OFFSET + XAXIDMA_CR_OFFSET))
                   (w.hw ++ (pre ++
                     [Event.Out32 (u64 (w.g_AxiDma.base_addr + XAXIDMA_RX_OFFSET + XAXIDMA_CDESC_OFFSET))
                        (u32 (u64 (w.g_AxiDma.rx_ring + sizeof_SgDesc * w.g_AxiDma.rx_head) &&& 0xFFFFFFFF)),
                      Event.Out32 (u64 (w.g_AxiDma.base_addr + XAXIDMA_RX_OFFSET + XAXIDMA_CDESC_MSB_OFFSET))
                        (u32 (u64 (w.g_AxiDma.rx_ring + sizeof_SgDesc * w.g_AxiDma.rx_head) >>> 32))]))) ||| XAXIDMA_CR_RUNSTOP_MASK),
             Event.Out32 (u64 (w.g_AxiDma.base_addr + XAXIDMA_RX_OFFSET + XAXIDMA_TDESC_OFFSET))
               (u32 (u64 (w.g_AxiDma.rx_ring + sizeof_SgDesc * w.g_AxiDma.rx_head) &&& 0xFFFFFFFF)),
             Event.Out32 (u64 (w.g_AxiDma.base_addr + XAXIDMA_RX_OFFSET + XAXIDMA_TDESC_MSB_OFFSET))
               (u32 (u64 (w.g_AxiDma.rx_ring + sizeof_SgDesc * w.g_AxiDma.rx_head) >>> 32))] ++ post) ∧
        (∀ e, e ∈ pre → Event.isWriteIn (w.g_AxiDma.base_addr + XAXIDMA_RX_OFFSET) 0x30 e = false) ∧
        (∀ e, e ∈ post → Event.isWriteIn (w.g_AxiDma.base_addr + XAXIDMA_RX_OFFSET) 0x30 e = false)) ∧
    ((axi_dma_sg_transfer (Platform.recording rd clk) src dst length w).1 = DMA_SUCCESS →
      ∃ pre post,
        (axi_dma_sg_transfer (Platform.recording rd clk) src dst length w).2.hw =
          w.hw ++ (pre ++
            [Event.Out32 (u64 (w.g_AxiDma.base_addr + XAXIDMA_TX_OFFSET + XAXIDMA_CDESC_OFFSET))
               (u32 (u64 (w.g_AxiDma.tx_ring + sizeof_SgDesc * w.g_AxiDma.tx_head) &&& 0xFFFFFFFF)),
             Event.Out32 (u64 (w.g_AxiDma.base_addr + XAXIDMA_TX_OFFSET + XAXIDMA_CDESC_MSB_OFFSET))
               (u32 (u64 (w.g_AxiDma.tx_ring + sizeof_SgDesc * w.g_AxiDma.tx_head) >>> 32)),
             Event.In32 (u64 (w.g_AxiDma.base_addr + XAXIDMA_TX_OFFSET + XAXIDMA_CR_OFFSET)),
             Event.Out32 (u64 (w.g_AxiDma.base_addr + XAXIDMA_TX_OFFSET + XAXIDMA_CR_OFFSET))
               (u32 (rd (u64 (w.g_AxiDma.base_addr + XAXIDMA_TX_OFFSET + XAXIDMA_CR_OFFSET))
                   (w.hw ++ (pre ++
                     [Event.Out32 (u64 (w.g_AxiDma.base_addr + XAXIDMA_TX_OFFSET + XAXIDMA_CDESC_OFFSET))
                        (u32 (u64 (w.g_AxiDma.tx_ring + sizeof_SgDesc * w.g_AxiDma.tx_head) &&& 0xFFFFFFFF)),
                      Event.Out32 (u64 (w.g_AxiDma.base_addr + XAXIDMA_TX_OFFSET + XAXIDMA_CDESC_MSB_OFFSET))
                        (u32 (u64 (w.g_AxiDma.tx_ring + sizeof_SgDesc * w.g_AxiDma.tx_head) >>> 32))]))) ||| XAXIDMA_CR_RUNSTOP_MASK),
             Event.Out32 (u64 (w.g_AxiDma.base_addr + XAXIDMA_TX_OFFSET + XAXIDMA_TDESC_OFFSET))
               (u32 (u64 (w.g_AxiDma.tx_ring + sizeof_SgDesc * w.g_AxiDma.tx_head) &&& 0xFFFFFFFF)),
             Event.Out32 (u64 (w.g_AxiDma.base_addr + XAXIDMA_TX_OFFSET + XAXIDMA_TDESC_MSB_OFFSET))
               (u32 (u64 (w.g_AxiDma.tx_ring + sizeof_SgDesc * w.g_AxiDma.tx_head) >>> 32))] ++ post) ∧
        (∀ e, e ∈ pre → Event.isWriteIn (w.g_AxiDma.base_addr + XAXIDMA_TX_OFFSET) 0x30 e = false) ∧
        (∀ e, e ∈ post → Event.isWriteIn (w.g_AxiDma.base_addr + XAXIDMA_TX_OFFSET) 0x30 e = false)) ∧
    ((axi_mcdma_start_mm2s (Platform.recording rd clk) channel buf length wm).1 = DMA_SUCCESS →
      ∃ pre,
        (axi_mcdma_start_mm2s (Platform.recording rd clk) channel buf length wm).2.hw =
          wm.hw ++ (pre ++
            [Event.Out32 (u64 (wm.g_AxiMcdma.base_addr + u32 (MCDMA_MM2S_BASE_OFFSET + u32 (channel * MCDMA_CHANNEL_OFFSET)) + XMCDMA_CH_CDESC_OFFSET))
               (u32 (u64 ((wm.g_AxiMcdma.mm2s_channels channel).desc_ring + sizeof_SgDesc * (wm.g_AxiMcdma.mm2s_channels channel).desc_head) &&& 0xFFFFFFFF)),
             Event.Out32 (u64 (wm.g_AxiMcdma.base_addr + u32 (MCDMA_MM2S_BASE_OFFSET + u32 (channel * MCDMA_CHANNEL_OFFSET)) + XMCDMA_CH_CDESC_MSB_OFFSET))
               (u32 (u64 ((wm.g_AxiMcdma.mm2s_channels channel).desc_ring + sizeof_SgDesc * (wm.g_AxiMcdma.mm2s_channels channel).desc_head) >>> 32)),
             Event.In32 (u64 (wm.g_AxiMcdma.base_addr + u32 (MCDMA_MM2S_BASE_OFFSET + u32 (channel * MCDMA_CHANNEL_OFFSET)) + XMCDMA_CH_CR_OFFSET)),
             Event.Out32 (u64 (wm.g_AxiMcdma.base_addr + u32 (MCDMA_MM2S_BASE_OFFSET + u32 (channel * MCDMA_CHANNEL_OFFSET)) + XMCDMA_CH_CR_OFFSET))
               (u32 (rd (u64 (wm.g_AxiMcdma.base_addr + u32 (MCDMA_MM2S_BASE_OFFSET + u32 (channel * MCDMA_CHANNEL_OFFSET)) + XMCDMA_CH_CR_OFFSET))
                   (wm.hw ++ (pre ++
                     [Event.Out32 (u64 (wm.g_AxiMcdma.base_addr + u32 (MCDMA_MM2S_BASE_OFFSET + u32 (channel * MCDMA_CHANNEL_OFFSET)) + XMCDMA_CH_CDESC_OFFSET))
                        (u32 (u64 ((wm.g_AxiMcdma.mm2s_channels channel).desc_ring + sizeof_SgDesc * (wm.g_AxiMcdma.mm2s_channels channel).desc_head) &&& 0xFFFFFFFF)),
                      Event.Out32 (u64 (wm.g_AxiMcdma.base_addr + u32 (MCDMA_MM2S_BASE_OFFSET + u32 (channel * MCDMA_CHANNEL_OFFSET)) + XMCDMA_CH_CDESC_MSB_OFFSET))
                        (u32 (u64 ((wm.g_AxiMcdma.mm2s_channels channel).desc_ring + sizeof_SgDesc * (wm.g_AxiMcdma.mm2s_channels channel).desc_head) >>> 32))]))) ||| XMCDMA_CH_CR_RS_MASK),
             Event.Out32 (u64 (wm.g_AxiMcdma.base_addr + u32 (MCDMA_MM2S_BASE_OFFSET + u32 (channel * MCDMA_CHANNEL_OFFSET)) + XMCDMA_CH_TDESC_OFFSET))
               (u32 (u64 ((wm.g_AxiMcdma.mm2s_channels channel).desc_ring + sizeof_SgDesc * (wm.g_AxiMcdma.mm2s_channels channel).desc_head) &&& 0xFFFFFFFF)),
             Event.Out32 (u64 (wm.g_AxiMcdma.base_addr + u32 (MCDMA_MM2S_BASE_OFFSET + u32 (channel * MCDMA_CHANNEL_OFFSET)) + XMCDMA_CH_TDESC_MSB_OFFSET))
               (u32 (u64 ((wm.g_AxiMcdma.mm2s_channels channel).desc_ring + sizeof_SgDesc * (wm.g_AxiMcdma.mm2s_channels channel).desc_head) >>> 32))]) ∧
        (∀ e, e ∈ pre → Event.isWrite e = false)) ∧
    ((axi_mcdma_start_s2mm (Platform.recording rd clk) channel buf length wm).1 = DMA_SUCCESS →
      ∃ pre,
        (axi_mcdma_start_s2mm (Platform.recording rd clk) channel buf length wm).2.hw =
          wm.hw ++ (pre ++
            [Event.Out32 (u64 (wm.g_AxiMcdma.base_addr + u32 (MCDMA_S2MM_BASE_OFFSET + u32 (channel * MCDMA_CHANNEL_OFFSET)) + XMCDMA_CH_CDESC_OFFSET))
               (u32 (u64 ((wm.g_AxiMcdma.s2mm_channels channel).desc_ring + sizeof_SgDesc * (wm.g_AxiMcdma.s2mm_channels channel).desc_head) &&& 0xFFFFFFFF)),
             Event.Out32 (u64 (wm.g_AxiMcdma.base_addr + u32 (MCDMA_S2MM_BASE_OFFSET + u32 (channel * MCDMA_CHANNEL_OFFSET)) + XMCDMA_CH_CDESC_MSB_OFFSET))
               (u32 (u64 ((wm.g_AxiMcdma.s2mm_channels channel).desc_ring + sizeof_SgDesc * (wm.g_AxiMcdma.s2mm_channels channel).desc_head) >>> 32)),
             Event.In32 (u64 (wm.g_AxiMcdma.base_addr + u32 (MCDMA_S2MM_BASE_OFFSET + u32 (channel * MCDMA_CHANNEL_OFFSET)) + XMCDMA_CH_CR_OFFSET)),
             Event.Out32 (u64 (wm.g_AxiMcdma.base_addr + u32 (MCDMA_S2MM_BASE_OFFSET + u32 (channel * MCDMA_CHANNEL_OFFSET)) + XMCDMA_CH_CR_OFFSET))
               (u32 (rd (u64 (wm.g_AxiMcdma.base_addr + u32 (MCDMA_S2MM_BASE_OFFSET + u32 (channel * MCDMA_CHANNEL_OFFSET)) + XMCDMA_CH_CR_OFFSET))
                   (wm.hw ++ (pre ++
                     [Event.Out32 (u64 (wm.g_AxiMcdma.base_addr + u32 (MCDMA_S2MM_BASE_OFFSET + u32 (channel * MCDMA_CHANNEL_OFFSET)) + XMCDMA_CH_CDESC_OFFSET))
                        (u32 (u64 ((wm.g_AxiMcdma.s2mm_channels channel).desc_ring + sizeof_SgDesc * (wm.g_AxiMcdma.s2mm_channels channel).desc_head) &&& 0xFFFFFFFF)),
                      Event.Out32 (u64 (wm.g_AxiMcdma.base_addr + u32 (MCDMA_S2MM_BASE_OFFSET + u32 (channel * MCDMA_CHANNEL_OFFSET)) + XMCDMA_CH_CDESC_MSB_OFFSET))
                        (u32 (u64 ((wm.g_AxiMcdma.s2mm_channels channel).desc_ring + sizeof_SgDesc * (wm.g_AxiMcdma.s2mm_channels channel).desc_head) >>> 32))]))) ||| XMCDMA_CH_CR_RS_MASK),
             Event.Out32 (u64 (wm.g_AxiMcdma.base_addr + u32 (MCDMA_S2MM_BASE_OFFSET + u32 (channel * MCDMA_CHANNEL_OFFSET)) + XMCDMA_CH_TDESC_OFFSET))
               (u32 (u64 ((wm.g_AxiMcdma.s2mm_channels channel).desc_ring + sizeof_SgDesc * (wm.g_AxiMcdma.s2mm_channels channel).desc_head) &&& 0xFFFFFFFF)),
             Event.Out32 (u64 (wm.g_AxiMcdma.base_addr + u32 (MCDMA_S2MM_BASE_OFFSET + u32 (channel * MCDMA_CHANNEL_OFFSET)) + XMCDMA_CH_TDESC_MSB_OFFSET))
               (u32 (u64 ((wm.g_AxiMcdma.s2mm_channels channel).desc_ring + sizeof_SgDesc * (wm.g_AxiMcdma.s2mm_channels channel).desc_head) >>> 32))]) ∧
        (∀ e, e ∈ pre → Event.isWrite e = false)) := by
  have hsg : (axi_dma_sg_transfer (Platform.recording rd clk) src dst length w).1 = DMA_SUCCESS →
      (axi_dma_sg_transfer (Platform.recording rd clk) src dst length w).2 = axi_dma_sg_post (Platform.recording rd clk) src dst length w := by
    intro h
    exact (axi_dma_sg_transfer_success _ src dst length w _ (Prod.ext h rfl)).2.2.2
  refine ⟨?_, ?_, ?_, ?_⟩
  · intro h
    obtain ⟨vrx, vtx, ht, hrx, htx⟩ := axi_dma_sg_post_trace_exact rd clk src dst length w
    subst htx
    subst hrx
    rw [hsg h, ht]
    exact ⟨[_, _, _, _], [_, _, _, _, _, _, _, _], rfl,
      by
        intro e he
        simp only [List.mem_cons, List.mem_singleton, List.not_mem_nil, or_false] at he
        rcases he with rfl | rfl | rfl | rfl <;> rfl,
      by
        intro e he
        simp only [List.mem_cons, List.mem_singleton, List.not_mem_nil, or_false] at he
        rcases he with rfl | rfl | rfl | rfl | rfl | rfl | rfl | rfl <;>
          first
          | rfl
          | exact axi_tx_write_not_rx _ _ _ (by decide)⟩
  · intro h
    obtain ⟨vrx, vtx, ht, hrx, htx⟩ := axi_dma_sg_post_trace_exact rd clk src dst length w
    subst htx
    subst hrx
    rw [hsg h, ht]
    exact ⟨[_, _, _, _, _, _, _, _, _, _], [_, _], rfl,
      by
        intro e he
        simp only [List.mem_cons, List.mem_singleton, List.not_mem_nil, or_false] at he
        rcases he with rfl | rfl | rfl | rfl | rfl | rfl | rfl | rfl | rfl | rfl <;>
          first
          | rfl
          | exact axi_rx_write_not_tx _ _ _ (by decide),
      by
        intro e he
        simp only [List.mem_cons, List.mem_singleton, List.not_mem_nil, or_false] at he
        rcases he with rfl | rfl <;> rfl⟩
  · intro h
    obtain ⟨v, ht, hv⟩ := axi_mcdma_start_mm2s_trace_exact rd clk channel buf length wm h
    subst hv
    rw [ht]
    exact ⟨[_, _], rfl,
      by
        intro e he
        simp only [List.mem_cons, List.mem_singleton, List.not_mem_nil, or_false] at he
        rcases he with rfl | rfl <;> rfl⟩
  · intro h
    obtain ⟨v, ht, hv⟩ := axi_mcdma_start_s2mm_trace_exact rd clk channel buf length wm h
    subst hv
    rw [ht]
    exact ⟨[_, _], rfl,
      by
        intro e he
        simp only [List.mem_cons, List.mem_singleton, List.not_mem_nil, or_false] at he
        rcases he with rfl | rfl <;> rfl⟩

/-- Witness for C25: a scatter/gather transfer of 64 bytes on the initialised
engine at `0xA4000000` with rings at `0x1000` and `0x2000`, recorded with all
registers reading 0: the RX channel sees current descriptor `0x2000` at
`0xA4000038`/`0xA400003C`, the control register at `0xA4000030` read and
written with `1`, then tail descriptor `0x2000` at `0xA4000040`/`0xA4000044`. -/
theorem C25_sg_start_order_witness :
    ∃ pre post,
      (axi_dma_sg_transfer (Platform.recording (fun _ _ => 0) (fun _ => 0)) 0x10000 0x20000 64
        (AxiDmaWorld.ready (Platform.recording (fun _ _ => 0) (fun _ => 0)) [])).2.hw =
        (AxiDmaWorld.ready (Platform.recording (fun _ _ => 0) (fun _ => 0)) []).hw ++ (pre ++
          [Event.Out32 0xA4000038 0x2000, Event.Out32 0xA400003C 0, Event.In32 0xA4000030,
           Event.Out32 0xA4000030 1, Event.Out32 0xA4000040 0x2000,
           Event.Out32 0xA4000044 0] ++ post) ∧
      (∀ e, e ∈ pre → Event.isWriteIn 0xA4000030 0x30 e = false) ∧
      (∀ e, e ∈ post → Event.isWriteIn 0xA4000030 0x30 e = false) :=
  (C25_sg_start_order (fun _ _ => 0) (fun _ => 0)
    (AxiDmaWorld.ready (Platform.recording (fun _ _ => 0) (fun _ => 0)) [])
    (AxiMcdmaWorld.boot []) 0x10000 0x20000 0 64 0).1 (by decide)

/-! ## C26 -/

/-- C26: in every execution of `axi_mcdma_test_multi_channel(num_channels, size,
result)` that starts with no transfer outstanding, whatever the callees do and
whatever status codes the driver calls return, at every point of the sequence
of driver calls and for every channel the number of transfers started on the
channel minus the number of waits performed on it is 0 or 1; the calls made are
a beginning of the sequence in which every iteration starts the channels
`0 .. n-1` in order and then waits for the channels `0 .. n-1` in order (`n`
the clamped number of channels), and they are the whole sequence of the warm-up
and timed iterations when the function returns `DMA_SUCCESS`.  The same holds
of `lpd_dma_test_multi_channel`. -/
theorem C26_one_transfer_in_flight {W : Type} (ops : TestOps W) (num_channels size : Nat)
    (result : TestResult) (w : W) :
    (AtMostOneInFlight (axi_mcdma_test_multi_channel ops num_channels size result w).calls ∧
     (axi_mcdma_test_multi_channel ops num_channels size result w).calls
       <+: rounds_calls (ops.WARMUP_ITERATIONS + u32 ops.DEFAULT_TEST_ITERATIONS / num_channels)
            (if num_channels > MCDMA_MAX_CHANNELS then MCDMA_MAX_CHANNELS else num_channels) ∧
     ((axi_mcdma_test_multi_channel ops num_channels size result w).exit
         = TestExit.returned DMA_SUCCESS →
       (axi_mcdma_test_multi_channel ops num_channels size result w).calls
         = rounds_calls (ops.WARMUP_ITERATIONS + u32 ops.DEFAULT_TEST_ITERATIONS / num_channels)
            (if num_channels > MCDMA_MAX_CHANNELS then MCDMA_MAX_CHANNELS else num_channels))) ∧
    (AtMostOneInFlight (lpd_dma_test_multi_channel ops num_channels size result w).calls ∧
     (lpd_dma_test_multi_channel ops num_channels size result w).calls
       <+: rounds_calls (ops.WARMUP_ITERATIONS + u32 ops.DEFAULT_TEST_ITERATIONS / num_channels)
            (if num_channels > LPD_DMA_NUM_CHANNELS then LPD_DMA_NUM_CHANNELS else num_channels) ∧
     ((lpd_dma_test_multi_channel ops num_channels size result w).exit
         = TestExit.returned DMA_SUCCESS →
       (lpd_dma_test_multi_channel ops num_channels size result w).calls
         = rounds_calls (ops.WARMUP_ITERATIONS + u32 ops.DEFAULT_TEST_ITERATIONS / num_channels)
            (if num_channels > LPD_DMA_NUM_CHANNELS then LPD_DMA_NUM_CHANNELS else num_channels))) := by
  constructor
  · unfold axi_mcdma_test_multi_channel
    by_cases h0 : num_channels = 0
    · rw [if_pos h0]
      refine ⟨atMostOneInFlight_nil, List.nil_prefix, ?_⟩
      intro h
      cases h
    · rw [if_neg h0]
      simp only []
      rcases hs : axi_mcdma_test_setup ops size
        (if num_channels > MCDMA_MAX_CHANNELS then MCDMA_MAX_CHANNELS else num_channels) 0 w
        with ⟨oe, w1⟩
      cases oe with
      | some e =>
        simp only []
        refine ⟨atMostOneInFlight_nil, List.nil_prefix, ?_⟩
        intro h
        rw [h] at hs
        exact absurd hs (axi_mcdma_test_setup_ne_success ops size _ 0 w w1)
      | none =>
        simp only []
        obtain ⟨h1, h2, _, h4⟩ := multi_channel_loops_spec ops (axi_mcdma_test_src_addr ops size)
          (axi_mcdma_test_dst_addr ops size) size
          (if num_channels > MCDMA_MAX_CHANNELS then MCDMA_MAX_CHANNELS else num_channels)
          (u32 ops.DEFAULT_TEST_ITERATIONS / num_channels) result w1
        exact ⟨h1, h2, fun h => (h4 h).1⟩
  · unfold lpd_dma_test_multi_channel
    by_cases h0 : num_channels = 0
    · rw [if_pos h0]
      refine ⟨atMostOneInFlight_nil, List.nil_prefix, ?_⟩
      intro h
      cases h
    · rw [if_neg h0]
      simp only []
      obtain ⟨h1, h2, _, h4⟩ := multi_channel_loops_spec ops (lpd_dma_test_src_addr ops size)
        (lpd_dma_test_dst_addr ops size) size
        (if num_channels > LPD_DMA_NUM_CHANNELS then LPD_DMA_NUM_CHANNELS else num_channels)
        (u32 ops.DEFAULT_TEST_ITERATIONS / num_channels) result
        (lpd_dma_test_setup ops size
          (if num_channels > LPD_DMA_NUM_CHANNELS then LPD_DMA_NUM_CHANNELS else num_channels) 0 w)
      exact ⟨h1, h2, fun h => (h4 h).1⟩

/-- C27 holds for the control words themselves: for every
`length <= 0x03FFFFFF` the TX control word `SOF | EOF | length` that
`axi_dma_sg_transfer` stores, and the MCDMA control word
`XMCDMA_BD_CTRL_SOF_MASK | XMCDMA_BD_CTRL_EOF_MASK | length` that
`axi_mcdma_start_mm2s` stores, give `length` back under the length mask, have
both frame bits set and no other bit above the length field (bits 28 to 31 for
AXI DMA, bits 26 to 29 for MCDMA).  It does not hold for every length that
`axi_mcdma_start_mm2s` accepts: that function has no length check, so on an
initialised engine and an enabled channel it returns `DMA_SUCCESS` for every
`length` and posts the control word `SOF | EOF | length`; for
`length = 0x04000000` the word is `0xC4000000`, whose length field is `0`. -/
theorem C27_control_word_round_trip {σ : Type} (P : Platform σ) (src buf length channel : Nat)
    (d : AxiDmaSgDesc) (dm : McdmaSgDesc) (w : AxiMcdmaWorld σ) :
    (length ≤ XAXIDMA_BD_CTRL_LENGTH_MASK →
      (axi_dma_fill_tx_desc src length d).control &&& XAXIDMA_BD_CTRL_LENGTH_MASK = length ∧
      (axi_dma_fill_tx_desc src length d).control &&& XAXIDMA_BD_CTRL_TXSOF_MASK
        = XAXIDMA_BD_CTRL_TXSOF_MASK ∧
      (axi_dma_fill_tx_desc src length d).control &&& XAXIDMA_BD_CTRL_TXEOF_MASK
        = XAXIDMA_BD_CTRL_TXEOF_MASK ∧
      (axi_dma_fill_tx_desc src length d).control &&& 0xF0000000 = 0) ∧
    (length ≤ XMCDMA_BD_CTRL_LENGTH_MASK →
      (mcdma_fill_mm2s_desc buf length dm).control &&& XMCDMA_BD_CTRL_LENGTH_MASK = length ∧
      (mcdma_fill_mm2s_desc buf length dm).control &&& XMCDMA_BD_CTRL_SOF_MASK
        = XMCDMA_BD_CTRL_SOF_MASK ∧
      (mcdma_fill_mm2s_desc buf length dm).control &&& XMCDMA_BD_CTRL_EOF_MASK
        = XMCDMA_BD_CTRL_EOF_MASK ∧
      (mcdma_fill_mm2s_desc buf length dm).control &&& 0x3C000000 = 0) ∧
    (w.g_AxiMcdma.initialized = true → channel < w.g_AxiMcdma.num_mm2s_channels →
      (w.g_AxiMcdma.mm2s_channels channel).enabled = true →
      (axi_mcdma_start_mm2s P channel buf length w).1 = DMA_SUCCESS ∧
      ((axi_mcdma_start_mm2s P channel buf length w).2.mm2s_mem channel
          (w.g_AxiMcdma.mm2s_channels channel).desc_head).control
        = u32 (XMCDMA_BD_CTRL_SOF_MASK ||| XMCDMA_BD_CTRL_EOF_MASK ||| length)) ∧
    u32 (XMCDMA_BD_CTRL_SOF_MASK ||| XMCDMA_BD_CTRL_EOF_MASK ||| 0x04000000) = 0xC4000000 ∧
    0xC4000000 &&& XMCDMA_BD_CTRL_LENGTH_MASK = 0 := by
  refine ⟨?_, ?_, ?_, by decide, by decide⟩
  · intro h
    have hl : length < 2 ^ 26 := Nat.lt_of_le_of_lt h (by decide)
    have hm : XAXIDMA_BD_CTRL_LENGTH_MASK = 2 ^ 26 - 1 := by decide
    obtain ⟨h1, h2⟩ := ctrl_word_fields
      (XAXIDMA_BD_CTRL_TXSOF_MASK ||| XAXIDMA_BD_CTRL_TXEOF_MASK) length (by decide) hl
    have h32 : XAXIDMA_BD_CTRL_TXSOF_MASK ||| XAXIDMA_BD_CTRL_TXEOF_MASK ||| length < 2 ^ 32 :=
      Nat.or_lt_two_pow (by decide) (Nat.lt_trans hl (by decide))
    have hc : (axi_dma_fill_tx_desc src length d).control
        = XAXIDMA_BD_CTRL_TXSOF_MASK ||| XAXIDMA_BD_CTRL_TXEOF_MASK ||| length := by
      simp only [axi_dma_fill_tx_desc, u32]
      exact Nat.mod_eq_of_lt h32
    rw [hc, hm]
    refine ⟨h1, ?_, ?_, ?_⟩
    · rw [h2 _ (by decide)]
      decide
    · rw [h2 _ (by decide)]
      decide
    · rw [h2 _ (by decide)]
      decide
  · intro h
    have hl : length < 2 ^ 26 := Nat.lt_of_le_of_lt h (by decide)
    have hm : XMCDMA_BD_CTRL_LENGTH_MASK = 2 ^ 26 - 1 := by decide
    obtain ⟨h1, h2⟩ := ctrl_word_fields
      (XMCDMA_BD_CTRL_SOF_MASK ||| XMCDMA_BD_CTRL_EOF_MASK) length (by decide) hl
    have h32 : XMCDMA_BD_CTRL_SOF_MASK ||| XMCDMA_BD_CTRL_EOF_MASK ||| length < 2 ^ 32 :=
      Nat.or_lt_two_pow (by decide) (Nat.lt_trans hl (by decide))
    have hc : (mcdma_fill_mm2s_desc buf length dm).control
        = XMCDMA_BD_CTRL_SOF_MASK ||| XMCDMA_BD_CTRL_EOF_MASK ||| length := by
      simp only [mcdma_fill_mm2s_desc, u32]
      exact Nat.mod_eq_of_lt h32
    rw [hc, hm]
    refine ⟨h1, ?_, ?_, ?_⟩
    · rw [h2 _ (by decide)]
      decide
    · rw [h2 _ (by decide)]
      decide
    · rw [h2 _ (by decide)]
      decide
  · intro hi hc he
    exact axi_mcdma_start_mm2s_posts P channel buf length w hi hc he

/-- Witness for C27: on an initialised MCDMA engine, `axi_mcdma_start_mm2s` on
the enabled channel 0 with `length = 0x04000000` returns `DMA_SUCCESS` and
posts the control word `0xC4000000` in slot 0, whose length field is `0`. -/
theorem C27_control_word_round_trip_witness :
    (axi_mcdma_start_mm2s Platform.quiet 0 0x10000 0x04000000 (AxiMcdmaWorld.ready ())).1
      = DMA_SUCCESS ∧
    ((axi_mcdma_start_mm2s Platform.quiet 0 0x10000 0x04000000
        (AxiMcdmaWorld.ready ())).2.mm2s_mem 0 0).control = 0xC4000000 ∧
    0xC4000000 &&& XMCDMA_BD_CTRL_LENGTH_MASK = 0 :=
  have h := C27_control_word_round_trip Platform.quiet 0 0x10000 0x04000000 0
    AxiDmaSgDesc.zero McdmaSgDesc.zero (AxiMcdmaWorld.ready ())
  have h3 := h.2.2.1 (by decide) (by decide) (by decide)
  ⟨h3.1, h3.2.trans h.2.2.2.1, h.2.2.2.2⟩

/-- C28 (as stated, refuted): `XLPDDMA_IXR_ERR_MASK` (`0xBF9`) is not the OR of
the eight error interrupt bits (`0x3F9`): it also contains `DMA_PAUSE`
(`0x800`).  With every register reading `0x800`, an interrupt status in which
none of the eight error bits is set, `lpd_dma_wait_complete(0, 100)` returns
`DMA_ERROR_DMA_FAIL`. -/
theorem C28_counterexample :
    XLPDDMA_IXR_ERR_MASK ≠
      (XLPDDMA_IXR_AXI_WR_DATA ||| XLPDDMA_IXR_AXI_RD_DATA ||| XLPDDMA_IXR_AXI_RD_DST_DSCR |||
       XLPDDMA_IXR_AXI_RD_SRC_DSCR ||| XLPDDMA_IXR_DST_ACCT_ERR ||| XLPDDMA_IXR_SRC_ACCT_ERR |||
       XLPDDMA_IXR_BYTE_CNT_OVRFL ||| XLPDDMA_IXR_INV_APB) ∧
    XLPDDMA_IXR_ERR_MASK &&& XLPDDMA_IXR_DMA_PAUSE ≠ 0 ∧
    0x800 &&&
      (XLPDDMA_IXR_AXI_WR_DATA ||| XLPDDMA_IXR_AXI_RD_DATA ||| XLPDDMA_IXR_AXI_RD_DST_DSCR |||
       XLPDDMA_IXR_AXI_RD_SRC_DSCR ||| XLPDDMA_IXR_DST_ACCT_ERR ||| XLPDDMA_IXR_SRC_ACCT_ERR |||
       XLPDDMA_IXR_BYTE_CNT_OVRFL ||| XLPDDMA_IXR_INV_APB) = 0 ∧
    (lpd_dma_wait_complete (Platform.reads 0x800) 1 0 100
      (LpdDmaWorld.boot () (fun c => 0xFFA80000 + 0x10000 * c))).map (fun r => r.ret)
      = some DMA_ERROR_DMA_FAIL := by
  decide

/-- C28 (amended): `XLPDDMA_IXR_ERR_MASK` equals the bitwise OR of the eight
error interrupt bits (AXI_WR_DATA, AXI_RD_DATA, AXI_RD_DST_DSCR,
AXI_RD_SRC_DSCR, DST_ACCT_ERR, SRC_ACCT_ERR, BYTE_CNT_OVRFL, INV_APB) and of
DMA_PAUSE, and contains none of DMA_DONE, DST_DSCR_DONE, SRC_DSCR_DONE.  Hence
an interrupt status value meets the mask exactly when one of those nine bits is
set in it; a pass through the loop of `lpd_dma_wait_complete` returns
`DMA_ERROR_DMA_FAIL` exactly when the interrupt status it read meets the mask;
whenever the call returns `DMA_ERROR_DMA_FAIL`, the interrupt status it left in
`transfer_error` meets the mask; and a call with `timeout_us > 0` whose first
read of the interrupt status meets the mask returns `DMA_ERROR_DMA_FAIL`. -/
theorem C28_err_mask {σ : Type} (P : Platform σ) (channel e : Nat) (w : LpdDmaWorld σ) :
    XLPDDMA_IXR_ERR_MASK =
      (XLPDDMA_IXR_AXI_WR_DATA ||| XLPDDMA_IXR_AXI_RD_DATA ||| XLPDDMA_IXR_AXI_RD_DST_DSCR |||
       XLPDDMA_IXR_AXI_RD_SRC_DSCR ||| XLPDDMA_IXR_DST_ACCT_ERR ||| XLPDDMA_IXR_SRC_ACCT_ERR |||
       XLPDDMA_IXR_BYTE_CNT_OVRFL ||| XLPDDMA_IXR_INV_APB ||| XLPDDMA_IXR_DMA_PAUSE) ∧
    XLPDDMA_IXR_ERR_MASK &&& XLPDDMA_IXR_DMA_DONE = 0 ∧
    XLPDDMA_IXR_ERR_MASK &&& XLPDDMA_IXR_DST_DSCR_DONE = 0 ∧
    XLPDDMA_IXR_ERR_MASK &&& XLPDDMA_IXR_SRC_DSCR_DONE = 0 ∧
    (∀ isr : Nat, isr &&& XLPDDMA_IXR_ERR_MASK ≠ 0 ↔
      (isr &&& XLPDDMA_IXR_AXI_WR_DATA ≠ 0 ∨ isr &&& XLPDDMA_IXR_AXI_RD_DATA ≠ 0 ∨
       isr &&& XLPDDMA_IXR_AXI_RD_DST_DSCR ≠ 0 ∨ isr &&& XLPDDMA_IXR_AXI_RD_SRC_DSCR ≠ 0 ∨
       isr &&& XLPDDMA_IXR_DST_ACCT_ERR ≠ 0 ∨ isr &&& XLPDDMA_IXR_SRC_ACCT_ERR ≠ 0 ∨
       isr &&& XLPDDMA_IXR_BYTE_CNT_OVRFL ≠ 0 ∨ isr &&& XLPDDMA_IXR_INV_APB ≠ 0 ∨
       isr &&& XLPDDMA_IXR_DMA_PAUSE ≠ 0)) ∧
    ((∃ r, lpd_dma_wait_body P channel e w = Poll.ret r ∧ r.ret = DMA_ERROR_DMA_FAIL) ↔
      (lpd_dma_read_reg P w channel XLPDDMA_ZDMA_CH_ISR).1 &&& XLPDDMA_IXR_ERR_MASK ≠ 0) ∧
    (∀ fuel T r, lpd_dma_wait_complete P fuel channel T w = some r →
      r.ret = DMA_ERROR_DMA_FAIL →
      (r.world.g_LpdDma.channels channel).transfer_error &&& XLPDDMA_IXR_ERR_MASK ≠ 0) ∧
    (∀ fuel T, channel < LPD_DMA_NUM_CHANNELS → 0 < T →
      (lpd_dma_read_reg P w channel XLPDDMA_ZDMA_CH_ISR).1 &&& XLPDDMA_IXR_ERR_MASK ≠ 0 →
      ∃ r, lpd_dma_wait_complete P (fuel + 1) channel T w = some r ∧
        r.ret = DMA_ERROR_DMA_FAIL) := by
  have hmask : XLPDDMA_IXR_ERR_MASK =
      (XLPDDMA_IXR_AXI_WR_DATA ||| XLPDDMA_IXR_AXI_RD_DATA ||| XLPDDMA_IXR_AXI_RD_DST_DSCR |||
       XLPDDMA_IXR_AXI_RD_SRC_DSCR ||| XLPDDMA_IXR_DST_ACCT_ERR ||| XLPDDMA_IXR_SRC_ACCT_ERR |||
       XLPDDMA_IXR_BYTE_CNT_OVRFL ||| XLPDDMA_IXR_INV_APB ||| XLPDDMA_IXR_DMA_PAUSE) := by
    decide
  refine ⟨hmask, by decide, by decide, by decide, ?_, lpd_dma_wait_body_fail_iff P channel e w,
    ?_, ?_⟩
  · intro isr
    rw [hmask]
    simp only [land_lor_ne_zero]
    tauto
  · intro fuel T r h hf
    unfold lpd_dma_wait_complete at h
    by_cases hc : channel ≥ LPD_DMA_NUM_CHANNELS
    · rw [if_pos hc] at h
      cases h
      exact absurd hf DMA_INVALID_PARAM_ne_DMA_FAIL
    · rw [if_neg hc] at h
      exact pollLoop_inv T 10 (lpd_dma_wait_body P channel) (lpd_dma_wait_sleep P)
        (lpd_dma_wait_after P channel) (fun _ => True)
        (fun r => r.ret = DMA_ERROR_DMA_FAIL →
          (r.world.g_LpdDma.channels channel).transfer_error &&& XLPDDMA_IXR_ERR_MASK ≠ 0)
        (fun e' w' r' _ hb hf' => lpd_dma_wait_body_fail_error P channel e' w' r' hb hf')
        (fun _ _ _ _ _ => trivial)
        (fun e' w' _ hf' => absurd hf' DMA_TIMEOUT_ne_DMA_FAIL)
        fuel 0 w r trivial h hf
  · intro fuel T hc hT hisr
    obtain ⟨r, hr, hf⟩ := (lpd_dma_wait_body_fail_iff P channel 0 w).mpr hisr
    refine ⟨r, ?_, hf⟩
    unfold lpd_dma_wait_complete
    rw [if_neg (by omega)]
    exact pollLoop_ret T 10 _ _ _ fuel 0 w r hT hr

/-- Witness for C28: with every register reading `0x200` (AXI write data
error), the first poll of `lpd_dma_wait_complete(0, 100)` returns
`DMA_ERROR_DMA_FAIL`. -/
theorem C28_err_mask_witness :
    ∃ r, lpd_dma_wait_complete (Platform.reads 0x200) (0 + 1) 0 100
        (LpdDmaWorld.boot () (fun c => 0xFFA80000 + 0x10000 * c)) = some r ∧
      r.ret = DMA_ERROR_DMA_FAIL :=
  (C28_err_mask (Platform.reads 0x200) 0 0
    (LpdDmaWorld.boot () (fun c => 0xFFA80000 + 0x10000 * c))).2.2.2.2.2.2.2 0 100
    (by decide) (by decide) (by decide)

/-- C29 does not hold: `elapsed_sec` is assigned only on the path through
"Update time", which both `continue` statements skip.  For every platform
(every clock), every `duration_sec > 0` and an abort flag that is never set:
if in every state the loop reaches (`Inv`) the call of
`axi_cdma_simple_transfer` fails, or succeeds and is followed by an
`axi_cdma_wait_complete` that fails whenever it returns, then
`stress_test_continuous(duration_sec)` does not return, however many loop
iterations are allowed. -/
theorem C29_stress_test_never_returns {σ : Type} (P : Platform σ) (env : StressEnv σ)
    (cfg : RegionTable) (MEM_REGION_DDR4 fuel wfuel duration_sec : Nat) (w : AxiCdmaWorld σ)
    (Inv : AxiCdmaWorld σ → Prop) (hd : 0 < duration_sec)
    (habort : ∀ h, env.g_TestAbort h = false)
    (hsrc : memory_get_test_addr cfg MEM_REGION_DDR4 0 STRESS_BUFFER_SIZE ≠ 0)
    (hdst : memory_get_test_addr cfg MEM_REGION_DDR4 (u32 (STRESS_BUFFER_SIZE * 2))
      STRESS_BUFFER_SIZE ≠ 0)
    (hinv : Inv { w with hw := (timer_get_us P (cache_prep_dma_src P
      (memory_get_test_addr cfg MEM_REGION_DDR4 0 STRESS_BUFFER_SIZE) STRESS_BUFFER_SIZE
      w.hw)).2 })
    (hstep : ∀ v, Inv v →
      ((axi_cdma_simple_transfer P
          (memory_get_test_addr cfg MEM_REGION_DDR4 0 STRESS_BUFFER_SIZE)
          (memory_get_test_addr cfg MEM_REGION_DDR4 (u32 (STRESS_BUFFER_SIZE * 2))
            STRESS_BUFFER_SIZE)
          STRESS_BUFFER_SIZE
          { v with hw := (cache_prep_dma_dst P
            (memory_get_test_addr cfg MEM_REGION_DDR4 (u32 (STRESS_BUFFER_SIZE * 2))
              STRESS_BUFFER_SIZE) STRESS_BUFFER_SIZE v.hw) }).1 ≠ DMA_SUCCESS ∧
        Inv (axi_cdma_simple_transfer P
          (memory_get_test_addr cfg MEM_REGION_DDR4 0 STRESS_BUFFER_SIZE)
          (memory_get_test_addr cfg MEM_REGION_DDR4 (u32 (STRESS_BUFFER_SIZE * 2))
            STRESS_BUFFER_SIZE)
          STRESS_BUFFER_SIZE
          { v with hw := (cache_prep_dma_dst P
            (memory_get_test_addr cfg MEM_REGION_DDR4 (u32 (STRESS_BUFFER_SIZE * 2))
              STRESS_BUFFER_SIZE) STRESS_BUFFER_SIZE v.hw) }).2) ∨
      ((axi_cdma_simple_transfer P
          (memory_get_test_addr cfg MEM_REGION_DDR4 0 STRESS_BUFFER_SIZE)
          (memory_get_test_addr cfg MEM_REGION_DDR4 (u32 (STRESS_BUFFER_SIZE * 2))
            STRESS_BUFFER_SIZE)
          STRESS_BUFFER_SIZE
          { v with hw := (cache_prep_dma_dst P
            (memory_get_test_addr cfg MEM_REGION_DDR4 (u32 (STRESS_BUFFER_SIZE * 2))
              STRESS_BUFFER_SIZE) STRESS_BUFFER_SIZE v.hw) }).1 = DMA_SUCCESS ∧
        ∀ q, axi_cdma_wait_complete P wfuel DMA_TIMEOUT_US
            (axi_cdma_simple_transfer P
              (memory_get_test_addr cfg MEM_REGION_DDR4 0 STRESS_BUFFER_SIZE)
              (memory_get_test_addr cfg MEM_REGION_DDR4 (u32 (STRESS_BUFFER_SIZE * 2))
                STRESS_BUFFER_SIZE)
              STRESS_BUFFER_SIZE
              { v with hw := (cache_prep_dma_dst P
                (memory_get_test_addr cfg MEM_REGION_DDR4 (u32 (STRESS_BUFFER_SIZE * 2))
                  STRESS_BUFFER_SIZE) STRESS_BUFFER_SIZE v.hw) }).2 = some q →
          q.1 ≠ DMA_SUCCESS ∧ Inv q.2)) :
    stress_test_continuous P env cfg MEM_REGION_DDR4 fuel wfuel duration_sec w = none := by
  unfold stress_test_continuous
  simp only []
  rw [if_neg (by
    intro h
    rcases h with h | h
    · exact hsrc h
    · exact hdst h)]
  rw [stress_test_continuous_loop_stuck P env wfuel duration_sec _ _ _ Inv habort hstep fuel _
    hinv hd]

/-- Witness for C29: a clock that advances by one cycle on every read, the
sample region table, an abort flag that is never set, a duration of one
second and a CDMA engine that is not initialised, so that every
`axi_cdma_simple_transfer` returns `DMA_ERROR_NOT_INIT`: the function does not
return within 1000 loop iterations (nor within any other number). -/
theorem C29_stress_test_never_returns_witness :
    stress_test_continuous (Platform.w1c 4 1)
      { g_TestAbort := fun _ => false, pattern_verify_ok := fun _ => true }
      RegionTable.sample 0 1000 10 1 (AxiCdmaWorld.boot ⟨0, 0⟩) = none :=
  C29_stress_test_never_returns (Platform.w1c 4 1)
    { g_TestAbort := fun _ => false, pattern_verify_ok := fun _ => true }
    RegionTable.sample 0 1000 10 1 (AxiCdmaWorld.boot ⟨0, 0⟩)
    (fun v => v.g_AxiCdma.initialized = false) (by decide) (fun _ => rfl) (by decide)
    (by decide) rfl
    (fun v hv => Or.inl
      ⟨by
        have hv' : v.g_AxiCdma.initialized = false := hv
        rw [axi_cdma_simple_transfer_not_init_hw _ _ _ _ _ _ hv']
        exact DMA_NOT_INIT_ne_SUCCESS,
       by
        have hv' : v.g_AxiCdma.initialized = false := hv
        rw [axi_cdma_simple_transfer_not_init_hw _ _ _ _ _ _ hv']
        exact hv'⟩)

/-! ## C30 -/

/-- C30: with `num_channels = 0` both `axi_mcdma_test_multi_channel` and
`lpd_dma_test_multi_channel` divide by zero in the initialiser of `iterations`,
before any callee is called.  With `0 < num_channels` (values above the channel
limit included) and a `uint32_t` size they make no division by zero, and a run
that returns `DMA_SUCCESS` reports `iterations = DEFAULT_TEST_ITERATIONS /
num_channels` (the quotient by the argument as passed), the clamped number
of channels, and `total_bytes = size * iterations * (clamped number of
channels)`, which is `size` times the number of transfers started in the timed
loop. -/
theorem C30_iterations_and_total_bytes {W : Type} (ops : TestOps W) (num_channels size : Nat)
    (result : TestResult) (w : W) (hsize : size < 2 ^ 32) (hn : 0 < num_channels) :
    ((axi_mcdma_test_multi_channel ops 0 size result w).exit = TestExit.division_by_zero ∧
     (axi_mcdma_test_multi_channel ops 0 size result w).calls = [] ∧
     (lpd_dma_test_multi_channel ops 0 size result w).exit = TestExit.division_by_zero ∧
     (lpd_dma_test_multi_channel ops 0 size result w).calls = []) ∧
    ((axi_mcdma_test_multi_channel ops num_channels size result w).exit
        ≠ TestExit.division_by_zero ∧
     ((axi_mcdma_test_multi_channel ops num_channels size result w).exit
         = TestExit.returned DMA_SUCCESS →
       (axi_mcdma_test_multi_channel ops num_channels size result w).result.iterations
         = u32 ops.DEFAULT_TEST_ITERATIONS / num_channels ∧
       (axi_mcdma_test_multi_channel ops num_channels size result w).result.num_channels
         = (if num_channels > MCDMA_MAX_CHANNELS then MCDMA_MAX_CHANNELS else num_channels) ∧
       (axi_mcdma_test_multi_channel ops num_channels size result w).result.total_bytes
         = size * (u32 ops.DEFAULT_TEST_ITERATIONS / num_channels)
            * (if num_channels > MCDMA_MAX_CHANNELS then MCDMA_MAX_CHANNELS else num_channels) ∧
       (axi_mcdma_test_multi_channel ops num_channels size result w).result.total_bytes
         = size * (axi_mcdma_test_multi_channel ops num_channels size result w).timed_started)) ∧
    ((lpd_dma_test_multi_channel ops num_channels size result w).exit
        ≠ TestExit.division_by_zero ∧
     ((lpd_dma_test_multi_channel ops num_channels size result w).exit
         = TestExit.returned DMA_SUCCESS →
       (lpd_dma_test_multi_channel ops num_channels size result w).result.iterations
         = u32 ops.DEFAULT_TEST_ITERATIONS / num_channels ∧
       (lpd_dma_test_multi_channel ops num_channels size result w).result.num_channels
         = (if num_channels > LPD_DMA_NUM_CHANNELS then LPD_DMA_NUM_CHANNELS else num_channels) ∧
       (lpd_dma_test_multi_channel ops num_channels size result w).result.total_bytes
         = size * (u32 ops.DEFAULT_TEST_ITERATIONS / num_channels)
            * (if num_channels > LPD_DMA_NUM_CHANNELS then LPD_DMA_NUM_CHANNELS else num_channels) ∧
       (lpd_dma_test_multi_channel ops num_channels size result w).result.total_bytes
         = size * (lpd_dma_test_multi_channel ops num_channels size result w).timed_started)) := by
  have h0 : ¬ num_channels = 0 := by omega
  refine ⟨⟨rfl, rfl, rfl, rfl⟩, ?_, ?_⟩
  · unfold axi_mcdma_test_multi_channel
    rw [if_neg h0]
    simp only []
    rcases hs : axi_mcdma_test_setup ops size
      (if num_channels > MCDMA_MAX_CHANNELS then MCDMA_MAX_CHANNELS else num_channels) 0 w
      with ⟨oe, w1⟩
    cases oe with
    | some e =>
      simp only []
      have he := axi_mcdma_test_setup_exit ops size _ 0 w e (by rw [hs])
      rw [he]
      exact ⟨fun h => (by cases h), fun h => absurd (TestExit.returned.inj h) (by decide)⟩
    | none =>
      simp only []
      obtain ⟨_, _, h3, h4⟩ := multi_channel_loops_spec ops (axi_mcdma_test_src_addr ops size)
        (axi_mcdma_test_dst_addr ops size) size
        (if num_channels > MCDMA_MAX_CHANNELS then MCDMA_MAX_CHANNELS else num_channels)
        (u32 ops.DEFAULT_TEST_ITERATIONS / num_channels) result w1
      refine ⟨h3, ?_⟩
      intro h
      obtain ⟨_, h6, h7, h8, h9⟩ := h4 h
      have hb := total_bytes_no_wrap ops.DEFAULT_TEST_ITERATIONS num_channels size
        MCDMA_MAX_CHANNELS hsize
      refine ⟨h7, h8, ?_, ?_⟩
      · rw [h9]
        exact hb
      · rw [h9, h6, hb, Nat.mul_assoc]
  · unfold lpd_dma_test_multi_channel
    rw [if_neg h0]
    simp only []
    obtain ⟨_, _, h3, h4⟩ := multi_channel_loops_spec ops (lpd_dma_test_src_addr ops size)
      (lpd_dma_test_dst_addr ops size) size
      (if num_channels > LPD_DMA_NUM_CHANNELS then LPD_DMA_NUM_CHANNELS else num_channels)
      (u32 ops.DEFAULT_TEST_ITERATIONS / num_channels) result
      (lpd_dma_test_setup ops size
        (if num_channels > LPD_DMA_NUM_CHANNELS then LPD_DMA_NUM_CHANNELS else num_channels) 0 w)
    refine ⟨h3, ?_⟩
    intro h
    obtain ⟨_, h6, h7, h8, h9⟩ := h4 h
    have hb := total_bytes_no_wrap ops.DEFAULT_TEST_ITERATIONS num_channels size
      LPD_DMA_NUM_CHANNELS hsize
    refine ⟨h7, h8, ?_, ?_⟩
    · rw [h9]
      exact hb
    · rw [h9, h6, hb, Nat.mul_assoc]

/-- Witness on the platform whose status registers read idle: with three
channels of 64 bytes and `DEFAULT_TEST_ITERATIONS = 12` the MCDMA test returns
`DMA_SUCCESS` after 4 timed iterations, 12 timed transfers and 768 bytes. -/
theorem C30_iterations_and_total_bytes_witness :
    (axi_mcdma_test_multi_channel (sample_mcdma_ops (Platform.reads 2) 1) 3 64 TestResult.zero
        (AxiMcdmaWorld.ready ())).exit = TestExit.returned DMA_SUCCESS ∧
    (axi_mcdma_test_multi_channel (sample_mcdma_ops (Platform.reads 2) 1) 3 64 TestResult.zero
        (AxiMcdmaWorld.ready ())).timed_started = 12 ∧
    (axi_mcdma_test_multi_channel (sample_mcdma_ops (Platform.reads 2) 1) 3 64 TestResult.zero
        (AxiMcdmaWorld.ready ())).result.iterations = 4 ∧
    (axi_mcdma_test_multi_channel (sample_mcdma_ops (Platform.reads 2) 1) 3 64 TestResult.zero
        (AxiMcdmaWorld.ready ())).result.num_channels = 3 ∧
    (axi_mcdma_test_multi_channel (sample_mcdma_ops (Platform.reads 2) 1) 3 64 TestResult.zero
        (AxiMcdmaWorld.ready ())).result.total_bytes = 768 ∧
    (axi_mcdma_test_multi_channel (sample_mcdma_ops (Platform.reads 2) 1) 3 64 TestResult.zero
        (AxiMcdmaWorld.ready ())).result.total_bytes
      = 64 * (axi_mcdma_test_multi_channel (sample_mcdma_ops (Platform.reads 2) 1) 3 64
          TestResult.zero (AxiMcdmaWorld.ready ())).timed_started :=
  ⟨by decide, by decide,
   ((C30_iterations_and_total_bytes (sample_mcdma_ops (Platform.reads 2) 1) 3 64 TestResult.zero
      (AxiMcdmaWorld.ready ()) (by decide) (by decide)).2.1.2 (by decide)).1,
   ((C30_iterations_and_total_bytes (sample_mcdma_ops (Platform.reads 2) 1) 3 64 TestResult.zero
      (AxiMcdmaWorld.ready ()) (by decide) (by decide)).2.1.2 (by decide)).2.1,
   ((C30_iterations_and_total_bytes (sample_mcdma_ops (Platform.reads 2) 1) 3 64 TestResult.zero
      (AxiMcdmaWorld.ready ()) (by decide) (by decide)).2.1.2 (by decide)).2.2.1,
   ((C30_iterations_and_total_bytes (sample_mcdma_ops (Platform.reads 2) 1) 3 64 TestResult.zero
      (AxiMcdmaWorld.ready ()) (by decide) (by decide)).2.1.2 (by decide)).2.2.2⟩
end VersalDma
